import Mathlib

/-!
# SWIFT task layer: classification, locking and release

A shallow embedding of `src/task.c` (functions `task_acts_on`, `task_overlap`,
`task_lock`, `task_unlock`) together with the collaborator contracts it consumes
(the region/cell lock primitives and the `error` macro of `src/error.h`).

Conventions of the embedding:

* C enumerations (`enum task_types`, `enum task_subtypes`) are natural numbers,
  numbered in the order of the name tables `taskID_names` and `subtaskID_names`
  of `task.c`; a value that is not a named enumerator is simply another number.
* `error(...)` prints and aborts the run: it is the result `Except.error (Err.fatal msg)`.
* Dereferencing a `NULL` cell pointer is the result `Except.error Err.segv`.
* Pointers `ci`, `cj` are `Option cell`; a cell is identified by its position in the
  cell tree.
* `struct cell`, `struct task` and the lock primitives of `cell.c` are not among the
  sources; what `task.c` uses of them is modelled from the specification and marked
  as such. The hold flags are read-only; the lock state is the set of held
  (domain, region) pairs. For the claims on two tasks that contend, the held pairs
  are recorded with their holder, and a try-lock is refused by the locks of the other
  holders only.
* Every call of a lock primitive is appended to a log carried beside the lock set, so
  that statements about which primitives are called, and in which order, can be made.
* `size_t` arithmetic is arithmetic modulo `2 ^ 64`. A `float` is an IEEE 754 binary32
  number: its value is the rational it denotes, or the infinity or NaN that a division
  by zero gives, and both the conversion of a `size_t` to `float` and the division of
  two `float`s round to the nearest number of 24 significant bits, a tie going to the
  even one (the default rounding mode, `FLT_EVAL_METHOD` 0).
* The black-hole swallowing interaction is embedded over an arbitrary floating-point
  arithmetic; `binary32` is the arithmetic of `float`, every operation rounded.

The file has the definitions first (embedding, obligation table, vocabulary of the
claims, sample data), then the supporting lemmas and the claims C1, C2, ...
-/

namespace Swift

/-! ## Enumerations -/

/-- Values of `enum task_types`, a C integer. -/
abbrev task_types := Nat

/-- Values of `enum task_subtypes`, a C integer. -/
abbrev task_subtypes := Nat

@[reducible] def task_type_none : task_types := 0
@[reducible] def task_type_sort : task_types := 1
@[reducible] def task_type_self : task_types := 2
@[reducible] def task_type_pair : task_types := 3
@[reducible] def task_type_sub_self : task_types := 4
@[reducible] def task_type_sub_pair : task_types := 5
@[reducible] def task_type_init_grav : task_types := 6
@[reducible] def task_type_init_grav_out : task_types := 7
@[reducible] def task_type_ghost_in : task_types := 8
@[reducible] def task_type_ghost : task_types := 9
@[reducible] def task_type_ghost_out : task_types := 10
@[reducible] def task_type_extra_ghost : task_types := 11
@[reducible] def task_type_drift_part : task_types := 12
@[reducible] def task_type_drift_gpart : task_types := 13
@[reducible] def task_type_drift_gpart_out : task_types := 14
@[reducible] def task_type_end_force : task_types := 15
@[reducible] def task_type_kick1 : task_types := 16
@[reducible] def task_type_kick2 : task_types := 17
@[reducible] def task_type_timestep : task_types := 18
@[reducible] def task_type_timestep_limiter : task_types := 19
@[reducible] def task_type_send : task_types := 20
@[reducible] def task_type_recv : task_types := 21
@[reducible] def task_type_grav_long_range : task_types := 22
@[reducible] def task_type_grav_mm : task_types := 23
@[reducible] def task_type_grav_down_in : task_types := 24
@[reducible] def task_type_grav_down : task_types := 25
@[reducible] def task_type_grav_mesh : task_types := 26
@[reducible] def task_type_cooling : task_types := 27
@[reducible] def task_type_star_formation : task_types := 28
@[reducible] def task_type_logger : task_types := 29
@[reducible] def task_type_stars_ghost_in : task_types := 30
@[reducible] def task_type_stars_ghost : task_types := 31
@[reducible] def task_type_stars_ghost_out : task_types := 32
@[reducible] def task_type_stars_sort : task_types := 33
@[reducible] def task_type_count : task_types := 34

@[reducible] def task_subtype_none : task_subtypes := 0
@[reducible] def task_subtype_density : task_subtypes := 1
@[reducible] def task_subtype_gradient : task_subtypes := 2
@[reducible] def task_subtype_force : task_subtypes := 3
@[reducible] def task_subtype_limiter : task_subtypes := 4
@[reducible] def task_subtype_grav : task_subtypes := 5
@[reducible] def task_subtype_external_grav : task_subtypes := 6
@[reducible] def task_subtype_tend : task_subtypes := 7
@[reducible] def task_subtype_xv : task_subtypes := 8
@[reducible] def task_subtype_rho : task_subtypes := 9
@[reducible] def task_subtype_gpart : task_subtypes := 10
@[reducible] def task_subtype_multipole : task_subtypes := 11
@[reducible] def task_subtype_spart : task_subtypes := 12
@[reducible] def task_subtype_stars_density : task_subtypes := 13
@[reducible] def task_subtype_stars_feedback : task_subtypes := 14
@[reducible] def task_subtype_count : task_subtypes := 15

/-- The result type of `task_acts_on` (`enum task_actions`). -/
inductive task_actions where
  | task_action_none
  | task_action_part
  | task_action_gpart
  | task_action_spart
  | task_action_all
  | task_action_multipole
  deriving DecidableEq, Repr

open task_actions

/-! ## Failure modes -/

/-- Ways a call can fail to return: `error(...)` aborts the run with a message;
dereferencing a `NULL` cell pointer is a memory fault. -/
inductive Err where
  | fatal (msg : String)
  | segv
  deriving DecidableEq, Repr

/-- The `error` macro of `error.h`: print the message and abort. -/
def error {α : Type} (msg : String) : Except Err α := Except.error (Err.fatal msg)

/-! ## Cells and tasks -/

/-- Identity of a cell: its position in the cell tree, as the list of child
indices leading to it from the top-level cell. -/
abbrev CellId := List Nat

/-- Modelled from the spec: the gas (`hydro`) part of `struct cell`, whose declaration
(`cell.h`) is not among the sources: a count, the start of the contiguous index
range, and the advisory hold flag. -/
structure cell_hydro where
  count : Nat
  parts : Nat
  hold : Bool
  deriving DecidableEq, Repr

/-- Modelled from the spec: the gravity part of `struct cell` (`cell.h` is not among
the sources): count and index range of the gravitating particles, the hold flag of
the gravitating-particle domain (`phold`) and of the multipole domain (`mhold`). -/
structure cell_grav where
  count : Nat
  parts : Nat
  phold : Bool
  mhold : Bool
  deriving DecidableEq, Repr

/-- Modelled from the spec: the stellar part of `struct cell` (`cell.h` is not among
the sources). -/
structure cell_stars where
  count : Nat
  parts : Nat
  hold : Bool
  deriving DecidableEq, Repr

/-- Modelled from the spec: `struct cell`, a node of the hierarchical spatial
partition (`cell.h` is not among the sources). `loc` identifies the node. -/
structure cell where
  loc : CellId
  hydro : cell_hydro
  grav : cell_grav
  stars : cell_stars
  deriving DecidableEq, Repr

/-- Outcome of the non-blocking `MPI_Test` on a task's request. -/
inductive mpi_test where
  | pending
  | complete
  | failure
  deriving DecidableEq, Repr

/-- Modelled from the spec: the fields of `struct task` (`task.h` is not among the
sources) that `task.c` reads: kind, sub-kind, up to two cells, and the pollable
transfer of a communication task (what `MPI_Test` on `t->req` would report). -/
structure task where
  type : task_types
  subtype : task_subtypes
  ci : Option cell
  cj : Option cell
  req : mpi_test
  deriving DecidableEq, Repr

deriving instance DecidableEq for Except

/-- Reading through a cell pointer: a `NULL` pointer faults. -/
def deref (p : Option cell) : Except Err cell :=
  match p with
  | some c => Except.ok c
  | none => Except.error Err.segv

/-! ## The action classifier -/

/-- The function `task_acts_on` of `task.c`. Each `if` is one group of `case`
labels of the `switch`, in source order; the last `else` is `default:`. -/
def task_acts_on (t : task) : Except Err task_actions :=
  if t.type = task_type_none then
    Except.ok task_action_none
  else if t.type = task_type_drift_part ∨ t.type = task_type_sort ∨
      t.type = task_type_ghost ∨ t.type = task_type_extra_ghost ∨
      t.type = task_type_timestep_limiter ∨ t.type = task_type_cooling then
    Except.ok task_action_part
  else if t.type = task_type_star_formation then
    Except.ok task_action_all
  else if t.type = task_type_stars_ghost ∨ t.type = task_type_stars_sort then
    Except.ok task_action_spart
  else if t.type = task_type_self ∨ t.type = task_type_pair ∨
      t.type = task_type_sub_self ∨ t.type = task_type_sub_pair then
    if t.subtype = task_subtype_density ∨ t.subtype = task_subtype_gradient ∨
        t.subtype = task_subtype_force ∨ t.subtype = task_subtype_limiter then
      Except.ok task_action_part
    else if t.subtype = task_subtype_stars_density ∨
        t.subtype = task_subtype_stars_feedback then
      Except.ok task_action_all
    else if t.subtype = task_subtype_grav ∨ t.subtype = task_subtype_external_grav then
      Except.ok task_action_gpart
    else
      error "Unknow task_action for task"
  else if t.type = task_type_end_force ∨ t.type = task_type_kick1 ∨
      t.type = task_type_kick2 ∨ t.type = task_type_logger ∨
      t.type = task_type_timestep ∨ t.type = task_type_send ∨
      t.type = task_type_recv then
    (deref t.ci).bind fun ci =>
      if ci.hydro.count > 0 ∧ ci.grav.count > 0 then
        Except.ok task_action_all
      else if ci.hydro.count > 0 then
        Except.ok task_action_part
      else if ci.grav.count > 0 then
        Except.ok task_action_gpart
      else
        error "Task without particles"
  else if t.type = task_type_init_grav ∨ t.type = task_type_grav_mm ∨
      t.type = task_type_grav_long_range then
    Except.ok task_action_multipole
  else if t.type = task_type_drift_gpart ∨ t.type = task_type_grav_down ∨
      t.type = task_type_grav_mesh then
    Except.ok task_action_gpart
  else
    error "Unknown task_action for task"

/-! ## Region lock domains (collaborator contract) -/

/-- The four lock domains of a cell: gas particles, gravitating particles, the
multipole summary, and stellar particles. -/
inductive Domain where
  | hydro
  | grav
  | mpole
  | stars
  deriving DecidableEq, Repr

/-- The set of (domain, region) pairs whose domain lock is currently held. -/
abbrev Locks := Finset (Domain × CellId)

/-- One call of a lock primitive, recorded for reasoning about which primitives a
task-level operation invokes and in which order. -/
inductive Event where
  | trylock (d : Domain) (c : CellId) (granted : Bool)
  | unlock (d : Domain) (c : CellId)
  deriving DecidableEq, Repr

/-- The mutable state the task layer acts on: which domain locks are held, and the
log of the lock-primitive calls made so far (a ghost field, not program state). -/
structure Mem where
  locks : Locks
  trace : List Event

/-- The advisory hold flag of a domain of a cell: `hydro.hold`, `grav.phold`,
`grav.mhold` and `stars.hold` respectively. -/
def hold_flag (d : Domain) (c : cell) : Bool :=
  match d with
  | Domain.hydro => c.hydro.hold
  | Domain.grav => c.grav.phold
  | Domain.mpole => c.grav.mhold
  | Domain.stars => c.stars.hold

/-- Modelled from the spec: whether domain `d` is locked anywhere in the ancestor or
descendant chain of the cell at `c` (the cell itself included), by whichever holder:
the lock set `Locks` does not record who holds a lock. A cell is an ancestor of
another when its position is an initial segment of the other's. -/
def chain_locked (d : Domain) (c : CellId) (L : Locks) : Bool :=
  decide (∃ p ∈ L, p.1 = d ∧ (p.2 <+: c ∨ c <+: p.2))

/-- Modelled from the spec: whether a try-lock of domain `d` of cell `c` is refused
when the locks `L` are held. "Acquiring it must fail if the same domain is already
locked anywhere in this region's ancestor or descendant chain"; "a held domain must
reject even an attempt". The locks of `L` are taken to be held by others than the
caller: a lock the caller acquired itself refuses it as well. The try-lock that
tells the holders apart, as the specification does ("by a different holder"), is
`refused_for` below, on locks recorded with their holder. -/
def blocked (d : Domain) (c : cell) (L : Locks) : Bool :=
  hold_flag d c || chain_locked d c.loc L

/-- Modelled from the spec: the non-blocking try-lock of one domain of a cell
(`cell_locktree` and its siblings live in `cell.c`, which is not among the sources).
Returns 0 and records the lock when granted, 1 and no change when refused. -/
def cell_trylock (d : Domain) (c : cell) (m : Mem) : Int × Mem :=
  if blocked d c m.locks = true then
    (1, { locks := m.locks, trace := m.trace ++ [Event.trylock d c.loc false] })
  else
    (0, { locks := insert (d, c.loc) m.locks,
          trace := m.trace ++ [Event.trylock d c.loc true] })

/-- Modelled from the spec: release of one domain lock of a cell (`cell_unlocktree`
and its siblings live in `cell.c`). Cannot fail. -/
def cell_unlock (d : Domain) (c : cell) (m : Mem) : Mem :=
  { locks := m.locks.erase (d, c.loc), trace := m.trace ++ [Event.unlock d c.loc] }

/-- Try to lock the gas particles of a cell. -/
def cell_locktree (c : cell) (m : Mem) : Int × Mem := cell_trylock Domain.hydro c m
/-- Try to lock the gravitating particles of a cell. -/
def cell_glocktree (c : cell) (m : Mem) : Int × Mem := cell_trylock Domain.grav c m
/-- Try to lock the multipole of a cell. -/
def cell_mlocktree (c : cell) (m : Mem) : Int × Mem := cell_trylock Domain.mpole c m
/-- Try to lock the stellar particles of a cell. -/
def cell_slocktree (c : cell) (m : Mem) : Int × Mem := cell_trylock Domain.stars c m
/-- Unlock the gas particles of a cell. -/
def cell_unlocktree (c : cell) (m : Mem) : Mem := cell_unlock Domain.hydro c m
/-- Unlock the gravitating particles of a cell. -/
def cell_gunlocktree (c : cell) (m : Mem) : Mem := cell_unlock Domain.grav c m
/-- Unlock the multipole of a cell. -/
def cell_munlocktree (c : cell) (m : Mem) : Mem := cell_unlock Domain.mpole c m
/-- Unlock the stellar particles of a cell. -/
def cell_sunlocktree (c : cell) (m : Mem) : Mem := cell_unlock Domain.stars c m

/-! ## Release -/

/-- The function `task_unlock` of `task.c`. Each unlock primitive receives the cell
pointer and reads through it, so a `NULL` pointer faults at that call. -/
def task_unlock (t : task) (m : Mem) : Except Err Mem :=
  if t.type = task_type_end_force ∨ t.type = task_type_kick1 ∨
      t.type = task_type_kick2 ∨ t.type = task_type_logger ∨
      t.type = task_type_timestep then
    (deref t.ci).bind fun ci =>
      Except.ok (cell_gunlocktree ci (cell_unlocktree ci m))
  else if t.type = task_type_drift_part ∨ t.type = task_type_sort ∨
      t.type = task_type_ghost ∨ t.type = task_type_timestep_limiter then
    (deref t.ci).bind fun ci =>
      Except.ok (cell_unlocktree ci m)
  else if t.type = task_type_drift_gpart ∨ t.type = task_type_grav_mesh then
    (deref t.ci).bind fun ci =>
      Except.ok (cell_gunlocktree ci m)
  else if t.type = task_type_stars_sort then
    (deref t.ci).bind fun ci =>
      Except.ok (cell_sunlocktree ci m)
  else if t.type = task_type_self ∨ t.type = task_type_sub_self then
    if t.subtype = task_subtype_grav then
      (deref t.ci).bind fun ci =>
        Except.ok (cell_munlocktree ci (cell_gunlocktree ci m))
    else if t.subtype = task_subtype_stars_density then
      (deref t.ci).bind fun ci =>
        Except.ok (cell_sunlocktree ci m)
    else if t.subtype = task_subtype_stars_feedback then
      (deref t.ci).bind fun ci =>
        Except.ok (cell_unlocktree ci (cell_sunlocktree ci m))
    else
      (deref t.ci).bind fun ci =>
        Except.ok (cell_unlocktree ci m)
  else if t.type = task_type_pair ∨ t.type = task_type_sub_pair then
    if t.subtype = task_subtype_grav then
      (deref t.ci).bind fun ci =>
      (deref t.cj).bind fun cj =>
        Except.ok (cell_munlocktree cj (cell_munlocktree ci
          (cell_gunlocktree cj (cell_gunlocktree ci m))))
    else if t.subtype = task_subtype_stars_density then
      (deref t.ci).bind fun ci =>
      (deref t.cj).bind fun cj =>
        Except.ok (cell_sunlocktree cj (cell_sunlocktree ci m))
    else if t.subtype = task_subtype_stars_feedback then
      (deref t.ci).bind fun ci =>
      (deref t.cj).bind fun cj =>
        Except.ok (cell_unlocktree cj (cell_unlocktree ci
          (cell_sunlocktree cj (cell_sunlocktree ci m))))
    else
      (deref t.ci).bind fun ci =>
      (deref t.cj).bind fun cj =>
        Except.ok (cell_unlocktree cj (cell_unlocktree ci m))
  else if t.type = task_type_grav_down then
    (deref t.ci).bind fun ci =>
      Except.ok (cell_munlocktree ci (cell_gunlocktree ci m))
  else if t.type = task_type_grav_long_range then
    (deref t.ci).bind fun ci =>
      Except.ok (cell_munlocktree ci m)
  else if t.type = task_type_grav_mm then
    (deref t.ci).bind fun ci =>
    (deref t.cj).bind fun cj =>
      Except.ok (cell_munlocktree cj (cell_munlocktree ci m))
  else if t.type = task_type_star_formation then
    (deref t.ci).bind fun ci =>
      Except.ok (cell_gunlocktree ci (cell_sunlocktree ci (cell_unlocktree ci m)))
  else
    Except.ok m

/-! ## Acquisition -/

/-- The function `task_lock` of `task.c`. `with_mpi` says whether the build defines
`WITH_MPI`. A cell pointer is read where the source first reads through it, so the
short-circuit of `||` is kept. The `star_formation` case has no `break` and falls
into the empty `default:`; both end at the final `return 1`. -/
def task_lock (with_mpi : Bool) (t : task) (m : Mem) : Except Err (Int × Mem) :=
  if t.type = task_type_recv ∨ t.type = task_type_send then
    if with_mpi = true then
      match t.req with
      | mpi_test.failure => error "Failed to test request on send/recv task"
      | mpi_test.pending => Except.ok (0, m)
      | mpi_test.complete => Except.ok (1, m)
    else
      error "SWIFT was not compiled with MPI support."
  else if t.type = task_type_end_force ∨ t.type = task_type_kick1 ∨
      t.type = task_type_kick2 ∨ t.type = task_type_logger ∨
      t.type = task_type_timestep then
    (deref t.ci).bind fun ci =>
      if ci.hydro.hold = true ∨ ci.grav.phold = true then Except.ok (0, m)
      else
        let r1 := cell_locktree ci m
        if r1.1 ≠ 0 then Except.ok (0, r1.2)
        else
          let r2 := cell_glocktree ci r1.2
          if r2.1 ≠ 0 then Except.ok (0, cell_unlocktree ci r2.2)
          else Except.ok (1, r2.2)
  else if t.type = task_type_drift_part ∨ t.type = task_type_sort ∨
      t.type = task_type_ghost ∨ t.type = task_type_timestep_limiter then
    (deref t.ci).bind fun ci =>
      if ci.hydro.hold = true then Except.ok (0, m)
      else
        let r1 := cell_locktree ci m
        if r1.1 ≠ 0 then Except.ok (0, r1.2)
        else Except.ok (1, r1.2)
  else if t.type = task_type_stars_sort then
    (deref t.ci).bind fun ci =>
      if ci.stars.hold = true then Except.ok (0, m)
      else
        let r1 := cell_slocktree ci m
        if r1.1 ≠ 0 then Except.ok (0, r1.2)
        else Except.ok (1, r1.2)
  else if t.type = task_type_drift_gpart ∨ t.type = task_type_grav_mesh then
    (deref t.ci).bind fun ci =>
      if ci.grav.phold = true then Except.ok (0, m)
      else
        let r1 := cell_glocktree ci m
        if r1.1 ≠ 0 then Except.ok (0, r1.2)
        else Except.ok (1, r1.2)
  else if t.type = task_type_self ∨ t.type = task_type_sub_self then
    if t.subtype = task_subtype_grav then
      (deref t.ci).bind fun ci =>
        if ci.grav.phold = true ∨ ci.grav.mhold = true then Except.ok (0, m)
        else
          let r1 := cell_glocktree ci m
          if r1.1 ≠ 0 then Except.ok (0, r1.2)
          else
            let r2 := cell_mlocktree ci r1.2
            if r2.1 ≠ 0 then Except.ok (0, cell_gunlocktree ci r2.2)
            else Except.ok (1, r2.2)
    else if t.subtype = task_subtype_stars_density then
      (deref t.ci).bind fun ci =>
        if ci.stars.hold = true then Except.ok (0, m)
        else
          let r1 := cell_slocktree ci m
          if r1.1 ≠ 0 then Except.ok (0, r1.2)
          else Except.ok (1, r1.2)
    else if t.subtype = task_subtype_stars_feedback then
      (deref t.ci).bind fun ci =>
        if ci.stars.hold = true then Except.ok (0, m)
        else if ci.hydro.hold = true then Except.ok (0, m)
        else
          let r1 := cell_slocktree ci m
          if r1.1 ≠ 0 then Except.ok (0, r1.2)
          else
            let r2 := cell_locktree ci r1.2
            if r2.1 ≠ 0 then Except.ok (0, cell_sunlocktree ci r2.2)
            else Except.ok (1, r2.2)
    else
      (deref t.ci).bind fun ci =>
        if ci.hydro.hold = true then Except.ok (0, m)
        else
          let r1 := cell_locktree ci m
          if r1.1 ≠ 0 then Except.ok (0, r1.2)
          else Except.ok (1, r1.2)
  else if t.type = task_type_pair ∨ t.type = task_type_sub_pair then
    if t.subtype = task_subtype_grav then
      (deref t.ci).bind fun ci =>
        if ci.grav.phold = true then Except.ok (0, m)
        else
          (deref t.cj).bind fun cj =>
            if cj.grav.phold = true then Except.ok (0, m)
            else
              let r1 := cell_glocktree ci m
              if r1.1 ≠ 0 then Except.ok (0, r1.2)
              else
                let r2 := cell_glocktree cj r1.2
                if r2.1 ≠ 0 then Except.ok (0, cell_gunlocktree ci r2.2)
                else
                  let r3 := cell_mlocktree ci r2.2
                  if r3.1 ≠ 0 then
                    Except.ok (0, cell_gunlocktree cj (cell_gunlocktree ci r3.2))
                  else
                    let r4 := cell_mlocktree cj r3.2
                    if r4.1 ≠ 0 then
                      Except.ok (0, cell_munlocktree ci (cell_gunlocktree cj
                        (cell_gunlocktree ci r4.2)))
                    else Except.ok (1, r4.2)
    else if t.subtype = task_subtype_stars_density then
      (deref t.ci).bind fun ci =>
        if ci.stars.hold = true then Except.ok (0, m)
        else
          (deref t.cj).bind fun cj =>
            if cj.stars.hold = true then Except.ok (0, m)
            else
              let r1 := cell_slocktree ci m
              if r1.1 ≠ 0 then Except.ok (0, r1.2)
              else
                let r2 := cell_slocktree cj r1.2
                if r2.1 ≠ 0 then Except.ok (0, cell_sunlocktree ci r2.2)
                else Except.ok (1, r2.2)
    else if t.subtype = task_subtype_stars_feedback then
      (deref t.ci).bind fun ci =>
        if ci.stars.hold = true then Except.ok (0, m)
        else
          (deref t.cj).bind fun cj =>
            if cj.stars.hold = true then Except.ok (0, m)
            else if ci.hydro.hold = true ∨ cj.hydro.hold = true then Except.ok (0, m)
            else
              let r1 := cell_slocktree ci m
              if r1.1 ≠ 0 then Except.ok (0, r1.2)
              else
                let r2 := cell_slocktree cj r1.2
                if r2.1 ≠ 0 then Except.ok (0, cell_sunlocktree ci r2.2)
                else
                  let r3 := cell_locktree ci r2.2
                  if r3.1 ≠ 0 then
                    Except.ok (0, cell_sunlocktree cj (cell_sunlocktree ci r3.2))
                  else
                    let r4 := cell_locktree cj r3.2
                    if r4.1 ≠ 0 then
                      Except.ok (0, cell_unlocktree ci (cell_sunlocktree cj
                        (cell_sunlocktree ci r4.2)))
                    else Except.ok (1, r4.2)
    else
      (deref t.ci).bind fun ci =>
        if ci.hydro.hold = true then Except.ok (0, m)
        else
          (deref t.cj).bind fun cj =>
            if cj.hydro.hold = true then Except.ok (0, m)
            else
              let r1 := cell_locktree ci m
              if r1.1 ≠ 0 then Except.ok (0, r1.2)
              else
                let r2 := cell_locktree cj r1.2
                if r2.1 ≠ 0 then Except.ok (0, cell_unlocktree ci r2.2)
                else Except.ok (1, r2.2)
  else if t.type = task_type_grav_down then
    (deref t.ci).bind fun ci =>
      if ci.grav.phold = true ∨ ci.grav.mhold = true then Except.ok (0, m)
      else
        let r1 := cell_glocktree ci m
        if r1.1 ≠ 0 then Except.ok (0, r1.2)
        else
          let r2 := cell_mlocktree ci r1.2
          if r2.1 ≠ 0 then Except.ok (0, cell_gunlocktree ci r2.2)
          else Except.ok (1, r2.2)
  else if t.type = task_type_grav_long_range then
    (deref t.ci).bind fun ci =>
      if ci.grav.mhold = true then Except.ok (0, m)
      else
        let r1 := cell_mlocktree ci m
        if r1.1 ≠ 0 then Except.ok (0, r1.2)
        else Except.ok (1, r1.2)
  else if t.type = task_type_grav_mm then
    (deref t.ci).bind fun ci =>
      if ci.grav.mhold = true then Except.ok (0, m)
      else
        (deref t.cj).bind fun cj =>
          if cj.grav.mhold = true then Except.ok (0, m)
          else
            let r1 := cell_mlocktree ci m
            if r1.1 ≠ 0 then Except.ok (0, r1.2)
            else
              let r2 := cell_mlocktree cj r1.2
              if r2.1 ≠ 0 then Except.ok (0, cell_munlocktree ci r2.2)
              else Except.ok (1, r2.2)
  else if t.type = task_type_star_formation then
    (deref t.ci).bind fun ci =>
      if ci.hydro.hold = true ∨ ci.stars.hold = true ∨ ci.grav.phold = true then
        Except.ok (0, m)
      else
        let r1 := cell_locktree ci m
        if r1.1 ≠ 0 then Except.ok (0, r1.2)
        else
          let r2 := cell_slocktree ci r1.2
          if r2.1 ≠ 0 then Except.ok (0, cell_unlocktree ci r2.2)
          else
            let r3 := cell_glocktree ci r2.2
            if r3.1 ≠ 0 then
              Except.ok (0, cell_sunlocktree ci (cell_unlocktree ci r3.2))
            else Except.ok (1, r3.2)
  else
    Except.ok (1, m)

/-! ## Obligation lists -/

/-- The obligation on domain `d` of the cell behind a pointer; nothing for `NULL`. -/
def on_cell (d : Domain) (p : Option cell) : List (Domain × cell) :=
  match p with
  | some c => [(d, c)]
  | none => []

/-- The obligation list of a task: the ordered (domain, region) pairs of the table
of §4.3, region A being `ci` and region B being `cj`. For the interaction kinds the
gas row is taken for every sub-kind that is not gravity, star-density or
star-feedback. Kinds outside the table, and send/recv, have no obligation. -/
def obligations (t : task) : List (Domain × cell) :=
  if t.type = task_type_end_force ∨ t.type = task_type_kick1 ∨
      t.type = task_type_kick2 ∨ t.type = task_type_logger ∨
      t.type = task_type_timestep then
    on_cell Domain.hydro t.ci ++ on_cell Domain.grav t.ci
  else if t.type = task_type_drift_part ∨ t.type = task_type_sort ∨
      t.type = task_type_ghost ∨ t.type = task_type_timestep_limiter then
    on_cell Domain.hydro t.ci
  else if t.type = task_type_stars_sort then
    on_cell Domain.stars t.ci
  else if t.type = task_type_drift_gpart ∨ t.type = task_type_grav_mesh then
    on_cell Domain.grav t.ci
  else if t.type = task_type_self ∨ t.type = task_type_sub_self then
    if t.subtype = task_subtype_grav then
      on_cell Domain.grav t.ci ++ on_cell Domain.mpole t.ci
    else if t.subtype = task_subtype_stars_density then
      on_cell Domain.stars t.ci
    else if t.subtype = task_subtype_stars_feedback then
      on_cell Domain.stars t.ci ++ on_cell Domain.hydro t.ci
    else
      on_cell Domain.hydro t.ci
  else if t.type = task_type_pair ∨ t.type = task_type_sub_pair then
    if t.subtype = task_subtype_grav then
      on_cell Domain.grav t.ci ++ on_cell Domain.grav t.cj ++
        on_cell Domain.mpole t.ci ++ on_cell Domain.mpole t.cj
    else if t.subtype = task_subtype_stars_density then
      on_cell Domain.stars t.ci ++ on_cell Domain.stars t.cj
    else if t.subtype = task_subtype_stars_feedback then
      on_cell Domain.stars t.ci ++ on_cell Domain.stars t.cj ++
        on_cell Domain.hydro t.ci ++ on_cell Domain.hydro t.cj
    else
      on_cell Domain.hydro t.ci ++ on_cell Domain.hydro t.cj
  else if t.type = task_type_grav_down then
    on_cell Domain.grav t.ci ++ on_cell Domain.mpole t.ci
  else if t.type = task_type_grav_long_range then
    on_cell Domain.mpole t.ci
  else if t.type = task_type_grav_mm then
    on_cell Domain.mpole t.ci ++ on_cell Domain.mpole t.cj
  else if t.type = task_type_star_formation then
    on_cell Domain.hydro t.ci ++ on_cell Domain.stars t.ci ++ on_cell Domain.grav t.ci
  else
    []

/-- The (domain, region) keys of an obligation list, as a set. -/
def keys (l : List (Domain × cell)) : Locks :=
  (l.map fun p => (p.1, p.2.loc)).toFinset

/-- Sequential all-or-nothing acquisition of an obligation list on the lock set
alone: every pair in turn must not be refused; the result is the lock set with all
pairs added, or nothing. -/
def acquire (L : Locks) : List (Domain × cell) → Option Locks
  | [] => some L
  | p :: rest =>
    if blocked p.1 p.2 L = true then none
    else acquire (insert (p.1, p.2.loc) L) rest

/-- Return code and lock set that all-or-nothing acquisition of `l` from `L` yields. -/
def verdict (L : Locks) (l : List (Domain × cell)) : Int × Locks :=
  match acquire L l with
  | none => (0, L)
  | some L' => (1, L')

/-- The observable part of a `task_lock` result: return code and lock set. -/
def view (p : Int × Mem) : Int × Locks := (p.1, p.2.locks)

/-- A compute task: any kind other than send and recv. -/
def compute_task (t : task) : Prop :=
  t.type ≠ task_type_send ∧ t.type ≠ task_type_recv

/-- The task carries the cells its kind reads through: `ci` for every kind that
has a case in `task_lock`, and `cj` for the two-cell kinds. -/
def has_cells (t : task) : Prop :=
  (t.type ∈ [task_type_end_force, task_type_kick1, task_type_kick2, task_type_logger,
      task_type_timestep, task_type_drift_part, task_type_sort, task_type_ghost,
      task_type_timestep_limiter, task_type_stars_sort, task_type_drift_gpart,
      task_type_grav_mesh, task_type_self, task_type_sub_self, task_type_pair,
      task_type_sub_pair, task_type_grav_down, task_type_grav_long_range,
      task_type_grav_mm, task_type_star_formation] → t.ci ≠ none) ∧
  (t.type ∈ [task_type_pair, task_type_sub_pair, task_type_grav_mm] → t.cj ≠ none)

instance (t : task) : Decidable (compute_task t) := by
  unfold compute_task; infer_instance

instance (t : task) : Decidable (has_cells t) := by
  unfold has_cells; infer_instance

/-- Release of an obligation list: the unlock primitive on each pair in turn. -/
def release (m : Mem) (l : List (Domain × cell)) : Mem :=
  l.foldl (fun s p => cell_unlock p.1 p.2 s) m

/-- The (domain, region) pairs named by the unlock calls of a log. -/
def unlocked_keys (tr : List Event) : Locks :=
  (tr.filterMap fun e =>
    match e with
    | Event.unlock d c => some (d, c)
    | Event.trylock _ _ _ => none).toFinset

/-! ## Vocabulary of the classifier claims -/

/-- The bookkeeping kinds of the classifier: end_force, kick1, kick2, logger,
timestep, send and recv. -/
def bookkeeping_kind (k : task_types) : Prop :=
  k = task_type_end_force ∨ k = task_type_kick1 ∨ k = task_type_kick2 ∨
  k = task_type_logger ∨ k = task_type_timestep ∨ k = task_type_send ∨
  k = task_type_recv

/-- The interaction kinds: self, pair, sub_self and sub_pair. -/
def interaction_kind (k : task_types) : Prop :=
  k = task_type_self ∨ k = task_type_pair ∨ k = task_type_sub_self ∨
  k = task_type_sub_pair

/-- The sub-kinds the classifier knows for an interaction kind. -/
def classified_subtype (s : task_subtypes) : Prop :=
  s = task_subtype_density ∨ s = task_subtype_gradient ∨ s = task_subtype_force ∨
  s = task_subtype_limiter ∨ s = task_subtype_grav ∨ s = task_subtype_external_grav ∨
  s = task_subtype_stars_density ∨ s = task_subtype_stars_feedback

/-- The kinds with no case in the classifier: the in/out marker kinds, and every
value that is not a task kind (`task_type_count` and above). -/
def unlisted_kind (k : task_types) : Prop :=
  k = task_type_init_grav_out ∨ k = task_type_ghost_in ∨ k = task_type_ghost_out ∨
  k = task_type_drift_gpart_out ∨ k = task_type_grav_down_in ∨
  k = task_type_stars_ghost_in ∨ k = task_type_stars_ghost_out ∨ task_type_count ≤ k

instance (k : task_types) : Decidable (bookkeeping_kind k) := by
  unfold bookkeeping_kind; infer_instance

instance (k : task_types) : Decidable (interaction_kind k) := by
  unfold interaction_kind; infer_instance

instance (s : task_subtypes) : Decidable (classified_subtype s) := by
  unfold classified_subtype; infer_instance

instance (k : task_types) : Decidable (unlisted_kind k) := by
  unfold unlisted_kind; infer_instance

/-- The three situations in which the classifier is expected to abort: an unlisted
kind; an interaction kind with a sub-kind it does not know; a bookkeeping kind whose
region has neither gas nor gravitating particles. -/
def fatal_case (t : task) : Prop :=
  unlisted_kind t.type ∨
  (interaction_kind t.type ∧ ¬ classified_subtype t.subtype) ∨
  (bookkeeping_kind t.type ∧ ∃ c, t.ci = some c ∧ c.hydro.count = 0 ∧ c.grav.count = 0)

/-! ## Sample data -/

/-- A cell with particles of every kind and no hold flag set. -/
def sample_cell_A : cell :=
  { loc := [0], hydro := ⟨10, 0, false⟩, grav := ⟨5, 0, false, false⟩,
    stars := ⟨3, 0, false⟩ }

/-- A second cell, a sibling of `sample_cell_A`. -/
def sample_cell_B : cell :=
  { loc := [1], hydro := ⟨10, 10, false⟩, grav := ⟨5, 5, false, false⟩,
    stars := ⟨3, 3, false⟩ }

/-- The cell `sample_cell_A` with its multipole hold flag set. -/
def sample_cell_A_mhold : cell :=
  { loc := [0], hydro := ⟨10, 0, false⟩, grav := ⟨5, 0, false, true⟩,
    stars := ⟨3, 0, false⟩ }

/-- A cell with gravitating particles only. -/
def sample_cell_G : cell :=
  { loc := [2], hydro := ⟨0, 0, false⟩, grav := ⟨5, 0, false, false⟩,
    stars := ⟨0, 0, false⟩ }

/-- The state with no lock held and an empty log. -/
def sample_mem : Mem := { locks := ∅, trace := [] }

/-- A task of the given kind and sub-kind on the given cells. -/
def sample_task (k : task_types) (s : task_subtypes) (ci cj : Option cell) : task :=
  { type := k, subtype := s, ci := ci, cj := cj, req := mpi_test.pending }

/-- The state reached from `sample_mem` by a granted pair gravity task on
`sample_cell_A` and `sample_cell_B`. -/
def sample_mem_pair_grav : Mem :=
  { locks := {(Domain.mpole, [1]), (Domain.mpole, [0]), (Domain.grav, [1]),
      (Domain.grav, [0])},
    trace := [Event.trylock Domain.grav [0] true, Event.trylock Domain.grav [1] true,
      Event.trylock Domain.mpole [0] true, Event.trylock Domain.mpole [1] true] }

/-- The state reached from `sample_mem` by a granted kick1 task on `sample_cell_A`. -/
def sample_mem_kick : Mem :=
  { locks := {(Domain.grav, [0]), (Domain.hydro, [0])},
    trace := [Event.trylock Domain.hydro [0] true, Event.trylock Domain.grav [0] true] }

/-! ## The overlap metric -/

/-- Value of a C `float` expression (IEEE 754 binary32): the rational it denotes when
finite. Division by zero follows IEEE 754: a positive value over zero is `+inf`, zero
over zero is `NaN`. -/
inductive float_val where
  | finite (q : ℚ)
  | inf
  | nan
  deriving DecidableEq

/-- Number of values of the C type `size_t` (64 bits). -/
def size_t_range : Nat := 2 ^ 64

/-- Addition in `size_t`. -/
def size_add (a b : Nat) : Nat := (a + b) % size_t_range

/-- Subtraction in `size_t`, of two values of that type: it wraps around. -/
def size_sub (a b : Nat) : Nat := (a + size_t_range - b) % size_t_range

/-- The position of the leading binary digit of `n`, by halving at most `fuel` times. -/
def floor_log2_fuel : Nat → Nat → Nat
  | 0, _ => 0
  | fuel + 1, n => if n < 2 then 0 else floor_log2_fuel fuel (n / 2) + 1

/-- The position of the leading binary digit of `n`: the largest `e` with
`2 ^ e ≤ n`, and 0 for `n = 0`. -/
def floor_log2 (n : Nat) : Nat := floor_log2_fuel n n

/-- The integer nearest to `n / d`, a tie going to the even one: the rounding of
IEEE 754 in its default mode. -/
def round_half_even (n d : Nat) : Nat :=
  if 2 * (n % d) < d then n / d
  else if d < 2 * (n % d) then n / d + 1
  else if n / d % 2 = 0 then n / d else n / d + 1

/-- The conversion `(float)n` of a `size_t`: the nearest number with 24 significant
bits. Its value is a natural number, at most `2 ^ 64`. -/
def float_of_size (n : Nat) : Nat :=
  if n < 2 ^ 24 then n
  else round_half_even n (2 ^ (floor_log2 n - 23)) * 2 ^ (floor_log2 n - 23)

/-- The `float` quotient `a / b` of two `float`s with the natural values `a` and
`b > 0`, as a mantissa `m` and an exponent `e`: the quotient is `m * 2 ^ e`. The
exact quotient is scaled by the power of two that brings it into
`[2 ^ 23, 2 ^ 24)` and rounded there. For values between 1 and `2 ^ 64` the quotient
is in the normal range of binary32: there is neither overflow nor underflow. -/
def float_quot_parts (a b : Nat) : Nat × Int :=
  if a = 0 then (0, 0)
  else
    let k1 : Int := 23 - ((floor_log2 a : Int) - (floor_log2 b : Int))
    let k : Int :=
      if a * 2 ^ k1.toNat < 2 ^ 23 * (b * 2 ^ (-k1).toNat) then k1 + 1 else k1
    (round_half_even (a * 2 ^ k.toNat) (b * 2 ^ (-k).toNat), -k)

/-- The value of the `float` quotient `a / b` of two `float`s with the natural
values `a` and `b > 0`. -/
def float_quot (a b : Nat) : ℚ :=
  ((float_quot_parts a b).1 : ℚ) * (2 : ℚ) ^ (float_quot_parts a b).2

/-- The quotient `((float)n) / d` of two `size_t` values: `n` is converted to
`float`, `d` is converted to `float` by the usual arithmetic conversions, and the
division is that of `float`. -/
def float_div (n d : Nat) : float_val :=
  if d = 0 then
    if n = 0 then float_val.nan else float_val.inf
  else float_val.finite (float_quot (float_of_size n) (float_of_size d))

/-- The macro `TASK_CELL_OVERLAP(TYPE, ARRAY, COUNT)` of `task.c`: the function
`task_cell_overlap_TYPE` it defines, `parts` reading the start of the array and
`count` its length. The result is a `size_t`. -/
def task_cell_overlap (parts count : cell → Nat) (ci cj : Option cell) : Nat :=
  match ci, cj with
  | some ci, some cj =>
    if parts ci ≤ parts cj ∧ parts ci + count ci ≥ parts cj + count cj then
      count cj % size_t_range
    else if parts cj ≤ parts ci ∧ parts cj + count cj ≥ parts ci + count ci then
      count ci % size_t_range
    else 0
  | _, _ => 0

/-- The instance `TASK_CELL_OVERLAP(part, hydro.parts, hydro.count)`. -/
def task_cell_overlap_part (ci cj : Option cell) : Nat :=
  task_cell_overlap (fun c => c.hydro.parts) (fun c => c.hydro.count) ci cj

/-- The instance `TASK_CELL_OVERLAP(gpart, grav.parts, grav.count)`. -/
def task_cell_overlap_gpart (ci cj : Option cell) : Nat :=
  task_cell_overlap (fun c => c.grav.parts) (fun c => c.grav.count) ci cj

/-- The instance `TASK_CELL_OVERLAP(spart, stars.parts, stars.count)`. -/
def task_cell_overlap_spart (ci cj : Option cell) : Nat :=
  task_cell_overlap (fun c => c.stars.parts) (fun c => c.stars.count) ci cj

/-- One statement `if (p != NULL) size_union += p->count;` of `task_overlap`. -/
def add_count (count : cell → Nat) (size_union : Nat) (p : Option cell) : Nat :=
  match p with
  | some c => size_add size_union (count c)
  | none => size_union

/-- The body that `task_overlap` repeats for the gas, the gravitating and the
stellar particles: the size of the union, the size of the intersection, and the
quotient returned. `count` reads the count of the kind and `overlap` is the
`task_cell_overlap_TYPE` of the kind. -/
def overlap_branch (count : cell → Nat) (overlap : Option cell → Option cell → Nat)
    (ta tb : task) : float_val :=
  let size_union :=
    add_count count (add_count count (add_count count (add_count count 0 ta.ci) ta.cj)
      tb.ci) tb.cj
  let size_intersect :=
    size_add (size_add (size_add (overlap ta.ci tb.ci) (overlap ta.ci tb.cj))
      (overlap ta.cj tb.ci)) (overlap ta.cj tb.cj)
  float_div size_intersect (size_sub size_union size_intersect)

/-- The function `task_overlap` of `task.c`. The task pointers may be `NULL`. -/
def task_overlap (ta tb : Option task) : Except Err float_val :=
  match ta, tb with
  | some ta, some tb =>
    (task_acts_on ta).bind fun ta_act =>
    (task_acts_on tb).bind fun tb_act =>
      if ta_act = task_action_none ∨ tb_act = task_action_none then
        Except.ok (float_val.finite 0)
      else if (ta_act = task_action_part ∨ ta_act = task_action_all) ∧
          (tb_act = task_action_part ∨ tb_act = task_action_all) then
        Except.ok (overlap_branch (fun c => c.hydro.count) task_cell_overlap_part ta tb)
      else if (ta_act = task_action_gpart ∨ ta_act = task_action_all) ∧
          (tb_act = task_action_gpart ∨ tb_act = task_action_all) then
        Except.ok (overlap_branch (fun c => c.grav.count) task_cell_overlap_gpart ta tb)
      else if (ta_act = task_action_spart ∨ ta_act = task_action_all) ∧
          (tb_act = task_action_spart ∨ tb_act = task_action_all) then
        Except.ok (overlap_branch (fun c => c.stars.count) task_cell_overlap_spart ta tb)
      else
        Except.ok (float_val.finite 0)
  | _, _ => Except.ok (float_val.finite 0)

/-! ## Vocabulary of the overlap claims -/

/-- The three particle kinds. -/
inductive part_kind where
  | gas
  | gravitating
  | stellar
  deriving DecidableEq, Repr

/-- The count of a particle kind in a region. -/
def kind_count (k : part_kind) (c : cell) : Nat :=
  match k with
  | part_kind.gas => c.hydro.count
  | part_kind.gravitating => c.grav.count
  | part_kind.stellar => c.stars.count

/-- The start of the index range of a particle kind in a region. -/
def kind_parts (k : part_kind) (c : cell) : Nat :=
  match k with
  | part_kind.gas => c.hydro.parts
  | part_kind.gravitating => c.grav.parts
  | part_kind.stellar => c.stars.parts

/-- Whether an action includes a particle kind: `part` is gas, `gpart` gravitating,
`spart` stellar, `all` every kind, `none` and `multipole` no kind. -/
def acts_on_kind (a : task_actions) (k : part_kind) : Bool :=
  match a, k with
  | task_action_part, part_kind.gas => true
  | task_action_gpart, part_kind.gravitating => true
  | task_action_spart, part_kind.stellar => true
  | task_action_all, _ => true
  | _, _ => false

/-- Two actions share a particle kind. -/
def shares_kind (a b : task_actions) : Prop :=
  ∃ k, acts_on_kind a k = true ∧ acts_on_kind b k = true

/-- The first particle kind, in the order gas, gravitating, stellar, that two
actions both include, if any. -/
def first_shared_kind (a b : task_actions) : Option part_kind :=
  if acts_on_kind a part_kind.gas = true ∧ acts_on_kind b part_kind.gas = true then
    some part_kind.gas
  else if acts_on_kind a part_kind.gravitating = true ∧
      acts_on_kind b part_kind.gravitating = true then
    some part_kind.gravitating
  else if acts_on_kind a part_kind.stellar = true ∧
      acts_on_kind b part_kind.stellar = true then
    some part_kind.stellar
  else none

/-- The count of a kind in a region that may be absent: 0 when absent. -/
def region_count (k : part_kind) (p : Option cell) : Nat :=
  match p with
  | some c => kind_count k c
  | none => 0

/-- The union size of §4.2: the sum of the counts of the four operand regions, an
absent region contributing 0. -/
def union_size (k : part_kind) (ta tb : task) : Nat :=
  region_count k ta.ci + region_count k ta.cj + region_count k tb.ci +
    region_count k tb.cj

/-- The index range of `inner` for kind `k` lies inside that of `outer`. -/
def range_inside (k : part_kind) (inner outer : cell) : Prop :=
  kind_parts k outer ≤ kind_parts k inner ∧
    kind_parts k inner + kind_count k inner ≤ kind_parts k outer + kind_count k outer

instance (k : part_kind) (inner outer : cell) : Decidable (range_inside k inner outer) := by
  unfold range_inside; infer_instance

/-- The containment overlap of §4.2 between two regions: the count of the nested
region when one index range lies inside the other, and 0 otherwise or when a region
is absent. -/
def containment_overlap (k : part_kind) (x y : Option cell) : Nat :=
  match x, y with
  | some x, some y =>
    if range_inside k y x then kind_count k y
    else if range_inside k x y then kind_count k x
    else 0
  | _, _ => 0

/-- The intersection size of §4.2: the sum of the containment overlaps over the four
pairs made of one region of each task. -/
def intersection_size (k : part_kind) (ta tb : task) : Nat :=
  containment_overlap k ta.ci tb.ci + containment_overlap k ta.ci tb.cj +
    containment_overlap k ta.cj tb.ci + containment_overlap k ta.cj tb.cj

/-- The counts of a region are values of the C type `int`: below `2 ^ 31`. -/
def int_counts (p : Option cell) : Prop :=
  match p with
  | some c => c.hydro.count < 2 ^ 31 ∧ c.grav.count < 2 ^ 31 ∧ c.stars.count < 2 ^ 31
  | none => True

/-- The counts of the regions of a task are values of the C type `int`. -/
def task_int_counts (t : task) : Prop :=
  int_counts t.ci ∧ int_counts t.cj

/-- The index ranges of two regions for a kind do not meet; an absent region meets
nothing. -/
def ranges_disjoint (k : part_kind) (x y : Option cell) : Prop :=
  match x, y with
  | some x, some y =>
    kind_parts k x + kind_count k x ≤ kind_parts k y ∨
      kind_parts k y + kind_count k y ≤ kind_parts k x
  | _, _ => True

instance (p : Option cell) : Decidable (int_counts p) := by
  unfold int_counts; cases p <;> infer_instance

instance (t : task) : Decidable (task_int_counts t) := by
  unfold task_int_counts; infer_instance

instance (k : part_kind) (x y : Option cell) : Decidable (ranges_disjoint k x y) := by
  unfold ranges_disjoint; cases x <;> cases y <;> infer_instance

/-! ## Sample data for the overlap and gate claims -/

/-- A cell nested in `sample_cell_A`: its gas range is the first half of the
parent's, its gravitating and stellar ranges are the parent's. -/
def sample_cell_A_child : cell :=
  { loc := [0, 0], hydro := ⟨5, 0, false⟩, grav := ⟨5, 0, false, false⟩,
    stars := ⟨3, 0, false⟩ }

/-- The region A of the example of §8: gas index range [0, 50). -/
def sample_cell_P : cell :=
  { loc := [3], hydro := ⟨50, 0, false⟩, grav := ⟨0, 0, false, false⟩,
    stars := ⟨0, 0, false⟩ }

/-- The region B of the example of §8, nested under A: gas index range [10, 30). -/
def sample_cell_Q : cell :=
  { loc := [3, 0], hydro := ⟨20, 10, false⟩, grav := ⟨0, 0, false, false⟩,
    stars := ⟨0, 0, false⟩ }

/-- A cell whose index range is [0, 100), with count 100, for every particle kind. -/
def sample_cell_H : cell :=
  { loc := [4], hydro := ⟨100, 0, false⟩, grav := ⟨100, 0, false, false⟩,
    stars := ⟨100, 0, false⟩ }

/-- A state in which another task holds the multipole lock of `sample_cell_A`. -/
def sample_mem_mpole_held : Mem := { locks := {(Domain.mpole, [0])}, trace := [] }

/-- A state in which another task holds the gas lock of `sample_cell_G`. -/
def sample_mem_gas_held : Mem := { locks := {(Domain.hydro, [2])}, trace := [] }

/-- The state reached from `sample_mem` by a granted kick1 task on `sample_cell_G`. -/
def sample_mem_kick_G : Mem :=
  { locks := {(Domain.grav, [2]), (Domain.hydro, [2])},
    trace := [Event.trylock Domain.hydro [2] true, Event.trylock Domain.grav [2] true] }

/-- A star_formation task on `sample_cell_A`. -/
def sample_sf_parent : task :=
  sample_task task_type_star_formation task_subtype_none (some sample_cell_A) none

/-- A star_formation task on `sample_cell_A_child`. -/
def sample_sf_child : task :=
  sample_task task_type_star_formation task_subtype_none (some sample_cell_A_child) none

/-- A self density task on `sample_cell_A`. -/
def sample_self_A : task :=
  sample_task task_type_self task_subtype_density (some sample_cell_A) none

/-- A pair density task on `sample_cell_A` and the cell nested in it. -/
def sample_pair_nested : task :=
  sample_task task_type_pair task_subtype_density (some sample_cell_A)
    (some sample_cell_A_child)

/-- A self density task on the region A of the example of §8. -/
def sample_self_P : task :=
  sample_task task_type_self task_subtype_density (some sample_cell_P) none

/-- A self density task on the region B of the example of §8. -/
def sample_self_Q : task :=
  sample_task task_type_self task_subtype_density (some sample_cell_Q) none

/-- A region with 33554433 gas particles, index range [0, 33554433). -/
def sample_cell_W : cell :=
  { loc := [5], hydro := ⟨33554433, 0, false⟩, grav := ⟨0, 0, false, false⟩,
    stars := ⟨0, 0, false⟩ }

/-- A region nested under `sample_cell_W` with 16777217 gas particles, index range
[0, 16777217). -/
def sample_cell_W_child : cell :=
  { loc := [5, 0], hydro := ⟨16777217, 0, false⟩, grav := ⟨0, 0, false, false⟩,
    stars := ⟨0, 0, false⟩ }

/-- A self density task on `sample_cell_W`. -/
def sample_self_W : task :=
  sample_task task_type_self task_subtype_density (some sample_cell_W) none

/-- A self density task on `sample_cell_W_child`. -/
def sample_self_W_child : task :=
  sample_task task_type_self task_subtype_density (some sample_cell_W_child) none

/-- A sort task on a region without gas particles. -/
def sample_sort_G : task :=
  sample_task task_type_sort task_subtype_none (some sample_cell_G) none

/-- A grav_long_range task on `sample_cell_H`. -/
def sample_long_range_H : task :=
  sample_task task_type_grav_long_range task_subtype_none (some sample_cell_H) none

/-- A sort task on `sample_cell_H`. -/
def sample_sort_H : task :=
  sample_task task_type_sort task_subtype_none (some sample_cell_H) none

/-- A kick1 task on a region with gravitating particles only. -/
def sample_kick_G : task :=
  sample_task task_type_kick1 task_subtype_none (some sample_cell_G) none

/-! ## The acquisition protocol -/

/-- The try-then-rollback protocol of §4.3 on an obligation list: try-lock each pair
in turn; at the first refusal, unlock the pairs acquired so far, in the order in
which they were acquired, and return 0; return 1 when no try-lock is refused.
`acquired` holds the pairs acquired so far. -/
def try_seq (m : Mem) (acquired : List (Domain × cell)) :
    List (Domain × cell) → Int × Mem
  | [] => (1, m)
  | p :: rest =>
    let r := cell_trylock p.1 p.2 m
    if r.1 ≠ 0 then (0, release r.2 acquired)
    else try_seq r.2 (acquired ++ [p]) rest

/-- The log entries of granted try-locks of an obligation list, in order. -/
def granted_events (l : List (Domain × cell)) : List Event :=
  l.map fun p => Event.trylock p.1 p.2.loc true

/-- The log entries of unlocks of an obligation list, in order. -/
def unlock_events (l : List (Domain × cell)) : List Event :=
  l.map fun p => Event.unlock p.1 p.2.loc

/-- The entries a call appended to the log: the log of `m'` after that of `m`. -/
def events_since (m m' : Mem) : List Event := m'.trace.drop m.trace.length

/-- The try-lock attempts of a log, in order, each with its outcome. -/
def attempts (tr : List Event) : List ((Domain × CellId) × Bool) :=
  tr.filterMap fun e =>
    match e with
    | Event.trylock d c g => some ((d, c), g)
    | Event.unlock _ _ => none

/-- The pairs of the granted try-locks of a log, in order. -/
def granted_pairs (tr : List Event) : List (Domain × CellId) :=
  tr.filterMap fun e =>
    match e with
    | Event.trylock d c true => some (d, c)
    | _ => none

/-- The pairs of the unlock calls of a log, in order. -/
def unlocks (tr : List Event) : List (Domain × CellId) :=
  tr.filterMap fun e =>
    match e with
    | Event.unlock d c => some (d, c)
    | Event.trylock _ _ _ => none

/-- The (domain, region) pairs of an obligation list, in order. -/
def pairs (l : List (Domain × cell)) : List (Domain × CellId) :=
  l.map fun p => (p.1, p.2.loc)

/-- Two obligations contend: same domain, and one region lies in the ancestor or
descendant chain of the other (the same region included). -/
def contend (p q : Domain × cell) : Prop :=
  p.1 = q.1 ∧ (p.2.loc <+: q.2.loc ∨ q.2.loc <+: p.2.loc)

instance (p q : Domain × cell) : Decidable (contend p q) := by
  unfold contend; infer_instance

/-- No two obligations of the list contend. -/
def independent (l : List (Domain × cell)) : Prop :=
  l.Pairwise fun p q => ¬ contend p q

instance (l : List (Domain × cell)) : Decidable (independent l) := by
  unfold independent; infer_instance

/-- No obligation of the first list contends with one of the second. -/
def apart (l1 l2 : List (Domain × cell)) : Prop :=
  ∀ p ∈ l1, ∀ q ∈ l2, ¬ contend p q

instance (l1 l2 : List (Domain × cell)) : Decidable (apart l1 l2) := by
  unfold apart; infer_instance

/-- Every obligation of the task is free in the state: its hold flag is clear and
its domain is locked nowhere in the chain of its region. -/
def free_for (m : Mem) (t : task) : Prop :=
  ∀ p ∈ obligations t, blocked p.1 p.2 m.locks = false

instance (m : Mem) (t : task) : Decidable (free_for m t) := by
  unfold free_for; infer_instance

/-- The two tasks share an obligated (domain, region) pair. -/
def shares_obligation (t1 t2 : task) : Prop :=
  ∃ k ∈ keys (obligations t1), k ∈ keys (obligations t2)

instance (t1 t2 : task) : Decidable (shares_obligation t1 t2) := by
  unfold shares_obligation; infer_instance

/-- The obligation sets of the two tasks are disjoint: no shared domain and region. -/
def disjoint_obligations (t1 t2 : task) : Prop :=
  ∀ k ∈ keys (obligations t1), k ∉ keys (obligations t2)

instance (t1 t2 : task) : Decidable (disjoint_obligations t1 t2) := by
  unfold disjoint_obligations; infer_instance

/-! ## Sample data for the protocol claims -/

/-- A pair density task on the siblings `sample_cell_A` and `sample_cell_B`. -/
def sample_pair_AB : task :=
  sample_task task_type_pair task_subtype_density (some sample_cell_A) (some sample_cell_B)

/-- A self density task on `sample_cell_B`. -/
def sample_self_B : task :=
  sample_task task_type_self task_subtype_density (some sample_cell_B) none

/-- A self density task on the cell nested in `sample_cell_A`. -/
def sample_self_A_child : task :=
  sample_task task_type_self task_subtype_density (some sample_cell_A_child) none

/-- A pair star-feedback task on `sample_cell_A` and `sample_cell_B`. -/
def sample_pair_feedback_AB : task :=
  sample_task task_type_pair task_subtype_stars_feedback (some sample_cell_A)
    (some sample_cell_B)

/-- A drift_part task on `sample_cell_A`. -/
def sample_drift_A : task :=
  sample_task task_type_drift_part task_subtype_none (some sample_cell_A) none

/-- A state in which another task holds the gas lock of `sample_cell_A`. -/
def sample_mem_gas_A_held : Mem := { locks := {(Domain.hydro, [0])}, trace := [] }

/-- A state in which another task holds the gas lock of `sample_cell_B`. -/
def sample_mem_gas_B_held : Mem := { locks := {(Domain.hydro, [1])}, trace := [] }

/-! ## The task layer over an arbitrary lock collaborator -/

/-- The lock primitives of a cell as a collaborator of the task layer, over any
state `σ` they act on: the try-lock of a domain of a cell (0 when granted) and its
unlock. The eight primitives of `cell.c` are these two at the four domains. -/
structure lock_ops (σ : Type) where
  trylock : Domain → cell → σ → Int × σ
  unlock : Domain → cell → σ → σ

/-- The lock primitives on `Mem`. -/
def mem_ops : lock_ops Mem := { trylock := cell_trylock, unlock := cell_unlock }

/-- The function `task_lock` of `task.c`, statement by statement as in `task_lock`
above, the calls of the lock primitives going to the collaborator `ops`. -/
def task_lock_with {σ : Type} (ops : lock_ops σ) (with_mpi : Bool) (t : task) (s : σ) :
    Except Err (Int × σ) :=
  if t.type = task_type_recv ∨ t.type = task_type_send then
    if with_mpi = true then
      match t.req with
      | mpi_test.failure => error "Failed to test request on send/recv task"
      | mpi_test.pending => Except.ok (0, s)
      | mpi_test.complete => Except.ok (1, s)
    else
      error "SWIFT was not compiled with MPI support."
  else if t.type = task_type_end_force ∨ t.type = task_type_kick1 ∨
      t.type = task_type_kick2 ∨ t.type = task_type_logger ∨
      t.type = task_type_timestep then
    (deref t.ci).bind fun ci =>
      if ci.hydro.hold = true ∨ ci.grav.phold = true then Except.ok (0, s)
      else
        let r1 := ops.trylock Domain.hydro ci s
        if r1.1 ≠ 0 then Except.ok (0, r1.2)
        else
          let r2 := ops.trylock Domain.grav ci r1.2
          if r2.1 ≠ 0 then Except.ok (0, ops.unlock Domain.hydro ci r2.2)
          else Except.ok (1, r2.2)
  else if t.type = task_type_drift_part ∨ t.type = task_type_sort ∨
      t.type = task_type_ghost ∨ t.type = task_type_timestep_limiter then
    (deref t.ci).bind fun ci =>
      if ci.hydro.hold = true then Except.ok (0, s)
      else
        let r1 := ops.trylock Domain.hydro ci s
        if r1.1 ≠ 0 then Except.ok (0, r1.2)
        else Except.ok (1, r1.2)
  else if t.type = task_type_stars_sort then
    (deref t.ci).bind fun ci =>
      if ci.stars.hold = true then Except.ok (0, s)
      else
        let r1 := ops.trylock Domain.stars ci s
        if r1.1 ≠ 0 then Except.ok (0, r1.2)
        else Except.ok (1, r1.2)
  else if t.type = task_type_drift_gpart ∨ t.type = task_type_grav_mesh then
    (deref t.ci).bind fun ci =>
      if ci.grav.phold = true then Except.ok (0, s)
      else
        let r1 := ops.trylock Domain.grav ci s
        if r1.1 ≠ 0 then Except.ok (0, r1.2)
        else Except.ok (1, r1.2)
  else if t.type = task_type_self ∨ t.type = task_type_sub_self then
    if t.subtype = task_subtype_grav then
      (deref t.ci).bind fun ci =>
        if ci.grav.phold = true ∨ ci.grav.mhold = true then Except.ok (0, s)
        else
          let r1 := ops.trylock Domain.grav ci s
          if r1.1 ≠ 0 then Except.ok (0, r1.2)
          else
            let r2 := ops.trylock Domain.mpole ci r1.2
            if r2.1 ≠ 0 then Except.ok (0, ops.unlock Domain.grav ci r2.2)
            else Except.ok (1, r2.2)
    else if t.subtype = task_subtype_stars_density then
      (deref t.ci).bind fun ci =>
        if ci.stars.hold = true then Except.ok (0, s)
        else
          let r1 := ops.trylock Domain.stars ci s
          if r1.1 ≠ 0 then Except.ok (0, r1.2)
          else Except.ok (1, r1.2)
    else if t.subtype = task_subtype_stars_feedback then
      (deref t.ci).bind fun ci =>
        if ci.stars.hold = true then Except.ok (0, s)
        else if ci.hydro.hold = true then Except.ok (0, s)
        else
          let r1 := ops.trylock Domain.stars ci s
          if r1.1 ≠ 0 then Except.ok (0, r1.2)
          else
            let r2 := ops.trylock Domain.hydro ci r1.2
            if r2.1 ≠ 0 then Except.ok (0, ops.unlock Domain.stars ci r2.2)
            else Except.ok (1, r2.2)
    else
      (deref t.ci).bind fun ci =>
        if ci.hydro.hold = true then Except.ok (0, s)
        else
          let r1 := ops.trylock Domain.hydro ci s
          if r1.1 ≠ 0 then Except.ok (0, r1.2)
          else Except.ok (1, r1.2)
  else if t.type = task_type_pair ∨ t.type = task_type_sub_pair then
    if t.subtype = task_subtype_grav then
      (deref t.ci).bind fun ci =>
        if ci.grav.phold = true then Except.ok (0, s)
        else
          (deref t.cj).bind fun cj =>
            if cj.grav.phold = true then Except.ok (0, s)
            else
              let r1 := ops.trylock Domain.grav ci s
              if r1.1 ≠ 0 then Except.ok (0, r1.2)
              else
                let r2 := ops.trylock Domain.grav cj r1.2
                if r2.1 ≠ 0 then Except.ok (0, ops.unlock Domain.grav ci r2.2)
                else
                  let r3 := ops.trylock Domain.mpole ci r2.2
                  if r3.1 ≠ 0 then
                    Except.ok (0, ops.unlock Domain.grav cj (ops.unlock Domain.grav ci r3.2))
                  else
                    let r4 := ops.trylock Domain.mpole cj r3.2
                    if r4.1 ≠ 0 then
                      Except.ok (0, ops.unlock Domain.mpole ci (ops.unlock Domain.grav cj
                        (ops.unlock Domain.grav ci r4.2)))
                    else Except.ok (1, r4.2)
    else if t.subtype = task_subtype_stars_density then
      (deref t.ci).bind fun ci =>
        if ci.stars.hold = true then Except.ok (0, s)
        else
          (deref t.cj).bind fun cj =>
            if cj.stars.hold = true then Except.ok (0, s)
            else
              let r1 := ops.trylock Domain.stars ci s
              if r1.1 ≠ 0 then Except.ok (0, r1.2)
              else
                let r2 := ops.trylock Domain.stars cj r1.2
                if r2.1 ≠ 0 then Except.ok (0, ops.unlock Domain.stars ci r2.2)
                else Except.ok (1, r2.2)
    else if t.subtype = task_subtype_stars_feedback then
      (deref t.ci).bind fun ci =>
        if ci.stars.hold = true then Except.ok (0, s)
        else
          (deref t.cj).bind fun cj =>
            if cj.stars.hold = true then Except.ok (0, s)
            else if ci.hydro.hold = true ∨ cj.hydro.hold = true then Except.ok (0, s)
            else
              let r1 := ops.trylock Domain.stars ci s
              if r1.1 ≠ 0 then Except.ok (0, r1.2)
              else
                let r2 := ops.trylock Domain.stars cj r1.2
                if r2.1 ≠ 0 then Except.ok (0, ops.unlock Domain.stars ci r2.2)
                else
                  let r3 := ops.trylock Domain.hydro ci r2.2
                  if r3.1 ≠ 0 then
                    Except.ok (0, ops.unlock Domain.stars cj (ops.unlock Domain.stars ci r3.2))
                  else
                    let r4 := ops.trylock Domain.hydro cj r3.2
                    if r4.1 ≠ 0 then
                      Except.ok (0, ops.unlock Domain.hydro ci (ops.unlock Domain.stars cj
                        (ops.unlock Domain.stars ci r4.2)))
                    else Except.ok (1, r4.2)
    else
      (deref t.ci).bind fun ci =>
        if ci.hydro.hold = true then Except.ok (0, s)
        else
          (deref t.cj).bind fun cj =>
            if cj.hydro.hold = true then Except.ok (0, s)
            else
              let r1 := ops.trylock Domain.hydro ci s
              if r1.1 ≠ 0 then Except.ok (0, r1.2)
              else
                let r2 := ops.trylock Domain.hydro cj r1.2
                if r2.1 ≠ 0 then Except.ok (0, ops.unlock Domain.hydro ci r2.2)
                else Except.ok (1, r2.2)
  else if t.type = task_type_grav_down then
    (deref t.ci).bind fun ci =>
      if ci.grav.phold = true ∨ ci.grav.mhold = true then Except.ok (0, s)
      else
        let r1 := ops.trylock Domain.grav ci s
        if r1.1 ≠ 0 then Except.ok (0, r1.2)
        else
          let r2 := ops.trylock Domain.mpole ci r1.2
          if r2.1 ≠ 0 then Except.ok (0, ops.unlock Domain.grav ci r2.2)
          else Except.ok (1, r2.2)
  else if t.type = task_type_grav_long_range then
    (deref t.ci).bind fun ci =>
      if ci.grav.mhold = true then Except.ok (0, s)
      else
        let r1 := ops.trylock Domain.mpole ci s
        if r1.1 ≠ 0 then Except.ok (0, r1.2)
        else Except.ok (1, r1.2)
  else if t.type = task_type_grav_mm then
    (deref t.ci).bind fun ci =>
      if ci.grav.mhold = true then Except.ok (0, s)
      else
        (deref t.cj).bind fun cj =>
          if cj.grav.mhold = true then Except.ok (0, s)
          else
            let r1 := ops.trylock Domain.mpole ci s
            if r1.1 ≠ 0 then Except.ok (0, r1.2)
            else
              let r2 := ops.trylock Domain.mpole cj r1.2
              if r2.1 ≠ 0 then Except.ok (0, ops.unlock Domain.mpole ci r2.2)
              else Except.ok (1, r2.2)
  else if t.type = task_type_star_formation then
    (deref t.ci).bind fun ci =>
      if ci.hydro.hold = true ∨ ci.stars.hold = true ∨ ci.grav.phold = true then
        Except.ok (0, s)
      else
        let r1 := ops.trylock Domain.hydro ci s
        if r1.1 ≠ 0 then Except.ok (0, r1.2)
        else
          let r2 := ops.trylock Domain.stars ci r1.2
          if r2.1 ≠ 0 then Except.ok (0, ops.unlock Domain.hydro ci r2.2)
          else
            let r3 := ops.trylock Domain.grav ci r2.2
            if r3.1 ≠ 0 then
              Except.ok (0, ops.unlock Domain.stars ci (ops.unlock Domain.hydro ci r3.2))
            else Except.ok (1, r3.2)
  else
    Except.ok (1, s)

/-- The function `task_unlock` of `task.c`, statement by statement as in
`task_unlock` above, the calls of the unlock primitives going to `ops`. -/
def task_unlock_with {σ : Type} (ops : lock_ops σ) (t : task) (s : σ) : Except Err σ :=
  if t.type = task_type_end_force ∨ t.type = task_type_kick1 ∨
      t.type = task_type_kick2 ∨ t.type = task_type_logger ∨
      t.type = task_type_timestep then
    (deref t.ci).bind fun ci =>
      Except.ok (ops.unlock Domain.grav ci (ops.unlock Domain.hydro ci s))
  else if t.type = task_type_drift_part ∨ t.type = task_type_sort ∨
      t.type = task_type_ghost ∨ t.type = task_type_timestep_limiter then
    (deref t.ci).bind fun ci =>
      Except.ok (ops.unlock Domain.hydro ci s)
  else if t.type = task_type_drift_gpart ∨ t.type = task_type_grav_mesh then
    (deref t.ci).bind fun ci =>
      Except.ok (ops.unlock Domain.grav ci s)
  else if t.type = task_type_stars_sort then
    (deref t.ci).bind fun ci =>
      Except.ok (ops.unlock Domain.stars ci s)
  else if t.type = task_type_self ∨ t.type = task_type_sub_self then
    if t.subtype = task_subtype_grav then
      (deref t.ci).bind fun ci =>
        Except.ok (ops.unlock Domain.mpole ci (ops.unlock Domain.grav ci s))
    else if t.subtype = task_subtype_stars_density then
      (deref t.ci).bind fun ci =>
        Except.ok (ops.unlock Domain.stars ci s)
    else if t.subtype = task_subtype_stars_feedback then
      (deref t.ci).bind fun ci =>
        Except.ok (ops.unlock Domain.hydro ci (ops.unlock Domain.stars ci s))
    else
      (deref t.ci).bind fun ci =>
        Except.ok (ops.unlock Domain.hydro ci s)
  else if t.type = task_type_pair ∨ t.type = task_type_sub_pair then
    if t.subtype = task_subtype_grav then
      (deref t.ci).bind fun ci =>
      (deref t.cj).bind fun cj =>
        Except.ok (ops.unlock Domain.mpole cj (ops.unlock Domain.mpole ci
          (ops.unlock Domain.grav cj (ops.unlock Domain.grav ci s))))
    else if t.subtype = task_subtype_stars_density then
      (deref t.ci).bind fun ci =>
      (deref t.cj).bind fun cj =>
        Except.ok (ops.unlock Domain.stars cj (ops.unlock Domain.stars ci s))
    else if t.subtype = task_subtype_stars_feedback then
      (deref t.ci).bind fun ci =>
      (deref t.cj).bind fun cj =>
        Except.ok (ops.unlock Domain.hydro cj (ops.unlock Domain.hydro ci
          (ops.unlock Domain.stars cj (ops.unlock Domain.stars ci s))))
    else
      (deref t.ci).bind fun ci =>
      (deref t.cj).bind fun cj =>
        Except.ok (ops.unlock Domain.hydro cj (ops.unlock Domain.hydro ci s))
  else if t.type = task_type_grav_down then
    (deref t.ci).bind fun ci =>
      Except.ok (ops.unlock Domain.mpole ci (ops.unlock Domain.grav ci s))
  else if t.type = task_type_grav_long_range then
    (deref t.ci).bind fun ci =>
      Except.ok (ops.unlock Domain.mpole ci s)
  else if t.type = task_type_grav_mm then
    (deref t.ci).bind fun ci =>
    (deref t.cj).bind fun cj =>
      Except.ok (ops.unlock Domain.mpole cj (ops.unlock Domain.mpole ci s))
  else if t.type = task_type_star_formation then
    (deref t.ci).bind fun ci =>
      Except.ok (ops.unlock Domain.grav ci (ops.unlock Domain.stars ci
        (ops.unlock Domain.hydro ci s)))
  else
    Except.ok s

/-! ## Lock domains by holder (collaborator contract) -/

/-- Who holds a domain lock: the task, or the thread that runs it. -/
abbrev Holder := Nat

/-- The domain locks currently held, each with its holder. -/
abbrev OwnedLocks := Finset (Holder × Domain × CellId)

/-- Modelled from the spec: whether domain `d` is locked anywhere in the ancestor or
descendant chain of the cell at `c` (the cell itself included) by a holder other
than `h`. -/
def locked_by_other (h : Holder) (d : Domain) (c : CellId) (L : OwnedLocks) : Bool :=
  decide (∃ p ∈ L, p.1 ≠ h ∧ p.2.1 = d ∧ (p.2.2 <+: c ∨ c <+: p.2.2))

/-- Modelled from the spec: whether a try-lock of domain `d` of cell `c` by the
holder `h` is refused when the locks `L` are held. "Acquiring it must fail if the
same domain is already locked anywhere in this region's ancestor or descendant chain
by a different holder"; "a held domain must reject even an attempt". -/
def refused_for (h : Holder) (d : Domain) (c : cell) (L : OwnedLocks) : Bool :=
  hold_flag d c || locked_by_other h d c.loc L

/-- Modelled from the spec: the non-blocking try-lock of one domain of a cell by the
holder `h`. Returns 0 and records the lock when granted, 1 and no change when
refused. -/
def owner_trylock (h : Holder) (d : Domain) (c : cell) (L : OwnedLocks) :
    Int × OwnedLocks :=
  if refused_for h d c L = true then (1, L) else (0, insert (h, d, c.loc) L)

/-- Modelled from the spec: release by the holder `h` of one domain lock of a cell.
Cannot fail. -/
def owner_unlock (h : Holder) (d : Domain) (c : cell) (L : OwnedLocks) : OwnedLocks :=
  L.erase (h, d, c.loc)

/-- The lock primitives as the holder `h` calls them. -/
def owner_ops (h : Holder) : lock_ops OwnedLocks :=
  { trylock := owner_trylock h, unlock := owner_unlock h }

/-- Release of an obligation list through the collaborator `ops`: the unlock
primitive on each pair in turn. -/
def release_with {σ : Type} (ops : lock_ops σ) (s : σ) (l : List (Domain × cell)) : σ :=
  l.foldl (fun s p => ops.unlock p.1 p.2 s) s

/-- The try-then-rollback protocol of §4.3 on an obligation list, through the
collaborator `ops`: try-lock each pair in turn; at the first refusal, unlock the
pairs acquired so far, in the order in which they were acquired, and return 0;
return 1 when no try-lock is refused. `acquired` holds the pairs acquired so far. -/
def try_seq_with {σ : Type} (ops : lock_ops σ) (s : σ) (acquired : List (Domain × cell)) :
    List (Domain × cell) → Int × σ
  | [] => (1, s)
  | p :: rest =>
    let r := ops.trylock p.1 p.2 s
    if r.1 ≠ 0 then (0, release_with ops r.2 acquired)
    else try_seq_with ops r.2 (acquired ++ [p]) rest

/-- The (domain, region) pairs `K`, each held by `h`. -/
def owned (h : Holder) (K : Locks) : OwnedLocks := K.image fun k => (h, k)

/-- Every obligation of the task is free in the state: its hold flag is clear and
its domain is locked nowhere in the chain of its region, by any holder. -/
def unlocked_for (L : OwnedLocks) (t : task) : Prop :=
  ∀ p ∈ obligations t, hold_flag p.1 p.2 = false ∧
    ∀ q ∈ L, ¬ (q.2.1 = p.1 ∧ (q.2.2 <+: p.2.loc ∨ p.2.loc <+: q.2.2))

instance (L : OwnedLocks) (t : task) : Decidable (unlocked_for L t) := by
  unfold unlocked_for; infer_instance

/-! ## Floating-point values with infinities and NaN -/

/-- A value of type `double` or `float`, rounding and the sign of zero left aside: a
rational, an infinity or NaN. -/
inductive double_val where
  | fin (q : ℚ)
  | pinf
  | ninf
  | nan
  deriving DecidableEq

/-- Negation of a floating-point value. -/
def double_val.neg : double_val → double_val
  | double_val.fin a => double_val.fin (-a)
  | double_val.pinf => double_val.ninf
  | double_val.ninf => double_val.pinf
  | double_val.nan => double_val.nan

/-- Addition (IEEE 754): `inf + (-inf)` is NaN. -/
def double_val.add : double_val → double_val → double_val
  | double_val.nan, _ => double_val.nan
  | _, double_val.nan => double_val.nan
  | double_val.fin a, double_val.fin b => double_val.fin (a + b)
  | double_val.pinf, double_val.ninf => double_val.nan
  | double_val.ninf, double_val.pinf => double_val.nan
  | double_val.pinf, _ => double_val.pinf
  | double_val.ninf, _ => double_val.ninf
  | double_val.fin _, double_val.pinf => double_val.pinf
  | double_val.fin _, double_val.ninf => double_val.ninf

/-- Subtraction (IEEE 754): `inf - inf` is NaN. -/
def double_val.sub (a b : double_val) : double_val := double_val.add a (double_val.neg b)

/-- An infinity times, or over, a finite factor: NaN for a zero factor when
`zero_nan` is set, otherwise the infinity with the sign of the factor applied. -/
def double_val.scale_inf (positive zero_nan : Bool) (q : ℚ) : double_val :=
  if q = 0 ∧ zero_nan = true then double_val.nan
  else if decide (0 ≤ q) = positive then double_val.pinf
  else double_val.ninf

/-- Multiplication (IEEE 754): zero times an infinity is NaN. -/
def double_val.mul : double_val → double_val → double_val
  | double_val.nan, _ => double_val.nan
  | _, double_val.nan => double_val.nan
  | double_val.fin a, double_val.fin b => double_val.fin (a * b)
  | double_val.pinf, double_val.pinf => double_val.pinf
  | double_val.ninf, double_val.ninf => double_val.pinf
  | double_val.pinf, double_val.ninf => double_val.ninf
  | double_val.ninf, double_val.pinf => double_val.ninf
  | double_val.pinf, double_val.fin b => double_val.scale_inf true true b
  | double_val.ninf, double_val.fin b => double_val.scale_inf false true b
  | double_val.fin a, double_val.pinf => double_val.scale_inf true true a
  | double_val.fin a, double_val.ninf => double_val.scale_inf false true a

/-- Division (IEEE 754): a non-zero value over zero is an infinity, zero over zero
and an infinity over an infinity are NaN, a finite value over an infinity is zero. -/
def double_val.div : double_val → double_val → double_val
  | double_val.nan, _ => double_val.nan
  | _, double_val.nan => double_val.nan
  | double_val.fin a, double_val.fin b =>
    if b = 0 then
      if a = 0 then double_val.nan
      else if 0 < a then double_val.pinf else double_val.ninf
    else double_val.fin (a / b)
  | double_val.fin _, double_val.pinf => double_val.fin 0
  | double_val.fin _, double_val.ninf => double_val.fin 0
  | double_val.pinf, double_val.fin b => double_val.scale_inf true false b
  | double_val.ninf, double_val.fin b => double_val.scale_inf false false b
  | double_val.pinf, _ => double_val.nan
  | double_val.ninf, _ => double_val.nan

/-- The comparison `a < b`: false when either side is NaN. -/
def double_val.lt : double_val → double_val → Bool
  | double_val.nan, _ => false
  | _, double_val.nan => false
  | double_val.fin a, double_val.fin b => decide (a < b)
  | double_val.fin _, double_val.pinf => true
  | double_val.fin _, double_val.ninf => false
  | double_val.pinf, _ => false
  | double_val.ninf, double_val.ninf => false
  | double_val.ninf, _ => true

/-- The comparison `a <= b`: false when either side is NaN. -/
def double_val.le : double_val → double_val → Bool
  | double_val.nan, _ => false
  | _, double_val.nan => false
  | double_val.fin a, double_val.fin b => decide (a ≤ b)
  | double_val.fin _, double_val.pinf => true
  | double_val.fin _, double_val.ninf => false
  | double_val.pinf, double_val.pinf => true
  | double_val.pinf, _ => false
  | double_val.ninf, _ => true

instance : Add double_val := ⟨double_val.add⟩
instance : Sub double_val := ⟨double_val.sub⟩
instance : Mul double_val := ⟨double_val.mul⟩
instance : Div double_val := ⟨double_val.div⟩

/-! ## Arithmetic of the type `float` (IEEE 754 binary32) -/

/-- A value of the C type `float`: a finite number `(-1) ^ sign * m * 2 ^ e` (a zero
of either sign when `m = 0`), an infinity with its sign, or NaN. Several pairs
`(m, e)` denote the same finite number; the comparison is that of the numbers
denoted. -/
inductive float32 where
  | finite (sign : Bool) (m : Nat) (e : Int)
  | inf (sign : Bool)
  | nan
  deriving DecidableEq

/-- Rounding to `float` of the exact value `(-1) ^ sign * (n / d) * 2 ^ sh`, for
`d > 0`, in the default rounding mode: to the nearest number with 24 significant
bits and an exponent of at least -149 (below the normal range the spacing stays
`2 ^ -149`), a tie going to the even mantissa, and to an infinity from `2 ^ 128`
on. -/
def float32.round (sign : Bool) (n d : Nat) (sh : Int) : float32 :=
  if n = 0 then float32.finite sign 0 0
  else
    let t1 : Int := 23 - ((floor_log2 n : Int) - (floor_log2 d : Int))
    let t : Int :=
      if n * 2 ^ t1.toNat < 2 ^ 23 * (d * 2 ^ (-t1).toNat) then t1 + 1 else t1
    let e : Int := max (sh - t) (-149)
    let m : Nat := round_half_even (n * 2 ^ (sh - e).toNat) (d * 2 ^ (e - sh).toNat)
    if 104 ≤ e ∧ 2 ^ 24 ≤ m * 2 ^ (e - 104).toNat then float32.inf sign
    else float32.finite sign m e

/-- The integer `(-1) ^ sign * m * 2 ^ (e - base)`, for `base ≤ e`. -/
def float32.scaled (sign : Bool) (m : Nat) (e base : Int) : Int :=
  (if sign then -1 else 1) * ((m : Int) * 2 ^ (e - base).toNat)

/-- The unary minus of `float`. -/
def float32.neg : float32 → float32
  | float32.finite s m e => float32.finite (!s) m e
  | float32.inf s => float32.inf (!s)
  | float32.nan => float32.nan

/-- The operator `+` of `float`: the exact sum, rounded. A sum that is exactly zero
is `-0` when both terms are negative zeros and `+0` otherwise; the sum of two
infinities of opposite signs is NaN. -/
def float32.add : float32 → float32 → float32
  | float32.nan, _ => float32.nan
  | _, float32.nan => float32.nan
  | float32.inf s1, float32.inf s2 => if s1 = s2 then float32.inf s1 else float32.nan
  | float32.inf s1, float32.finite _ _ _ => float32.inf s1
  | float32.finite _ _ _, float32.inf s2 => float32.inf s2
  | float32.finite s1 m1 e1, float32.finite s2 m2 e2 =>
    let sum : Int :=
      float32.scaled s1 m1 e1 (min e1 e2) + float32.scaled s2 m2 e2 (min e1 e2)
    if sum = 0 then float32.finite (s1 && s2) 0 0
    else float32.round (decide (sum < 0)) sum.natAbs 1 (min e1 e2)

/-- The operator `-` of `float`. -/
def float32.sub (x y : float32) : float32 := float32.add x (float32.neg y)

/-- The operator `*` of `float`: the exact product, rounded; zero times an infinity
is NaN. -/
def float32.mul : float32 → float32 → float32
  | float32.nan, _ => float32.nan
  | _, float32.nan => float32.nan
  | float32.inf s1, float32.inf s2 => float32.inf (xor s1 s2)
  | float32.inf s1, float32.finite s2 m2 _ =>
    if m2 = 0 then float32.nan else float32.inf (xor s1 s2)
  | float32.finite s1 m1 _, float32.inf s2 =>
    if m1 = 0 then float32.nan else float32.inf (xor s1 s2)
  | float32.finite s1 m1 e1, float32.finite s2 m2 e2 =>
    float32.round (xor s1 s2) (m1 * m2) 1 (e1 + e2)

/-- The operator `/` of `float`: the exact quotient, rounded; a non-zero number over
zero is an infinity, and zero over zero and an infinity over an infinity are NaN. -/
def float32.div : float32 → float32 → float32
  | float32.nan, _ => float32.nan
  | _, float32.nan => float32.nan
  | float32.inf _, float32.inf _ => float32.nan
  | float32.inf s1, float32.finite s2 _ _ => float32.inf (xor s1 s2)
  | float32.finite s1 _ _, float32.inf s2 => float32.finite (xor s1 s2) 0 0
  | float32.finite s1 m1 e1, float32.finite s2 m2 e2 =>
    if m2 = 0 then
      if m1 = 0 then float32.nan else float32.inf (xor s1 s2)
    else float32.round (xor s1 s2) m1 m2 (e1 - e2)

/-- The operator `<` of `float`: false when an operand is NaN; the two zeros are
equal. -/
def float32.lt : float32 → float32 → Bool
  | float32.nan, _ => false
  | _, float32.nan => false
  | float32.inf s1, float32.inf s2 => s1 && !s2
  | float32.inf s1, float32.finite _ _ _ => s1
  | float32.finite _ _ _, float32.inf s2 => !s2
  | float32.finite s1 m1 e1, float32.finite s2 m2 e2 =>
    decide (float32.scaled s1 m1 e1 (min e1 e2) < float32.scaled s2 m2 e2 (min e1 e2))

/-- The arithmetic of a floating-point type with values `F`: the operators `-`, `*`,
`/` and `<`, which is what the swallowing interaction uses of it. -/
structure float_arith (F : Type) where
  sub : F → F → F
  mul : F → F → F
  div : F → F → F
  lt : F → F → Bool

/-- The arithmetic of the C type `float`, every operation rounded to binary32
(`FLT_EVAL_METHOD` 0). -/
def binary32 : float_arith float32 :=
  { sub := float32.sub, mul := float32.mul, div := float32.div, lt := float32.lt }

/-! ## Black-hole swallowing (`black_holes/EAGLE/black_holes_iact.h`) -/

/-- The fields of `struct bpart` that the swallowing interaction reads, `F` being
the values of their floating-point type; `id` is a `long long`. -/
structure bpart (F : Type) where
  id : Int
  mass : F
  subgrid_mass : F
  rho_gas : F

/-- The field `black_holes_data` of a gas particle. -/
structure black_holes_part_data where
  swallow_id : Int
  deriving DecidableEq

/-- The fields of `struct part` that the swallowing interaction reads or writes. -/
structure part where
  id : Int
  black_holes_data : black_holes_part_data
  deriving DecidableEq

/-- The value of the local `prob` of `runner_iact_nonsym_bh_swallow`:
`(bi->subgrid_mass - bi->mass) * hi_inv_dim * wi / bi->rho_gas`, each operation being
that of the arithmetic `fa`. -/
def swallow_prob {F : Type} (fa : float_arith F) (wi hi_inv_dim : F) (bi : bpart F) : F :=
  fa.div (fa.mul (fa.mul (fa.sub bi.subgrid_mass bi.mass) hi_inv_dim) wi) bi.rho_gas

/-- The function `runner_iact_nonsym_bh_swallow`, over the floating-point arithmetic
`fa`. `wi` is the kernel value that `kernel_eval` returns, `hi_inv_dim` the value of
`pow_dimension(hi_inv)` and `rand` the draw of `random_unit_interval`; the calls of
`message` only print. The test `bi->subgrid_mass > bi->mass` is `bi->mass <
bi->subgrid_mass`. The gas particle after the call is returned. -/
def runner_iact_nonsym_bh_swallow {F : Type} (fa : float_arith F) (wi hi_inv_dim rand : F)
    (bi : bpart F) (pj : part) : part :=
  if fa.lt bi.mass bi.subgrid_mass = true then
    if fa.lt rand (swallow_prob fa wi hi_inv_dim bi) = true then
      if pj.black_holes_data.swallow_id < bi.id then
        { pj with black_holes_data := { swallow_id := bi.id } }
      else pj
    else pj
  else pj

/-- The black hole is hungry and the draw is below the swallow probability, as the
code computes them. -/
def wants_to_swallow {F : Type} (fa : float_arith F) (wi hi_inv_dim rand : F)
    (bi : bpart F) : Prop :=
  fa.lt bi.mass bi.subgrid_mass = true ∧
    fa.lt rand (swallow_prob fa wi hi_inv_dim bi) = true

instance {F : Type} (fa : float_arith F) (wi hi_inv_dim rand : F) (bi : bpart F) :
    Decidable (wants_to_swallow fa wi hi_inv_dim rand bi) := by
  unfold wants_to_swallow; infer_instance

/-- One swallowing interaction of a gas particle: the black hole and the three
values the interaction computes or draws. -/
structure bh_encounter (F : Type) where
  wi : F
  hi_inv_dim : F
  rand : F
  bi : bpart F

/-- A sequence of swallowing interactions on one gas particle, in order. -/
def swallow_all {F : Type} (fa : float_arith F) (pj : part) (l : List (bh_encounter F)) :
    part :=
  l.foldl (fun p e => runner_iact_nonsym_bh_swallow fa e.wi e.hi_inv_dim e.rand e.bi p) pj

/-- The ids of the black holes of a sequence of interactions that wanted to swallow
the particle. -/
def wanting_ids {F : Type} (fa : float_arith F) (l : List (bh_encounter F)) : List Int :=
  (l.filter fun e => decide (wants_to_swallow fa e.wi e.hi_inv_dim e.rand e.bi)).map
    fun e => e.bi.id

/-! ## Multipole addition (`multipole.h`) -/

/-- The type `struct multipole`. The moments, of type `float`, are rationals,
rounding left aside; the bulk velocities `vel[0..2]` are rationals, an infinity or
NaN, which the division by a total mass of zero gives. The terms of order `n` are
fields of the C type when `SELF_GRAVITY_MULTIPOLE_ORDER` is at least `n`, and
`num_gpart` when `SWIFT_DEBUG_CHECKS` is defined. -/
structure multipole where
  vel_0 : double_val
  vel_1 : double_val
  vel_2 : double_val
  M_000 : ℚ
  M_100 : ℚ
  M_010 : ℚ
  M_001 : ℚ
  M_200 : ℚ
  M_020 : ℚ
  M_002 : ℚ
  M_110 : ℚ
  M_101 : ℚ
  M_011 : ℚ
  M_300 : ℚ
  M_030 : ℚ
  M_003 : ℚ
  M_210 : ℚ
  M_201 : ℚ
  M_120 : ℚ
  M_021 : ℚ
  M_102 : ℚ
  M_012 : ℚ
  M_111 : ℚ
  M_400 : ℚ
  M_040 : ℚ
  M_004 : ℚ
  M_310 : ℚ
  M_301 : ℚ
  M_130 : ℚ
  M_031 : ℚ
  M_103 : ℚ
  M_013 : ℚ
  M_220 : ℚ
  M_202 : ℚ
  M_022 : ℚ
  M_211 : ℚ
  M_121 : ℚ
  M_112 : ℚ
  num_gpart : Int

/-- The first statements of `gravity_multipole_add`: the bulk velocities and the
0th order term. For a total mass of zero the quotient `1.f / M_000` is an infinity,
and the bulk velocities are then an infinity or NaN. -/
def multipole_add_bulk (ma mb : multipole) : multipole :=
  let M_000 := ma.M_000 + mb.M_000
  let inv_M_000 := double_val.fin 1 / double_val.fin M_000
  { ma with
    vel_0 := (ma.vel_0 * double_val.fin ma.M_000 + mb.vel_0 * double_val.fin mb.M_000)
      * inv_M_000
    vel_1 := (ma.vel_1 * double_val.fin ma.M_000 + mb.vel_1 * double_val.fin mb.M_000)
      * inv_M_000
    vel_2 := (ma.vel_2 * double_val.fin ma.M_000 + mb.vel_2 * double_val.fin mb.M_000)
      * inv_M_000
    M_000 := M_000 }

/-- The block "Add 1st order terms" of `gravity_multipole_add`. -/
def multipole_add_order_1 (ma mb : multipole) : multipole :=
  { ma with
    M_100 := ma.M_100 + mb.M_100
    M_010 := ma.M_010 + mb.M_010
    M_001 := ma.M_001 + mb.M_001 }

/-- The block "Add 2nd order terms" of `gravity_multipole_add`. -/
def multipole_add_order_2 (ma mb : multipole) : multipole :=
  { ma with
    M_200 := ma.M_200 + mb.M_200
    M_020 := ma.M_020 + mb.M_020
    M_002 := ma.M_002 + mb.M_002
    M_110 := ma.M_110 + mb.M_110
    M_101 := ma.M_101 + mb.M_101
    M_011 := ma.M_011 + mb.M_011 }

/-- The block "Add 3rd order terms" of `gravity_multipole_add`. -/
def multipole_add_order_3 (ma mb : multipole) : multipole :=
  { ma with
    M_300 := ma.M_300 + mb.M_300
    M_030 := ma.M_030 + mb.M_030
    M_003 := ma.M_003 + mb.M_003
    M_210 := ma.M_210 + mb.M_210
    M_201 := ma.M_201 + mb.M_201
    M_120 := ma.M_120 + mb.M_120
    M_021 := ma.M_021 + mb.M_021
    M_102 := ma.M_102 + mb.M_102
    M_012 := ma.M_012 + mb.M_012
    M_111 := ma.M_111 + mb.M_111 }

/-- The block "Add 4th order terms" of `gravity_multipole_add`. -/
def multipole_add_order_4 (ma mb : multipole) : multipole :=
  { ma with
    M_400 := ma.M_400 + mb.M_400
    M_040 := ma.M_040 + mb.M_040
    M_004 := ma.M_004 + mb.M_004
    M_310 := ma.M_310 + mb.M_310
    M_301 := ma.M_301 + mb.M_301
    M_130 := ma.M_130 + mb.M_130
    M_031 := ma.M_031 + mb.M_031
    M_103 := ma.M_103 + mb.M_103
    M_013 := ma.M_013 + mb.M_013
    M_220 := ma.M_220 + mb.M_220
    M_202 := ma.M_202 + mb.M_202
    M_022 := ma.M_022 + mb.M_022
    M_211 := ma.M_211 + mb.M_211
    M_121 := ma.M_121 + mb.M_121
    M_112 := ma.M_112 + mb.M_112 }

/-- The three assignments after the comment `// MATTHIEU` at the end of
`gravity_multipole_add`. -/
def multipole_clear_order_1 (ma : multipole) : multipole :=
  { ma with M_100 := 0, M_010 := 0, M_001 := 0 }

/-- The statement `ma->num_gpart += mb->num_gpart;` of the debugging build. -/
def multipole_add_num_gpart (ma mb : multipole) : multipole :=
  { ma with num_gpart := ma.num_gpart + mb.num_gpart }

/-- The function `gravity_multipole_add`, block by block in the order of the source;
the result is `ma` after the call. `order` is `SELF_GRAVITY_MULTIPOLE_ORDER` and
`debug` says whether `SWIFT_DEBUG_CHECKS` is defined. -/
def gravity_multipole_add (order : Nat) (debug : Bool) (ma mb : multipole) : multipole :=
  let ma := multipole_add_bulk ma mb
  let ma := if order > 0 then multipole_add_order_1 ma mb else ma
  let ma := if order > 1 then multipole_add_order_2 ma mb else ma
  let ma := if order > 2 then multipole_add_order_3 ma mb else ma
  let ma := if order > 3 then multipole_add_order_4 ma mb else ma
  let ma := multipole_clear_order_1 ma
  if debug = true then multipole_add_num_gpart ma mb else ma

/-- The multipole with every term, the velocity and the particle count zero. -/
def multipole_zero : multipole :=
  { vel_0 := double_val.fin 0, vel_1 := double_val.fin 0, vel_2 := double_val.fin 0,
    M_000 := 0,
    M_100 := 0, M_010 := 0, M_001 := 0, M_200 := 0, M_020 := 0, M_002 := 0, M_110 := 0,
    M_101 := 0, M_011 := 0, M_300 := 0, M_030 := 0, M_003 := 0, M_210 := 0, M_201 := 0,
    M_120 := 0, M_021 := 0, M_102 := 0, M_012 := 0, M_111 := 0, M_400 := 0, M_040 := 0,
    M_004 := 0, M_310 := 0, M_301 := 0, M_130 := 0, M_031 := 0, M_103 := 0, M_013 := 0,
    M_220 := 0, M_202 := 0, M_022 := 0, M_211 := 0, M_121 := 0, M_112 := 0,
    num_gpart := 0 }

/-- A multipole of mass 1 with first-order term `M_100 = 1`. -/
def sample_multipole_a : multipole := { multipole_zero with M_000 := 1, M_100 := 1 }

/-- A multipole of mass 1 with first-order term `M_100 = 2`. -/
def sample_multipole_b : multipole := { multipole_zero with M_000 := 1, M_100 := 2 }

/-! ## Code-level sizes of the overlap metric -/

/-- The variable `size_union` of a branch of `task_overlap` after the four
statements `if (p != NULL) size_union += p->count;`. -/
def size_union (count : cell → Nat) (ta tb : task) : Nat :=
  add_count count (add_count count (add_count count (add_count count 0 ta.ci) ta.cj)
    tb.ci) tb.cj

/-- The variable `size_intersect` of a branch of `task_overlap`: the sum, in
`size_t`, of the four calls of `task_cell_overlap_TYPE`. -/
def size_intersect (overlap : Option cell → Option cell → Nat) (ta tb : task) : Nat :=
  size_add (size_add (size_add (overlap ta.ci tb.ci) (overlap ta.ci tb.cj))
    (overlap ta.cj tb.ci)) (overlap ta.cj tb.cj)

/-- The `float` 1. -/
def float32_one : float32 := float32.finite false 1 0

/-- A black hole that is hungry, with id 7: the swallow probability for
`hi_inv_dim = 1` and `wi = 1` is the `float` quotient of 1 by 25, which is
10737418 / 2 ^ 28, just below 1 / 25. -/
def sample_bh_7 : bpart float32 :=
  { id := 7, mass := float32_one, subgrid_mass := float32.finite false 2 0,
    rho_gas := float32.finite false 25 0 }

/-- A black hole that is hungry, with id 3. -/
def sample_bh_3 : bpart float32 :=
  { id := 3, mass := float32_one, subgrid_mass := float32.finite false 2 0,
    rho_gas := float32_one }

/-- A gas particle that no black hole has flagged. -/
def sample_gas : part := { id := 100, black_holes_data := { swallow_id := -1 } }

/-! ## Vocabulary of the last claims on the overlap metric and on locking -/

/-- The domain a call of a lock primitive is about. -/
def event_domain (e : Event) : Domain :=
  match e with
  | Event.trylock d _ _ => d
  | Event.unlock d _ => d

/-- Two regions that may be absent carry the same data of particle kind `k`: both
are absent, or both are present with the same count and the same index range. -/
def same_kind_data (k : part_kind) (x y : Option cell) : Prop :=
  match x, y with
  | none, none => True
  | some a, some b => kind_count k a = kind_count k b ∧ kind_parts k a = kind_parts k b
  | _, _ => False

instance (k : part_kind) (x y : Option cell) : Decidable (same_kind_data k x y) := by
  unfold same_kind_data; cases x <;> cases y <;> infer_instance

/-- Two tasks whose regions carry the same data of particle kind `k`. -/
def same_kind_regions (k : part_kind) (t t2 : task) : Prop :=
  same_kind_data k t.ci t2.ci ∧ same_kind_data k t.cj t2.cj

instance (k : part_kind) (t t2 : task) : Decidable (same_kind_regions k t t2) := by
  unfold same_kind_regions; infer_instance

/-- Both actions include the particle kind. -/
def both_act_on (a b : task_actions) (k : part_kind) : Prop :=
  acts_on_kind a k = true ∧ acts_on_kind b k = true

instance (a b : task_actions) (k : part_kind) : Decidable (both_act_on a b k) := by
  unfold both_act_on; infer_instance

/-- The branch of `task_overlap` for the particle kind `k`. -/
def kind_branch (k : part_kind) (ta tb : task) : float_val :=
  overlap_branch (kind_count k) (task_cell_overlap (kind_parts k) (kind_count k)) ta tb

/-- The kinds that have no case in `task_lock`, send and recv apart: none,
extra_ghost, cooling, init_grav, stars_ghost and the in/out marker kinds. -/
def lockless_kind (k : task_types) : Prop :=
  k = task_type_none ∨ k = task_type_extra_ghost ∨ k = task_type_cooling ∨
  k = task_type_init_grav ∨ k = task_type_stars_ghost ∨ k = task_type_init_grav_out ∨
  k = task_type_ghost_in ∨ k = task_type_ghost_out ∨ k = task_type_drift_gpart_out ∨
  k = task_type_grav_down_in ∨ k = task_type_stars_ghost_in ∨
  k = task_type_stars_ghost_out

instance (k : task_types) : Decidable (lockless_kind k) := by
  unfold lockless_kind; infer_instance

/-- The sub-kinds of an interaction task other than grav, stars_density and
stars_feedback: the ones `task_lock` treats as gas. -/
def gas_locked_subtype (s : task_subtypes) : Prop :=
  s ≠ task_subtype_grav ∧ s ≠ task_subtype_stars_density ∧
    s ≠ task_subtype_stars_feedback

instance (s : task_subtypes) : Decidable (gas_locked_subtype s) := by
  unfold gas_locked_subtype; infer_instance

/-- A cell all of whose hold flags are set. -/
def sample_cell_A_held : cell :=
  { loc := [0], hydro := ⟨10, 0, true⟩, grav := ⟨5, 0, true, true⟩,
    stars := ⟨3, 0, true⟩ }

/-- A self task with sub-kind external_grav on a cell whose multipole hold flag is
set. -/
def sample_self_external_grav : task :=
  sample_task task_type_self task_subtype_external_grav (some sample_cell_A_mhold) none

/-- An extra_ghost task on a cell all of whose hold flags are set. -/
def sample_extra_ghost : task :=
  sample_task task_type_extra_ghost task_subtype_none (some sample_cell_A_held) none

/-- The state reached from `sample_mem` by a granted task that locks the gas of the
cell at position [0] and nothing else. -/
def sample_mem_self_gas : Mem :=
  { locks := {(Domain.hydro, [0])}, trace := [Event.trylock Domain.hydro [0] true] }

/-! ## Task names (`task.c`) -/

/-- The table `taskID_names`: the name of each task kind. -/
def taskID_names : List String :=
  ["none", "sort", "self", "pair", "sub_self", "sub_pair", "init_grav", "init_grav_out",
    "ghost_in", "ghost", "ghost_out", "extra_ghost", "drift_part", "drift_gpart",
    "drift_gpart_out", "end_force", "kick1", "kick2", "timestep", "timestep_limiter",
    "send", "recv", "grav_long_range", "grav_mm", "grav_down_in", "grav_down", "grav_mesh",
    "cooling", "star_formation", "logger", "stars_ghost_in", "stars_ghost",
    "stars_ghost_out", "stars_sort"]

/-- The table `subtaskID_names`: the name of each task sub-kind. -/
def subtaskID_names : List String :=
  ["none", "density", "gradient", "force", "limiter", "grav", "external_grav", "tend",
    "xv", "rho", "gpart", "multipole", "spart", "stars_density", "stars_feedback"]

/-- Reading entry `i` of a table of names; reading past its end is a memory fault. -/
def name_at (table : List String) (i : Nat) : Except Err String :=
  match table[i]? with
  | some s => Except.ok s
  | none => Except.error Err.segv

/-- The function `task_get_group_name` of `task.c`: the string it copies into
`cluster`. -/
def task_get_group_name (type subtype : Nat) : String :=
  if type = task_type_grav_long_range ∨ type = task_type_grav_mm ∨
      type = task_type_grav_mesh then
    "Gravity"
  else if subtype = task_subtype_density then "Density"
  else if subtype = task_subtype_gradient then "Gradient"
  else if subtype = task_subtype_force then "Force"
  else if subtype = task_subtype_grav then "Gravity"
  else if subtype = task_subtype_limiter then "Timestep_limiter"
  else if subtype = task_subtype_stars_density then "Stars"
  else "None"

/-- The function `task_get_full_name` of `task.c`: the string it prints into `name`.
`debug` says whether `SWIFT_DEBUG_CHECKS` is defined. -/
def task_get_full_name (debug : Bool) (type subtype : Nat) : Except Err String :=
  if debug = true ∧ type ≥ task_type_count then error "Unknown task type"
  else if debug = true ∧ subtype ≥ task_subtype_count then error "Unknown task subtype"
  else if subtype = task_subtype_none then
    name_at taskID_names type
  else
    (name_at taskID_names type).bind fun tn =>
    (name_at subtaskID_names subtype).bind fun sn =>
      Except.ok (tn ++ "_" ++ sn)

/-- A valid (kind, sub-kind) pair: both below the counts of their enumerations. -/
def valid_pair (p : Nat × Nat) : Prop :=
  p.1 < task_type_count ∧ p.2 < task_subtype_count

instance (p : Nat × Nat) : Decidable (valid_pair p) := by
  unfold valid_pair; infer_instance

/-- The characters of the name of kind `k`. -/
def kind_chars (k : Nat) : List Char := (taskID_names.getD k "").data

/-- The characters that `task_get_full_name` prints after the name of the kind:
nothing for the sub-kind none, otherwise an underscore and the name of the sub-kind. -/
def suffix_chars (s : Nat) : List Char :=
  if s = task_subtype_none then [] else '_' :: (subtaskID_names.getD s "").data

/-- Two (kind, sub-kind) pairs are the same, or are the two pairs (timestep, limiter)
and (timestep_limiter, none). -/
def same_or_timestep_limiter (p q : Nat × Nat) : Prop :=
  p = q ∨
  (p = (task_type_timestep, task_subtype_limiter) ∧
    q = (task_type_timestep_limiter, task_subtype_none)) ∨
  (p = (task_type_timestep_limiter, task_subtype_none) ∧
    q = (task_type_timestep, task_subtype_limiter))

instance (p q : Nat × Nat) : Decidable (same_or_timestep_limiter p q) := by
  unfold same_or_timestep_limiter; infer_instance

/-- The pairs of different kinds the name of the first of which is the beginning of
the name of the second: ghost and ghost_in, ghost and ghost_out, init_grav and
init_grav_out, drift_gpart and drift_gpart_out, timestep and timestep_limiter,
grav_down and grav_down_in, stars_ghost and stars_ghost_in, stars_ghost and
stars_ghost_out. -/
def prefix_pairs : List (Nat × Nat) :=
  [(task_type_ghost, task_type_ghost_in), (task_type_ghost, task_type_ghost_out),
    (task_type_init_grav, task_type_init_grav_out),
    (task_type_drift_gpart, task_type_drift_gpart_out),
    (task_type_timestep, task_type_timestep_limiter),
    (task_type_grav_down, task_type_grav_down_in),
    (task_type_stars_ghost, task_type_stars_ghost_in),
    (task_type_stars_ghost, task_type_stars_ghost_out)]

/-- Comparison of the names of the kinds: a name begins another only for the same
kind or for a pair of `prefix_pairs`. -/
def kinds_checked : Bool :=
  (List.range task_type_count).all fun k => (List.range task_type_count).all fun k2 =>
    decide (kind_chars k <+: kind_chars k2 → k = k2 ∨ (k, k2) ∈ prefix_pairs)

/-- Comparison of what is printed after the kind: different for different
sub-kinds. -/
def suffixes_checked : Bool :=
  (List.range task_subtype_count).all fun s =>
    (List.range task_subtype_count).all fun s2 =>
      decide (suffix_chars s = suffix_chars s2 → s = s2)

/-- Comparison of the printed names for the pairs of `prefix_pairs`: equal only for
timestep with limiter against timestep_limiter with none. -/
def cross_checked : Bool :=
  prefix_pairs.all fun p =>
    (List.range task_subtype_count).all fun s =>
      (List.range task_subtype_count).all fun s2 =>
        decide (kind_chars p.1 ++ suffix_chars s = kind_chars p.2 ++ suffix_chars s2 →
          p.1 = task_type_timestep ∧ s = task_subtype_limiter ∧
            p.2 = task_type_timestep_limiter ∧ s2 = task_subtype_none)

/-! ## Black-hole feedback (`black_holes/EAGLE/black_holes.h`) -/

/-- The macro `min` of `minmax.h`: `_a < _b ? _a : _b`. -/
def double_min (a b : double_val) : double_val := if double_val.lt a b = true then a else b

/-- The macro `max` of `minmax.h`: `_a > _b ? _a : _b`. -/
def double_max (a b : double_val) : double_val := if double_val.lt b a = true then a else b

/-- The constant `M_PI` of `math.h`, as the `double` it is. -/
def M_PI : ℚ := 884279719003555 / 281474976710656

/-- The fields of `struct black_holes_props` that `black_holes_prepare_feedback`
reads. -/
structure black_holes_props where
  f_Edd : double_val
  epsilon_r : double_val
  epsilon_f : double_val
  num_ngbs_to_heat : double_val
  AGN_delta_T_desired : double_val
  temp_to_u_factor : double_val

/-- The fields of `struct phys_const` that `black_holes_prepare_feedback` reads. -/
structure phys_const where
  const_newton_G : double_val
  const_speed_light_c : double_val
  const_proton_mass : double_val
  const_thomson_cross_section : double_val

/-- The field `to_distribute` of a black hole. -/
structure bpart_to_distribute where
  AGN_heating_probability : double_val
  AGN_delta_u : double_val

/-- The fields of `struct bpart` that `black_holes_prepare_feedback` reads or
writes. -/
structure bpart_accretion where
  subgrid_mass : double_val
  accretion_rate : double_val
  total_accreted_mass : double_val
  energy_reservoir : double_val
  ngb_mass : double_val
  num_ngbs : Int
  to_distribute : bpart_to_distribute

/-- The first part of `black_holes_prepare_feedback`, up to and including "Integrate
forward in time": the black hole after the accretion rate is limited and the masses
and the energy reservoir are integrated. The call of `printf` only prints. -/
def black_holes_accrete (bp : bpart_accretion) (props : black_holes_props)
    (constants : phys_const) (dt : double_val) : bpart_accretion :=
  let G := constants.const_newton_G
  let c := constants.const_speed_light_c
  let proton_mass := constants.const_proton_mass
  let sigma_Thomson := constants.const_thomson_cross_section
  let f_Edd := props.f_Edd
  let epsilon_r := props.epsilon_r
  let epsilon_f := props.epsilon_f
  let BH_mass := bp.subgrid_mass
  let Eddington_rate :=
    double_val.fin 4 * double_val.fin M_PI * G * BH_mass * proton_mass /
      (epsilon_r * c * sigma_Thomson)
  let accretion_rate :=
    bp.accretion_rate * (double_val.fin 4 * double_val.fin M_PI * G * G * BH_mass * BH_mass)
  let accretion_rate := double_min accretion_rate (f_Edd * Eddington_rate)
  let accr_rate := accretion_rate
  let mass_rate := (double_val.fin 1 - epsilon_r) * accr_rate
  let luminosity := epsilon_r * accr_rate * c * c
  { bp with
    accretion_rate := accretion_rate
    subgrid_mass := bp.subgrid_mass + mass_rate * dt
    total_accreted_mass := bp.total_accreted_mass + mass_rate * dt
    energy_reservoir := bp.energy_reservoir + luminosity * epsilon_f * dt }

/-- The value `E_feedback_event` of `black_holes_prepare_feedback`: the energy
required to have a feedback event. -/
def E_feedback_event (bp : bpart_accretion) (props : black_holes_props) : double_val :=
  let delta_u := props.AGN_delta_T_desired * props.temp_to_u_factor
  let mean_ngb_mass := bp.ngb_mass / double_val.fin (bp.num_ngbs : ℚ)
  props.num_ngbs_to_heat * delta_u * mean_ngb_mass

/-- The function `black_holes_prepare_feedback`: the black hole after the call. -/
def black_holes_prepare_feedback (bp : bpart_accretion) (props : black_holes_props)
    (constants : phys_const) (dt : double_val) : bpart_accretion :=
  let delta_u := props.AGN_delta_T_desired * props.temp_to_u_factor
  let bp := black_holes_accrete bp props constants dt
  if double_val.lt (E_feedback_event bp props) bp.energy_reservoir = true then
    let target_prob := bp.energy_reservoir / (delta_u * bp.ngb_mass)
    let prob := if double_val.le target_prob (double_val.fin 1) = true then target_prob
      else double_val.fin 1
    let gas_delta_u := if double_val.le target_prob (double_val.fin 1) = true then delta_u
      else bp.energy_reservoir / bp.ngb_mass
    let energy_used := bp.energy_reservoir / double_max prob (double_val.fin 1)
    { bp with
      to_distribute := { AGN_heating_probability := prob, AGN_delta_u := gas_delta_u }
      energy_reservoir := bp.energy_reservoir - energy_used }
  else
    { bp with
      to_distribute := { AGN_heating_probability := double_val.fin 0,
                         AGN_delta_u := double_val.fin 0 } }

/-- A feedback event is triggered: the integrated energy reservoir is above the
energy of an event. -/
def feedback_triggered (bp : bpart_accretion) (props : black_holes_props)
    (constants : phys_const) (dt : double_val) : Prop :=
  double_val.lt (E_feedback_event (black_holes_accrete bp props constants dt) props)
    (black_holes_accrete bp props constants dt).energy_reservoir = true

instance (bp : bpart_accretion) (props : black_holes_props) (constants : phys_const)
    (dt : double_val) : Decidable (feedback_triggered bp props constants dt) := by
  unfold feedback_triggered; infer_instance

/-- Model parameters all equal to 1. -/
def sample_props : black_holes_props :=
  { f_Edd := double_val.fin 1, epsilon_r := double_val.fin 1, epsilon_f := double_val.fin 1,
    num_ngbs_to_heat := double_val.fin 1, AGN_delta_T_desired := double_val.fin 1,
    temp_to_u_factor := double_val.fin 1 }

/-- Physical constants all equal to 1. -/
def sample_constants : phys_const :=
  { const_newton_G := double_val.fin 1, const_speed_light_c := double_val.fin 1,
    const_proton_mass := double_val.fin 1, const_thomson_cross_section := double_val.fin 1 }

/-- A black hole that does not accrete, with one neighbour of mass 1 and an energy
reservoir that has overflowed to `+inf`. -/
def sample_bh_overflowed : bpart_accretion :=
  { subgrid_mass := double_val.fin 1, accretion_rate := double_val.fin 0,
    total_accreted_mass := double_val.fin 0, energy_reservoir := double_val.pinf,
    ngb_mass := double_val.fin 1, num_ngbs := 1,
    to_distribute := { AGN_heating_probability := double_val.fin 0,
                       AGN_delta_u := double_val.fin 0 } }

/-- A black hole that does not accrete, with one neighbour of mass 1 and an energy
reservoir of 3. -/
def sample_bh_full : bpart_accretion :=
  { subgrid_mass := double_val.fin 1, accretion_rate := double_val.fin 0,
    total_accreted_mass := double_val.fin 0, energy_reservoir := double_val.fin 3,
    ngb_mass := double_val.fin 1, num_ngbs := 1,
    to_distribute := { AGN_heating_probability := double_val.fin 0,
                       AGN_delta_u := double_val.fin 0 } }

/-! ## Lock primitives: basic facts -/

theorem not_mem_of_not_blocked {d : Domain} {c : cell} {L : Locks}
    (h : ¬ blocked d c L = true) : (d, c.loc) ∉ L := by
  intro hmem
  apply h
  have : chain_locked d c.loc L = true := by
    unfold chain_locked
    simp only [decide_eq_true_eq]
    exact ⟨(d, c.loc), hmem, rfl, Or.inl (List.prefix_refl _)⟩
  simp [blocked, this]

theorem trylock_fst (d : Domain) (c : cell) (m : Mem) :
    (cell_trylock d c m).1 = if blocked d c m.locks = true then 1 else 0 := by
  unfold cell_trylock; split_ifs <;> rfl

theorem trylock_locks (d : Domain) (c : cell) (m : Mem) :
    (cell_trylock d c m).2.locks =
      if blocked d c m.locks = true then m.locks else insert (d, c.loc) m.locks := by
  unfold cell_trylock; split_ifs <;> rfl

theorem unlock_locks (d : Domain) (c : cell) (m : Mem) :
    (cell_unlock d c m).locks = m.locks.erase (d, c.loc) := rfl

theorem rollback2 {x y : Domain × CellId} {L : Locks} (hx : x ∉ L) (hy : y ∉ insert x L) :
    ((insert y (insert x L)).erase x).erase y = L := by
  have hyL : y ∉ L := fun h => hy (by simp [h])
  ext z
  simp only [Finset.mem_erase, Finset.mem_insert]
  constructor
  · rintro ⟨h1, h2, h3 | h3 | h3⟩
    · exact absurd h3 h1
    · exact absurd h3 h2
    · exact h3
  · intro h
    exact ⟨fun e => hyL (e ▸ h), fun e => hx (e ▸ h), Or.inr (Or.inr h)⟩

theorem rollback3 {x y z : Domain × CellId} {L : Locks} (hx : x ∉ L) (hy : y ∉ insert x L)
    (hz : z ∉ insert y (insert x L)) :
    (((insert z (insert y (insert x L))).erase x).erase y).erase z = L := by
  have hyL : y ∉ L := fun h => hy (by simp [h])
  have hzL : z ∉ L := fun h => hz (by simp [h])
  ext w
  simp only [Finset.mem_erase, Finset.mem_insert]
  constructor
  · rintro ⟨h1, h2, h3, h4 | h4 | h4 | h4⟩
    · exact absurd h4 h1
    · exact absurd h4 h2
    · exact absurd h4 h3
    · exact h4
  · intro h
    exact ⟨fun e => hzL (e ▸ h), fun e => hyL (e ▸ h), fun e => hx (e ▸ h),
      Or.inr (Or.inr (Or.inr h))⟩

theorem some_of_ne_none {p : Option cell} (h : p ≠ none) : ∃ c, p = some c := by
  cases p with
  | none => exact absurd rfl h
  | some c => exact ⟨c, rfl⟩

/-! ## All-or-nothing acquisition on the lock set -/

theorem keys_cons (p : Domain × cell) (l : List (Domain × cell)) :
    keys (p :: l) = insert (p.1, p.2.loc) (keys l) := by
  simp [keys]

theorem acquire_some (l : List (Domain × cell)) :
    ∀ L L' : Locks, acquire L l = some L' →
      L' = L ∪ keys l ∧ ∀ p ∈ l, (p.1, p.2.loc) ∉ L ∧ hold_flag p.1 p.2 = false := by
  induction l with
  | nil =>
    intro L L' h
    simp only [acquire, Option.some.injEq] at h
    subst h
    simp [keys]
  | cons p rest ih =>
    intro L L' h
    simp only [acquire] at h
    by_cases hb : blocked p.1 p.2 L = true
    · simp [hb] at h
    · rw [if_neg hb] at h
      obtain ⟨hL, hrest⟩ := ih _ _ h
      have hp : (p.1, p.2.loc) ∉ L := not_mem_of_not_blocked hb
      have hh : hold_flag p.1 p.2 = false := by
        cases hf : hold_flag p.1 p.2 with
        | false => rfl
        | true => exact absurd (by simp [blocked, hf]) hb
      refine ⟨?_, ?_⟩
      · rw [hL, keys_cons]
        ext x
        simp only [Finset.mem_union, Finset.mem_insert]
        tauto
      · intro q hq
        rcases List.mem_cons.mp hq with rfl | hq
        · exact ⟨hp, hh⟩
        · refine ⟨fun hmem => (hrest q hq).1 (Finset.mem_insert_of_mem hmem), (hrest q hq).2⟩

theorem acquire_disjoint {l : List (Domain × cell)} {L L' : Locks}
    (h : acquire L l = some L') : Disjoint L (keys l) := by
  rw [Finset.disjoint_right]
  intro x hx
  simp only [keys, List.mem_toFinset, List.mem_map] at hx
  obtain ⟨p, hp, rfl⟩ := hx
  exact ((acquire_some l L L' h).2 p hp).1

theorem acquire_sdiff {l : List (Domain × cell)} {L L' : Locks}
    (h : acquire L l = some L') : L' \ L = keys l := by
  rw [(acquire_some l L L' h).1]
  exact Finset.union_sdiff_cancel_left (acquire_disjoint h)

/-! ## Release on the lock set -/

theorem release_locks (l : List (Domain × cell)) :
    ∀ m : Mem, (release m l).locks = m.locks \ keys l := by
  induction l with
  | nil => intro m; simp [release, keys]
  | cons p rest ih =>
    intro m
    have : release m (p :: rest) = release (cell_unlock p.1 p.2 m) rest := rfl
    rw [this, ih, unlock_locks, keys_cons]
    ext x
    simp only [Finset.mem_sdiff, Finset.mem_erase, Finset.mem_insert]
    tauto

theorem release_trace (l : List (Domain × cell)) :
    ∀ m : Mem, (release m l).trace =
      m.trace ++ l.map fun p => Event.unlock p.1 p.2.loc := by
  induction l with
  | nil => intro m; simp [release]
  | cons p rest ih =>
    intro m
    have : release m (p :: rest) = release (cell_unlock p.1 p.2 m) rest := rfl
    rw [this, ih]
    simp [cell_unlock]

theorem unlocked_keys_map (l : List (Domain × cell)) :
    unlocked_keys (l.map fun p => Event.unlock p.1 p.2.loc) = keys l := by
  induction l with
  | nil => simp [unlocked_keys, keys]
  | cons p rest ih =>
    simp only [unlocked_keys, keys] at ih ⊢
    simp only [List.map_cons, List.filterMap_cons, List.toFinset_cons, ih]

theorem ok_of_map_view {x : Except Err (Int × Mem)} {v : Int × Locks}
    (h : x.map view = Except.ok v) : ∃ r m', x = Except.ok (r, m') ∧ (r, m'.locks) = v := by
  cases x with
  | error e => simp [Except.map] at h
  | ok p =>
    obtain ⟨r, m'⟩ := p
    simp only [Except.map, view, Except.ok.injEq] at h
    exact ⟨r, m', rfl, h⟩

/-! ## The classifier: branch by branch -/

theorem acts_on_unlisted (t : task) (h : unlisted_kind t.type) :
    task_acts_on t = Except.error (Err.fatal "Unknown task_action for task") := by
  unfold unlisted_kind at h
  rcases h with h | h | h | h | h | h | h | h
  · simp [task_acts_on, h, error]
  · simp [task_acts_on, h, error]
  · simp [task_acts_on, h, error]
  · simp [task_acts_on, h, error]
  · simp [task_acts_on, h, error]
  · simp [task_acts_on, h, error]
  · simp [task_acts_on, h, error]
  · have h34 : (34 : Nat) ≤ t.type := h
    obtain ⟨n, hn⟩ : ∃ n : Nat, t.type = n + 34 := ⟨t.type - 34, (Nat.sub_add_cancel h34).symm⟩
    simp [task_acts_on, hn, error, task_type_none, task_type_drift_part, task_type_sort,
      task_type_ghost, task_type_extra_ghost, task_type_timestep_limiter, task_type_cooling,
      task_type_star_formation, task_type_stars_ghost, task_type_stars_sort, task_type_self,
      task_type_pair, task_type_sub_self, task_type_sub_pair, task_type_end_force,
      task_type_kick1, task_type_kick2, task_type_logger, task_type_timestep,
      task_type_send, task_type_recv, task_type_init_grav, task_type_grav_mm,
      task_type_grav_long_range, task_type_drift_gpart, task_type_grav_down,
      task_type_grav_mesh]

theorem acts_on_interaction (t : task) (h : interaction_kind t.type) :
    task_acts_on t =
      if classified_subtype t.subtype then
        if t.subtype = task_subtype_density ∨ t.subtype = task_subtype_gradient ∨
            t.subtype = task_subtype_force ∨ t.subtype = task_subtype_limiter then
          Except.ok task_action_part
        else if t.subtype = task_subtype_stars_density ∨
            t.subtype = task_subtype_stars_feedback then
          Except.ok task_action_all
        else Except.ok task_action_gpart
      else Except.error (Err.fatal "Unknow task_action for task") := by
  have hred : task_acts_on t =
      if t.subtype = task_subtype_density ∨ t.subtype = task_subtype_gradient ∨
          t.subtype = task_subtype_force ∨ t.subtype = task_subtype_limiter then
        Except.ok task_action_part
      else if t.subtype = task_subtype_stars_density ∨
          t.subtype = task_subtype_stars_feedback then
        Except.ok task_action_all
      else if t.subtype = task_subtype_grav ∨ t.subtype = task_subtype_external_grav then
        Except.ok task_action_gpart
      else Except.error (Err.fatal "Unknow task_action for task") := by
    unfold interaction_kind at h
    rcases h with h | h | h | h <;> simp [task_acts_on, h, error]
  rw [hred]
  unfold classified_subtype
  split_ifs <;> first | rfl | tauto

theorem acts_on_bookkeeping (t : task) (h : bookkeeping_kind t.type) :
    task_acts_on t =
      (deref t.ci).bind fun ci =>
        if ci.hydro.count > 0 ∧ ci.grav.count > 0 then Except.ok task_action_all
        else if ci.hydro.count > 0 then Except.ok task_action_part
        else if ci.grav.count > 0 then Except.ok task_action_gpart
        else Except.error (Err.fatal "Task without particles") := by
  unfold bookkeeping_kind at h
  rcases h with h | h | h | h | h | h | h <;> simp [task_acts_on, h, error]

theorem acts_on_other (t : task) (hu : ¬ unlisted_kind t.type)
    (hi : ¬ interaction_kind t.type) (hb : ¬ bookkeeping_kind t.type) :
    ∃ act, task_acts_on t = Except.ok act := by
  obtain ⟨k, s, ci, cj, req⟩ := t
  simp only [unlisted_kind, interaction_kind, bookkeeping_kind, not_or, not_le] at hu hi hb
  obtain ⟨_, _, _, _, _, _, _, hlt⟩ := hu
  unfold task_type_count at hlt
  interval_cases k <;> simp_all [task_acts_on]

/-! ## `task_lock` and `task_unlock` against the obligation list -/

/-- The return code and lock set of `task_lock` on a compute task are those of the
all-or-nothing acquisition of its obligation list. -/
theorem task_lock_view (wm : Bool) (t : task) (m : Mem) (hc : compute_task t)
    (hw : has_cells t) :
    (task_lock wm t m).map view = Except.ok (verdict m.locks (obligations t)) := by
  obtain ⟨hc1, hc2⟩ := hc
  obtain ⟨hwi, hwj⟩ := hw
  have h0 : ¬ (t.type = task_type_recv ∨ t.type = task_type_send) := by
    rintro (h | h)
    · exact hc2 h
    · exact hc1 h
  by_cases k1 : t.type = task_type_end_force ∨ t.type = task_type_kick1 ∨ t.type =
    task_type_kick2 ∨ t.type = task_type_logger ∨ t.type = task_type_timestep
  · obtain ⟨a, ha⟩ := some_of_ne_none (hwi (by rcases k1 with h | h | h | h | h <;> simp [h]))
    simp only [task_lock, obligations, if_neg h0, if_pos k1, ha, deref, Except.bind, on_cell,
      cell_glocktree, cell_gunlocktree, cell_locktree, cell_unlocktree, verdict, acquire,
      List.cons_append, List.nil_append, List.append_assoc]
    by_cases hh1 : a.hydro.hold = true
    · simp [hh1, blocked, hold_flag, Except.map, view]
    by_cases hh2 : a.grav.phold = true
    · simp [hh1, hh2, blocked, hold_flag, Except.map, view]
    by_cases b1 : blocked Domain.hydro a m.locks = true
    · simp [hh1, hh2, b1, trylock_fst, trylock_locks, unlock_locks, Except.map, view]
    by_cases b2 : blocked Domain.grav a (insert (Domain.hydro, a.loc) m.locks) = true
    · simp [hh1, hh2, b1, b2, trylock_fst, trylock_locks, unlock_locks, Except.map, view,
        Finset.erase_insert (not_mem_of_not_blocked b1)]
    · simp [hh1, hh2, b1, b2, trylock_fst, trylock_locks, unlock_locks, Except.map, view]
  by_cases k2 : t.type = task_type_drift_part ∨ t.type = task_type_sort ∨ t.type =
    task_type_ghost ∨ t.type = task_type_timestep_limiter
  · obtain ⟨a, ha⟩ := some_of_ne_none (hwi (by rcases k2 with h | h | h | h <;> simp [h]))
    simp only [task_lock, obligations, if_neg h0, if_neg k1, if_pos k2, ha, deref, Except.bind,
      on_cell, cell_locktree, cell_unlocktree, verdict, acquire, List.cons_append,
      List.nil_append, List.append_assoc]
    by_cases hh1 : a.hydro.hold = true
    · simp [hh1, blocked, hold_flag, Except.map, view]
    by_cases b1 : blocked Domain.hydro a m.locks = true
    · simp [hh1, b1, trylock_fst, trylock_locks, unlock_locks, Except.map, view]
    · simp [hh1, b1, trylock_fst, trylock_locks, unlock_locks, Except.map, view]
  by_cases k3 : t.type = task_type_stars_sort
  · obtain ⟨a, ha⟩ := some_of_ne_none (hwi (by simp [k3]))
    simp only [task_lock, obligations, if_neg h0, if_neg k1, if_neg k2, if_pos k3, ha, deref,
      Except.bind, on_cell, cell_slocktree, cell_sunlocktree, verdict, acquire, List.cons_append,
      List.nil_append, List.append_assoc]
    by_cases hh1 : a.stars.hold = true
    · simp [hh1, blocked, hold_flag, Except.map, view]
    by_cases b1 : blocked Domain.stars a m.locks = true
    · simp [hh1, b1, trylock_fst, trylock_locks, unlock_locks, Except.map, view]
    · simp [hh1, b1, trylock_fst, trylock_locks, unlock_locks, Except.map, view]
  by_cases k4 : t.type = task_type_drift_gpart ∨ t.type = task_type_grav_mesh
  · obtain ⟨a, ha⟩ := some_of_ne_none (hwi (by rcases k4 with h | h <;> simp [h]))
    simp only [task_lock, obligations, if_neg h0, if_neg k1, if_neg k2, if_neg k3, if_pos k4,
      ha, deref, Except.bind, on_cell, cell_glocktree, cell_gunlocktree, verdict, acquire,
      List.cons_append, List.nil_append, List.append_assoc]
    by_cases hh1 : a.grav.phold = true
    · simp [hh1, blocked, hold_flag, Except.map, view]
    by_cases b1 : blocked Domain.grav a m.locks = true
    · simp [hh1, b1, trylock_fst, trylock_locks, unlock_locks, Except.map, view]
    · simp [hh1, b1, trylock_fst, trylock_locks, unlock_locks, Except.map, view]
  by_cases k5 : t.type = task_type_self ∨ t.type = task_type_sub_self
  · by_cases s1 : t.subtype = task_subtype_grav
    · obtain ⟨a, ha⟩ := some_of_ne_none (hwi (by rcases k5 with h | h <;> simp [h]))
      simp only [task_lock, obligations, if_neg h0, if_neg k1, if_neg k2, if_neg k3, if_neg k4,
        if_pos k5, if_pos s1, ha, deref, Except.bind, on_cell, cell_glocktree, cell_gunlocktree,
        cell_mlocktree, cell_munlocktree, verdict, acquire, List.cons_append, List.nil_append,
        List.append_assoc]
      by_cases hh1 : a.grav.phold = true
      · simp [hh1, blocked, hold_flag, Except.map, view]
      by_cases hh2 : a.grav.mhold = true
      · simp [hh1, hh2, blocked, hold_flag, Except.map, view]
      by_cases b1 : blocked Domain.grav a m.locks = true
      · simp [hh1, hh2, b1, trylock_fst, trylock_locks, unlock_locks, Except.map, view]
      by_cases b2 : blocked Domain.mpole a (insert (Domain.grav, a.loc) m.locks) = true
      · simp [hh1, hh2, b1, b2, trylock_fst, trylock_locks, unlock_locks, Except.map, view,
          Finset.erase_insert (not_mem_of_not_blocked b1)]
      · simp [hh1, hh2, b1, b2, trylock_fst, trylock_locks, unlock_locks, Except.map, view]
    by_cases s2 : t.subtype = task_subtype_stars_density
    · obtain ⟨a, ha⟩ := some_of_ne_none (hwi (by rcases k5 with h | h <;> simp [h]))
      simp only [task_lock, obligations, if_neg h0, if_neg k1, if_neg k2, if_neg k3, if_neg k4,
        if_pos k5, if_neg s1, if_pos s2, ha, deref, Except.bind, on_cell, cell_slocktree,
        cell_sunlocktree, verdict, acquire, List.cons_append, List.nil_append, List.append_assoc]
      by_cases hh1 : a.stars.hold = true
      · simp [hh1, blocked, hold_flag, Except.map, view]
      by_cases b1 : blocked Domain.stars a m.locks = true
      · simp [hh1, b1, trylock_fst, trylock_locks, unlock_locks, Except.map, view]
      · simp [hh1, b1, trylock_fst, trylock_locks, unlock_locks, Except.map, view]
    by_cases s3 : t.subtype = task_subtype_stars_feedback
    · obtain ⟨a, ha⟩ := some_of_ne_none (hwi (by rcases k5 with h | h <;> simp [h]))
      simp only [task_lock, obligations, if_neg h0, if_neg k1, if_neg k2, if_neg k3, if_neg k4,
        if_pos k5, if_neg s1, if_neg s2, if_pos s3, ha, deref, Except.bind, on_cell,
        cell_locktree, cell_slocktree, cell_sunlocktree, cell_unlocktree, verdict, acquire,
        List.cons_append, List.nil_append, List.append_assoc]
      by_cases hh1 : a.stars.hold = true
      · simp [hh1, blocked, hold_flag, Except.map, view]
      by_cases hh2 : a.hydro.hold = true
      · simp [hh1, hh2, blocked, hold_flag, Except.map, view]
      by_cases b1 : blocked Domain.stars a m.locks = true
      · simp [hh1, hh2, b1, trylock_fst, trylock_locks, unlock_locks, Except.map, view]
      by_cases b2 : blocked Domain.hydro a (insert (Domain.stars, a.loc) m.locks) = true
      · simp [hh1, hh2, b1, b2, trylock_fst, trylock_locks, unlock_locks, Except.map, view,
          Finset.erase_insert (not_mem_of_not_blocked b1)]
      · simp [hh1, hh2, b1, b2, trylock_fst, trylock_locks, unlock_locks, Except.map, view]
    · obtain ⟨a, ha⟩ := some_of_ne_none (hwi (by rcases k5 with h | h <;> simp [h]))
      simp only [task_lock, obligations, if_neg h0, if_neg k1, if_neg k2, if_neg k3, if_neg k4,
        if_pos k5, if_neg s1, if_neg s2, if_neg s3, ha, deref, Except.bind, on_cell,
        cell_locktree, cell_unlocktree, verdict, acquire, List.cons_append, List.nil_append,
        List.append_assoc]
      by_cases hh1 : a.hydro.hold = true
      · simp [hh1, blocked, hold_flag, Except.map, view]
      by_cases b1 : blocked Domain.hydro a m.locks = true
      · simp [hh1, b1, trylock_fst, trylock_locks, unlock_locks, Except.map, view]
      · simp [hh1, b1, trylock_fst, trylock_locks, unlock_locks, Except.map, view]
  by_cases k6 : t.type = task_type_pair ∨ t.type = task_type_sub_pair
  · by_cases s1 : t.subtype = task_subtype_grav
    · obtain ⟨a, ha⟩ := some_of_ne_none (hwi (by rcases k6 with h | h <;> simp [h]))
      obtain ⟨b, hb⟩ := some_of_ne_none (hwj (by rcases k6 with h | h <;> simp [h]))
      simp only [task_lock, obligations, if_neg h0, if_neg k1, if_neg k2, if_neg k3, if_neg k4,
        if_neg k5, if_pos k6, if_pos s1, ha, hb, deref, Except.bind, on_cell, cell_glocktree,
        cell_gunlocktree, cell_mlocktree, cell_munlocktree, verdict, acquire, List.cons_append,
        List.nil_append, List.append_assoc]
      by_cases hh1 : a.grav.phold = true
      · simp [hh1, blocked, hold_flag, Except.map, view]
      by_cases hh2 : b.grav.phold = true
      · simp [hh1, hh2, blocked, hold_flag, Except.map, view]
      by_cases b1 : blocked Domain.grav a m.locks = true
      · simp [hh1, hh2, b1, trylock_fst, trylock_locks, unlock_locks, Except.map, view]
      by_cases b2 : blocked Domain.grav b (insert (Domain.grav, a.loc) m.locks) = true
      · simp [hh1, hh2, b1, b2, trylock_fst, trylock_locks, unlock_locks, Except.map, view,
          Finset.erase_insert (not_mem_of_not_blocked b1)]
      by_cases b3 : blocked Domain.mpole a (insert (Domain.grav, b.loc) (insert (Domain.grav,
        a.loc) m.locks)) = true
      · simp [hh1, hh2, b1, b2, b3, trylock_fst, trylock_locks, unlock_locks, Except.map, view,
          rollback2 (not_mem_of_not_blocked b1) (not_mem_of_not_blocked b2)]
      by_cases b4 : blocked Domain.mpole b (insert (Domain.mpole, a.loc) (insert (Domain.grav,
        b.loc) (insert (Domain.grav, a.loc) m.locks))) = true
      · simp [hh1, hh2, b1, b2, b3, b4, trylock_fst, trylock_locks, unlock_locks, Except.map,
          view, rollback3 (not_mem_of_not_blocked b1) (not_mem_of_not_blocked b2)
          (not_mem_of_not_blocked b3)]
      · simp [hh1, hh2, b1, b2, b3, b4, trylock_fst, trylock_locks, unlock_locks, Except.map,
          view]
    by_cases s2 : t.subtype = task_subtype_stars_density
    · obtain ⟨a, ha⟩ := some_of_ne_none (hwi (by rcases k6 with h | h <;> simp [h]))
      obtain ⟨b, hb⟩ := some_of_ne_none (hwj (by rcases k6 with h | h <;> simp [h]))
      simp only [task_lock, obligations, if_neg h0, if_neg k1, if_neg k2, if_neg k3, if_neg k4,
        if_neg k5, if_pos k6, if_neg s1, if_pos s2, ha, hb, deref, Except.bind, on_cell,
        cell_slocktree, cell_sunlocktree, verdict, acquire, List.cons_append, List.nil_append,
        List.append_assoc]
      by_cases hh1 : a.stars.hold = true
      · simp [hh1, blocked, hold_flag, Except.map, view]
      by_cases hh2 : b.stars.hold = true
      · simp [hh1, hh2, blocked, hold_flag, Except.map, view]
      by_cases b1 : blocked Domain.stars a m.locks = true
      · simp [hh1, hh2, b1, trylock_fst, trylock_locks, unlock_locks, Except.map, view]
      by_cases b2 : blocked Domain.stars b (insert (Domain.stars, a.loc) m.locks) = true
      · simp [hh1, hh2, b1, b2, trylock_fst, trylock_locks, unlock_locks, Except.map, view,
          Finset.erase_insert (not_mem_of_not_blocked b1)]
      · simp [hh1, hh2, b1, b2, trylock_fst, trylock_locks, unlock_locks, Except.map, view]
    by_cases s3 : t.subtype = task_subtype_stars_feedback
    · obtain ⟨a, ha⟩ := some_of_ne_none (hwi (by rcases k6 with h | h <;> simp [h]))
      obtain ⟨b, hb⟩ := some_of_ne_none (hwj (by rcases k6 with h | h <;> simp [h]))
      simp only [task_lock, obligations, if_neg h0, if_neg k1, if_neg k2, if_neg k3, if_neg k4,
        if_neg k5, if_pos k6, if_neg s1, if_neg s2, if_pos s3, ha, hb, deref, Except.bind,
        on_cell, cell_locktree, cell_slocktree, cell_sunlocktree, cell_unlocktree, verdict,
        acquire, List.cons_append, List.nil_append, List.append_assoc]
      by_cases hh1 : a.stars.hold = true
      · simp [hh1, blocked, hold_flag, Except.map, view]
      by_cases hh2 : b.stars.hold = true
      · simp [hh1, hh2, blocked, hold_flag, Except.map, view]
      by_cases hh3 : a.hydro.hold = true
      · simp [hh1, hh2, hh3, blocked, hold_flag, Except.map, view]
      by_cases hh4 : b.hydro.hold = true
      · simp [hh1, hh2, hh3, hh4, blocked, hold_flag, Except.map, view]
      by_cases b1 : blocked Domain.stars a m.locks = true
      · simp [hh1, hh2, hh3, hh4, b1, trylock_fst, trylock_locks, unlock_locks, Except.map, view]
      by_cases b2 : blocked Domain.stars b (insert (Domain.stars, a.loc) m.locks) = true
      · simp [hh1, hh2, hh3, hh4, b1, b2, trylock_fst, trylock_locks, unlock_locks, Except.map,
          view, Finset.erase_insert (not_mem_of_not_blocked b1)]
      by_cases b3 : blocked Domain.hydro a (insert (Domain.stars, b.loc) (insert (Domain.stars,
        a.loc) m.locks)) = true
      · simp [hh1, hh2, hh3, hh4, b1, b2, b3, trylock_fst, trylock_locks, unlock_locks,
          Except.map, view, rollback2 (not_mem_of_not_blocked b1) (not_mem_of_not_blocked b2)]
      by_cases b4 : blocked Domain.hydro b (insert (Domain.hydro, a.loc) (insert (Domain.stars,
        b.loc) (insert (Domain.stars, a.loc) m.locks))) = true
      · simp [hh1, hh2, hh3, hh4, b1, b2, b3, b4, trylock_fst, trylock_locks, unlock_locks,
          Except.map, view, rollback3 (not_mem_of_not_blocked b1) (not_mem_of_not_blocked b2)
          (not_mem_of_not_blocked b3)]
      · simp [hh1, hh2, hh3, hh4, b1, b2, b3, b4, trylock_fst, trylock_locks, unlock_locks,
          Except.map, view]
    · obtain ⟨a, ha⟩ := some_of_ne_none (hwi (by rcases k6 with h | h <;> simp [h]))
      obtain ⟨b, hb⟩ := some_of_ne_none (hwj (by rcases k6 with h | h <;> simp [h]))
      simp only [task_lock, obligations, if_neg h0, if_neg k1, if_neg k2, if_neg k3, if_neg k4,
        if_neg k5, if_pos k6, if_neg s1, if_neg s2, if_neg s3, ha, hb, deref, Except.bind,
        on_cell, cell_locktree, cell_unlocktree, verdict, acquire, List.cons_append,
        List.nil_append, List.append_assoc]
      by_cases hh1 : a.hydro.hold = true
      · simp [hh1, blocked, hold_flag, Except.map, view]
      by_cases hh2 : b.hydro.hold = true
      · simp [hh1, hh2, blocked, hold_flag, Except.map, view]
      by_cases b1 : blocked Domain.hydro a m.locks = true
      · simp [hh1, hh2, b1, trylock_fst, trylock_locks, unlock_locks, Except.map, view]
      by_cases b2 : blocked Domain.hydro b (insert (Domain.hydro, a.loc) m.locks) = true
      · simp [hh1, hh2, b1, b2, trylock_fst, trylock_locks, unlock_locks, Except.map, view,
          Finset.erase_insert (not_mem_of_not_blocked b1)]
      · simp [hh1, hh2, b1, b2, trylock_fst, trylock_locks, unlock_locks, Except.map, view]
  by_cases k7 : t.type = task_type_grav_down
  · obtain ⟨a, ha⟩ := some_of_ne_none (hwi (by simp [k7]))
    simp only [task_lock, obligations, if_neg h0, if_neg k1, if_neg k2, if_neg k3, if_neg k4,
      if_neg k5, if_neg k6, if_pos k7, ha, deref, Except.bind, on_cell, cell_glocktree,
      cell_gunlocktree, cell_mlocktree, cell_munlocktree, verdict, acquire, List.cons_append,
      List.nil_append, List.append_assoc]
    by_cases hh1 : a.grav.phold = true
    · simp [hh1, blocked, hold_flag, Except.map, view]
    by_cases hh2 : a.grav.mhold = true
    · simp [hh1, hh2, blocked, hold_flag, Except.map, view]
    by_cases b1 : blocked Domain.grav a m.locks = true
    · simp [hh1, hh2, b1, trylock_fst, trylock_locks, unlock_locks, Except.map, view]
    by_cases b2 : blocked Domain.mpole a (insert (Domain.grav, a.loc) m.locks) = true
    · simp [hh1, hh2, b1, b2, trylock_fst, trylock_locks, unlock_locks, Except.map, view,
        Finset.erase_insert (not_mem_of_not_blocked b1)]
    · simp [hh1, hh2, b1, b2, trylock_fst, trylock_locks, unlock_locks, Except.map, view]
  by_cases k8 : t.type = task_type_grav_long_range
  · obtain ⟨a, ha⟩ := some_of_ne_none (hwi (by simp [k8]))
    simp only [task_lock, obligations, if_neg h0, if_neg k1, if_neg k2, if_neg k3, if_neg k4,
      if_neg k5, if_neg k6, if_neg k7, if_pos k8, ha, deref, Except.bind, on_cell, cell_mlocktree,
      cell_munlocktree, verdict, acquire, List.cons_append, List.nil_append, List.append_assoc]
    by_cases hh1 : a.grav.mhold = true
    · simp [hh1, blocked, hold_flag, Except.map, view]
    by_cases b1 : blocked Domain.mpole a m.locks = true
    · simp [hh1, b1, trylock_fst, trylock_locks, unlock_locks, Except.map, view]
    · simp [hh1, b1, trylock_fst, trylock_locks, unlock_locks, Except.map, view]
  by_cases k9 : t.type = task_type_grav_mm
  · obtain ⟨a, ha⟩ := some_of_ne_none (hwi (by simp [k9]))
    obtain ⟨b, hb⟩ := some_of_ne_none (hwj (by simp [k9]))
    simp only [task_lock, obligations, if_neg h0, if_neg k1, if_neg k2, if_neg k3, if_neg k4,
      if_neg k5, if_neg k6, if_neg k7, if_neg k8, if_pos k9, ha, hb, deref, Except.bind, on_cell,
      cell_mlocktree, cell_munlocktree, verdict, acquire, List.cons_append, List.nil_append,
      List.append_assoc]
    by_cases hh1 : a.grav.mhold = true
    · simp [hh1, blocked, hold_flag, Except.map, view]
    by_cases hh2 : b.grav.mhold = true
    · simp [hh1, hh2, blocked, hold_flag, Except.map, view]
    by_cases b1 : blocked Domain.mpole a m.locks = true
    · simp [hh1, hh2, b1, trylock_fst, trylock_locks, unlock_locks, Except.map, view]
    by_cases b2 : blocked Domain.mpole b (insert (Domain.mpole, a.loc) m.locks) = true
    · simp [hh1, hh2, b1, b2, trylock_fst, trylock_locks, unlock_locks, Except.map, view,
        Finset.erase_insert (not_mem_of_not_blocked b1)]
    · simp [hh1, hh2, b1, b2, trylock_fst, trylock_locks, unlock_locks, Except.map, view]
  by_cases k10 : t.type = task_type_star_formation
  · obtain ⟨a, ha⟩ := some_of_ne_none (hwi (by simp [k10]))
    simp only [task_lock, obligations, if_neg h0, if_neg k1, if_neg k2, if_neg k3, if_neg k4,
      if_neg k5, if_neg k6, if_neg k7, if_neg k8, if_neg k9, if_pos k10, ha, deref, Except.bind,
      on_cell, cell_glocktree, cell_gunlocktree, cell_locktree, cell_slocktree, cell_sunlocktree,
      cell_unlocktree, verdict, acquire, List.cons_append, List.nil_append, List.append_assoc]
    by_cases hh1 : a.hydro.hold = true
    · simp [hh1, blocked, hold_flag, Except.map, view]
    by_cases hh2 : a.stars.hold = true
    · simp [hh1, hh2, blocked, hold_flag, Except.map, view]
    by_cases hh3 : a.grav.phold = true
    · simp [hh1, hh2, hh3, blocked, hold_flag, Except.map, view]
    by_cases b1 : blocked Domain.hydro a m.locks = true
    · simp [hh1, hh2, hh3, b1, trylock_fst, trylock_locks, unlock_locks, Except.map, view]
    by_cases b2 : blocked Domain.stars a (insert (Domain.hydro, a.loc) m.locks) = true
    · simp [hh1, hh2, hh3, b1, b2, trylock_fst, trylock_locks, unlock_locks, Except.map, view,
        Finset.erase_insert (not_mem_of_not_blocked b1)]
    by_cases b3 : blocked Domain.grav a (insert (Domain.stars, a.loc) (insert (Domain.hydro,
      a.loc) m.locks)) = true
    · simp [hh1, hh2, hh3, b1, b2, b3, trylock_fst, trylock_locks, unlock_locks, Except.map,
        view, rollback2 (not_mem_of_not_blocked b1) (not_mem_of_not_blocked b2)]
    · simp [hh1, hh2, hh3, b1, b2, b3, trylock_fst, trylock_locks, unlock_locks, Except.map, view]
  simp only [task_lock, obligations, if_neg h0, if_neg k1, if_neg k2, if_neg k3, if_neg k4,
    if_neg k5, if_neg k6, if_neg k7, if_neg k8, if_neg k9, if_neg k10, verdict, acquire]
  simp [Except.map, view]

/-- The function `task_unlock` calls the unlock primitive on each pair of the
obligation list, in order, and returns. -/
theorem task_unlock_eq (t : task) (m : Mem) (hw : has_cells t) :
    task_unlock t m = Except.ok (release m (obligations t)) := by
  obtain ⟨hwi, hwj⟩ := hw
  by_cases k1 : t.type = task_type_end_force ∨ t.type = task_type_kick1 ∨ t.type =
    task_type_kick2 ∨ t.type = task_type_logger ∨ t.type = task_type_timestep
  · obtain ⟨a, ha⟩ := some_of_ne_none (hwi (by rcases k1 with h | h | h | h | h <;> simp [h]))
    simp only [task_unlock, obligations, if_pos k1, ha, deref, Except.bind, on_cell, release,
      List.foldl, cell_gunlocktree, cell_unlocktree, List.cons_append, List.nil_append,
      List.append_assoc]
  by_cases k2 : t.type = task_type_drift_part ∨ t.type = task_type_sort ∨ t.type =
    task_type_ghost ∨ t.type = task_type_timestep_limiter
  · obtain ⟨a, ha⟩ := some_of_ne_none (hwi (by rcases k2 with h | h | h | h <;> simp [h]))
    simp only [task_unlock, obligations, if_neg k1, if_pos k2, ha, deref, Except.bind, on_cell,
      release, List.foldl, cell_unlocktree, List.cons_append, List.nil_append, List.append_assoc]
  by_cases k3 : t.type = task_type_stars_sort
  · obtain ⟨a, ha⟩ := some_of_ne_none (hwi (by simp [k3]))
    simp only [task_unlock, obligations, if_neg k1, if_neg k2, if_pos k3, ha, deref,
      Except.bind, on_cell, release, List.foldl, cell_sunlocktree, List.cons_append,
      List.nil_append, List.append_assoc]
    rw [if_neg (by simp [k3])]
  by_cases k4 : t.type = task_type_drift_gpart ∨ t.type = task_type_grav_mesh
  · obtain ⟨a, ha⟩ := some_of_ne_none (hwi (by rcases k4 with h | h <;> simp [h]))
    simp only [task_unlock, obligations, if_neg k1, if_neg k2, if_neg k3, if_pos k4, ha, deref,
      Except.bind, on_cell, release, List.foldl, cell_gunlocktree, List.cons_append,
      List.nil_append, List.append_assoc]
  by_cases k5 : t.type = task_type_self ∨ t.type = task_type_sub_self
  · by_cases s1 : t.subtype = task_subtype_grav
    · obtain ⟨a, ha⟩ := some_of_ne_none (hwi (by rcases k5 with h | h <;> simp [h]))
      simp only [task_unlock, obligations, if_neg k1, if_neg k2, if_neg k3, if_neg k4, if_pos
        k5, if_pos s1, ha, deref, Except.bind, on_cell, release, List.foldl, cell_gunlocktree,
        cell_munlocktree, List.cons_append, List.nil_append, List.append_assoc]
    by_cases s2 : t.subtype = task_subtype_stars_density
    · obtain ⟨a, ha⟩ := some_of_ne_none (hwi (by rcases k5 with h | h <;> simp [h]))
      simp only [task_unlock, obligations, if_neg k1, if_neg k2, if_neg k3, if_neg k4, if_pos
        k5, if_neg s1, if_pos s2, ha, deref, Except.bind, on_cell, release, List.foldl,
        cell_sunlocktree, List.cons_append, List.nil_append, List.append_assoc]
    by_cases s3 : t.subtype = task_subtype_stars_feedback
    · obtain ⟨a, ha⟩ := some_of_ne_none (hwi (by rcases k5 with h | h <;> simp [h]))
      simp only [task_unlock, obligations, if_neg k1, if_neg k2, if_neg k3, if_neg k4, if_pos
        k5, if_neg s1, if_neg s2, if_pos s3, ha, deref, Except.bind, on_cell, release, List.foldl,
        cell_sunlocktree, cell_unlocktree, List.cons_append, List.nil_append, List.append_assoc]
    · obtain ⟨a, ha⟩ := some_of_ne_none (hwi (by rcases k5 with h | h <;> simp [h]))
      simp only [task_unlock, obligations, if_neg k1, if_neg k2, if_neg k3, if_neg k4, if_pos
        k5, if_neg s1, if_neg s2, if_neg s3, ha, deref, Except.bind, on_cell, release, List.foldl,
        cell_unlocktree, List.cons_append, List.nil_append, List.append_assoc]
  by_cases k6 : t.type = task_type_pair ∨ t.type = task_type_sub_pair
  · by_cases s1 : t.subtype = task_subtype_grav
    · obtain ⟨a, ha⟩ := some_of_ne_none (hwi (by rcases k6 with h | h <;> simp [h]))
      obtain ⟨b, hb⟩ := some_of_ne_none (hwj (by rcases k6 with h | h <;> simp [h]))
      simp only [task_unlock, obligations, if_neg k1, if_neg k2, if_neg k3, if_neg k4, if_neg
        k5, if_pos k6, if_pos s1, ha, hb, deref, Except.bind, on_cell, release, List.foldl,
        cell_gunlocktree, cell_munlocktree, List.cons_append, List.nil_append, List.append_assoc]
    by_cases s2 : t.subtype = task_subtype_stars_density
    · obtain ⟨a, ha⟩ := some_of_ne_none (hwi (by rcases k6 with h | h <;> simp [h]))
      obtain ⟨b, hb⟩ := some_of_ne_none (hwj (by rcases k6 with h | h <;> simp [h]))
      simp only [task_unlock, obligations, if_neg k1, if_neg k2, if_neg k3, if_neg k4, if_neg
        k5, if_pos k6, if_neg s1, if_pos s2, ha, hb, deref, Except.bind, on_cell, release,
        List.foldl, cell_sunlocktree, List.cons_append, List.nil_append, List.append_assoc]
    by_cases s3 : t.subtype = task_subtype_stars_feedback
    · obtain ⟨a, ha⟩ := some_of_ne_none (hwi (by rcases k6 with h | h <;> simp [h]))
      obtain ⟨b, hb⟩ := some_of_ne_none (hwj (by rcases k6 with h | h <;> simp [h]))
      simp only [task_unlock, obligations, if_neg k1, if_neg k2, if_neg k3, if_neg k4, if_neg
        k5, if_pos k6, if_neg s1, if_neg s2, if_pos s3, ha, hb, deref, Except.bind, on_cell,
        release, List.foldl, cell_sunlocktree, cell_unlocktree, List.cons_append, List.nil_append,
        List.append_assoc]
    · obtain ⟨a, ha⟩ := some_of_ne_none (hwi (by rcases k6 with h | h <;> simp [h]))
      obtain ⟨b, hb⟩ := some_of_ne_none (hwj (by rcases k6 with h | h <;> simp [h]))
      simp only [task_unlock, obligations, if_neg k1, if_neg k2, if_neg k3, if_neg k4, if_neg
        k5, if_pos k6, if_neg s1, if_neg s2, if_neg s3, ha, hb, deref, Except.bind, on_cell,
        release, List.foldl, cell_unlocktree, List.cons_append, List.nil_append,
        List.append_assoc]
  by_cases k7 : t.type = task_type_grav_down
  · obtain ⟨a, ha⟩ := some_of_ne_none (hwi (by simp [k7]))
    simp only [task_unlock, obligations, if_neg k1, if_neg k2, if_neg k3, if_neg k4, if_neg k5,
      if_neg k6, if_pos k7, ha, deref, Except.bind, on_cell, release, List.foldl,
      cell_gunlocktree, cell_munlocktree, List.cons_append, List.nil_append, List.append_assoc]
  by_cases k8 : t.type = task_type_grav_long_range
  · obtain ⟨a, ha⟩ := some_of_ne_none (hwi (by simp [k8]))
    simp only [task_unlock, obligations, if_neg k1, if_neg k2, if_neg k3, if_neg k4, if_neg k5,
      if_neg k6, if_neg k7, if_pos k8, ha, deref, Except.bind, on_cell, release, List.foldl,
      cell_munlocktree, List.cons_append, List.nil_append, List.append_assoc]
  by_cases k9 : t.type = task_type_grav_mm
  · obtain ⟨a, ha⟩ := some_of_ne_none (hwi (by simp [k9]))
    obtain ⟨b, hb⟩ := some_of_ne_none (hwj (by simp [k9]))
    simp only [task_unlock, obligations, if_neg k1, if_neg k2, if_neg k3, if_neg k4, if_neg k5,
      if_neg k6, if_neg k7, if_neg k8, if_pos k9, ha, hb, deref, Except.bind, on_cell, release,
      List.foldl, cell_munlocktree, List.cons_append, List.nil_append, List.append_assoc]
  by_cases k10 : t.type = task_type_star_formation
  · obtain ⟨a, ha⟩ := some_of_ne_none (hwi (by simp [k10]))
    simp only [task_unlock, obligations, if_neg k1, if_neg k2, if_neg k3, if_neg k4, if_neg k5,
      if_neg k6, if_neg k7, if_neg k8, if_neg k9, if_pos k10, ha, deref, Except.bind, on_cell,
      release, List.foldl, cell_gunlocktree, cell_sunlocktree, cell_unlocktree, List.cons_append,
      List.nil_append, List.append_assoc]
  simp only [task_unlock, obligations, if_neg k1, if_neg k2, if_neg k3, if_neg k4, if_neg k5,
    if_neg k6, if_neg k7, if_neg k8, if_neg k9, if_neg k10, release, List.foldl]

/-- Outside the pair gravity branch, a compute task one of whose obligations has
its hold flag set is rejected before any lock primitive is called: `task_lock`
returns 0 and the state, log included, is the one it was given. -/
theorem held_rejected_untouched (wm : Bool) (t : task) (m : Mem) (hc : compute_task t)
    (hw : has_cells t)
    (hx : ¬ ((t.type = task_type_pair ∨ t.type = task_type_sub_pair) ∧
      t.subtype = task_subtype_grav))
    (hheld : ∃ p ∈ obligations t, hold_flag p.1 p.2 = true) :
    task_lock wm t m = Except.ok (0, m) := by
  obtain ⟨hc1, hc2⟩ := hc
  obtain ⟨hwi, hwj⟩ := hw
  obtain ⟨p, hp, hf⟩ := hheld
  have h0 : ¬ (t.type = task_type_recv ∨ t.type = task_type_send) := by
    rintro (h | h)
    · exact hc2 h
    · exact hc1 h
  by_cases k1 : t.type = task_type_end_force ∨ t.type = task_type_kick1 ∨ t.type =
    task_type_kick2 ∨ t.type = task_type_logger ∨ t.type = task_type_timestep
  · obtain ⟨a, ha⟩ := some_of_ne_none (hwi (by rcases k1 with h | h | h | h | h <;> simp [h]))
    simp only [obligations, if_pos k1, ha, on_cell, List.cons_append, List.nil_append,
      List.append_assoc, List.mem_cons, List.mem_singleton, List.not_mem_nil, or_false] at hp
    simp only [task_lock, if_neg h0, if_pos k1, ha, deref, Except.bind]
    rcases hp with rfl | rfl <;> simp only [hold_flag] at hf <;> simp [hf]
  by_cases k2 : t.type = task_type_drift_part ∨ t.type = task_type_sort ∨ t.type =
    task_type_ghost ∨ t.type = task_type_timestep_limiter
  · obtain ⟨a, ha⟩ := some_of_ne_none (hwi (by rcases k2 with h | h | h | h <;> simp [h]))
    simp only [obligations, if_neg k1, if_pos k2, ha, on_cell, List.cons_append,
      List.nil_append, List.append_assoc, List.mem_cons, List.mem_singleton, List.not_mem_nil,
      or_false] at hp
    simp only [task_lock, if_neg h0, if_neg k1, if_pos k2, ha, deref, Except.bind]
    subst hp
    simp only [hold_flag] at hf
    simp [hf]
  by_cases k3 : t.type = task_type_stars_sort
  · obtain ⟨a, ha⟩ := some_of_ne_none (hwi (by simp [k3]))
    simp only [obligations, if_neg k1, if_neg k2, if_pos k3, ha, on_cell, List.cons_append,
      List.nil_append, List.append_assoc, List.mem_cons, List.mem_singleton, List.not_mem_nil,
      or_false] at hp
    simp only [task_lock, if_neg h0, if_neg k1, if_neg k2, if_pos k3, ha, deref, Except.bind]
    subst hp
    simp only [hold_flag] at hf
    simp [hf]
  by_cases k4 : t.type = task_type_drift_gpart ∨ t.type = task_type_grav_mesh
  · obtain ⟨a, ha⟩ := some_of_ne_none (hwi (by rcases k4 with h | h <;> simp [h]))
    simp only [obligations, if_neg k1, if_neg k2, if_neg k3, if_pos k4, ha, on_cell,
      List.cons_append, List.nil_append, List.append_assoc, List.mem_cons, List.mem_singleton,
      List.not_mem_nil, or_false] at hp
    simp only [task_lock, if_neg h0, if_neg k1, if_neg k2, if_neg k3, if_pos k4, ha, deref,
      Except.bind]
    subst hp
    simp only [hold_flag] at hf
    simp [hf]
  by_cases k5 : t.type = task_type_self ∨ t.type = task_type_sub_self
  · by_cases s1 : t.subtype = task_subtype_grav
    · obtain ⟨a, ha⟩ := some_of_ne_none (hwi (by rcases k5 with h | h <;> simp [h]))
      simp only [obligations, if_neg k1, if_neg k2, if_neg k3, if_neg k4, if_pos k5, if_pos s1,
        ha, on_cell, List.cons_append, List.nil_append, List.append_assoc, List.mem_cons,
        List.mem_singleton, List.not_mem_nil, or_false] at hp
      simp only [task_lock, if_neg h0, if_neg k1, if_neg k2, if_neg k3, if_neg k4, if_pos k5,
        if_pos s1, ha, deref, Except.bind]
      rcases hp with rfl | rfl <;> simp only [hold_flag] at hf <;> simp [hf]
    by_cases s2 : t.subtype = task_subtype_stars_density
    · obtain ⟨a, ha⟩ := some_of_ne_none (hwi (by rcases k5 with h | h <;> simp [h]))
      simp only [obligations, if_neg k1, if_neg k2, if_neg k3, if_neg k4, if_pos k5, if_neg s1,
        if_pos s2, ha, on_cell, List.cons_append, List.nil_append, List.append_assoc,
        List.mem_cons, List.mem_singleton, List.not_mem_nil, or_false] at hp
      simp only [task_lock, if_neg h0, if_neg k1, if_neg k2, if_neg k3, if_neg k4, if_pos k5,
        if_neg s1, if_pos s2, ha, deref, Except.bind]
      subst hp
      simp only [hold_flag] at hf
      simp [hf]
    by_cases s3 : t.subtype = task_subtype_stars_feedback
    · obtain ⟨a, ha⟩ := some_of_ne_none (hwi (by rcases k5 with h | h <;> simp [h]))
      simp only [obligations, if_neg k1, if_neg k2, if_neg k3, if_neg k4, if_pos k5, if_neg s1,
        if_neg s2, if_pos s3, ha, on_cell, List.cons_append, List.nil_append, List.append_assoc,
        List.mem_cons, List.mem_singleton, List.not_mem_nil, or_false] at hp
      simp only [task_lock, if_neg h0, if_neg k1, if_neg k2, if_neg k3, if_neg k4, if_pos k5,
        if_neg s1, if_neg s2, if_pos s3, ha, deref, Except.bind]
      rcases hp with rfl | rfl <;> simp only [hold_flag] at hf <;> simp [hf]
    · obtain ⟨a, ha⟩ := some_of_ne_none (hwi (by rcases k5 with h | h <;> simp [h]))
      simp only [obligations, if_neg k1, if_neg k2, if_neg k3, if_neg k4, if_pos k5, if_neg s1,
        if_neg s2, if_neg s3, ha, on_cell, List.cons_append, List.nil_append, List.append_assoc,
        List.mem_cons, List.mem_singleton, List.not_mem_nil, or_false] at hp
      simp only [task_lock, if_neg h0, if_neg k1, if_neg k2, if_neg k3, if_neg k4, if_pos k5,
        if_neg s1, if_neg s2, if_neg s3, ha, deref, Except.bind]
      subst hp
      simp only [hold_flag] at hf
      simp [hf]
  by_cases k6 : t.type = task_type_pair ∨ t.type = task_type_sub_pair
  · by_cases s1 : t.subtype = task_subtype_grav
    · exact absurd ⟨k6, s1⟩ hx
    by_cases s2 : t.subtype = task_subtype_stars_density
    · obtain ⟨a, ha⟩ := some_of_ne_none (hwi (by rcases k6 with h | h <;> simp [h]))
      obtain ⟨b, hb⟩ := some_of_ne_none (hwj (by rcases k6 with h | h <;> simp [h]))
      simp only [obligations, if_neg k1, if_neg k2, if_neg k3, if_neg k4, if_neg k5, if_pos k6,
        if_neg s1, if_pos s2, ha, hb, on_cell, List.cons_append, List.nil_append,
        List.append_assoc, List.mem_cons, List.mem_singleton, List.not_mem_nil, or_false] at hp
      simp only [task_lock, if_neg h0, if_neg k1, if_neg k2, if_neg k3, if_neg k4, if_neg k5,
        if_pos k6, if_neg s1, if_pos s2, ha, hb, deref, Except.bind]
      rcases hp with rfl | rfl <;> simp only [hold_flag] at hf <;> simp [hf]
    by_cases s3 : t.subtype = task_subtype_stars_feedback
    · obtain ⟨a, ha⟩ := some_of_ne_none (hwi (by rcases k6 with h | h <;> simp [h]))
      obtain ⟨b, hb⟩ := some_of_ne_none (hwj (by rcases k6 with h | h <;> simp [h]))
      simp only [obligations, if_neg k1, if_neg k2, if_neg k3, if_neg k4, if_neg k5, if_pos k6,
        if_neg s1, if_neg s2, if_pos s3, ha, hb, on_cell, List.cons_append, List.nil_append,
        List.append_assoc, List.mem_cons, List.mem_singleton, List.not_mem_nil, or_false] at hp
      simp only [task_lock, if_neg h0, if_neg k1, if_neg k2, if_neg k3, if_neg k4, if_neg k5,
        if_pos k6, if_neg s1, if_neg s2, if_pos s3, ha, hb, deref, Except.bind]
      rcases hp with rfl | rfl | rfl | rfl <;> simp only [hold_flag] at hf <;> simp [hf]
    · obtain ⟨a, ha⟩ := some_of_ne_none (hwi (by rcases k6 with h | h <;> simp [h]))
      obtain ⟨b, hb⟩ := some_of_ne_none (hwj (by rcases k6 with h | h <;> simp [h]))
      simp only [obligations, if_neg k1, if_neg k2, if_neg k3, if_neg k4, if_neg k5, if_pos k6,
        if_neg s1, if_neg s2, if_neg s3, ha, hb, on_cell, List.cons_append, List.nil_append,
        List.append_assoc, List.mem_cons, List.mem_singleton, List.not_mem_nil, or_false] at hp
      simp only [task_lock, if_neg h0, if_neg k1, if_neg k2, if_neg k3, if_neg k4, if_neg k5,
        if_pos k6, if_neg s1, if_neg s2, if_neg s3, ha, hb, deref, Except.bind]
      rcases hp with rfl | rfl <;> simp only [hold_flag] at hf <;> simp [hf]
  by_cases k7 : t.type = task_type_grav_down
  · obtain ⟨a, ha⟩ := some_of_ne_none (hwi (by simp [k7]))
    simp only [obligations, if_neg k1, if_neg k2, if_neg k3, if_neg k4, if_neg k5, if_neg k6,
      if_pos k7, ha, on_cell, List.cons_append, List.nil_append, List.append_assoc, List.mem_cons,
      List.mem_singleton, List.not_mem_nil, or_false] at hp
    simp only [task_lock, if_neg h0, if_neg k1, if_neg k2, if_neg k3, if_neg k4, if_neg k5,
      if_neg k6, if_pos k7, ha, deref, Except.bind]
    rcases hp with rfl | rfl <;> simp only [hold_flag] at hf <;> simp [hf]
  by_cases k8 : t.type = task_type_grav_long_range
  · obtain ⟨a, ha⟩ := some_of_ne_none (hwi (by simp [k8]))
    simp only [obligations, if_neg k1, if_neg k2, if_neg k3, if_neg k4, if_neg k5, if_neg k6,
      if_neg k7, if_pos k8, ha, on_cell, List.cons_append, List.nil_append, List.append_assoc,
      List.mem_cons, List.mem_singleton, List.not_mem_nil, or_false] at hp
    simp only [task_lock, if_neg h0, if_neg k1, if_neg k2, if_neg k3, if_neg k4, if_neg k5,
      if_neg k6, if_neg k7, if_pos k8, ha, deref, Except.bind]
    subst hp
    simp only [hold_flag] at hf
    simp [hf]
  by_cases k9 : t.type = task_type_grav_mm
  · obtain ⟨a, ha⟩ := some_of_ne_none (hwi (by simp [k9]))
    obtain ⟨b, hb⟩ := some_of_ne_none (hwj (by simp [k9]))
    simp only [obligations, if_neg k1, if_neg k2, if_neg k3, if_neg k4, if_neg k5, if_neg k6,
      if_neg k7, if_neg k8, if_pos k9, ha, hb, on_cell, List.cons_append, List.nil_append,
      List.append_assoc, List.mem_cons, List.mem_singleton, List.not_mem_nil, or_false] at hp
    simp only [task_lock, if_neg h0, if_neg k1, if_neg k2, if_neg k3, if_neg k4, if_neg k5,
      if_neg k6, if_neg k7, if_neg k8, if_pos k9, ha, hb, deref, Except.bind]
    rcases hp with rfl | rfl <;> simp only [hold_flag] at hf <;> simp [hf]
  by_cases k10 : t.type = task_type_star_formation
  · obtain ⟨a, ha⟩ := some_of_ne_none (hwi (by simp [k10]))
    simp only [obligations, if_neg k1, if_neg k2, if_neg k3, if_neg k4, if_neg k5, if_neg k6,
      if_neg k7, if_neg k8, if_neg k9, if_pos k10, ha, on_cell, List.cons_append, List.nil_append,
      List.append_assoc, List.mem_cons, List.mem_singleton, List.not_mem_nil, or_false] at hp
    simp only [task_lock, if_neg h0, if_neg k1, if_neg k2, if_neg k3, if_neg k4, if_neg k5,
      if_neg k6, if_neg k7, if_neg k8, if_neg k9, if_pos k10, ha, deref, Except.bind]
    rcases hp with rfl | rfl | rfl <;> simp only [hold_flag] at hf <;> simp [hf]
  simp only [obligations, if_neg k1, if_neg k2, if_neg k3, if_neg k4, if_neg k5, if_neg k6,
    if_neg k7, if_neg k8, if_neg k9, if_neg k10, List.not_mem_nil] at hp

/-- In the pair gravity branch the same holds when the hold flag that is set is the
gravitating-particle one (`phold`) of either cell. -/
theorem pair_grav_phold_rejected (wm : Bool) (t : task) (m : Mem) (a b : cell)
    (hk : t.type = task_type_pair ∨ t.type = task_type_sub_pair)
    (hs : t.subtype = task_subtype_grav) (ha : t.ci = some a) (hb : t.cj = some b)
    (hh : a.grav.phold = true ∨ b.grav.phold = true) :
    task_lock wm t m = Except.ok (0, m) := by
  rcases hk with hk | hk <;> rcases hh with hh | hh <;>
    simp [task_lock, hk, hs, ha, hb, deref, Except.bind, hh]

/-- A compute task with its cells returns from `task_lock`: with 0 and the lock set
unchanged when the acquisition of its obligation list is refused, with 1 and the
lock set of the completed acquisition otherwise. -/
theorem task_lock_cases (wm : Bool) (t : task) (m : Mem) (hc : compute_task t)
    (hw : has_cells t) :
    ∃ r m', task_lock wm t m = Except.ok (r, m') ∧
      ((r = 0 ∧ m'.locks = m.locks ∧ acquire m.locks (obligations t) = none) ∨
       (r = 1 ∧ acquire m.locks (obligations t) = some m'.locks)) := by
  obtain ⟨r, m', hres, hv⟩ := ok_of_map_view (task_lock_view wm t m hc hw)
  refine ⟨r, m', hres, ?_⟩
  unfold verdict at hv
  cases hacq : acquire m.locks (obligations t) with
  | none =>
    rw [hacq] at hv
    simp only [Prod.mk.injEq] at hv
    exact Or.inl ⟨hv.1, hv.2, rfl⟩
  | some L' =>
    rw [hacq] at hv
    simp only [Prod.mk.injEq] at hv
    exact Or.inr ⟨hv.1, by rw [hv.2]⟩

/-- A granted `task_lock` completed the acquisition of the obligation list. -/
theorem granted_acquire {wm : Bool} {t : task} {m m' : Mem} (hc : compute_task t)
    (hw : has_cells t) (hg : task_lock wm t m = Except.ok (1, m')) :
    acquire m.locks (obligations t) = some m'.locks := by
  obtain ⟨r, m1, hres, h⟩ := task_lock_cases wm t m hc hw
  rw [hg] at hres
  simp only [Except.ok.injEq, Prod.mk.injEq] at hres
  obtain ⟨hr, hm⟩ := hres
  subst hr; subst hm
  rcases h with ⟨h1, _, _⟩ | ⟨_, h2⟩
  · exact absurd h1 (by decide)
  · exact h2

/-- A single-cell or two-cell task whose cells are present has its cells. -/
theorem has_cells_of_some {t : task} {a : cell} (ha : t.ci = some a)
    (hj : t.type ∈ [task_type_pair, task_type_sub_pair, task_type_grav_mm] → t.cj ≠ none) :
    has_cells t :=
  ⟨fun _ => by simp [ha], hj⟩

/-! ## Claims on acquisition and release -/

/-- C1: for every compute task (any kind other than send/recv) carrying its cells
and every lock state, `task_lock` returns, and either returns 0 with the lock set
exactly as before, or returns 1 with every pair of the obligation list newly
locked: not held before the call and held after it. -/
theorem C1_lock_all_or_nothing (with_mpi : Bool) (t : task) (m : Mem)
    (hc : compute_task t) (hw : has_cells t) :
    ∃ r m', task_lock with_mpi t m = Except.ok (r, m') ∧
      ((r = 0 ∧ m'.locks = m.locks) ∨
       (r = 1 ∧ ∀ p ∈ obligations t,
          (p.1, p.2.loc) ∉ m.locks ∧ (p.1, p.2.loc) ∈ m'.locks)) := by
  obtain ⟨r, m', hres, h⟩ := task_lock_cases with_mpi t m hc hw
  refine ⟨r, m', hres, ?_⟩
  rcases h with ⟨h1, h2, _⟩ | ⟨h1, h2⟩
  · exact Or.inl ⟨h1, h2⟩
  · refine Or.inr ⟨h1, fun p hp => ?_⟩
    obtain ⟨hL, hall⟩ := acquire_some _ _ _ h2
    refine ⟨(hall p hp).1, ?_⟩
    rw [hL]
    apply Finset.mem_union_right
    simp only [keys, List.mem_toFinset, List.mem_map]
    exact ⟨p, hp, rfl⟩

/-- Witness of C1: a pair gravity task on two sibling cells, from the state with no
lock held. -/
theorem C1_lock_all_or_nothing_witness :
    ∃ r m', task_lock true (sample_task task_type_pair task_subtype_grav
        (some sample_cell_A) (some sample_cell_B)) sample_mem = Except.ok (r, m') ∧
      ((r = 0 ∧ m'.locks = sample_mem.locks) ∨
       (r = 1 ∧ ∀ p ∈ obligations (sample_task task_type_pair task_subtype_grav
            (some sample_cell_A) (some sample_cell_B)),
          (p.1, p.2.loc) ∉ sample_mem.locks ∧ (p.1, p.2.loc) ∈ m'.locks)) :=
  C1_lock_all_or_nothing true (sample_task task_type_pair task_subtype_grav
    (some sample_cell_A) (some sample_cell_B)) sample_mem (by decide) (by decide)

/-- C2: if `task_lock` returns 1 on a compute task from a state, then `task_unlock`
on the resulting state returns and gives back exactly the lock set of the initial
state; and the pairs named by its unlock calls are exactly the pairs the granted
`task_lock` had newly locked. -/
theorem C2_unlock_restores (with_mpi : Bool) (t : task) (m m' : Mem)
    (hc : compute_task t) (hw : has_cells t)
    (hg : task_lock with_mpi t m = Except.ok (1, m')) :
    ∃ m2 evs, task_unlock t m' = Except.ok m2 ∧ m2.locks = m.locks ∧
      m2.trace = m'.trace ++ evs ∧ unlocked_keys evs = m'.locks \ m.locks := by
  have hacq := granted_acquire hc hw hg
  refine ⟨release m' (obligations t),
    (obligations t).map (fun p => Event.unlock p.1 p.2.loc),
    task_unlock_eq t m' hw, ?_, release_trace _ _, ?_⟩
  · rw [release_locks, (acquire_some _ _ _ hacq).1]
    exact Finset.union_sdiff_cancel_right (acquire_disjoint hacq)
  · rw [unlocked_keys_map, acquire_sdiff hacq]

/-- C2 witness: the pair gravity task granted from the state with no lock held. -/
theorem C2_unlock_restores_witness :
    ∃ m2 evs, task_unlock (sample_task task_type_pair task_subtype_grav
        (some sample_cell_A) (some sample_cell_B)) sample_mem_pair_grav = Except.ok m2 ∧
      m2.locks = sample_mem.locks ∧
      m2.trace = sample_mem_pair_grav.trace ++ evs ∧
      unlocked_keys evs = sample_mem_pair_grav.locks \ sample_mem.locks :=
  C2_unlock_restores true (sample_task task_type_pair task_subtype_grav
    (some sample_cell_A) (some sample_cell_B)) sample_mem sample_mem_pair_grav
    (by decide) (by decide) rfl

/-- The pairs a granted `task_lock` has newly locked are the keys of the obligation
list. -/
theorem granted_newly {wm : Bool} {t : task} {m m' : Mem} (hc : compute_task t)
    (hw : has_cells t) (hg : task_lock wm t m = Except.ok (1, m')) :
    m'.locks \ m.locks = keys (obligations t) :=
  acquire_sdiff (granted_acquire hc hw hg)

/-- The same for a task whose kind reads one cell only, that cell being present. -/
theorem granted_newly_single {wm : Bool} {t : task} {m m' : Mem} {a : cell}
    (ha : t.ci = some a)
    (hk : t.type ∉ [task_type_pair, task_type_sub_pair, task_type_grav_mm,
      task_type_send, task_type_recv])
    (hg : task_lock wm t m = Except.ok (1, m')) :
    m'.locks \ m.locks = keys (obligations t) := by
  simp only [List.mem_cons, List.mem_singleton, List.not_mem_nil, or_false, not_or] at hk
  refine granted_newly ⟨hk.2.2.2.1, hk.2.2.2.2⟩ (has_cells_of_some ha fun h => ?_) hg
  simp only [List.mem_cons, List.mem_singleton, List.not_mem_nil, or_false] at h
  rcases h with h | h | h
  · exact absurd h hk.1
  · exact absurd h hk.2.1
  · exact absurd h hk.2.2.1

/-- The same for a task whose two cells are present. -/
theorem granted_newly_two {wm : Bool} {t : task} {m m' : Mem} {a b : cell}
    (ha : t.ci = some a) (hb : t.cj = some b)
    (hk : t.type ∉ [task_type_send, task_type_recv])
    (hg : task_lock wm t m = Except.ok (1, m')) :
    m'.locks \ m.locks = keys (obligations t) := by
  simp only [List.mem_cons, List.mem_singleton, List.not_mem_nil, or_false, not_or] at hk
  exact granted_newly ⟨hk.1, hk.2⟩ (has_cells_of_some ha fun _ => by simp [hb]) hg

/-- C3: for a single-region compute task on region `a`, when `task_lock` returns 1
the set of (domain, region) pairs it has newly locked is: gas and gravitating for
end_force, kick1, kick2, timestep, logger; gas for drift_part, sort, ghost,
timestep_limiter; stellar for stars_sort; gravitating for drift_gpart, grav_mesh;
gravitating and multipole for grav_down; multipole for grav_long_range; gas,
stellar and gravitating for star_formation. -/
theorem C3_single_region_lock_sets (with_mpi : Bool) (t : task) (m m' : Mem) (a : cell)
    (ha : t.ci = some a) (hg : task_lock with_mpi t m = Except.ok (1, m')) :
    ((t.type = task_type_end_force ∨ t.type = task_type_kick1 ∨
        t.type = task_type_kick2 ∨ t.type = task_type_timestep ∨
        t.type = task_type_logger) →
      m'.locks \ m.locks = {(Domain.hydro, a.loc), (Domain.grav, a.loc)}) ∧
    ((t.type = task_type_drift_part ∨ t.type = task_type_sort ∨
        t.type = task_type_ghost ∨ t.type = task_type_timestep_limiter) →
      m'.locks \ m.locks = {(Domain.hydro, a.loc)}) ∧
    (t.type = task_type_stars_sort →
      m'.locks \ m.locks = {(Domain.stars, a.loc)}) ∧
    ((t.type = task_type_drift_gpart ∨ t.type = task_type_grav_mesh) →
      m'.locks \ m.locks = {(Domain.grav, a.loc)}) ∧
    (t.type = task_type_grav_down →
      m'.locks \ m.locks = {(Domain.grav, a.loc), (Domain.mpole, a.loc)}) ∧
    (t.type = task_type_grav_long_range →
      m'.locks \ m.locks = {(Domain.mpole, a.loc)}) ∧
    (t.type = task_type_star_formation →
      m'.locks \ m.locks =
        {(Domain.hydro, a.loc), (Domain.stars, a.loc), (Domain.grav, a.loc)}) := by
  refine ⟨?_, ?_, ?_, ?_, ?_, ?_, ?_⟩
  · rintro (h | h | h | h | h) <;>
      · rw [granted_newly_single ha (by simp [h]) hg]
        simp [obligations, h, ha, on_cell, keys]
  · rintro (h | h | h | h) <;>
      · rw [granted_newly_single ha (by simp [h]) hg]
        simp [obligations, h, ha, on_cell, keys]
  · intro h
    rw [granted_newly_single ha (by simp [h]) hg]
    simp [obligations, h, ha, on_cell, keys]
  · rintro (h | h) <;>
      · rw [granted_newly_single ha (by simp [h]) hg]
        simp [obligations, h, ha, on_cell, keys]
  · intro h
    rw [granted_newly_single ha (by simp [h]) hg]
    simp [obligations, h, ha, on_cell, keys]
  · intro h
    rw [granted_newly_single ha (by simp [h]) hg]
    simp [obligations, h, ha, on_cell, keys]
  · intro h
    rw [granted_newly_single ha (by simp [h]) hg]
    simp [obligations, h, ha, on_cell, keys]

/-- Witness of C3: a kick1 task granted from the state with no lock held. -/
theorem C3_single_region_lock_sets_witness :
    sample_mem_kick.locks \ sample_mem.locks =
      {(Domain.hydro, sample_cell_A.loc), (Domain.grav, sample_cell_A.loc)} :=
  (C3_single_region_lock_sets true
    (sample_task task_type_kick1 task_subtype_none (some sample_cell_A) none)
    sample_mem sample_mem_kick sample_cell_A rfl rfl).1 (Or.inr (Or.inl rfl))

/-- C4: for an interaction task, when `task_lock` returns 1 the set of (domain,
region) pairs it has newly locked is: for self/sub_self on `a`, gravitating and
multipole for sub-kind grav, stellar for stars_density, stellar and gas for
stars_feedback, gas for density/gradient/force/limiter; for pair/sub_pair on `a`
and `b`, the same domains on both; for grav_mm, the multipoles of `a` and `b`. -/
theorem C4_interaction_lock_sets (with_mpi : Bool) (t : task) (m m' : Mem) (a : cell)
    (ha : t.ci = some a) (hg : task_lock with_mpi t m = Except.ok (1, m')) :
    ((t.type = task_type_self ∨ t.type = task_type_sub_self) →
      (t.subtype = task_subtype_grav →
        m'.locks \ m.locks = {(Domain.grav, a.loc), (Domain.mpole, a.loc)}) ∧
      (t.subtype = task_subtype_stars_density →
        m'.locks \ m.locks = {(Domain.stars, a.loc)}) ∧
      (t.subtype = task_subtype_stars_feedback →
        m'.locks \ m.locks = {(Domain.stars, a.loc), (Domain.hydro, a.loc)}) ∧
      ((t.subtype = task_subtype_density ∨ t.subtype = task_subtype_gradient ∨
          t.subtype = task_subtype_force ∨ t.subtype = task_subtype_limiter) →
        m'.locks \ m.locks = {(Domain.hydro, a.loc)})) ∧
    (∀ b, t.cj = some b → (t.type = task_type_pair ∨ t.type = task_type_sub_pair) →
      (t.subtype = task_subtype_grav →
        m'.locks \ m.locks = {(Domain.grav, a.loc), (Domain.grav, b.loc),
          (Domain.mpole, a.loc), (Domain.mpole, b.loc)}) ∧
      (t.subtype = task_subtype_stars_density →
        m'.locks \ m.locks = {(Domain.stars, a.loc), (Domain.stars, b.loc)}) ∧
      (t.subtype = task_subtype_stars_feedback →
        m'.locks \ m.locks = {(Domain.stars, a.loc), (Domain.stars, b.loc),
          (Domain.hydro, a.loc), (Domain.hydro, b.loc)}) ∧
      ((t.subtype = task_subtype_density ∨ t.subtype = task_subtype_gradient ∨
          t.subtype = task_subtype_force ∨ t.subtype = task_subtype_limiter) →
        m'.locks \ m.locks = {(Domain.hydro, a.loc), (Domain.hydro, b.loc)})) ∧
    (∀ b, t.cj = some b → t.type = task_type_grav_mm →
      m'.locks \ m.locks = {(Domain.mpole, a.loc), (Domain.mpole, b.loc)}) := by
  refine ⟨?_, ?_, ?_⟩
  · intro hk
    have hn := granted_newly_single ha (by rcases hk with h | h <;> simp [h]) hg
    rw [hn]
    refine ⟨?_, ?_, ?_, ?_⟩
    · intro hs
      rcases hk with h | h <;> simp [obligations, h, hs, ha, on_cell, keys]
    · intro hs
      rcases hk with h | h <;> simp [obligations, h, hs, ha, on_cell, keys]
    · intro hs
      rcases hk with h | h <;> simp [obligations, h, hs, ha, on_cell, keys]
    · intro hs
      rcases hk with h | h <;> rcases hs with hs | hs | hs | hs <;>
        simp [obligations, h, hs, ha, on_cell, keys]
  · intro b hb hk
    have hn := granted_newly_two ha hb (by rcases hk with h | h <;> simp [h]) hg
    rw [hn]
    refine ⟨?_, ?_, ?_, ?_⟩
    · intro hs
      rcases hk with h | h <;> simp [obligations, h, hs, ha, hb, on_cell, keys]
    · intro hs
      rcases hk with h | h <;> simp [obligations, h, hs, ha, hb, on_cell, keys]
    · intro hs
      rcases hk with h | h <;> simp [obligations, h, hs, ha, hb, on_cell, keys]
    · intro hs
      rcases hk with h | h <;> rcases hs with hs | hs | hs | hs <;>
        simp [obligations, h, hs, ha, hb, on_cell, keys]
  · intro b hb hk
    rw [granted_newly_two ha hb (by simp [hk]) hg]
    simp [obligations, hk, ha, hb, on_cell, keys]

/-- Witness of C4: a pair gravity task granted from the state with no lock held. -/
theorem C4_interaction_lock_sets_witness :
    sample_mem_pair_grav.locks \ sample_mem.locks =
      {(Domain.grav, sample_cell_A.loc), (Domain.grav, sample_cell_B.loc),
        (Domain.mpole, sample_cell_A.loc), (Domain.mpole, sample_cell_B.loc)} :=
  ((C4_interaction_lock_sets true
    (sample_task task_type_pair task_subtype_grav (some sample_cell_A) (some sample_cell_B))
    sample_mem sample_mem_pair_grav sample_cell_A rfl rfl).2.1
      sample_cell_B rfl (Or.inl rfl)).1 rfl

/-- C5, at its failing input: a pair gravity task on a cell whose multipole hold
flag is set (no other hold flag set, no lock held). The multipole of that cell is in
the obligation list and is held, yet `task_lock` makes three try-lock calls, the
first two granted, and two unlock calls before it returns 0. -/
theorem C5_pair_grav_mhold_attempts_locks :
    (Domain.mpole, sample_cell_A_mhold) ∈ obligations (sample_task task_type_pair
        task_subtype_grav (some sample_cell_A_mhold) (some sample_cell_B)) ∧
    hold_flag Domain.mpole sample_cell_A_mhold = true ∧
    ∃ m', task_lock true (sample_task task_type_pair task_subtype_grav
        (some sample_cell_A_mhold) (some sample_cell_B)) sample_mem = Except.ok (0, m') ∧
      m'.trace = [Event.trylock Domain.grav [0] true, Event.trylock Domain.grav [1] true,
        Event.trylock Domain.mpole [0] false, Event.unlock Domain.grav [0],
        Event.unlock Domain.grav [1]] :=
  ⟨by decide, rfl, _, rfl, rfl⟩

/-! ## Claims on the action classifier -/

/-- C6: for a task of a bookkeeping kind (end_force, kick1, kick2, timestep, logger,
send, recv) on a region `c`, whatever the sub-kind and the stellar count,
`task_acts_on` returns `all` when gas count and gravitating count are both
positive, `part` when only the gas count is, `gpart` when only the gravitating count
is, and aborts with "Task without particles" when both are 0. -/
theorem C6_bookkeeping_action (t : task) (c : cell) (hk : bookkeeping_kind t.type)
    (hc : t.ci = some c) :
    (0 < c.hydro.count → 0 < c.grav.count →
      task_acts_on t = Except.ok task_action_all) ∧
    (0 < c.hydro.count → c.grav.count = 0 →
      task_acts_on t = Except.ok task_action_part) ∧
    (c.hydro.count = 0 → 0 < c.grav.count →
      task_acts_on t = Except.ok task_action_gpart) ∧
    (c.hydro.count = 0 → c.grav.count = 0 →
      task_acts_on t = Except.error (Err.fatal "Task without particles")) := by
  rw [acts_on_bookkeeping t hk, hc]
  simp only [deref, Except.bind]
  refine ⟨?_, ?_, ?_, ?_⟩ <;> intro h1 h2 <;> simp [h1, h2]

/-- Witness of C6: a kick1 task on a region with gravitating particles only. -/
theorem C6_bookkeeping_action_witness :
    task_acts_on (sample_task task_type_kick1 task_subtype_none (some sample_cell_G) none) =
      Except.ok task_action_gpart :=
  (C6_bookkeeping_action (sample_task task_type_kick1 task_subtype_none (some sample_cell_G) none)
    sample_cell_G (by decide) rfl).2.2.1 rfl (by decide)

/-- C7: for a task of kind self, pair, sub_self or sub_pair, `task_acts_on` returns
`part` for the sub-kinds density, gradient, force, limiter; `gpart` for grav and
external_grav; `all` for stars_density and stars_feedback; whatever the regions and
whichever of the four kinds it is. -/
theorem C7_interaction_action (t : task) (hk : interaction_kind t.type) :
    ((t.subtype = task_subtype_density ∨ t.subtype = task_subtype_gradient ∨
        t.subtype = task_subtype_force ∨ t.subtype = task_subtype_limiter) →
      task_acts_on t = Except.ok task_action_part) ∧
    ((t.subtype = task_subtype_grav ∨ t.subtype = task_subtype_external_grav) →
      task_acts_on t = Except.ok task_action_gpart) ∧
    ((t.subtype = task_subtype_stars_density ∨ t.subtype = task_subtype_stars_feedback) →
      task_acts_on t = Except.ok task_action_all) := by
  rw [acts_on_interaction t hk]
  refine ⟨?_, ?_, ?_⟩
  · rintro (h | h | h | h) <;> simp [h, classified_subtype]
  · rintro (h | h) <;> simp [h, classified_subtype]
  · rintro (h | h) <;> simp [h, classified_subtype]

/-- Witness of C7: a sub_pair task with sub-kind external_grav acts on `gpart`. -/
theorem C7_interaction_action_witness :
    task_acts_on (sample_task task_type_sub_pair task_subtype_external_grav
      (some sample_cell_A) (some sample_cell_B)) = Except.ok task_action_gpart :=
  (C7_interaction_action (sample_task task_type_sub_pair task_subtype_external_grav
    (some sample_cell_A) (some sample_cell_B)) (by decide)).2.1 (Or.inr rfl)

/-- C8: for every sub-kind and every region, `task_acts_on` returns `part` for the
kinds drift_part, sort, ghost, extra_ghost, timestep_limiter and cooling; `spart`
for stars_sort and stars_ghost; `all` for star_formation; `none` for the none kind. -/
theorem C8_gas_and_stellar_kinds (t : task) :
    ((t.type = task_type_drift_part ∨ t.type = task_type_sort ∨
        t.type = task_type_ghost ∨ t.type = task_type_extra_ghost ∨
        t.type = task_type_timestep_limiter ∨ t.type = task_type_cooling) →
      task_acts_on t = Except.ok task_action_part) ∧
    ((t.type = task_type_stars_sort ∨ t.type = task_type_stars_ghost) →
      task_acts_on t = Except.ok task_action_spart) ∧
    (t.type = task_type_star_formation → task_acts_on t = Except.ok task_action_all) ∧
    (t.type = task_type_none → task_acts_on t = Except.ok task_action_none) := by
  refine ⟨?_, ?_, ?_, ?_⟩
  · rintro (h | h | h | h | h | h) <;> simp [task_acts_on, h]
  · rintro (h | h) <;> simp [task_acts_on, h]
  · intro h; simp [task_acts_on, h]
  · intro h; simp [task_acts_on, h]

/-- C9: for every sub-kind and every region, `task_acts_on` returns `gpart` for the
kinds drift_gpart, grav_down and grav_mesh, and `multipole` for the kinds init_grav,
grav_mm and grav_long_range. -/
theorem C9_gravity_kinds (t : task) :
    ((t.type = task_type_drift_gpart ∨ t.type = task_type_grav_down ∨
        t.type = task_type_grav_mesh) →
      task_acts_on t = Except.ok task_action_gpart) ∧
    ((t.type = task_type_init_grav ∨ t.type = task_type_grav_mm ∨
        t.type = task_type_grav_long_range) →
      task_acts_on t = Except.ok task_action_multipole) := by
  refine ⟨?_, ?_⟩
  · rintro (h | h | h) <;> simp [task_acts_on, h]
  · rintro (h | h | h) <;> simp [task_acts_on, h]

/-- C10: `task_acts_on` aborts with a fatal error exactly in the three situations of
`fatal_case` (unlisted kind or value outside the enumeration; interaction kind with
an unknown sub-kind; bookkeeping kind on a region with gas count 0 and gravitating
count 0); in every other case, the region of a bookkeeping task being present, it
returns an action. -/
theorem C10_fatal_exactly (t : task) :
    ((∃ msg, task_acts_on t = Except.error (Err.fatal msg)) ↔ fatal_case t) ∧
    ((¬ fatal_case t ∧ (bookkeeping_kind t.type → t.ci ≠ none)) →
      ∃ act, task_acts_on t = Except.ok act) := by
  unfold fatal_case
  by_cases hu : unlisted_kind t.type
  · rw [acts_on_unlisted t hu]
    simp [hu]
  by_cases hi : interaction_kind t.type
  · have hb : ¬ bookkeeping_kind t.type := by
      unfold interaction_kind at hi
      unfold bookkeeping_kind
      rcases hi with h | h | h | h <;> simp [h]
    rw [acts_on_interaction t hi]
    by_cases hs : classified_subtype t.subtype
    · rw [if_pos hs]
      split_ifs <;> simp [hu, hi, hb, hs]
    · rw [if_neg hs]
      simp [hu, hi, hb, hs]
  by_cases hb : bookkeeping_kind t.type
  · rw [acts_on_bookkeeping t hb]
    cases hci : t.ci with
    | none => simp [deref, Except.bind, hu, hi, hb]
    | some c =>
      simp only [deref, Except.bind]
      by_cases h1 : c.hydro.count = 0 <;> by_cases h2 : c.grav.count = 0 <;>
        simp [hu, hi, hb, h1, h2, Nat.pos_of_ne_zero]
  · obtain ⟨act, hact⟩ := acts_on_other t hu hi hb
    rw [hact]
    simp [hu, hi, hb]

/-! ## The `float` quotient of two sizes: rounding -/

/-- The quotient of two sizes, from the mantissa and the exponent of the `float`
quotient of the converted sizes. -/
theorem float_div_eval (n d m : Nat) (e : Int) (hd : d ≠ 0)
    (hp : float_quot_parts (float_of_size n) (float_of_size d) = (m, e)) :
    float_div n d = float_val.finite ((m : ℚ) * (2 : ℚ) ^ e) := by
  unfold float_div float_quot
  rw [if_neg hd, hp]

/-- With enough fuel, the halving loop computes the integer logarithm in base 2. -/
theorem floor_log2_fuel_eq (fuel n : Nat) (h : n ≤ fuel) :
    floor_log2_fuel fuel n = Nat.log 2 n := by
  induction fuel generalizing n with
  | zero =>
    have h0 : n = 0 := by omega
    subst h0
    simp [floor_log2_fuel]
  | succ f ih =>
    unfold floor_log2_fuel
    by_cases hn : n < 2
    · rw [if_pos hn, Nat.log_of_lt hn]
    · have e : Nat.log 2 n = Nat.log 2 (n / 2) + 1 :=
        Nat.log_of_one_lt_of_le (by norm_num) (by omega)
      rw [if_neg hn, ih (n / 2) (by omega), e]

/-- The position of the leading binary digit is the integer logarithm in base 2. -/
theorem floor_log2_eq (n : Nat) : floor_log2 n = Nat.log 2 n :=
  floor_log2_fuel_eq n n (le_refl n)

/-- The position of the leading binary digit is monotone. -/
theorem floor_log2_mono {a b : Nat} (h : a ≤ b) : floor_log2 a ≤ floor_log2 b := by
  rw [floor_log2_eq, floor_log2_eq]
  exact Nat.log_mono_right h

/-- A positive number is at least the power of two of its leading digit. -/
theorem pow_floor_log2_le {n : Nat} (h : n ≠ 0) : 2 ^ floor_log2 n ≤ n := by
  rw [floor_log2_eq]
  exact Nat.pow_log_le_self 2 h

/-- A number is below the next power of two after its leading digit. -/
theorem lt_pow_floor_log2 (n : Nat) : n < 2 ^ (floor_log2 n + 1) := by
  rw [floor_log2_eq]
  exact Nat.lt_pow_succ_log_self (by norm_num) n

/-- A number of at least 25 binary digits has its leading digit at position 24 or more.
-/
theorem floor_log2_ge {n : Nat} (h : 2 ^ 24 ≤ n) : 24 ≤ floor_log2 n := by
  rw [floor_log2_eq]
  exact Nat.le_log_of_pow_le (by norm_num) h

/-- Rounding to nearest never goes below the integer quotient. -/
theorem round_half_even_lower (n d : Nat) : n / d ≤ round_half_even n d := by
  unfold round_half_even
  split_ifs <;> omega

/-- Rounding to nearest goes at most one above the integer quotient. -/
theorem round_half_even_upper (n d : Nat) : round_half_even n d ≤ n / d + 1 := by
  unfold round_half_even
  split_ifs <;> omega

/-- Rounding to nearest does not cross an integer: a quotient of at most `M` rounds to
at most `M`. -/
theorem round_half_even_le {n d M : Nat} (hd : 0 < d) (h : n ≤ M * d) :
    round_half_even n d ≤ M := by
  rcases Nat.lt_or_ge (n / d) M with hq | hq
  · exact le_trans (round_half_even_upper n d) hq
  · have h1 : M * d ≤ n := le_trans (Nat.mul_le_mul_right d hq) (Nat.div_mul_le_self n d)
    have h2 : n = M * d := le_antisymm h h1
    subst h2
    unfold round_half_even
    rw [Nat.mul_mod_left, if_pos (by omega), Nat.mul_div_cancel _ hd]

/-- Rounding to nearest is monotone in the numerator. -/
theorem round_half_even_mono {n n2 : Nat} (d : Nat) (h : n ≤ n2) :
    round_half_even n d ≤ round_half_even n2 d := by
  rcases Nat.lt_or_ge (n / d) (n2 / d) with hq | hq
  · exact le_trans (round_half_even_upper n d)
      (le_trans hq (round_half_even_lower n2 d))
  · have hq2 : n / d = n2 / d := le_antisymm (Nat.div_le_div_right h) hq
    have e1 := Nat.div_add_mod n d
    have e2 := Nat.div_add_mod n2 d
    rw [hq2] at e1
    have hr : n % d ≤ n2 % d := by omega
    unfold round_half_even
    rw [hq2]
    split_ifs <;> omega

/-- A size below `2 ^ 24` is converted to `float` exactly. -/
theorem float_of_size_small {n : Nat} (h : n < 2 ^ 24) : float_of_size n = n := by
  unfold float_of_size
  rw [if_pos h]

/-- The conversion to `float` of a size of at least `2 ^ 24` is at least the power of
two of its leading digit. -/
theorem float_of_size_lower {n : Nat} (h : 2 ^ 24 ≤ n) :
    2 ^ floor_log2 n ≤ float_of_size n := by
  unfold float_of_size
  rw [if_neg (by omega)]
  have hl := floor_log2_ge h
  have hp : 2 ^ floor_log2 n = 2 ^ 23 * 2 ^ (floor_log2 n - 23) := by
    rw [← pow_add]
    congr 1
    omega
  have hn : n ≠ 0 := by
    intro h0
    rw [h0] at h
    norm_num at h
  have h1 : 2 ^ 23 ≤ n / 2 ^ (floor_log2 n - 23) := by
    rw [Nat.le_div_iff_mul_le (by positivity)]
    rw [← hp]
    exact pow_floor_log2_le hn
  rw [hp]
  exact Nat.mul_le_mul_right _ (le_trans h1 (round_half_even_lower _ _))

/-- The conversion to `float` of a size of at least `2 ^ 24` is at most the next power
of two. -/
theorem float_of_size_upper {n : Nat} (h : 2 ^ 24 ≤ n) :
    float_of_size n ≤ 2 ^ (floor_log2 n + 1) := by
  unfold float_of_size
  rw [if_neg (by omega)]
  have hl := floor_log2_ge h
  have hp : 2 ^ (floor_log2 n + 1) = 2 ^ 24 * 2 ^ (floor_log2 n - 23) := by
    rw [← pow_add]
    congr 1
    omega
  rw [hp]
  refine Nat.mul_le_mul_right _ (round_half_even_le (by positivity) ?_)
  rw [← hp]
  exact le_of_lt (lt_pow_floor_log2 n)

/-- The conversion of a size to `float` is monotone. -/
theorem float_of_size_mono {n d : Nat} (h : n ≤ d) : float_of_size n ≤ float_of_size d := by
  by_cases hd : d < 2 ^ 24
  · rw [float_of_size_small hd, float_of_size_small (lt_of_le_of_lt h hd)]
    exact h
  · have hd2 : 2 ^ 24 ≤ d := by omega
    by_cases hn : n < 2 ^ 24
    · rw [float_of_size_small hn]
      have h1 : 2 ^ 24 ≤ 2 ^ floor_log2 d :=
        Nat.pow_le_pow_right (by norm_num) (floor_log2_ge hd2)
      have h2 := float_of_size_lower hd2
      omega
    · have hn2 : 2 ^ 24 ≤ n := by omega
      rcases Nat.lt_or_ge (floor_log2 n) (floor_log2 d) with hl | hl
      · have h1 : 2 ^ (floor_log2 n + 1) ≤ 2 ^ floor_log2 d :=
          Nat.pow_le_pow_right (by norm_num) hl
        exact le_trans (float_of_size_upper hn2) (le_trans h1 (float_of_size_lower hd2))
      · have he : floor_log2 n = floor_log2 d := le_antisymm (floor_log2_mono h) hl
        unfold float_of_size
        rw [if_neg hn, if_neg hd, he]
        exact Nat.mul_le_mul_right _ (round_half_even_mono _ h)

/-- The conversion to `float` of a positive size is positive. -/
theorem float_of_size_pos {n : Nat} (h : 0 < n) : 0 < float_of_size n := by
  by_cases hn : n < 2 ^ 24
  · rw [float_of_size_small hn]
    exact h
  · have hn2 : 2 ^ 24 ≤ n := by omega
    exact lt_of_lt_of_le (by positivity) (float_of_size_lower hn2)

/-- The `float` quotient of `a` by `b`, with `a ≤ b` and `b` positive, is in [0, 1]:
rounding does not cross 1. -/
theorem float_quot_unit {a b : Nat} (hb : 0 < b) (h : a ≤ b) :
    0 ≤ float_quot a b ∧ float_quot a b ≤ 1 := by
  by_cases ha : a = 0
  · subst ha
    simp [float_quot, float_quot_parts]
  · have hl : floor_log2 a ≤ floor_log2 b := floor_log2_mono h
    obtain ⟨k, hk, hp⟩ : ∃ k : Nat, 23 ≤ k ∧
        float_quot_parts a b = (round_half_even (a * 2 ^ k) b, -(k : Int)) := by
      unfold float_quot_parts
      rw [if_neg ha]
      by_cases hc : a * 2 ^ (23 - ((floor_log2 a : Int) - (floor_log2 b : Int))).toNat
          < 2 ^ 23 * (b * 2 ^ (-(23 - ((floor_log2 a : Int) - (floor_log2 b : Int)))).toNat)
      · refine ⟨(23 - ((floor_log2 a : Int) - (floor_log2 b : Int)) + 1).toNat, by omega, ?_⟩
        simp only [hc, if_true]
        have e1 : (-(23 - ((floor_log2 a : Int) - (floor_log2 b : Int)) + 1)).toNat = 0 := by
          omega
        have e2 : (((23 - ((floor_log2 a : Int) - (floor_log2 b : Int)) + 1).toNat : Nat) : Int)
            = 23 - ((floor_log2 a : Int) - (floor_log2 b : Int)) + 1 := by omega
        rw [e1, e2, pow_zero, mul_one]
      · refine ⟨(23 - ((floor_log2 a : Int) - (floor_log2 b : Int))).toNat, by omega, ?_⟩
        simp only [hc, if_false]
        have e1 : (-(23 - ((floor_log2 a : Int) - (floor_log2 b : Int)))).toNat = 0 := by
          omega
        have e2 : (((23 - ((floor_log2 a : Int) - (floor_log2 b : Int))).toNat : Nat) : Int)
            = 23 - ((floor_log2 a : Int) - (floor_log2 b : Int)) := by omega
        rw [e1, e2, pow_zero, mul_one]
    have hm : round_half_even (a * 2 ^ k) b ≤ 2 ^ k :=
      round_half_even_le hb (by rw [Nat.mul_comm]; exact Nat.mul_le_mul_left _ h)
    unfold float_quot
    rw [hp]
    simp only [zpow_neg, zpow_natCast]
    have hpos : (0 : ℚ) < 2 ^ k := by positivity
    refine ⟨by positivity, ?_⟩
    rw [← div_eq_mul_inv, div_le_one hpos]
    exact_mod_cast hm

/-- The quotient of two sizes, the first at most the second and the second positive, is
a number in [0, 1]. -/
theorem float_div_unit {n d : Nat} (hd : 0 < d) (h : n ≤ d) :
    ∃ q, float_div n d = float_val.finite q ∧ 0 ≤ q ∧ q ≤ 1 := by
  refine ⟨float_quot (float_of_size n) (float_of_size d), ?_,
    float_quot_unit (float_of_size_pos hd) (float_of_size_mono h)⟩
  unfold float_div
  rw [if_neg (by omega)]

/-- Rounding to nearest is within one half of the exact quotient. -/
theorem round_half_even_near (n d : Nat) (hd : 0 < d) :
    2 * (round_half_even n d * d) ≤ 2 * n + d ∧
    2 * n ≤ 2 * (round_half_even n d * d) + d := by
  have e : n / d * d + n % d = n := by
    rw [Nat.mul_comm]
    exact Nat.div_add_mod n d
  have hr := Nat.mod_lt n hd
  unfold round_half_even
  split_ifs <;> (try rw [Nat.add_mul, Nat.one_mul]) <;> omega

/-- The conversion of a size to `float` has a relative error of at most `2 ^ -24`. -/
theorem float_of_size_near (n : Nat) :
    |((float_of_size n : ℕ) : ℚ) - (n : ℚ)| ≤ (n : ℚ) / 2 ^ 24 := by
  by_cases hn : n < 2 ^ 24
  · rw [float_of_size_small hn, sub_self, abs_zero]
    positivity
  · have h : 2 ^ 24 ≤ n := by omega
    have hl := floor_log2_ge h
    have hp : 2 ^ floor_log2 n = 2 ^ 23 * 2 ^ (floor_log2 n - 23) := by
      rw [← pow_add]
      congr 1
      omega
    have hn0 : n ≠ 0 := by
      intro h0
      rw [h0] at h
      norm_num at h
    have hN : 2 ^ 23 * 2 ^ (floor_log2 n - 23) ≤ n := by
      rw [← hp]
      exact pow_floor_log2_le hn0
    obtain ⟨r1, r2⟩ := round_half_even_near n (2 ^ (floor_log2 n - 23)) (by positivity)
    have hf : float_of_size n =
        round_half_even n (2 ^ (floor_log2 n - 23)) * 2 ^ (floor_log2 n - 23) := by
      unfold float_of_size
      rw [if_neg hn]
    rw [← hf] at r1 r2
    generalize float_of_size n = F at r1 r2
    generalize 2 ^ (floor_log2 n - 23) = D at r1 r2 hN
    have q1 : (2 : ℚ) * F ≤ 2 * n + D := by exact_mod_cast r1
    have q2 : (2 : ℚ) * n ≤ 2 * F + D := by exact_mod_cast r2
    have q3 : (2 : ℚ) ^ 23 * D ≤ n := by exact_mod_cast hN
    rw [abs_le]
    constructor
    · rw [neg_le, le_div_iff₀ (by positivity)]
      norm_num at q3 ⊢
      linarith
    · rw [le_div_iff₀ (by positivity)]
      norm_num at q3 ⊢
      linarith

/-- The two scalings of the `float` quotient, by `2 ^ k` for `k ≥ 0` and by `2 ^ -k` for
`k < 0`, together are the scaling by `2 ^ k`. -/
theorem two_zpow_quot (k : Int) :
    ((2 ^ k.toNat : ℕ) : ℚ) / ((2 ^ (-k).toNat : ℕ) : ℚ) = (2 : ℚ) ^ k := by
  obtain ⟨K, rfl | rfl⟩ := Int.eq_nat_or_neg k
  · simp
  · simp

/-- The exponent chosen by the `float` quotient brings the exact quotient to `2 ^ 23` or
above. -/
theorem float_quot_parts_spec {a b : Nat} (ha : 0 < a) (hb : 0 < b) :
    ∃ k : Int, float_quot_parts a b =
        (round_half_even (a * 2 ^ k.toNat) (b * 2 ^ (-k).toNat), -k) ∧
      (2 : ℚ) ^ 23 ≤ (a : ℚ) / (b : ℚ) * (2 : ℚ) ^ k := by
  have ha0 : a ≠ 0 := by omega
  have hb0 : b ≠ 0 := by omega
  have hbq : (0 : ℚ) < (b : ℚ) := by exact_mod_cast hb
  unfold float_quot_parts
  rw [if_neg ha0]
  by_cases hc : a * 2 ^ (23 - ((floor_log2 a : Int) - (floor_log2 b : Int))).toNat
      < 2 ^ 23 * (b * 2 ^ (-(23 - ((floor_log2 a : Int) - (floor_log2 b : Int)))).toNat)
  · refine ⟨23 - ((floor_log2 a : Int) - (floor_log2 b : Int)) + 1, ?_, ?_⟩
    · simp only [hc, if_true]
    · have h1 : (2 : ℚ) ^ floor_log2 a ≤ (a : ℚ) := by
        exact_mod_cast pow_floor_log2_le ha0
      have h2 : (b : ℚ) ≤ (2 : ℚ) ^ (floor_log2 b + 1) := by
        exact_mod_cast le_of_lt (lt_pow_floor_log2 b)
      have hk : 23 - ((floor_log2 a : Int) - (floor_log2 b : Int)) + 1
          = (24 : Int) - (floor_log2 a : Int) + (floor_log2 b : Int) := by ring
      have e : (2 : ℚ) ^ 23 = (2 : ℚ) ^ floor_log2 a / (2 : ℚ) ^ (floor_log2 b + 1) *
          (2 : ℚ) ^ (23 - ((floor_log2 a : Int) - (floor_log2 b : Int)) + 1) := by
        rw [hk, zpow_add₀ (by norm_num), zpow_sub₀ (by norm_num), zpow_natCast, zpow_natCast,
          pow_succ]
        have p1 : (2 : ℚ) ^ floor_log2 a ≠ 0 := by positivity
        have p2 : (2 : ℚ) ^ floor_log2 b ≠ 0 := by positivity
        field_simp
        norm_num
        ring
      rw [e]
      have h3 : (2 : ℚ) ^ floor_log2 a / (2 : ℚ) ^ (floor_log2 b + 1) ≤ (a : ℚ) / (b : ℚ) :=
        div_le_div₀ (by positivity) h1 hbq h2
      exact mul_le_mul_of_nonneg_right h3 (by positivity)
  · refine ⟨23 - ((floor_log2 a : Int) - (floor_log2 b : Int)), ?_, ?_⟩
    · simp only [hc, if_false]
    · have h := not_lt.mp hc
      have hq : (2 : ℚ) ^ 23 *
          ((b : ℚ) * ((2 ^ (-(23 - ((floor_log2 a : Int) - (floor_log2 b : Int)))).toNat : ℕ) : ℚ))
          ≤ (a : ℚ) * ((2 ^ (23 - ((floor_log2 a : Int) - (floor_log2 b : Int))).toNat : ℕ) : ℚ) := by
        exact_mod_cast h
      rw [← two_zpow_quot, div_mul_div_comm, le_div_iff₀ (by positivity)]
      exact hq

/-- The `float` quotient of two positive `float`s has a relative error of at most `2 ^
-24`. -/
theorem float_quot_near {a b : Nat} (ha : 0 < a) (hb : 0 < b) :
    |float_quot a b - (a : ℚ) / (b : ℚ)| ≤ (a : ℚ) / (b : ℚ) / 2 ^ 24 := by
  obtain ⟨k, hp, hn⟩ := float_quot_parts_spec ha hb
  obtain ⟨r1, r2⟩ :=
    round_half_even_near (a * 2 ^ k.toNat) (b * 2 ^ (-k).toNat) (by positivity)
  unfold float_quot
  rw [hp]
  simp only [zpow_neg]
  generalize round_half_even (a * 2 ^ k.toNat) (b * 2 ^ (-k).toNat) = m at r1 r2
  have q1 : (2 : ℚ) * ((m : ℚ) * ((b : ℚ) * ((2 ^ (-k).toNat : ℕ) : ℚ))) ≤
      2 * ((a : ℚ) * ((2 ^ k.toNat : ℕ) : ℚ)) + (b : ℚ) * ((2 ^ (-k).toNat : ℕ) : ℚ) := by
    exact_mod_cast r1
  have q2 : (2 : ℚ) * ((a : ℚ) * ((2 ^ k.toNat : ℕ) : ℚ)) ≤
      2 * ((m : ℚ) * ((b : ℚ) * ((2 ^ (-k).toNat : ℕ) : ℚ))) +
        (b : ℚ) * ((2 ^ (-k).toNat : ℕ) : ℚ) := by
    exact_mod_cast r2
  have hz := two_zpow_quot k
  have hNm : (0 : ℚ) < ((2 ^ (-k).toNat : ℕ) : ℚ) := by positivity
  have hP : (0 : ℚ) < (2 : ℚ) ^ k := by positivity
  have hA : (0 : ℚ) < (a : ℚ) := by exact_mod_cast ha
  have hB : (0 : ℚ) < (b : ℚ) := by exact_mod_cast hb
  generalize ((2 ^ (-k).toNat : ℕ) : ℚ) = Nm at q1 q2 hz hNm
  generalize ((2 ^ k.toNat : ℕ) : ℚ) = Np at q1 q2 hz
  generalize (2 : ℚ) ^ k = P at hz hn hP
  generalize (a : ℚ) = A at q1 q2 hn hA
  generalize (b : ℚ) = B at q1 q2 hn hB
  generalize (m : ℚ) = M at q1 q2
  have hNp : Np = P * Nm := by
    rw [← hz]
    field_simp
  subst hNp
  have f1 : 2 * (M * B) ≤ 2 * (A * P) + B := by
    have h : Nm * (2 * (M * B)) ≤ Nm * (2 * (A * P) + B) := by linarith
    exact le_of_mul_le_mul_left h hNm
  have f2 : 2 * (A * P) ≤ 2 * (M * B) + B := by
    have h : Nm * (2 * (A * P)) ≤ Nm * (2 * (M * B) + B) := by linarith
    exact le_of_mul_le_mul_left h hNm
  have f3 : 2 ^ 23 * B ≤ A * P := by
    rw [div_mul_eq_mul_div, le_div_iff₀ hB] at hn
    exact hn
  have hBP : 0 < B * P := by positivity
  have e1 : M * P⁻¹ - A / B = (M * B - A * P) / (B * P) := by
    field_simp
    ring
  have e2 : A / B / 2 ^ 24 = (A * P / 2 ^ 24) / (B * P) := by
    field_simp
    ring
  rw [e1, e2, abs_le, ← neg_div, div_le_div_iff_of_pos_right hBP, div_le_div_iff_of_pos_right hBP]
  norm_num at f3 ⊢
  constructor <;> linarith

/-- The quotient of two sizes, the second positive, is within a relative error of `2 ^
-22` of the exact ratio: two conversions and one division, each rounded. -/
theorem float_div_near {n d : Nat} (hd : 0 < d) :
    ∃ q, float_div n d = float_val.finite q ∧
      |q - (n : ℚ) / (d : ℚ)| ≤ (n : ℚ) / (d : ℚ) / 2 ^ 22 := by
  refine ⟨float_quot (float_of_size n) (float_of_size d), ?_, ?_⟩
  · unfold float_div
    rw [if_neg (by omega)]
  · by_cases hn : n = 0
    · subst hn
      simp [float_of_size, float_quot, float_quot_parts]
    · have hn0 : 0 < n := by omega
      have g1 := float_quot_near (float_of_size_pos hn0) (float_of_size_pos hd)
      have g2 := float_of_size_near n
      have g3 := float_of_size_near d
      have hA : (0 : ℚ) < ((float_of_size n : ℕ) : ℚ) := by
        exact_mod_cast float_of_size_pos hn0
      have hB : (0 : ℚ) < ((float_of_size d : ℕ) : ℚ) := by
        exact_mod_cast float_of_size_pos hd
      have hN : (0 : ℚ) < (n : ℚ) := by exact_mod_cast hn0
      have hD : (0 : ℚ) < (d : ℚ) := by exact_mod_cast hd
      generalize float_quot (float_of_size n) (float_of_size d) = q at g1
      generalize ((float_of_size n : ℕ) : ℚ) = A at g1 g2 hA
      generalize ((float_of_size d : ℕ) : ℚ) = B at g1 g3 hB
      generalize (n : ℚ) = N at g2 hN
      generalize (d : ℚ) = D at g3 hD
      rw [abs_le] at g1 g2 g3
      obtain ⟨a1, a2⟩ := g1
      obtain ⟨b1, b2⟩ := g2
      obtain ⟨c1, c2⟩ := g3
      have a3 : q * B ≤ A + A / 2 ^ 24 := by
        have h := mul_le_mul_of_nonneg_right a2 hB.le
        have e : (A / B / 2 ^ 24) * B = A / 2 ^ 24 := by
          field_simp
          ring
        have e3 : (q - A / B) * B = q * B - A := by field_simp
        rw [e, e3] at h
        linarith
      have a4 : A - A / 2 ^ 24 ≤ q * B := by
        have h := mul_le_mul_of_nonneg_right a1 hB.le
        have e : (-(A / B / 2 ^ 24)) * B = -(A / 2 ^ 24) := by
          field_simp
          ring
        have e3 : (q - A / B) * B = q * B - A := by field_simp
        rw [e, e3] at h
        linarith
      have hq0 : 0 ≤ q := by
        have h : 0 ≤ q * B := by
          have : 0 ≤ A - A / 2 ^ 24 := by
            norm_num
            linarith
          linarith
        exact nonneg_of_mul_nonneg_left h hB
      have u1 : q * (D - D / 2 ^ 24) ≤ q * B :=
        mul_le_mul_of_nonneg_left (by linarith) hq0
      have u2 : q * B ≤ q * (D + D / 2 ^ 24) :=
        mul_le_mul_of_nonneg_left (by linarith) hq0
      have e1 : q - N / D = (q * D - N) / D := by field_simp
      have e2 : N / D / 2 ^ 22 = (N / 2 ^ 22) / D := by ring
      rw [e1, e2, abs_le, ← neg_div, div_le_div_iff_of_pos_right hD, div_le_div_iff_of_pos_right hD]
      norm_num at a3 a4 b1 b2 c1 c2 u1 u2 ⊢
      constructor <;> nlinarith

/-! ## The overlap metric: exact sizes -/

theorem region_count_lt (k : part_kind) {p : Option cell} (hi : int_counts p) :
    region_count k p < 2 ^ 31 := by
  cases p with
  | none => simp [region_count]
  | some c =>
    obtain ⟨h1, h2, h3⟩ := hi
    cases k
    · exact h1
    · exact h2
    · exact h3

/-- The function the macro defines computes the containment overlap of §4.2. -/
theorem task_cell_overlap_eq (k : part_kind) (x y : Option cell)
    (hx : region_count k x < 2 ^ 31) (hy : region_count k y < 2 ^ 31) :
    task_cell_overlap (kind_parts k) (kind_count k) x y = containment_overlap k x y := by
  cases x with
  | none => simp [task_cell_overlap, containment_overlap]
  | some a =>
    cases y with
    | none => simp [task_cell_overlap, containment_overlap]
    | some b =>
      have ha : kind_count k a < 2 ^ 31 := hx
      have hb : kind_count k b < 2 ^ 31 := hy
      have ha2 : kind_count k a % size_t_range = kind_count k a :=
        Nat.mod_eq_of_lt (lt_trans ha (by unfold size_t_range; norm_num))
      have hb2 : kind_count k b % size_t_range = kind_count k b :=
        Nat.mod_eq_of_lt (lt_trans hb (by unfold size_t_range; norm_num))
      simp only [task_cell_overlap, containment_overlap, range_inside, ha2, hb2, ge_iff_le]

/-- A containment overlap is at most the count of either region. -/
theorem containment_overlap_le (k : part_kind) (x y : Option cell) :
    containment_overlap k x y ≤ region_count k x ∧
      containment_overlap k x y ≤ region_count k y := by
  cases x with
  | none => simp [containment_overlap]
  | some a =>
    cases y with
    | none => simp [containment_overlap]
    | some b =>
      simp only [containment_overlap, region_count, range_inside]
      split_ifs with h1 h2
      · exact ⟨by omega, le_refl _⟩
      · exact ⟨le_refl _, by omega⟩
      · exact ⟨Nat.zero_le _, Nat.zero_le _⟩

/-- The intersection size is at most the union size: each of the four overlaps is
charged to a different region. -/
theorem intersection_le_union (k : part_kind) (ta tb : task) :
    intersection_size k ta tb ≤ union_size k ta tb := by
  have h1 := (containment_overlap_le k ta.ci tb.ci).1
  have h2 := (containment_overlap_le k ta.ci tb.cj).2
  have h3 := (containment_overlap_le k ta.cj tb.ci).2
  have h4 := (containment_overlap_le k ta.cj tb.cj).1
  unfold intersection_size union_size
  omega

theorem add_count_eq (k : part_kind) (u : Nat) (p : Option cell)
    (h : u + region_count k p < size_t_range) :
    add_count (kind_count k) u p = u + region_count k p := by
  cases p with
  | none => simp [add_count, region_count]
  | some c =>
    simp only [add_count, size_add, region_count] at h ⊢
    exact Nat.mod_eq_of_lt h

/-- With counts of type `int`, the body of a branch of `task_overlap` returns the
quotient of the intersection size by the union size minus the intersection size,
none of the `size_t` operations wrapping around. -/
theorem overlap_branch_eq (k : part_kind) (ta tb : task)
    (c1 : region_count k ta.ci < 2 ^ 31) (c2 : region_count k ta.cj < 2 ^ 31)
    (c3 : region_count k tb.ci < 2 ^ 31) (c4 : region_count k tb.cj < 2 ^ 31) :
    overlap_branch (kind_count k) (task_cell_overlap (kind_parts k) (kind_count k)) ta tb =
      float_div (intersection_size k ta tb)
        (union_size k ta tb - intersection_size k ta tb) := by
  have hr : size_t_range = 18446744073709551616 := by unfold size_t_range; norm_num
  have hU : add_count (kind_count k) (add_count (kind_count k) (add_count (kind_count k)
      (add_count (kind_count k) 0 ta.ci) ta.cj) tb.ci) tb.cj = union_size k ta tb := by
    rw [add_count_eq k 0 ta.ci (by omega), add_count_eq k _ ta.cj (by omega),
      add_count_eq k _ tb.ci (by omega), add_count_eq k _ tb.cj (by omega)]
    unfold union_size
    omega
  have o1 := containment_overlap_le k ta.ci tb.ci
  have o2 := containment_overlap_le k ta.ci tb.cj
  have o3 := containment_overlap_le k ta.cj tb.ci
  have o4 := containment_overlap_le k ta.cj tb.cj
  have hI : size_add (size_add (size_add
      (task_cell_overlap (kind_parts k) (kind_count k) ta.ci tb.ci)
      (task_cell_overlap (kind_parts k) (kind_count k) ta.ci tb.cj))
      (task_cell_overlap (kind_parts k) (kind_count k) ta.cj tb.ci))
      (task_cell_overlap (kind_parts k) (kind_count k) ta.cj tb.cj) =
        intersection_size k ta tb := by
    rw [task_cell_overlap_eq k _ _ c1 c3, task_cell_overlap_eq k _ _ c1 c4,
      task_cell_overlap_eq k _ _ c2 c3, task_cell_overlap_eq k _ _ c2 c4]
    unfold intersection_size size_add
    rw [hr]
    omega
  have hle := intersection_le_union k ta tb
  have hUlt : union_size k ta tb < 18446744073709551616 := by
    unfold union_size
    omega
  unfold overlap_branch
  simp only [hU, hI]
  congr 1
  unfold size_sub
  rw [hr]
  omega

/-- The value `task_overlap` returns, in terms of the two actions: 0 when they
share no particle kind, the branch of the first shared kind otherwise. -/
theorem task_overlap_eq (ta tb : task) (aa ab : task_actions)
    (ha : task_acts_on ta = Except.ok aa) (hb : task_acts_on tb = Except.ok ab) :
    task_overlap (some ta) (some tb) = Except.ok
      (match first_shared_kind aa ab with
       | none => float_val.finite 0
       | some k => overlap_branch (kind_count k)
          (task_cell_overlap (kind_parts k) (kind_count k)) ta tb) := by
  simp only [task_overlap, ha, hb, Except.bind]
  cases aa <;> cases ab <;> rfl

/-- With counts of type `int`, the value `task_overlap` returns when the actions
share a kind: the quotient for the first shared kind. -/
theorem task_overlap_shared (ta tb : task) (aa ab : task_actions) (k : part_kind)
    (ha : task_acts_on ta = Except.ok aa) (hb : task_acts_on tb = Except.ok ab)
    (hk : first_shared_kind aa ab = some k)
    (c1 : region_count k ta.ci < 2 ^ 31) (c2 : region_count k ta.cj < 2 ^ 31)
    (c3 : region_count k tb.ci < 2 ^ 31) (c4 : region_count k tb.cj < 2 ^ 31) :
    task_overlap (some ta) (some tb) = Except.ok
      (float_div (intersection_size k ta tb)
        (union_size k ta tb - intersection_size k ta tb)) := by
  rw [task_overlap_eq ta tb aa ab ha hb, hk]
  simp only
  rw [overlap_branch_eq k ta tb c1 c2 c3 c4]

theorem first_shared_none_of_not_shares {a b : task_actions} (h : ¬ shares_kind a b) :
    first_shared_kind a b = none := by
  cases hf : first_shared_kind a b with
  | none => rfl
  | some k =>
    exfalso
    apply h
    unfold first_shared_kind at hf
    split_ifs at hf with h1 h2 h3
    · exact ⟨_, h1.1, h1.2⟩
    · exact ⟨_, h2.1, h2.2⟩
    · exact ⟨_, h3.1, h3.2⟩

theorem first_shared_acts {a b : task_actions} {k : part_kind}
    (h : first_shared_kind a b = some k) :
    acts_on_kind a k = true ∧ acts_on_kind b k = true := by
  unfold first_shared_kind at h
  split_ifs at h with h1 h2 h3
  · simp only [Option.some.injEq] at h; subst h; exact h1
  · simp only [Option.some.injEq] at h; subst h; exact h2
  · simp only [Option.some.injEq] at h; subst h; exact h3

/-- When the two regions of the second task have disjoint index ranges, the overlaps
of a region with them add up to at most the count of that region. -/
theorem overlap_row_le (k : part_kind) (x y1 y2 : Option cell)
    (hd : ranges_disjoint k y1 y2) :
    containment_overlap k x y1 + containment_overlap k x y2 ≤ region_count k x := by
  cases x with
  | none => simp [containment_overlap]
  | some a =>
    cases y1 with
    | none =>
      have := (containment_overlap_le k (some a) y2).1
      simpa [containment_overlap] using this
    | some b1 =>
      cases y2 with
      | none =>
        have := (containment_overlap_le k (some a) (some b1)).1
        simpa [containment_overlap] using this
      | some b2 =>
        simp only [ranges_disjoint] at hd
        simp only [containment_overlap, region_count, range_inside]
        split_ifs <;> omega

/-- When the two regions of the first task have disjoint index ranges, their
overlaps with a region add up to at most the count of that region. -/
theorem overlap_col_le (k : part_kind) (x1 x2 y : Option cell)
    (hd : ranges_disjoint k x1 x2) :
    containment_overlap k x1 y + containment_overlap k x2 y ≤ region_count k y := by
  cases y with
  | none => simp [containment_overlap]
  | some b =>
    cases x1 with
    | none =>
      have := (containment_overlap_le k x2 (some b)).2
      simpa [containment_overlap] using this
    | some a1 =>
      cases x2 with
      | none =>
        have := (containment_overlap_le k (some a1) (some b)).2
        simpa [containment_overlap] using this
      | some a2 =>
        simp only [ranges_disjoint] at hd
        simp only [containment_overlap, region_count, range_inside]
        split_ifs <;> omega

/-- When within each task the two regions have disjoint index ranges, twice the
intersection size is at most the union size. -/
theorem twice_intersection_le_union (k : part_kind) (ta tb : task)
    (ha : ranges_disjoint k ta.ci ta.cj) (hb : ranges_disjoint k tb.ci tb.cj) :
    2 * intersection_size k ta tb ≤ union_size k ta tb := by
  have r1 := overlap_row_le k ta.ci tb.ci tb.cj hb
  have r2 := overlap_row_le k ta.cj tb.ci tb.cj hb
  have q1 := overlap_col_le k ta.ci ta.cj tb.ci ha
  have q2 := overlap_col_le k ta.ci ta.cj tb.cj ha
  unfold intersection_size union_size
  omega

/-! ## Claims on the overlap metric -/

/-- C11: for two tasks that the classifier classifies, `task_overlap` returns 0 if
either action is `none`, or if the two actions share no particle kind among gas,
gravitating and stellar (`all` counting as every kind, `multipole` as none); in
particular when one action is `part` and the other `gpart`, whatever the regions. -/
theorem C11_overlap_zero_without_shared_kind (ta tb : task) (aa ab : task_actions)
    (ha : task_acts_on ta = Except.ok aa) (hb : task_acts_on tb = Except.ok ab) :
    ((aa = task_action_none ∨ ab = task_action_none ∨ ¬ shares_kind aa ab) →
      task_overlap (some ta) (some tb) = Except.ok (float_val.finite 0)) ∧
    (((aa = task_action_part ∧ ab = task_action_gpart) ∨
        (aa = task_action_gpart ∧ ab = task_action_part)) →
      task_overlap (some ta) (some tb) = Except.ok (float_val.finite 0)) := by
  rw [task_overlap_eq ta tb aa ab ha hb]
  refine ⟨?_, ?_⟩
  · rintro (h | h | h)
    · subst h
      cases ab <;> rfl
    · subst h
      cases aa <;> rfl
    · rw [first_shared_none_of_not_shares h]
  · rintro (⟨h1, h2⟩ | ⟨h1, h2⟩) <;> subst h1 <;> subst h2 <;> rfl

/-- Witness of C11: a gas drift and a gravity drift on the same region. -/
theorem C11_overlap_zero_without_shared_kind_witness :
    task_overlap (some (sample_task task_type_drift_part task_subtype_none
        (some sample_cell_A) none))
      (some (sample_task task_type_drift_gpart task_subtype_none
        (some sample_cell_A) none)) = Except.ok (float_val.finite 0) :=
  (C11_overlap_zero_without_shared_kind
    (sample_task task_type_drift_part task_subtype_none (some sample_cell_A) none)
    (sample_task task_type_drift_gpart task_subtype_none (some sample_cell_A) none)
    task_action_part task_action_gpart rfl rfl).2 (Or.inl ⟨rfl, rfl⟩)

/-- C12, as stated, fails, in two ways. The kind: two star_formation tasks, on
`sample_cell_A` and on `sample_cell_A_child`, both act on `all` and so share the
gravitating kind, for which the intersection size is 5 and the union size 10; yet
`task_overlap` returns the gas ratio 5 / 10 and not the gravitating ratio 5 / 5.
The exactness: for the self density tasks on a region with 33554433 gas particles
and on a region of 16777217 gas particles nested in it, the intersection size is
16777217 and the union size 50331650, and `task_overlap` returns the `float` 1 / 2,
not the ratio 16777217 / 33554433. -/
theorem C12_counterexample :
    task_acts_on sample_sf_parent = Except.ok task_action_all ∧
    task_acts_on sample_sf_child = Except.ok task_action_all ∧
    acts_on_kind task_action_all part_kind.gravitating = true ∧
    intersection_size part_kind.gravitating sample_sf_parent sample_sf_child = 5 ∧
    union_size part_kind.gravitating sample_sf_parent sample_sf_child = 10 ∧
    task_overlap (some sample_sf_parent) (some sample_sf_child) =
      Except.ok (float_val.finite (1 / 2)) ∧
    float_val.finite (1 / 2) ≠ float_val.finite ((5 : ℚ) / ((10 - 5 : ℕ) : ℚ)) ∧
    first_shared_kind task_action_part task_action_part = some part_kind.gas ∧
    intersection_size part_kind.gas sample_self_W sample_self_W_child = 16777217 ∧
    union_size part_kind.gas sample_self_W sample_self_W_child = 50331650 ∧
    task_overlap (some sample_self_W) (some sample_self_W_child) =
      Except.ok (float_val.finite (1 / 2)) ∧
    float_val.finite (1 / 2) ≠
      float_val.finite ((16777217 : ℚ) / ((50331650 - 16777217 : ℕ) : ℚ)) := by
  refine ⟨rfl, rfl, rfl, by decide, by decide, ?_, ?_, rfl, by decide, by decide, ?_, ?_⟩
  · rw [task_overlap_shared sample_sf_parent sample_sf_child task_action_all
      task_action_all part_kind.gas rfl rfl rfl (by decide) (by decide) (by decide)
      (by decide)]
    have hI : intersection_size part_kind.gas sample_sf_parent sample_sf_child = 5 := by
      decide
    have hU : union_size part_kind.gas sample_sf_parent sample_sf_child = 15 := by
      decide
    rw [hI, hU]
    show Except.ok (float_div 5 10) = _
    rw [float_div_eval 5 10 8388608 (-24) (by decide) (by decide)]
    norm_num
  · norm_num
  · rw [task_overlap_shared sample_self_W sample_self_W_child task_action_part
      task_action_part part_kind.gas rfl rfl rfl (by decide) (by decide) (by decide)
      (by decide)]
    have hI : intersection_size part_kind.gas sample_self_W sample_self_W_child =
        16777217 := by
      decide
    have hU : union_size part_kind.gas sample_self_W sample_self_W_child = 50331650 := by
      decide
    rw [hI, hU]
    show Except.ok (float_div 16777217 33554433) = _
    rw [float_div_eval 16777217 33554433 8388608 (-24) (by decide) (by decide)]
    norm_num
  · norm_num

/-- C12, amended: for two tasks that the classifier classifies, with counts of type
`int`, whose actions share a particle kind, `k` being the first shared kind in the
order gas, gravitating, stellar, and with U - I > 0, `task_overlap` returns the
`float` quotient of I by U - I, each converted to `float`: a number within a
relative error of `2 ^ -22` of the ratio I / (U - I). U is the sum of the kind-`k`
counts of the four operand regions (absent ones contributing 0) and I the sum of
the four containment overlaps. -/
theorem C12_overlap_ratio (ta tb : task) (aa ab : task_actions) (k : part_kind)
    (ha : task_acts_on ta = Except.ok aa) (hb : task_acts_on tb = Except.ok ab)
    (hia : task_int_counts ta) (hib : task_int_counts tb)
    (hk : first_shared_kind aa ab = some k)
    (hpos : 0 < union_size k ta tb - intersection_size k ta tb) :
    ∃ q, task_overlap (some ta) (some tb) = Except.ok (float_val.finite q) ∧
      q = float_quot (float_of_size (intersection_size k ta tb))
        (float_of_size (union_size k ta tb - intersection_size k ta tb)) ∧
      |q - (intersection_size k ta tb : ℚ) /
          ((union_size k ta tb - intersection_size k ta tb : ℕ) : ℚ)| ≤
        (intersection_size k ta tb : ℚ) /
          ((union_size k ta tb - intersection_size k ta tb : ℕ) : ℚ) / 2 ^ 22 := by
  obtain ⟨q, hq, hnear⟩ := float_div_near hpos
  refine ⟨q, ?_, ?_, hnear⟩
  · rw [task_overlap_shared ta tb aa ab k ha hb hk (region_count_lt k hia.1)
      (region_count_lt k hia.2) (region_count_lt k hib.1) (region_count_lt k hib.2), hq]
  · unfold float_div at hq
    rw [if_neg (Nat.pos_iff_ne_zero.mp hpos)] at hq
    exact (float_val.finite.inj hq).symm

/-- Witness of C12: the two star_formation tasks of the counterexample, for the
first shared kind, gas. -/
theorem C12_overlap_ratio_witness :
    ∃ q, task_overlap (some sample_sf_parent) (some sample_sf_child) =
        Except.ok (float_val.finite q) ∧
      q = float_quot
        (float_of_size (intersection_size part_kind.gas sample_sf_parent sample_sf_child))
        (float_of_size (union_size part_kind.gas sample_sf_parent sample_sf_child -
          intersection_size part_kind.gas sample_sf_parent sample_sf_child)) ∧
      |q - (intersection_size part_kind.gas sample_sf_parent sample_sf_child : ℚ) /
          ((union_size part_kind.gas sample_sf_parent sample_sf_child -
            intersection_size part_kind.gas sample_sf_parent sample_sf_child : ℕ) : ℚ)| ≤
        (intersection_size part_kind.gas sample_sf_parent sample_sf_child : ℚ) /
          ((union_size part_kind.gas sample_sf_parent sample_sf_child -
            intersection_size part_kind.gas sample_sf_parent sample_sf_child : ℕ) : ℚ) /
          2 ^ 22 :=
  C12_overlap_ratio sample_sf_parent sample_sf_child task_action_all task_action_all
    part_kind.gas rfl rfl (by decide) (by decide) rfl (by decide)

/-- C13, as stated, fails: for a pair density task on `sample_cell_A` and the cell
nested in it, against a self density task on `sample_cell_A`, the union size is 25
and the intersection size 15, and `task_overlap` returns 15 / 10 = 3 / 2, above 1;
and for a sort task on a region without gas against itself it returns the NaN of
0 / 0. -/
theorem C13_counterexample :
    task_overlap (some sample_pair_nested) (some sample_self_A) =
      Except.ok (float_val.finite (3 / 2)) ∧
    ¬ ((3 / 2 : ℚ) ≤ 1) ∧
    task_overlap (some sample_sort_G) (some sample_sort_G) = Except.ok float_val.nan := by
  refine ⟨?_, by norm_num, by decide⟩
  rw [task_overlap_shared sample_pair_nested sample_self_A task_action_part
    task_action_part part_kind.gas rfl rfl rfl (by decide) (by decide) (by decide)
    (by decide)]
  have hI : intersection_size part_kind.gas sample_pair_nested sample_self_A = 15 := by
    decide
  have hU : union_size part_kind.gas sample_pair_nested sample_self_A = 25 := by
    decide
  rw [hI, hU]
  show Except.ok (float_div 15 10) = _
  rw [float_div_eval 15 10 12582912 (-23) (by decide) (by decide)]
  norm_num

/-- C13, amended: for two tasks that the classifier classifies, with counts of type
`int`, such that, when the actions share a kind, the two regions of each task have
disjoint index ranges for the first shared kind and the union size is positive, the
value returned by `task_overlap` is a number in the closed interval [0, 1]. -/
theorem C13_overlap_unit_interval (ta tb : task) (aa ab : task_actions)
    (ha : task_acts_on ta = Except.ok aa) (hb : task_acts_on tb = Except.ok ab)
    (hia : task_int_counts ta) (hib : task_int_counts tb)
    (hd : ∀ k, first_shared_kind aa ab = some k →
      ranges_disjoint k ta.ci ta.cj ∧ ranges_disjoint k tb.ci tb.cj ∧
        0 < union_size k ta tb) :
    ∃ q, task_overlap (some ta) (some tb) = Except.ok (float_val.finite q) ∧
      0 ≤ q ∧ q ≤ 1 := by
  cases hf : first_shared_kind aa ab with
  | none =>
    refine ⟨0, ?_, le_refl _, by norm_num⟩
    rw [task_overlap_eq ta tb aa ab ha hb, hf]
  | some k =>
    obtain ⟨hda, hdb, hU⟩ := hd k hf
    have h2 := twice_intersection_le_union k ta tb hda hdb
    have hpos : 0 < union_size k ta tb - intersection_size k ta tb := by omega
    have hle : intersection_size k ta tb ≤
        union_size k ta tb - intersection_size k ta tb := by omega
    obtain ⟨q, hq, h0, h1⟩ := float_div_unit hpos hle
    refine ⟨q, ?_, h0, h1⟩
    rw [task_overlap_shared ta tb aa ab k ha hb hf (region_count_lt k hia.1)
      (region_count_lt k hia.2) (region_count_lt k hib.1) (region_count_lt k hib.2), hq]

/-- Witness of C13: the two self density tasks of the example of §8. -/
theorem C13_overlap_unit_interval_witness :
    ∃ q, task_overlap (some sample_self_P) (some sample_self_Q) =
      Except.ok (float_val.finite q) ∧ 0 ≤ q ∧ q ≤ 1 :=
  C13_overlap_unit_interval sample_self_P sample_self_Q task_action_part task_action_part
    rfl rfl (by decide) (by decide)
    (fun k hk => by
      have hgas : part_kind.gas = k := Option.some.inj hk
      subst hgas
      decide)

/-- C14, as stated, fails: a sort task on a region without gas particles, against
itself: the actions share the gas kind, the denominator is 0, and `task_overlap`
returns the NaN of 0 / 0, not 0. -/
theorem C14_counterexample :
    task_acts_on sample_sort_G = Except.ok task_action_part ∧
    first_shared_kind task_action_part task_action_part = some part_kind.gas ∧
    union_size part_kind.gas sample_sort_G sample_sort_G -
      intersection_size part_kind.gas sample_sort_G sample_sort_G = 0 ∧
    task_overlap (some sample_sort_G) (some sample_sort_G) = Except.ok float_val.nan ∧
    float_val.nan ≠ float_val.finite 0 := by
  refine ⟨rfl, rfl, by decide, by decide, by decide⟩

/-- C14, amended: for two tasks that the classifier classifies, with counts of type
`int`, whose actions share a particle kind and for which the denominator (union
size minus intersection size, for the first shared kind) is 0, `task_overlap`
returns what the division by zero gives: NaN when the intersection size is 0,
infinity otherwise. -/
theorem C14_zero_denominator (ta tb : task) (aa ab : task_actions) (k : part_kind)
    (ha : task_acts_on ta = Except.ok aa) (hb : task_acts_on tb = Except.ok ab)
    (hia : task_int_counts ta) (hib : task_int_counts tb)
    (hk : first_shared_kind aa ab = some k)
    (hz : union_size k ta tb - intersection_size k ta tb = 0) :
    task_overlap (some ta) (some tb) = Except.ok
      (if intersection_size k ta tb = 0 then float_val.nan else float_val.inf) := by
  rw [task_overlap_shared ta tb aa ab k ha hb hk (region_count_lt k hia.1)
    (region_count_lt k hia.2) (region_count_lt k hib.1) (region_count_lt k hib.2)]
  unfold float_div
  rw [if_pos hz]

/-- Witness of C14: the sort task on a region without gas particles. -/
theorem C14_zero_denominator_witness :
    task_overlap (some sample_sort_G) (some sample_sort_G) = Except.ok
      (if intersection_size part_kind.gas sample_sort_G sample_sort_G = 0
        then float_val.nan else float_val.inf) :=
  C14_zero_denominator sample_sort_G sample_sort_G task_action_part task_action_part
    part_kind.gas rfl rfl (by decide) (by decide) rfl (by decide)

/-- C15, as stated, fails: a grav_long_range task on a single region whose index
range is [0, 100) with count 100 for every kind has the action `multipole`, which is
not `none`, and `task_overlap` of the task with itself is 0, not 1. -/
theorem C15_counterexample :
    sample_long_range_H.ci = some sample_cell_H ∧ sample_long_range_H.cj = none ∧
    task_acts_on sample_long_range_H = Except.ok task_action_multipole ∧
    task_action_multipole ≠ task_action_none ∧
    (∀ k, kind_parts k sample_cell_H = 0 ∧ kind_count k sample_cell_H = 100) ∧
    task_overlap (some sample_long_range_H) (some sample_long_range_H) =
      Except.ok (float_val.finite 0) ∧
    float_val.finite 0 ≠ float_val.finite 1 := by
  refine ⟨rfl, rfl, rfl, by decide, ?_, by decide, ?_⟩
  · intro k
    cases k <;> exact ⟨rfl, rfl⟩
  · intro h
    injection h with h
    norm_num at h

/-- C15, amended: for a task on a single region (no second region) whose action is
neither `none` nor `multipole`, the index range of that region for the kind used
(the first kind of the action in the order gas, gravitating, stellar) being
[0, 100) with count 100, `task_overlap` of the task with itself is 1. -/
theorem C15_self_overlap_one (t : task) (c : cell) (a : task_actions)
    (hci : t.ci = some c) (hcj : t.cj = none) (ha : task_acts_on t = Except.ok a)
    (hn : a ≠ task_action_none) (hm : a ≠ task_action_multipole)
    (hr : ∀ k, first_shared_kind a a = some k →
      kind_parts k c = 0 ∧ kind_count k c = 100) :
    task_overlap (some t) (some t) = Except.ok (float_val.finite 1) := by
  obtain ⟨k, hk⟩ : ∃ k, first_shared_kind a a = some k := by
    cases a
    · exact absurd rfl hn
    · exact ⟨part_kind.gas, rfl⟩
    · exact ⟨part_kind.gravitating, rfl⟩
    · exact ⟨part_kind.stellar, rfl⟩
    · exact ⟨part_kind.gas, rfl⟩
    · exact absurd rfl hm
  obtain ⟨_, hc⟩ := hr k hk
  have c1 : region_count k t.ci < 2 ^ 31 := by
    rw [hci]
    simp only [region_count, hc]
    norm_num
  have c2 : region_count k t.cj < 2 ^ 31 := by
    rw [hcj]
    simp [region_count]
  rw [task_overlap_shared t t a a k ha ha hk c1 c2 c1 c2]
  have hI : intersection_size k t t = 100 := by
    simp [intersection_size, hci, hcj, containment_overlap, range_inside, hc]
  have hU : union_size k t t = 200 := by
    simp [union_size, hci, hcj, region_count, hc]
  rw [hI, hU]
  show Except.ok (float_div 100 100) = _
  rw [float_div_eval 100 100 8388608 (-23) (by decide) (by decide)]
  norm_num

/-- Witness of C15: a sort task on `sample_cell_H`. -/
theorem C15_self_overlap_one_witness :
    task_overlap (some sample_sort_H) (some sample_sort_H) =
      Except.ok (float_val.finite 1) :=
  C15_self_overlap_one sample_sort_H sample_cell_H task_action_part rfl rfl rfl
    (by decide) (by decide)
    (fun k hk => by
      have hgas : part_kind.gas = k := Option.some.inj hk
      subst hgas
      exact ⟨rfl, rfl⟩)

/-- C16, as stated, fails in its last figure: for the example of §8, region A with
gas range [0, 50) and region B with gas range [10, 30), the intersection size is 20
and the union size 70, but the value returned is the `float` nearest to 20 / 50,
which is 13421773 / 33554432 and not 2 / 5: no `float` is equal to 0.4. -/
theorem C16_counterexample :
    intersection_size part_kind.gas sample_self_P sample_self_Q = 20 ∧
    union_size part_kind.gas sample_self_P sample_self_Q = 70 ∧
    task_overlap (some sample_self_P) (some sample_self_Q) =
      Except.ok (float_val.finite (13421773 / 33554432)) ∧
    float_val.finite (13421773 / 33554432) ≠ float_val.finite (2 / 5) := by
  refine ⟨by decide, by decide, ?_, by norm_num⟩
  rw [task_overlap_shared sample_self_P sample_self_Q task_action_part
    task_action_part part_kind.gas rfl rfl rfl (by decide) (by decide) (by decide)
    (by decide)]
  have hI : intersection_size part_kind.gas sample_self_P sample_self_Q = 20 := by
    decide
  have hU : union_size part_kind.gas sample_self_P sample_self_Q = 70 := by
    decide
  rw [hI, hU]
  show Except.ok (float_div 20 50) = _
  rw [float_div_eval 20 50 13421773 (-25) (by decide) (by decide)]
  norm_num

/-- C16, amended: for two self tasks with a hydro sub-kind (density, gradient, force
or limiter), each on a single region, the gas index range of region `b` being nested
inside that of region `a` and the gas count of `a` being positive, `task_overlap`
returns, in either order of the two tasks, the `float` quotient of count(b) by
count(a), each converted to `float`: a number between 0 and 1 within a relative
error of `2 ^ -22` of count(b) / count(a); the intersection size is count(b) and the
union size count(a) + count(b). -/
theorem C16_nested_self_tasks (ta tb : task) (a b : cell)
    (hta : ta.type = task_type_self) (htb : tb.type = task_type_self)
    (hsa : ta.subtype = task_subtype_density ∨ ta.subtype = task_subtype_gradient ∨
      ta.subtype = task_subtype_force ∨ ta.subtype = task_subtype_limiter)
    (hsb : tb.subtype = task_subtype_density ∨ tb.subtype = task_subtype_gradient ∨
      tb.subtype = task_subtype_force ∨ tb.subtype = task_subtype_limiter)
    (hai : ta.ci = some a) (haj : ta.cj = none) (hbi : tb.ci = some b)
    (hbj : tb.cj = none) (hnest : range_inside part_kind.gas b a)
    (hpos : 0 < a.hydro.count) (hint : a.hydro.count < 2 ^ 31) :
    ∃ q, task_overlap (some ta) (some tb) = Except.ok (float_val.finite q) ∧
      task_overlap (some tb) (some ta) = Except.ok (float_val.finite q) ∧
      q = float_quot (float_of_size b.hydro.count) (float_of_size a.hydro.count) ∧
      |q - (b.hydro.count : ℚ) / (a.hydro.count : ℚ)| ≤
        (b.hydro.count : ℚ) / (a.hydro.count : ℚ) / 2 ^ 22 ∧
      0 ≤ q ∧ q ≤ 1 ∧
      intersection_size part_kind.gas ta tb = b.hydro.count ∧
      union_size part_kind.gas ta tb = a.hydro.count + b.hydro.count := by
  have hacta : task_acts_on ta = Except.ok task_action_part := by
    rw [acts_on_interaction ta (Or.inl hta)]
    rcases hsa with h | h | h | h <;> simp [h, classified_subtype]
  have hactb : task_acts_on tb = Except.ok task_action_part := by
    rw [acts_on_interaction tb (Or.inl htb)]
    rcases hsb with h | h | h | h <;> simp [h, classified_subtype]
  obtain ⟨hn1, hn2⟩ := hnest
  simp only [kind_parts, kind_count] at hn1 hn2
  have hble : b.hydro.count ≤ a.hydro.count := by omega
  have ca : region_count part_kind.gas (some a) < 2 ^ 31 := hint
  have cb : region_count part_kind.gas (some b) < 2 ^ 31 := lt_of_le_of_lt hble hint
  have cn : region_count part_kind.gas none < 2 ^ 31 := by simp [region_count]
  have hI1 : intersection_size part_kind.gas ta tb = b.hydro.count := by
    simp only [intersection_size, hai, haj, hbi, hbj, containment_overlap, range_inside,
      kind_parts, kind_count]
    rw [if_pos ⟨hn1, hn2⟩]
    simp
  have hI2 : intersection_size part_kind.gas tb ta = b.hydro.count := by
    simp only [intersection_size, hai, haj, hbi, hbj, containment_overlap, range_inside,
      kind_parts, kind_count]
    split_ifs <;> omega
  have hU1 : union_size part_kind.gas ta tb = a.hydro.count + b.hydro.count := by
    simp [union_size, hai, haj, hbi, hbj, region_count, kind_count]
  have hU2 : union_size part_kind.gas tb ta = a.hydro.count + b.hydro.count := by
    simp [union_size, hai, haj, hbi, hbj, region_count, kind_count]
    omega
  have hne : a.hydro.count ≠ 0 := Nat.pos_iff_ne_zero.mp hpos
  have hsub : a.hydro.count + b.hydro.count - b.hydro.count = a.hydro.count := by omega
  obtain ⟨q, hq, hnear⟩ := @float_div_near b.hydro.count a.hydro.count hpos
  obtain ⟨q2, hq2, h0, h1⟩ := @float_div_unit b.hydro.count a.hydro.count hpos hble
  have hqq : q2 = q := float_val.finite.inj (hq2.symm.trans hq)
  subst hqq
  refine ⟨q2, ?_, ?_, ?_, hnear, h0, h1, hI1, hU1⟩
  · rw [task_overlap_shared ta tb task_action_part task_action_part part_kind.gas hacta
      hactb rfl (by rw [hai]; exact ca) (by rw [haj]; exact cn) (by rw [hbi]; exact cb)
      (by rw [hbj]; exact cn), hI1, hU1, hsub, hq]
  · rw [task_overlap_shared tb ta task_action_part task_action_part part_kind.gas hactb
      hacta rfl (by rw [hbi]; exact cb) (by rw [hbj]; exact cn) (by rw [hai]; exact ca)
      (by rw [haj]; exact cn), hI2, hU2, hsub, hq]
  · unfold float_div at hq
    rw [if_neg hne] at hq
    exact (float_val.finite.inj hq).symm

/-- Witness of C16: the example of §8, region A with gas range [0, 50) and region B
with gas range [10, 30): the intersection size is 20, the union size 70 and the
overlap the `float` quotient of 20 by 50. -/
theorem C16_nested_self_tasks_witness :
    ∃ q, task_overlap (some sample_self_P) (some sample_self_Q) =
        Except.ok (float_val.finite q) ∧
      task_overlap (some sample_self_Q) (some sample_self_P) =
        Except.ok (float_val.finite q) ∧
      q = float_quot (float_of_size sample_cell_Q.hydro.count)
        (float_of_size sample_cell_P.hydro.count) ∧
      |q - (sample_cell_Q.hydro.count : ℚ) / (sample_cell_P.hydro.count : ℚ)| ≤
        (sample_cell_Q.hydro.count : ℚ) / (sample_cell_P.hydro.count : ℚ) / 2 ^ 22 ∧
      0 ≤ q ∧ q ≤ 1 ∧
      intersection_size part_kind.gas sample_self_P sample_self_Q =
        sample_cell_Q.hydro.count ∧
      union_size part_kind.gas sample_self_P sample_self_Q =
        sample_cell_P.hydro.count + sample_cell_Q.hydro.count :=
  C16_nested_self_tasks sample_self_P sample_self_Q sample_cell_P sample_cell_Q rfl rfl
    (Or.inl rfl) (Or.inl rfl) rfl rfl rfl rfl (by decide) (by decide) (by decide)

/-! ## Claims on rejection, bookkeeping locks and the transfer gate -/

/-- A lock held in the chain of a cell stays held when another lock is added. -/
theorem chain_locked_insert {d : Domain} {c : CellId} {L : Locks} (x : Domain × CellId)
    (h : chain_locked d c L = true) : chain_locked d c (insert x L) = true := by
  unfold chain_locked at h ⊢
  simp only [decide_eq_true_eq] at h ⊢
  obtain ⟨p, hp, hq⟩ := h
  exact ⟨p, Finset.mem_insert_of_mem hp, hq⟩

/-- C17: for a self or sub_self gravity task on a region `a` whose gravitating and
multipole hold flags are clear, if the gravitating lock of `a` is free (nothing
locked in its chain) but the multipole lock cannot be taken because it is held in
the chain of `a`, then `task_lock` returns 0, the lock set is as before, the
gravitating lock of `a` is free after the call, and the calls made were: try-lock
gravitating (granted), try-lock multipole (refused), unlock gravitating. -/
theorem C17_self_grav_rollback (with_mpi : Bool) (t : task) (m : Mem) (a : cell)
    (hk : t.type = task_type_self ∨ t.type = task_type_sub_self)
    (hs : t.subtype = task_subtype_grav) (ha : t.ci = some a)
    (hp : a.grav.phold = false) (hm : a.grav.mhold = false)
    (hfree : chain_locked Domain.grav a.loc m.locks = false)
    (hheld : chain_locked Domain.mpole a.loc m.locks = true) :
    ∃ m', task_lock with_mpi t m = Except.ok (0, m') ∧ m'.locks = m.locks ∧
      (Domain.grav, a.loc) ∉ m'.locks ∧
      m'.trace = m.trace ++ [Event.trylock Domain.grav a.loc true,
        Event.trylock Domain.mpole a.loc false, Event.unlock Domain.grav a.loc] := by
  have hb1 : blocked Domain.grav a m.locks = false := by
    simp [blocked, hold_flag, hp, hfree]
  have hb2 : blocked Domain.mpole a (insert (Domain.grav, a.loc) m.locks) = true := by
    simp [blocked, chain_locked_insert _ hheld]
  have hnot : (Domain.grav, a.loc) ∉ m.locks :=
    not_mem_of_not_blocked (by simp [hb1])
  have hres : task_lock with_mpi t m = Except.ok
      (0, cell_gunlocktree a (cell_mlocktree a (cell_glocktree a m).2).2) := by
    rcases hk with hk | hk <;>
      simp [task_lock, hk, hs, ha, deref, Except.bind, hp, hm, cell_glocktree,
        cell_mlocktree, trylock_fst, trylock_locks, hb1, hb2]
  refine ⟨_, hres, ?_, ?_, ?_⟩
  · simp [cell_gunlocktree, cell_mlocktree, cell_glocktree, unlock_locks, trylock_locks,
      hb1, hb2, Finset.erase_insert hnot]
  · simp [cell_gunlocktree, cell_mlocktree, cell_glocktree, unlock_locks, trylock_locks,
      hb1, hb2, Finset.erase_insert hnot, hnot]
  · simp [cell_gunlocktree, cell_mlocktree, cell_glocktree, cell_unlock, cell_trylock,
      hb1, hb2]

/-- Witness of C17: the example of §8, a self gravity task on `sample_cell_A` while
another task holds the multipole lock of that cell. -/
theorem C17_self_grav_rollback_witness :
    ∃ m', task_lock true (sample_task task_type_self task_subtype_grav
        (some sample_cell_A) none) sample_mem_mpole_held = Except.ok (0, m') ∧
      m'.locks = sample_mem_mpole_held.locks ∧
      (Domain.grav, sample_cell_A.loc) ∉ m'.locks ∧
      m'.trace = sample_mem_mpole_held.trace ++
        [Event.trylock Domain.grav sample_cell_A.loc true,
          Event.trylock Domain.mpole sample_cell_A.loc false,
          Event.unlock Domain.grav sample_cell_A.loc] :=
  C17_self_grav_rollback true
    (sample_task task_type_self task_subtype_grav (some sample_cell_A) none)
    sample_mem_mpole_held sample_cell_A (Or.inl rfl) rfl rfl rfl rfl (by decide)
    (by decide)

/-- C18, as stated, fails: a kick1 task on a region with gas count 0 and gravitating
count 5 classifies to `gpart`, but a granted `task_lock` on it has locked the gas
domain of the region as well, and `task_lock` is refused when another task holds the
gas lock of the region. -/
theorem C18_counterexample :
    task_acts_on sample_kick_G = Except.ok task_action_gpart ∧
    task_lock true sample_kick_G sample_mem = Except.ok (1, sample_mem_kick_G) ∧
    (Domain.hydro, sample_cell_G.loc) ∈ sample_mem_kick_G.locks ∧
    (Domain.grav, sample_cell_G.loc) ∉ sample_mem_gas_held.locks ∧
    ∃ m', task_lock true sample_kick_G sample_mem_gas_held = Except.ok (0, m') :=
  ⟨rfl, rfl, by decide, by decide, _, rfl⟩

/-- C18, amended: a kick1 or kick2 task on a region `a` with gas count 0 and
gravitating count 5 classifies to `gpart`; a granted `task_lock` on it has newly
locked both the gas and the gravitating domain of `a`; and when the gas lock of `a`
cannot be taken, `task_lock` returns 0 with the lock set unchanged. -/
theorem C18_kick_locks_gas_and_grav (t : task) (a : cell)
    (hk : t.type = task_type_kick1 ∨ t.type = task_type_kick2) (ha : t.ci = some a)
    (hg : a.hydro.count = 0) (hc : a.grav.count = 5) :
    task_acts_on t = Except.ok task_action_gpart ∧
    (∀ wm m m', task_lock wm t m = Except.ok (1, m') →
      m'.locks \ m.locks = {(Domain.hydro, a.loc), (Domain.grav, a.loc)}) ∧
    (∀ wm m, blocked Domain.hydro a m.locks = true →
      ∃ m', task_lock wm t m = Except.ok (0, m') ∧ m'.locks = m.locks) := by
  have hbk : bookkeeping_kind t.type := by
    unfold bookkeeping_kind
    rcases hk with h | h <;> simp [h]
  have hcomp : compute_task t := by
    unfold compute_task
    rcases hk with h | h <;> simp [h]
  have hcells : has_cells t :=
    has_cells_of_some ha (fun h => by rcases hk with h1 | h1 <;> simp [h1] at h)
  have hobl : obligations t = [(Domain.hydro, a), (Domain.grav, a)] := by
    rcases hk with h | h <;> simp [obligations, h, ha, on_cell]
  refine ⟨?_, ?_, ?_⟩
  · rw [acts_on_bookkeeping t hbk, ha]
    simp [deref, Except.bind, hg, hc]
  · intro wm m m' hgr
    rw [granted_newly hcomp hcells hgr, hobl]
    simp [keys]
  · intro wm m hb
    obtain ⟨r, m', hres, h⟩ := task_lock_cases wm t m hcomp hcells
    rcases h with ⟨h1, h2, _⟩ | ⟨_, h2⟩
    · subst h1
      exact ⟨m', hres, h2⟩
    · rw [hobl] at h2
      simp [acquire, hb] at h2

/-- Witness of C18: the kick1 task on `sample_cell_G`, granted from the state with
no lock held. -/
theorem C18_kick_locks_gas_and_grav_witness :
    sample_mem_kick_G.locks \ sample_mem.locks =
      {(Domain.hydro, sample_cell_G.loc), (Domain.grav, sample_cell_G.loc)} :=
  (C18_kick_locks_gas_and_grav sample_kick_G sample_cell_G (Or.inl rfl) rfl rfl rfl).2.1
    true sample_mem sample_mem_kick_G rfl

/-- C19: for a send or recv task in a build with MPI, `task_lock` returns 1 exactly
when the non-blocking test of the transfer reports completion, returns 0 when it
reports pending, aborts when it reports an error; whenever it returns, the state,
with its log of lock-primitive calls, is the one it was given; and the outcome does
not depend on the cells of the task, so neither on a hold flag. -/
theorem C19_transfer_gate (t : task) (m : Mem)
    (hk : t.type = task_type_send ∨ t.type = task_type_recv) :
    (t.req = mpi_test.complete → task_lock true t m = Except.ok (1, m)) ∧
    (t.req = mpi_test.pending → task_lock true t m = Except.ok (0, m)) ∧
    (t.req = mpi_test.failure → ∃ msg, task_lock true t m = Except.error (Err.fatal msg)) ∧
    ((∃ m', task_lock true t m = Except.ok (1, m')) ↔ t.req = mpi_test.complete) ∧
    (∀ r m', task_lock true t m = Except.ok (r, m') → m' = m) ∧
    (∀ ci cj, task_lock true { t with ci := ci, cj := cj } m = task_lock true t m) := by
  have hk2 : t.type = task_type_recv ∨ t.type = task_type_send := hk.symm
  have hred : ∀ u : task, u.type = t.type → task_lock true u m =
      match u.req with
      | mpi_test.failure => error "Failed to test request on send/recv task"
      | mpi_test.pending => Except.ok (0, m)
      | mpi_test.complete => Except.ok (1, m) := by
    intro u hu
    have hu2 : u.type = task_type_recv ∨ u.type = task_type_send := by rw [hu]; exact hk2
    simp only [task_lock, if_pos hu2, if_true]
  rw [hred t rfl]
  refine ⟨?_, ?_, ?_, ?_, ?_, ?_⟩
  · intro h; rw [h]
  · intro h; rw [h]
  · intro h; rw [h]; exact ⟨_, rfl⟩
  · cases t.req <;> simp [error]
  · intro r m' h
    cases hreq : t.req <;> rw [hreq] at h <;> simp [error] at h
    · exact h.2.symm
    · exact h.2.symm
  · intro ci cj
    rw [hred { t with ci := ci, cj := cj } rfl]

/-- Witness of C19: a send task whose transfer is pending is not granted. -/
theorem C19_transfer_gate_witness :
    task_lock true (sample_task task_type_send task_subtype_none (some sample_cell_A) none)
      sample_mem = Except.ok (0, sample_mem) :=
  (C19_transfer_gate
    (sample_task task_type_send task_subtype_none (some sample_cell_A) none) sample_mem
    (Or.inl rfl)).2.1 rfl

/-- C20: for a send or recv task and every state, `task_unlock` returns the state it
was given: the lock set is unchanged and no unlock primitive is called. -/
theorem C20_unlock_comm_noop (t : task) (m : Mem)
    (hk : t.type = task_type_send ∨ t.type = task_type_recv) :
    task_unlock t m = Except.ok m := by
  rcases hk with hk | hk <;> simp [task_unlock, hk]

/-- Witness of C20: a recv task, in a state where locks are held. -/
theorem C20_unlock_comm_noop_witness :
    task_unlock (sample_task task_type_recv task_subtype_none (some sample_cell_A) none)
      sample_mem_pair_grav = Except.ok sample_mem_pair_grav :=
  C20_unlock_comm_noop
    (sample_task task_type_recv task_subtype_none (some sample_cell_A) none)
    sample_mem_pair_grav (Or.inr rfl)

/-! ## The acquisition protocol: what it writes to the log -/

theorem events_since_append (m m' : Mem) (ev : List Event) (h : m'.trace = m.trace ++ ev) :
    events_since m m' = ev := by
  unfold events_since
  rw [h, List.drop_left]

theorem attempts_append (a b : List Event) : attempts (a ++ b) = attempts a ++ attempts b := by
  simp [attempts, List.filterMap_append]

theorem unlocks_append (a b : List Event) : unlocks (a ++ b) = unlocks a ++ unlocks b := by
  simp [unlocks, List.filterMap_append]

theorem granted_pairs_append (a b : List Event) :
    granted_pairs (a ++ b) = granted_pairs a ++ granted_pairs b := by
  simp [granted_pairs, List.filterMap_append]

theorem attempts_granted_events (l : List (Domain × cell)) :
    attempts (granted_events l) = (pairs l).map fun k => (k, true) := by
  induction l with
  | nil => rfl
  | cons p rest ih =>
    simp only [attempts, granted_events, pairs, List.map_cons, List.filterMap_cons] at ih ⊢
    rw [ih]

theorem attempts_unlock_events (l : List (Domain × cell)) : attempts (unlock_events l) = [] := by
  induction l with
  | nil => rfl
  | cons p rest ih =>
    simp only [attempts, unlock_events, List.map_cons, List.filterMap_cons] at ih ⊢
    rw [ih]

theorem unlocks_granted_events (l : List (Domain × cell)) : unlocks (granted_events l) = [] := by
  induction l with
  | nil => rfl
  | cons p rest ih =>
    simp only [unlocks, granted_events, List.map_cons, List.filterMap_cons] at ih ⊢
    rw [ih]

theorem unlocks_unlock_events (l : List (Domain × cell)) :
    unlocks (unlock_events l) = pairs l := by
  induction l with
  | nil => rfl
  | cons p rest ih =>
    simp only [unlocks, unlock_events, pairs, List.map_cons, List.filterMap_cons] at ih ⊢
    rw [ih]

theorem granted_pairs_granted_events (l : List (Domain × cell)) :
    granted_pairs (granted_events l) = pairs l := by
  induction l with
  | nil => rfl
  | cons p rest ih =>
    simp only [granted_pairs, granted_events, pairs, List.map_cons, List.filterMap_cons] at ih ⊢
    rw [ih]

theorem granted_pairs_unlock_events (l : List (Domain × cell)) :
    granted_pairs (unlock_events l) = [] := by
  induction l with
  | nil => rfl
  | cons p rest ih =>
    simp only [granted_pairs, unlock_events, List.map_cons, List.filterMap_cons] at ih ⊢
    rw [ih]

theorem map_fst_granted (l : List (Domain × CellId)) :
    (l.map fun k => (k, true)).map Prod.fst = l := by
  induction l with
  | nil => rfl
  | cons k rest ih => simp only [List.map_cons, ih]

theorem try_seq_spec (l : List (Domain × cell)) :
    ∀ (m : Mem) (acq : List (Domain × cell)),
      (∃ m', try_seq m acq l = (1, m') ∧ acquire m.locks l = some m'.locks ∧
        m'.trace = m.trace ++ granted_events l) ∨
      (∃ done q rest L', l = done ++ q :: rest ∧ acquire m.locks done = some L' ∧
        blocked q.1 q.2 L' = true ∧
        try_seq m acq l = (0, release
          { locks := L',
            trace := m.trace ++ granted_events done ++ [Event.trylock q.1 q.2.loc false] }
          (acq ++ done))) := by
  induction l with
  | nil =>
    intro m acq
    exact Or.inl ⟨m, rfl, rfl, by simp [granted_events]⟩
  | cons p rest ih =>
    intro m acq
    by_cases hb : blocked p.1 p.2 m.locks = true
    · refine Or.inr ⟨[], p, rest, m.locks, rfl, rfl, hb, ?_⟩
      simp [try_seq, cell_trylock, hb, granted_events]
    · have h1 : cell_trylock p.1 p.2 m =
          (0, { locks := insert (p.1, p.2.loc) m.locks,
                trace := m.trace ++ [Event.trylock p.1 p.2.loc true] }) := by
        simp [cell_trylock, hb]
      have hstep : try_seq m acq (p :: rest) =
          try_seq { locks := insert (p.1, p.2.loc) m.locks,
                    trace := m.trace ++ [Event.trylock p.1 p.2.loc true] }
            (acq ++ [p]) rest := by
        simp [try_seq, h1]
      rcases ih { locks := insert (p.1, p.2.loc) m.locks,
                  trace := m.trace ++ [Event.trylock p.1 p.2.loc true] } (acq ++ [p]) with
        ⟨m', h2, h3, h4⟩ | ⟨done, q, rest', L', h2, h3, h4, h5⟩
      · refine Or.inl ⟨m', by rw [hstep, h2], ?_, ?_⟩
        · simp only [acquire, if_neg hb]
          exact h3
        · rw [h4]
          simp [granted_events]
      · refine Or.inr ⟨p :: done, q, rest', L', by rw [h2]; rfl, ?_, h4, ?_⟩
        · simp only [acquire, if_neg hb]
          exact h3
        · rw [hstep, h5]
          simp [granted_events]

theorem rollback_locks {L L' : Locks} {l : List (Domain × cell)}
    (h : acquire L l = some L') : L' \ keys l = L := by
  rw [(acquire_some l L L' h).1]
  exact Finset.union_sdiff_cancel_right (acquire_disjoint h)

set_option maxHeartbeats 4000000 in
/-- The function `task_lock` follows the protocol: on a compute task either a hold
flag of an obligation is set and it returns 0 with the state untouched, or its
result is that of `try_seq` on the obligation list. -/
theorem task_lock_protocol (wm : Bool) (t : task) (m : Mem) (hc : compute_task t)
    (hw : has_cells t) :
    (task_lock wm t m = Except.ok (0, m) ∧
      ∃ p ∈ obligations t, hold_flag p.1 p.2 = true) ∨
    task_lock wm t m = Except.ok (try_seq m [] (obligations t)) := by
  obtain ⟨hc1, hc2⟩ := hc
  obtain ⟨hwi, hwj⟩ := hw
  have h0 : ¬ (t.type = task_type_recv ∨ t.type = task_type_send) := by
    rintro (h | h)
    · exact hc2 h
    · exact hc1 h
  by_cases k1 : t.type = task_type_end_force ∨ t.type = task_type_kick1 ∨ t.type =
    task_type_kick2 ∨ t.type = task_type_logger ∨ t.type = task_type_timestep
  · obtain ⟨a, ha⟩ := some_of_ne_none (hwi (by rcases k1 with h | h | h | h | h <;> simp [h]))
    simp only [obligations, if_pos k1, ha, on_cell, List.cons_append, List.nil_append,
      List.append_assoc]
    simp only [task_lock, if_neg h0, if_pos k1, ha, deref, Except.bind]
    by_cases hh1 : a.hydro.hold = true
    · exact Or.inl ⟨by simp [hh1], (Domain.hydro, a), by simp, hh1⟩
    by_cases hh2 : a.grav.phold = true
    · exact Or.inl ⟨by simp [hh1, hh2], (Domain.grav, a), by simp, hh2⟩
    right
    simp only [hh1, hh2, Bool.false_eq_true, false_or, or_false, or_self, if_false, ite_false,
      try_seq, release, List.foldl, cell_glocktree, cell_gunlocktree, cell_locktree,
      cell_unlocktree, List.cons_append, List.nil_append]
    split_ifs <;> rfl
  by_cases k2 : t.type = task_type_drift_part ∨ t.type = task_type_sort ∨ t.type =
    task_type_ghost ∨ t.type = task_type_timestep_limiter
  · obtain ⟨a, ha⟩ := some_of_ne_none (hwi (by rcases k2 with h | h | h | h <;> simp [h]))
    simp only [obligations, if_neg k1, if_pos k2, ha, on_cell, List.cons_append,
      List.nil_append, List.append_assoc]
    simp only [task_lock, if_neg h0, if_neg k1, if_pos k2, ha, deref, Except.bind]
    by_cases hh1 : a.hydro.hold = true
    · exact Or.inl ⟨by simp [hh1], (Domain.hydro, a), by simp, hh1⟩
    right
    simp only [hh1, Bool.false_eq_true, false_or, or_false, or_self, if_false, ite_false,
      try_seq, release, List.foldl, cell_locktree, cell_unlocktree, List.cons_append,
      List.nil_append]
    split_ifs <;> rfl
  by_cases k3 : t.type = task_type_stars_sort
  · obtain ⟨a, ha⟩ := some_of_ne_none (hwi (by simp [k3]))
    simp only [obligations, if_neg k1, if_neg k2, if_pos k3, ha, on_cell, List.cons_append,
      List.nil_append, List.append_assoc]
    simp only [task_lock, if_neg h0, if_neg k1, if_neg k2, if_pos k3, ha, deref, Except.bind]
    by_cases hh1 : a.stars.hold = true
    · exact Or.inl ⟨by simp [hh1], (Domain.stars, a), by simp, hh1⟩
    right
    simp only [hh1, Bool.false_eq_true, false_or, or_false, or_self, if_false, ite_false,
      try_seq, release, List.foldl, cell_slocktree, cell_sunlocktree, List.cons_append,
      List.nil_append]
    split_ifs <;> rfl
  by_cases k4 : t.type = task_type_drift_gpart ∨ t.type = task_type_grav_mesh
  · obtain ⟨a, ha⟩ := some_of_ne_none (hwi (by rcases k4 with h | h <;> simp [h]))
    simp only [obligations, if_neg k1, if_neg k2, if_neg k3, if_pos k4, ha, on_cell,
      List.cons_append, List.nil_append, List.append_assoc]
    simp only [task_lock, if_neg h0, if_neg k1, if_neg k2, if_neg k3, if_pos k4, ha, deref,
      Except.bind]
    by_cases hh1 : a.grav.phold = true
    · exact Or.inl ⟨by simp [hh1], (Domain.grav, a), by simp, hh1⟩
    right
    simp only [hh1, Bool.false_eq_true, false_or, or_false, or_self, if_false, ite_false,
      try_seq, release, List.foldl, cell_glocktree, cell_gunlocktree, List.cons_append,
      List.nil_append]
    split_ifs <;> rfl
  by_cases k5 : t.type = task_type_self ∨ t.type = task_type_sub_self
  · by_cases s1 : t.subtype = task_subtype_grav
    · obtain ⟨a, ha⟩ := some_of_ne_none (hwi (by rcases k5 with h | h <;> simp [h]))
      simp only [obligations, if_neg k1, if_neg k2, if_neg k3, if_neg k4, if_pos k5, if_pos s1,
        ha, on_cell, List.cons_append, List.nil_append, List.append_assoc]
      simp only [task_lock, if_neg h0, if_neg k1, if_neg k2, if_neg k3, if_neg k4, if_pos k5,
        if_pos s1, ha, deref, Except.bind]
      by_cases hh1 : a.grav.phold = true
      · exact Or.inl ⟨by simp [hh1], (Domain.grav, a), by simp, hh1⟩
      by_cases hh2 : a.grav.mhold = true
      · exact Or.inl ⟨by simp [hh1, hh2], (Domain.mpole, a), by simp, hh2⟩
      right
      simp only [hh1, hh2, Bool.false_eq_true, false_or, or_false, or_self, if_false, ite_false,
        try_seq, release, List.foldl, cell_glocktree, cell_gunlocktree, cell_mlocktree,
        cell_munlocktree, List.cons_append, List.nil_append]
      split_ifs <;> rfl
    by_cases s2 : t.subtype = task_subtype_stars_density
    · obtain ⟨a, ha⟩ := some_of_ne_none (hwi (by rcases k5 with h | h <;> simp [h]))
      simp only [obligations, if_neg k1, if_neg k2, if_neg k3, if_neg k4, if_pos k5, if_neg s1,
        if_pos s2, ha, on_cell, List.cons_append, List.nil_append, List.append_assoc]
      simp only [task_lock, if_neg h0, if_neg k1, if_neg k2, if_neg k3, if_neg k4, if_pos k5,
        if_neg s1, if_pos s2, ha, deref, Except.bind]
      by_cases hh1 : a.stars.hold = true
      · exact Or.inl ⟨by simp [hh1], (Domain.stars, a), by simp, hh1⟩
      right
      simp only [hh1, Bool.false_eq_true, false_or, or_false, or_self, if_false, ite_false,
        try_seq, release, List.foldl, cell_slocktree, cell_sunlocktree, List.cons_append,
        List.nil_append]
      split_ifs <;> rfl
    by_cases s3 : t.subtype = task_subtype_stars_feedback
    · obtain ⟨a, ha⟩ := some_of_ne_none (hwi (by rcases k5 with h | h <;> simp [h]))
      simp only [obligations, if_neg k1, if_neg k2, if_neg k3, if_neg k4, if_pos k5, if_neg s1,
        if_neg s2, if_pos s3, ha, on_cell, List.cons_append, List.nil_append, List.append_assoc]
      simp only [task_lock, if_neg h0, if_neg k1, if_neg k2, if_neg k3, if_neg k4, if_pos k5,
        if_neg s1, if_neg s2, if_pos s3, ha, deref, Except.bind]
      by_cases hh1 : a.stars.hold = true
      · exact Or.inl ⟨by simp [hh1], (Domain.stars, a), by simp, hh1⟩
      by_cases hh2 : a.hydro.hold = true
      · exact Or.inl ⟨by simp [hh1, hh2], (Domain.hydro, a), by simp, hh2⟩
      right
      simp only [hh1, hh2, Bool.false_eq_true, false_or, or_false, or_self, if_false, ite_false,
        try_seq, release, List.foldl, cell_locktree, cell_slocktree, cell_sunlocktree,
        cell_unlocktree, List.cons_append, List.nil_append]
      split_ifs <;> rfl
    · obtain ⟨a, ha⟩ := some_of_ne_none (hwi (by rcases k5 with h | h <;> simp [h]))
      simp only [obligations, if_neg k1, if_neg k2, if_neg k3, if_neg k4, if_pos k5, if_neg s1,
        if_neg s2, if_neg s3, ha, on_cell, List.cons_append, List.nil_append, List.append_assoc]
      simp only [task_lock, if_neg h0, if_neg k1, if_neg k2, if_neg k3, if_neg k4, if_pos k5,
        if_neg s1, if_neg s2, if_neg s3, ha, deref, Except.bind]
      by_cases hh1 : a.hydro.hold = true
      · exact Or.inl ⟨by simp [hh1], (Domain.hydro, a), by simp, hh1⟩
      right
      simp only [hh1, Bool.false_eq_true, false_or, or_false, or_self, if_false, ite_false,
        try_seq, release, List.foldl, cell_locktree, cell_unlocktree, List.cons_append,
        List.nil_append]
      split_ifs <;> rfl
  by_cases k6 : t.type = task_type_pair ∨ t.type = task_type_sub_pair
  · by_cases s1 : t.subtype = task_subtype_grav
    · obtain ⟨a, ha⟩ := some_of_ne_none (hwi (by rcases k6 with h | h <;> simp [h]))
      obtain ⟨b, hb⟩ := some_of_ne_none (hwj (by rcases k6 with h | h <;> simp [h]))
      simp only [obligations, if_neg k1, if_neg k2, if_neg k3, if_neg k4, if_neg k5, if_pos k6,
        if_pos s1, ha, hb, on_cell, List.cons_append, List.nil_append, List.append_assoc]
      simp only [task_lock, if_neg h0, if_neg k1, if_neg k2, if_neg k3, if_neg k4, if_neg k5,
        if_pos k6, if_pos s1, ha, hb, deref, Except.bind]
      by_cases hh1 : a.grav.phold = true
      · exact Or.inl ⟨by simp [hh1], (Domain.grav, a), by simp, hh1⟩
      by_cases hh2 : b.grav.phold = true
      · exact Or.inl ⟨by simp [hh1, hh2], (Domain.grav, b), by simp, hh2⟩
      right
      simp only [hh1, hh2, Bool.false_eq_true, false_or, or_false, or_self, if_false, ite_false,
        try_seq, release, List.foldl, cell_glocktree, cell_gunlocktree, cell_mlocktree,
        cell_munlocktree, List.cons_append, List.nil_append]
      split_ifs <;> rfl
    by_cases s2 : t.subtype = task_subtype_stars_density
    · obtain ⟨a, ha⟩ := some_of_ne_none (hwi (by rcases k6 with h | h <;> simp [h]))
      obtain ⟨b, hb⟩ := some_of_ne_none (hwj (by rcases k6 with h | h <;> simp [h]))
      simp only [obligations, if_neg k1, if_neg k2, if_neg k3, if_neg k4, if_neg k5, if_pos k6,
        if_neg s1, if_pos s2, ha, hb, on_cell, List.cons_append, List.nil_append,
        List.append_assoc]
      simp only [task_lock, if_neg h0, if_neg k1, if_neg k2, if_neg k3, if_neg k4, if_neg k5,
        if_pos k6, if_neg s1, if_pos s2, ha, hb, deref, Except.bind]
      by_cases hh1 : a.stars.hold = true
      · exact Or.inl ⟨by simp [hh1], (Domain.stars, a), by simp, hh1⟩
      by_cases hh2 : b.stars.hold = true
      · exact Or.inl ⟨by simp [hh1, hh2], (Domain.stars, b), by simp, hh2⟩
      right
      simp only [hh1, hh2, Bool.false_eq_true, false_or, or_false, or_self, if_false, ite_false,
        try_seq, release, List.foldl, cell_slocktree, cell_sunlocktree, List.cons_append,
        List.nil_append]
      split_ifs <;> rfl
    by_cases s3 : t.subtype = task_subtype_stars_feedback
    · obtain ⟨a, ha⟩ := some_of_ne_none (hwi (by rcases k6 with h | h <;> simp [h]))
      obtain ⟨b, hb⟩ := some_of_ne_none (hwj (by rcases k6 with h | h <;> simp [h]))
      simp only [obligations, if_neg k1, if_neg k2, if_neg k3, if_neg k4, if_neg k5, if_pos k6,
        if_neg s1, if_neg s2, if_pos s3, ha, hb, on_cell, List.cons_append, List.nil_append,
        List.append_assoc]
      simp only [task_lock, if_neg h0, if_neg k1, if_neg k2, if_neg k3, if_neg k4, if_neg k5,
        if_pos k6, if_neg s1, if_neg s2, if_pos s3, ha, hb, deref, Except.bind]
      by_cases hh1 : a.stars.hold = true
      · exact Or.inl ⟨by simp [hh1], (Domain.stars, a), by simp, hh1⟩
      by_cases hh2 : b.stars.hold = true
      · exact Or.inl ⟨by simp [hh1, hh2], (Domain.stars, b), by simp, hh2⟩
      by_cases hh3 : a.hydro.hold = true
      · exact Or.inl ⟨by simp [hh1, hh2, hh3], (Domain.hydro, a), by simp, hh3⟩
      by_cases hh4 : b.hydro.hold = true
      · exact Or.inl ⟨by simp [hh1, hh2, hh3, hh4], (Domain.hydro, b), by simp, hh4⟩
      right
      simp only [hh1, hh2, hh3, hh4, Bool.false_eq_true, false_or, or_false, or_self, if_false,
        ite_false, try_seq, release, List.foldl, cell_locktree, cell_slocktree, cell_sunlocktree,
        cell_unlocktree, List.cons_append, List.nil_append]
      split_ifs <;> rfl
    · obtain ⟨a, ha⟩ := some_of_ne_none (hwi (by rcases k6 with h | h <;> simp [h]))
      obtain ⟨b, hb⟩ := some_of_ne_none (hwj (by rcases k6 with h | h <;> simp [h]))
      simp only [obligations, if_neg k1, if_neg k2, if_neg k3, if_neg k4, if_neg k5, if_pos k6,
        if_neg s1, if_neg s2, if_neg s3, ha, hb, on_cell, List.cons_append, List.nil_append,
        List.append_assoc]
      simp only [task_lock, if_neg h0, if_neg k1, if_neg k2, if_neg k3, if_neg k4, if_neg k5,
        if_pos k6, if_neg s1, if_neg s2, if_neg s3, ha, hb, deref, Except.bind]
      by_cases hh1 : a.hydro.hold = true
      · exact Or.inl ⟨by simp [hh1], (Domain.hydro, a), by simp, hh1⟩
      by_cases hh2 : b.hydro.hold = true
      · exact Or.inl ⟨by simp [hh1, hh2], (Domain.hydro, b), by simp, hh2⟩
      right
      simp only [hh1, hh2, Bool.false_eq_true, false_or, or_false, or_self, if_false, ite_false,
        try_seq, release, List.foldl, cell_locktree, cell_unlocktree, List.cons_append,
        List.nil_append]
      split_ifs <;> rfl
  by_cases k7 : t.type = task_type_grav_down
  · obtain ⟨a, ha⟩ := some_of_ne_none (hwi (by simp [k7]))
    simp only [obligations, if_neg k1, if_neg k2, if_neg k3, if_neg k4, if_neg k5, if_neg k6,
      if_pos k7, ha, on_cell, List.cons_append, List.nil_append, List.append_assoc]
    simp only [task_lock, if_neg h0, if_neg k1, if_neg k2, if_neg k3, if_neg k4, if_neg k5,
      if_neg k6, if_pos k7, ha, deref, Except.bind]
    by_cases hh1 : a.grav.phold = true
    · exact Or.inl ⟨by simp [hh1], (Domain.grav, a), by simp, hh1⟩
    by_cases hh2 : a.grav.mhold = true
    · exact Or.inl ⟨by simp [hh1, hh2], (Domain.mpole, a), by simp, hh2⟩
    right
    simp only [hh1, hh2, Bool.false_eq_true, false_or, or_false, or_self, if_false, ite_false,
      try_seq, release, List.foldl, cell_glocktree, cell_gunlocktree, cell_mlocktree,
      cell_munlocktree, List.cons_append, List.nil_append]
    split_ifs <;> rfl
  by_cases k8 : t.type = task_type_grav_long_range
  · obtain ⟨a, ha⟩ := some_of_ne_none (hwi (by simp [k8]))
    simp only [obligations, if_neg k1, if_neg k2, if_neg k3, if_neg k4, if_neg k5, if_neg k6,
      if_neg k7, if_pos k8, ha, on_cell, List.cons_append, List.nil_append, List.append_assoc]
    simp only [task_lock, if_neg h0, if_neg k1, if_neg k2, if_neg k3, if_neg k4, if_neg k5,
      if_neg k6, if_neg k7, if_pos k8, ha, deref, Except.bind]
    by_cases hh1 : a.grav.mhold = true
    · exact Or.inl ⟨by simp [hh1], (Domain.mpole, a), by simp, hh1⟩
    right
    simp only [hh1, Bool.false_eq_true, false_or, or_false, or_self, if_false, ite_false,
      try_seq, release, List.foldl, cell_mlocktree, cell_munlocktree, List.cons_append,
      List.nil_append]
    split_ifs <;> rfl
  by_cases k9 : t.type = task_type_grav_mm
  · obtain ⟨a, ha⟩ := some_of_ne_none (hwi (by simp [k9]))
    obtain ⟨b, hb⟩ := some_of_ne_none (hwj (by simp [k9]))
    simp only [obligations, if_neg k1, if_neg k2, if_neg k3, if_neg k4, if_neg k5, if_neg k6,
      if_neg k7, if_neg k8, if_pos k9, ha, hb, on_cell, List.cons_append, List.nil_append,
      List.append_assoc]
    simp only [task_lock, if_neg h0, if_neg k1, if_neg k2, if_neg k3, if_neg k4, if_neg k5,
      if_neg k6, if_neg k7, if_neg k8, if_pos k9, ha, hb, deref, Except.bind]
    by_cases hh1 : a.grav.mhold = true
    · exact Or.inl ⟨by simp [hh1], (Domain.mpole, a), by simp, hh1⟩
    by_cases hh2 : b.grav.mhold = true
    · exact Or.inl ⟨by simp [hh1, hh2], (Domain.mpole, b), by simp, hh2⟩
    right
    simp only [hh1, hh2, Bool.false_eq_true, false_or, or_false, or_self, if_false, ite_false,
      try_seq, release, List.foldl, cell_mlocktree, cell_munlocktree, List.cons_append,
      List.nil_append]
    split_ifs <;> rfl
  by_cases k10 : t.type = task_type_star_formation
  · obtain ⟨a, ha⟩ := some_of_ne_none (hwi (by simp [k10]))
    simp only [obligations, if_neg k1, if_neg k2, if_neg k3, if_neg k4, if_neg k5, if_neg k6,
      if_neg k7, if_neg k8, if_neg k9, if_pos k10, ha, on_cell, List.cons_append, List.nil_append,
      List.append_assoc]
    simp only [task_lock, if_neg h0, if_neg k1, if_neg k2, if_neg k3, if_neg k4, if_neg k5,
      if_neg k6, if_neg k7, if_neg k8, if_neg k9, if_pos k10, ha, deref, Except.bind]
    by_cases hh1 : a.hydro.hold = true
    · exact Or.inl ⟨by simp [hh1], (Domain.hydro, a), by simp, hh1⟩
    by_cases hh2 : a.stars.hold = true
    · exact Or.inl ⟨by simp [hh1, hh2], (Domain.stars, a), by simp, hh2⟩
    by_cases hh3 : a.grav.phold = true
    · exact Or.inl ⟨by simp [hh1, hh2, hh3], (Domain.grav, a), by simp, hh3⟩
    right
    simp only [hh1, hh2, hh3, Bool.false_eq_true, false_or, or_false, or_self, if_false,
      ite_false, try_seq, release, List.foldl, cell_glocktree, cell_gunlocktree, cell_locktree,
      cell_slocktree, cell_sunlocktree, cell_unlocktree, List.cons_append, List.nil_append]
    split_ifs <;> rfl
  right
  simp only [task_lock, obligations, if_neg h0, if_neg k1, if_neg k2, if_neg k3, if_neg k4,
    if_neg k5, if_neg k6, if_neg k7, if_neg k8, if_neg k9, if_neg k10, try_seq]

/-- The three outcomes of `task_lock` on a compute task: rejected on a hold flag
before any try-lock; granted, every obligation try-locked in order; or refused at
the obligation `q`, after which the pairs acquired before it are unlocked in the
order of their acquisition. -/
theorem task_lock_outcome (wm : Bool) (t : task) (m : Mem) (hc : compute_task t)
    (hw : has_cells t) :
    (task_lock wm t m = Except.ok (0, m) ∧
      ∃ p ∈ obligations t, hold_flag p.1 p.2 = true) ∨
    (∃ m', task_lock wm t m = Except.ok (1, m') ∧
      acquire m.locks (obligations t) = some m'.locks ∧
      m'.trace = m.trace ++ granted_events (obligations t)) ∨
    (∃ m' done q rest L', task_lock wm t m = Except.ok (0, m') ∧
      obligations t = done ++ q :: rest ∧ acquire m.locks done = some L' ∧
      blocked q.1 q.2 L' = true ∧ m'.locks = m.locks ∧
      m'.trace = m.trace ++ (granted_events done ++
        (Event.trylock q.1 q.2.loc false :: unlock_events done))) := by
  rcases task_lock_protocol wm t m hc hw with h | h
  · exact Or.inl h
  · right
    rcases try_seq_spec (obligations t) m [] with
      ⟨m', h1, h2, h3⟩ | ⟨done, q, rest, L', h1, h2, h3, h4⟩
    · exact Or.inl ⟨m', by rw [h, h1], h2, h3⟩
    · refine Or.inr ⟨_, done, q, rest, L', by rw [h, h4], h1, h2, h3, ?_, ?_⟩
      · rw [release_locks, List.nil_append]
        exact rollback_locks h2
      · rw [release_trace, List.nil_append]
        simp [unlock_events]

theorem on_cell_length (d : Domain) (p : Option cell) : (on_cell d p).length ≤ 1 := by
  cases p <;> simp [on_cell]

theorem ite_length_le {c : Prop} [Decidable c] {a b : List (Domain × cell)} {n : Nat}
    (ha : a.length ≤ n) (hb : b.length ≤ n) : (if c then a else b).length ≤ n := by
  split <;> assumption

theorem obligations_length_le (t : task) : (obligations t).length ≤ 4 := by
  have h1 := on_cell_length Domain.hydro t.ci
  have h2 := on_cell_length Domain.grav t.ci
  have h3 := on_cell_length Domain.mpole t.ci
  have h4 := on_cell_length Domain.stars t.ci
  have h5 := on_cell_length Domain.hydro t.cj
  have h6 := on_cell_length Domain.grav t.cj
  have h7 := on_cell_length Domain.mpole t.cj
  have h8 := on_cell_length Domain.stars t.cj
  unfold obligations
  repeat any_goals first
    | refine ite_length_le ?_ ?_
    | omega
    | (simp only [List.length_append, List.length_nil]; omega)

/-! ## Contention between obligation lists -/

theorem chain_locked_insert_iff (d : Domain) (c : CellId) (x : Domain × CellId) (L : Locks) :
    chain_locked d c (insert x L) = true ↔
      chain_locked d c L = true ∨ (x.1 = d ∧ (x.2 <+: c ∨ c <+: x.2)) := by
  unfold chain_locked
  simp only [decide_eq_true_eq, Finset.mem_insert]
  constructor
  · rintro ⟨p, hp | hp, hq⟩
    · subst hp
      exact Or.inr hq
    · exact Or.inl ⟨p, hp, hq⟩
  · rintro (⟨p, hp, hq⟩ | hq)
    · exact ⟨p, Or.inr hp, hq⟩
    · exact ⟨x, Or.inl rfl, hq⟩

theorem blocked_insert_of_not_contend {p q : Domain × cell} {L : Locks}
    (hq : blocked q.1 q.2 L = false) (hpq : ¬ contend p q) :
    blocked q.1 q.2 (insert (p.1, p.2.loc) L) = false := by
  simp only [blocked, Bool.or_eq_false_iff] at hq ⊢
  refine ⟨hq.1, ?_⟩
  cases h : chain_locked q.1 q.2.loc (insert (p.1, p.2.loc) L) with
  | false => rfl
  | true =>
    rcases (chain_locked_insert_iff _ _ _ _).mp h with h1 | h1
    · rw [hq.2] at h1
      exact absurd h1 (by simp)
    · exact absurd ⟨h1.1, h1.2⟩ hpq

theorem acquire_of_free (l : List (Domain × cell)) :
    ∀ L : Locks, (∀ p ∈ l, blocked p.1 p.2 L = false) → independent l →
      acquire L l = some (L ∪ keys l) := by
  induction l with
  | nil => intro L _ _; simp [acquire, keys]
  | cons p rest ih =>
    intro L hfree hind
    have hp : ¬ blocked p.1 p.2 L = true := by
      rw [hfree p (List.mem_cons_self _ _)]
      simp
    obtain ⟨hhead, htail⟩ := List.pairwise_cons.mp hind
    simp only [acquire, if_neg hp]
    rw [ih (insert (p.1, p.2.loc) L) ?_ htail, keys_cons]
    · congr 1
      ext x
      simp only [Finset.mem_union, Finset.mem_insert]
      tauto
    · intro q hq
      exact blocked_insert_of_not_contend (hfree q (List.mem_cons_of_mem _ hq)) (hhead q hq)

theorem acquire_none_of_locked {l : List (Domain × cell)} {L : Locks}
    (h : ∃ k ∈ keys l, k ∈ L) : acquire L l = none := by
  cases hacq : acquire L l with
  | none => rfl
  | some L' =>
    obtain ⟨k, hk, hL⟩ := h
    simp only [keys, List.mem_toFinset, List.mem_map] at hk
    obtain ⟨p, hp, rfl⟩ := hk
    exact absurd hL ((acquire_some l L L' hacq).2 p hp).1

theorem blocked_union_keys {q : Domain × cell} {L : Locks} (l : List (Domain × cell))
    (hq : blocked q.1 q.2 L = false) (hl : ∀ p ∈ l, ¬ contend p q) :
    blocked q.1 q.2 (L ∪ keys l) = false := by
  induction l generalizing L with
  | nil => simpa [keys] using hq
  | cons p rest ih =>
    have h1 := blocked_insert_of_not_contend hq (hl p (List.mem_cons_self _ _))
    have h2 := ih h1 (fun r hr => hl r (List.mem_cons_of_mem _ hr))
    have e : L ∪ keys (p :: rest) = insert (p.1, p.2.loc) L ∪ keys rest := by
      rw [keys_cons]
      ext x
      simp only [Finset.mem_union, Finset.mem_insert]
      tauto
    rw [e]
    exact h2

/-- A compute task all of whose obligations are free and mutually independent is
granted, and the lock set grows by exactly its obligations. -/
theorem granted_of_free (wm : Bool) (t : task) (m : Mem) (hc : compute_task t)
    (hw : has_cells t) (hfree : free_for m t) (hind : independent (obligations t)) :
    ∃ m', task_lock wm t m = Except.ok (1, m') ∧
      m'.locks = m.locks ∪ keys (obligations t) := by
  obtain ⟨r, m', hres, h⟩ := task_lock_cases wm t m hc hw
  have hacq := acquire_of_free (obligations t) m.locks hfree hind
  rcases h with ⟨_, _, h3⟩ | ⟨h1, h2⟩
  · rw [hacq] at h3
    exact absurd h3 (by simp)
  · subst h1
    rw [hacq] at h2
    exact ⟨m', hres, (Option.some.inj h2).symm⟩

/-- A compute task one of whose obligated pairs is locked is refused, and the lock
set after the call is the one before it. -/
theorem refused_of_locked (wm : Bool) (t : task) (m : Mem) (hc : compute_task t)
    (hw : has_cells t) (h : ∃ k ∈ keys (obligations t), k ∈ m.locks) :
    ∃ m', task_lock wm t m = Except.ok (0, m') ∧ m'.locks = m.locks := by
  obtain ⟨r, m', hres, h2⟩ := task_lock_cases wm t m hc hw
  have hacq := acquire_none_of_locked h
  rcases h2 with ⟨h1, h3, _⟩ | ⟨_, h3⟩
  · subst h1
    exact ⟨m', hres, h3⟩
  · rw [hacq] at h3
    exact absurd h3 (by simp)

/-- A send or recv task, or a task that misses a cell its kind reads through, makes
`task_lock` abort, fault, or return without a call of a lock primitive. -/
theorem task_lock_quiet (wm : Bool) (t : task) (m : Mem)
    (h : ¬ (compute_task t ∧ has_cells t)) :
    (∃ e, task_lock wm t m = Except.error e) ∨ ∃ r, task_lock wm t m = Except.ok (r, m) := by
  by_cases h0 : t.type = task_type_recv ∨ t.type = task_type_send
  · simp only [task_lock, if_pos h0]
    cases wm
    · exact Or.inl ⟨_, rfl⟩
    · cases t.req
      · exact Or.inr ⟨0, rfl⟩
      · exact Or.inr ⟨1, rfl⟩
      · exact Or.inl ⟨_, rfl⟩
  have hnc : ¬ has_cells t :=
    fun hw => h ⟨⟨fun e => h0 (Or.inr e), fun e => h0 (Or.inl e)⟩, hw⟩
  by_cases k1 : t.type = task_type_end_force ∨ t.type = task_type_kick1 ∨ t.type =
    task_type_kick2 ∨ t.type = task_type_logger ∨ t.type = task_type_timestep
  · rcases hci : t.ci with _ | a
    · exact Or.inl ⟨Err.segv, by simp only [task_lock, if_neg h0, if_pos k1, hci, deref,
        Except.bind]⟩
    exact absurd ⟨fun _ => by simp [hci], fun hm => absurd hm (by rcases k1 with h | h | h | h |
      h <;> simp [h])⟩ hnc
  by_cases k2 : t.type = task_type_drift_part ∨ t.type = task_type_sort ∨ t.type =
    task_type_ghost ∨ t.type = task_type_timestep_limiter
  · rcases hci : t.ci with _ | a
    · exact Or.inl ⟨Err.segv, by simp only [task_lock, if_neg h0, if_neg k1, if_pos k2, hci,
        deref, Except.bind]⟩
    exact absurd ⟨fun _ => by simp [hci], fun hm => absurd hm (by rcases k2 with h | h | h | h
      <;> simp [h])⟩ hnc
  by_cases k3 : t.type = task_type_stars_sort
  · rcases hci : t.ci with _ | a
    · exact Or.inl ⟨Err.segv, by simp only [task_lock, if_neg h0, if_neg k1, if_neg k2, if_pos
        k3, hci, deref, Except.bind]⟩
    exact absurd ⟨fun _ => by simp [hci], fun hm => absurd hm (by simp [k3])⟩ hnc
  by_cases k4 : t.type = task_type_drift_gpart ∨ t.type = task_type_grav_mesh
  · rcases hci : t.ci with _ | a
    · exact Or.inl ⟨Err.segv, by simp only [task_lock, if_neg h0, if_neg k1, if_neg k2, if_neg
        k3, if_pos k4, hci, deref, Except.bind]⟩
    exact absurd ⟨fun _ => by simp [hci], fun hm => absurd hm (by rcases k4 with h | h <;> simp
      [h])⟩ hnc
  by_cases k5 : t.type = task_type_self ∨ t.type = task_type_sub_self
  · by_cases s1 : t.subtype = task_subtype_grav
    · rcases hci : t.ci with _ | a
      · exact Or.inl ⟨Err.segv, by simp only [task_lock, if_neg h0, if_neg k1, if_neg k2, if_neg
          k3, if_neg k4, if_pos k5, if_pos s1, hci, deref, Except.bind]⟩
      exact absurd ⟨fun _ => by simp [hci], fun hm => absurd hm (by rcases k5 with h | h <;>
        simp [h])⟩ hnc
    by_cases s2 : t.subtype = task_subtype_stars_density
    · rcases hci : t.ci with _ | a
      · exact Or.inl ⟨Err.segv, by simp only [task_lock, if_neg h0, if_neg k1, if_neg k2, if_neg
          k3, if_neg k4, if_pos k5, if_neg s1, if_pos s2, hci, deref, Except.bind]⟩
      exact absurd ⟨fun _ => by simp [hci], fun hm => absurd hm (by rcases k5 with h | h <;>
        simp [h])⟩ hnc
    by_cases s3 : t.subtype = task_subtype_stars_feedback
    · rcases hci : t.ci with _ | a
      · exact Or.inl ⟨Err.segv, by simp only [task_lock, if_neg h0, if_neg k1, if_neg k2, if_neg
          k3, if_neg k4, if_pos k5, if_neg s1, if_neg s2, if_pos s3, hci, deref, Except.bind]⟩
      exact absurd ⟨fun _ => by simp [hci], fun hm => absurd hm (by rcases k5 with h | h <;>
        simp [h])⟩ hnc
    · rcases hci : t.ci with _ | a
      · exact Or.inl ⟨Err.segv, by simp only [task_lock, if_neg h0, if_neg k1, if_neg k2, if_neg
          k3, if_neg k4, if_pos k5, if_neg s1, if_neg s2, if_neg s3, hci, deref, Except.bind]⟩
      exact absurd ⟨fun _ => by simp [hci], fun hm => absurd hm (by rcases k5 with h | h <;>
        simp [h])⟩ hnc
  by_cases k6 : t.type = task_type_pair ∨ t.type = task_type_sub_pair
  · by_cases s1 : t.subtype = task_subtype_grav
    · rcases hci : t.ci with _ | a
      · exact Or.inl ⟨Err.segv, by simp only [task_lock, if_neg h0, if_neg k1, if_neg k2, if_neg
          k3, if_neg k4, if_neg k5, if_pos k6, if_pos s1, hci, deref, Except.bind]⟩
      rcases hcj : t.cj with _ | b
      · by_cases hh : a.grav.phold = true
        · exact Or.inr ⟨0, by simp only [task_lock, if_neg h0, if_neg k1, if_neg k2, if_neg k3,
            if_neg k4, if_neg k5, if_pos k6, if_pos s1, hci, hcj, deref, Except.bind, hh,
            if_true]⟩
        · exact Or.inl ⟨Err.segv, by simp only [task_lock, if_neg h0, if_neg k1, if_neg k2,
            if_neg k3, if_neg k4, if_neg k5, if_pos k6, if_pos s1, hci, hcj, deref, Except.bind,
            hh, Bool.false_eq_true, if_false]⟩
      exact absurd ⟨fun _ => by simp [hci], fun _ => by simp [hcj]⟩ hnc
    by_cases s2 : t.subtype = task_subtype_stars_density
    · rcases hci : t.ci with _ | a
      · exact Or.inl ⟨Err.segv, by simp only [task_lock, if_neg h0, if_neg k1, if_neg k2, if_neg
          k3, if_neg k4, if_neg k5, if_pos k6, if_neg s1, if_pos s2, hci, deref, Except.bind]⟩
      rcases hcj : t.cj with _ | b
      · by_cases hh : a.stars.hold = true
        · exact Or.inr ⟨0, by simp only [task_lock, if_neg h0, if_neg k1, if_neg k2, if_neg k3,
            if_neg k4, if_neg k5, if_pos k6, if_neg s1, if_pos s2, hci, hcj, deref, Except.bind,
            hh, if_true]⟩
        · exact Or.inl ⟨Err.segv, by simp only [task_lock, if_neg h0, if_neg k1, if_neg k2,
            if_neg k3, if_neg k4, if_neg k5, if_pos k6, if_neg s1, if_pos s2, hci, hcj, deref,
            Except.bind, hh, Bool.false_eq_true, if_false]⟩
      exact absurd ⟨fun _ => by simp [hci], fun _ => by simp [hcj]⟩ hnc
    by_cases s3 : t.subtype = task_subtype_stars_feedback
    · rcases hci : t.ci with _ | a
      · exact Or.inl ⟨Err.segv, by simp only [task_lock, if_neg h0, if_neg k1, if_neg k2, if_neg
          k3, if_neg k4, if_neg k5, if_pos k6, if_neg s1, if_neg s2, if_pos s3, hci, deref,
          Except.bind]⟩
      rcases hcj : t.cj with _ | b
      · by_cases hh : a.stars.hold = true
        · exact Or.inr ⟨0, by simp only [task_lock, if_neg h0, if_neg k1, if_neg k2, if_neg k3,
            if_neg k4, if_neg k5, if_pos k6, if_neg s1, if_neg s2, if_pos s3, hci, hcj, deref,
            Except.bind, hh, if_true]⟩
        · exact Or.inl ⟨Err.segv, by simp only [task_lock, if_neg h0, if_neg k1, if_neg k2,
            if_neg k3, if_neg k4, if_neg k5, if_pos k6, if_neg s1, if_neg s2, if_pos s3, hci, hcj,
            deref, Except.bind, hh, Bool.false_eq_true, if_false]⟩
      exact absurd ⟨fun _ => by simp [hci], fun _ => by simp [hcj]⟩ hnc
    · rcases hci : t.ci with _ | a
      · exact Or.inl ⟨Err.segv, by simp only [task_lock, if_neg h0, if_neg k1, if_neg k2, if_neg
          k3, if_neg k4, if_neg k5, if_pos k6, if_neg s1, if_neg s2, if_neg s3, hci, deref,
          Except.bind]⟩
      rcases hcj : t.cj with _ | b
      · by_cases hh : a.hydro.hold = true
        · exact Or.inr ⟨0, by simp only [task_lock, if_neg h0, if_neg k1, if_neg k2, if_neg k3,
            if_neg k4, if_neg k5, if_pos k6, if_neg s1, if_neg s2, if_neg s3, hci, hcj, deref,
            Except.bind, hh, if_true]⟩
        · exact Or.inl ⟨Err.segv, by simp only [task_lock, if_neg h0, if_neg k1, if_neg k2,
            if_neg k3, if_neg k4, if_neg k5, if_pos k6, if_neg s1, if_neg s2, if_neg s3, hci, hcj,
            deref, Except.bind, hh, Bool.false_eq_true, if_false]⟩
      exact absurd ⟨fun _ => by simp [hci], fun _ => by simp [hcj]⟩ hnc
  by_cases k7 : t.type = task_type_grav_down
  · rcases hci : t.ci with _ | a
    · exact Or.inl ⟨Err.segv, by simp only [task_lock, if_neg h0, if_neg k1, if_neg k2, if_neg
        k3, if_neg k4, if_neg k5, if_neg k6, if_pos k7, hci, deref, Except.bind]⟩
    exact absurd ⟨fun _ => by simp [hci], fun hm => absurd hm (by simp [k7])⟩ hnc
  by_cases k8 : t.type = task_type_grav_long_range
  · rcases hci : t.ci with _ | a
    · exact Or.inl ⟨Err.segv, by simp only [task_lock, if_neg h0, if_neg k1, if_neg k2, if_neg
        k3, if_neg k4, if_neg k5, if_neg k6, if_neg k7, if_pos k8, hci, deref, Except.bind]⟩
    exact absurd ⟨fun _ => by simp [hci], fun hm => absurd hm (by simp [k8])⟩ hnc
  by_cases k9 : t.type = task_type_grav_mm
  · rcases hci : t.ci with _ | a
    · exact Or.inl ⟨Err.segv, by simp only [task_lock, if_neg h0, if_neg k1, if_neg k2, if_neg
        k3, if_neg k4, if_neg k5, if_neg k6, if_neg k7, if_neg k8, if_pos k9, hci, deref,
        Except.bind]⟩
    rcases hcj : t.cj with _ | b
    · by_cases hh : a.grav.mhold = true
      · exact Or.inr ⟨0, by simp only [task_lock, if_neg h0, if_neg k1, if_neg k2, if_neg k3,
          if_neg k4, if_neg k5, if_neg k6, if_neg k7, if_neg k8, if_pos k9, hci, hcj, deref,
          Except.bind, hh, if_true]⟩
      · exact Or.inl ⟨Err.segv, by simp only [task_lock, if_neg h0, if_neg k1, if_neg k2, if_neg
          k3, if_neg k4, if_neg k5, if_neg k6, if_neg k7, if_neg k8, if_pos k9, hci, hcj, deref,
          Except.bind, hh, Bool.false_eq_true, if_false]⟩
    exact absurd ⟨fun _ => by simp [hci], fun _ => by simp [hcj]⟩ hnc
  by_cases k10 : t.type = task_type_star_formation
  · rcases hci : t.ci with _ | a
    · exact Or.inl ⟨Err.segv, by simp only [task_lock, if_neg h0, if_neg k1, if_neg k2, if_neg
        k3, if_neg k4, if_neg k5, if_neg k6, if_neg k7, if_neg k8, if_neg k9, if_pos k10, hci,
        deref, Except.bind]⟩
    exact absurd ⟨fun _ => by simp [hci], fun hm => absurd hm (by simp [k10])⟩ hnc
  exact Or.inr ⟨1, by simp only [task_lock, if_neg h0, if_neg k1, if_neg k2, if_neg k3, if_neg
    k4, if_neg k5, if_neg k6, if_neg k7, if_neg k8, if_neg k9, if_neg k10]⟩

/-- A task that misses a cell its kind reads through makes `task_unlock` fault. -/
theorem task_unlock_quiet (t : task) (m : Mem) (hnc : ¬ has_cells t) :
    ∃ e, task_unlock t m = Except.error e := by
  by_cases k1 : t.type = task_type_end_force ∨ t.type = task_type_kick1 ∨ t.type =
    task_type_kick2 ∨ t.type = task_type_logger ∨ t.type = task_type_timestep
  · rcases hci : t.ci with _ | a
    · exact ⟨Err.segv, by simp only [task_unlock, if_pos k1, hci, deref, Except.bind]⟩
    exact absurd ⟨fun _ => by simp [hci], fun hm => absurd hm (by rcases k1 with h | h | h | h |
      h <;> simp [h])⟩ hnc
  by_cases k2 : t.type = task_type_drift_part ∨ t.type = task_type_sort ∨ t.type =
    task_type_ghost ∨ t.type = task_type_timestep_limiter
  · rcases hci : t.ci with _ | a
    · exact ⟨Err.segv, by simp only [task_unlock, if_neg k1, if_pos k2, hci, deref, Except.bind]⟩
    exact absurd ⟨fun _ => by simp [hci], fun hm => absurd hm (by rcases k2 with h | h | h | h
      <;> simp [h])⟩ hnc
  by_cases k4 : t.type = task_type_drift_gpart ∨ t.type = task_type_grav_mesh
  · rcases hci : t.ci with _ | a
    · exact ⟨Err.segv, by simp only [task_unlock, if_neg k1, if_neg k2, if_pos k4, hci, deref,
        Except.bind]⟩
    exact absurd ⟨fun _ => by simp [hci], fun hm => absurd hm (by rcases k4 with h | h <;> simp
      [h])⟩ hnc
  by_cases k3 : t.type = task_type_stars_sort
  · rcases hci : t.ci with _ | a
    · exact ⟨Err.segv, by simp only [task_unlock, if_neg k1, if_neg k2, if_neg k4, if_pos k3,
        hci, deref, Except.bind]⟩
    exact absurd ⟨fun _ => by simp [hci], fun hm => absurd hm (by simp [k3])⟩ hnc
  by_cases k5 : t.type = task_type_self ∨ t.type = task_type_sub_self
  · by_cases s1 : t.subtype = task_subtype_grav
    · rcases hci : t.ci with _ | a
      · exact ⟨Err.segv, by simp only [task_unlock, if_neg k1, if_neg k2, if_neg k4, if_neg k3,
          if_pos k5, if_pos s1, hci, deref, Except.bind]⟩
      exact absurd ⟨fun _ => by simp [hci], fun hm => absurd hm (by rcases k5 with h | h <;>
        simp [h])⟩ hnc
    by_cases s2 : t.subtype = task_subtype_stars_density
    · rcases hci : t.ci with _ | a
      · exact ⟨Err.segv, by simp only [task_unlock, if_neg k1, if_neg k2, if_neg k4, if_neg k3,
          if_pos k5, if_neg s1, if_pos s2, hci, deref, Except.bind]⟩
      exact absurd ⟨fun _ => by simp [hci], fun hm => absurd hm (by rcases k5 with h | h <;>
        simp [h])⟩ hnc
    by_cases s3 : t.subtype = task_subtype_stars_feedback
    · rcases hci : t.ci with _ | a
      · exact ⟨Err.segv, by simp only [task_unlock, if_neg k1, if_neg k2, if_neg k4, if_neg k3,
          if_pos k5, if_neg s1, if_neg s2, if_pos s3, hci, deref, Except.bind]⟩
      exact absurd ⟨fun _ => by simp [hci], fun hm => absurd hm (by rcases k5 with h | h <;>
        simp [h])⟩ hnc
    · rcases hci : t.ci with _ | a
      · exact ⟨Err.segv, by simp only [task_unlock, if_neg k1, if_neg k2, if_neg k4, if_neg k3,
          if_pos k5, if_neg s1, if_neg s2, if_neg s3, hci, deref, Except.bind]⟩
      exact absurd ⟨fun _ => by simp [hci], fun hm => absurd hm (by rcases k5 with h | h <;>
        simp [h])⟩ hnc
  by_cases k6 : t.type = task_type_pair ∨ t.type = task_type_sub_pair
  · by_cases s1 : t.subtype = task_subtype_grav
    · rcases hci : t.ci with _ | a
      · exact ⟨Err.segv, by simp only [task_unlock, if_neg k1, if_neg k2, if_neg k4, if_neg k3,
          if_neg k5, if_pos k6, if_pos s1, hci, deref, Except.bind]⟩
      rcases hcj : t.cj with _ | b
      · exact ⟨Err.segv, by simp only [task_unlock, if_neg k1, if_neg k2, if_neg k4, if_neg k3,
          if_neg k5, if_pos k6, if_pos s1, hci, hcj, deref, Except.bind]⟩
      exact absurd ⟨fun _ => by simp [hci], fun _ => by simp [hcj]⟩ hnc
    by_cases s2 : t.subtype = task_subtype_stars_density
    · rcases hci : t.ci with _ | a
      · exact ⟨Err.segv, by simp only [task_unlock, if_neg k1, if_neg k2, if_neg k4, if_neg k3,
          if_neg k5, if_pos k6, if_neg s1, if_pos s2, hci, deref, Except.bind]⟩
      rcases hcj : t.cj with _ | b
      · exact ⟨Err.segv, by simp only [task_unlock, if_neg k1, if_neg k2, if_neg k4, if_neg k3,
          if_neg k5, if_pos k6, if_neg s1, if_pos s2, hci, hcj, deref, Except.bind]⟩
      exact absurd ⟨fun _ => by simp [hci], fun _ => by simp [hcj]⟩ hnc
    by_cases s3 : t.subtype = task_subtype_stars_feedback
    · rcases hci : t.ci with _ | a
      · exact ⟨Err.segv, by simp only [task_unlock, if_neg k1, if_neg k2, if_neg k4, if_neg k3,
          if_neg k5, if_pos k6, if_neg s1, if_neg s2, if_pos s3, hci, deref, Except.bind]⟩
      rcases hcj : t.cj with _ | b
      · exact ⟨Err.segv, by simp only [task_unlock, if_neg k1, if_neg k2, if_neg k4, if_neg k3,
          if_neg k5, if_pos k6, if_neg s1, if_neg s2, if_pos s3, hci, hcj, deref, Except.bind]⟩
      exact absurd ⟨fun _ => by simp [hci], fun _ => by simp [hcj]⟩ hnc
    · rcases hci : t.ci with _ | a
      · exact ⟨Err.segv, by simp only [task_unlock, if_neg k1, if_neg k2, if_neg k4, if_neg k3,
          if_neg k5, if_pos k6, if_neg s1, if_neg s2, if_neg s3, hci, deref, Except.bind]⟩
      rcases hcj : t.cj with _ | b
      · exact ⟨Err.segv, by simp only [task_unlock, if_neg k1, if_neg k2, if_neg k4, if_neg k3,
          if_neg k5, if_pos k6, if_neg s1, if_neg s2, if_neg s3, hci, hcj, deref, Except.bind]⟩
      exact absurd ⟨fun _ => by simp [hci], fun _ => by simp [hcj]⟩ hnc
  by_cases k7 : t.type = task_type_grav_down
  · rcases hci : t.ci with _ | a
    · exact ⟨Err.segv, by simp only [task_unlock, if_neg k1, if_neg k2, if_neg k4, if_neg k3,
        if_neg k5, if_neg k6, if_pos k7, hci, deref, Except.bind]⟩
    exact absurd ⟨fun _ => by simp [hci], fun hm => absurd hm (by simp [k7])⟩ hnc
  by_cases k8 : t.type = task_type_grav_long_range
  · rcases hci : t.ci with _ | a
    · exact ⟨Err.segv, by simp only [task_unlock, if_neg k1, if_neg k2, if_neg k4, if_neg k3,
        if_neg k5, if_neg k6, if_neg k7, if_pos k8, hci, deref, Except.bind]⟩
    exact absurd ⟨fun _ => by simp [hci], fun hm => absurd hm (by simp [k8])⟩ hnc
  by_cases k9 : t.type = task_type_grav_mm
  · rcases hci : t.ci with _ | a
    · exact ⟨Err.segv, by simp only [task_unlock, if_neg k1, if_neg k2, if_neg k4, if_neg k3,
        if_neg k5, if_neg k6, if_neg k7, if_neg k8, if_pos k9, hci, deref, Except.bind]⟩
    rcases hcj : t.cj with _ | b
    · exact ⟨Err.segv, by simp only [task_unlock, if_neg k1, if_neg k2, if_neg k4, if_neg k3,
        if_neg k5, if_neg k6, if_neg k7, if_neg k8, if_pos k9, hci, hcj, deref, Except.bind]⟩
    exact absurd ⟨fun _ => by simp [hci], fun _ => by simp [hcj]⟩ hnc
  by_cases k10 : t.type = task_type_star_formation
  · rcases hci : t.ci with _ | a
    · exact ⟨Err.segv, by simp only [task_unlock, if_neg k1, if_neg k2, if_neg k4, if_neg k3,
        if_neg k5, if_neg k6, if_neg k7, if_neg k8, if_neg k9, if_pos k10, hci, deref,
        Except.bind]⟩
    exact absurd ⟨fun _ => by simp [hci], fun hm => absurd hm (by simp [k10])⟩ hnc
  refine absurd ⟨fun hm => ?_, fun hm => ?_⟩ hnc
  · simp only [List.mem_cons, List.mem_singleton, List.not_mem_nil, or_false] at hm
    tauto
  · simp only [List.mem_cons, List.mem_singleton, List.not_mem_nil, or_false] at hm
    tauto

/-! ## The protocol over an arbitrary lock collaborator -/

set_option maxHeartbeats 4000000 in
/-- The function `task_lock` follows the protocol whatever the lock collaborator:
on a compute task either a hold flag of an obligation is set and it returns 0 with
the state untouched, or its result is that of `try_seq_with` on the obligation
list. -/
theorem task_lock_with_protocol {σ : Type} (ops : lock_ops σ) (wm : Bool) (t : task)
    (s : σ) (hc : compute_task t) (hw : has_cells t) :
    (task_lock_with ops wm t s = Except.ok (0, s) ∧
      ∃ p ∈ obligations t, hold_flag p.1 p.2 = true) ∨
    task_lock_with ops wm t s = Except.ok (try_seq_with ops s [] (obligations t)) := by
  obtain ⟨hc1, hc2⟩ := hc
  obtain ⟨hwi, hwj⟩ := hw
  have h0 : ¬ (t.type = task_type_recv ∨ t.type = task_type_send) := by
    rintro (h | h)
    · exact hc2 h
    · exact hc1 h
  by_cases k1 : t.type = task_type_end_force ∨ t.type = task_type_kick1 ∨ t.type =
    task_type_kick2 ∨ t.type = task_type_logger ∨ t.type = task_type_timestep
  · obtain ⟨a, ha⟩ := some_of_ne_none (hwi (by rcases k1 with h | h | h | h | h <;> simp [h]))
    simp only [obligations, if_pos k1, ha, on_cell, List.cons_append, List.nil_append,
      List.append_assoc]
    simp only [task_lock_with, if_neg h0, if_pos k1, ha, deref, Except.bind]
    by_cases hh1 : a.hydro.hold = true
    · exact Or.inl ⟨by simp [hh1], (Domain.hydro, a), by simp, hh1⟩
    by_cases hh2 : a.grav.phold = true
    · exact Or.inl ⟨by simp [hh1, hh2], (Domain.grav, a), by simp, hh2⟩
    right
    simp only [hh1, hh2, Bool.false_eq_true, false_or, or_false, or_self, if_false, ite_false,
      try_seq_with, release_with, List.foldl, List.cons_append, List.nil_append]
    split_ifs <;> rfl
  by_cases k2 : t.type = task_type_drift_part ∨ t.type = task_type_sort ∨ t.type =
    task_type_ghost ∨ t.type = task_type_timestep_limiter
  · obtain ⟨a, ha⟩ := some_of_ne_none (hwi (by rcases k2 with h | h | h | h <;> simp [h]))
    simp only [obligations, if_neg k1, if_pos k2, ha, on_cell, List.cons_append,
      List.nil_append, List.append_assoc]
    simp only [task_lock_with, if_neg h0, if_neg k1, if_pos k2, ha, deref, Except.bind]
    by_cases hh1 : a.hydro.hold = true
    · exact Or.inl ⟨by simp [hh1], (Domain.hydro, a), by simp, hh1⟩
    right
    simp only [hh1, Bool.false_eq_true, false_or, or_false, or_self, if_false, ite_false,
      try_seq_with, release_with, List.foldl, List.cons_append,
      List.nil_append]
    split_ifs <;> rfl
  by_cases k3 : t.type = task_type_stars_sort
  · obtain ⟨a, ha⟩ := some_of_ne_none (hwi (by simp [k3]))
    simp only [obligations, if_neg k1, if_neg k2, if_pos k3, ha, on_cell, List.cons_append,
      List.nil_append, List.append_assoc]
    simp only [task_lock_with, if_neg h0, if_neg k1, if_neg k2, if_pos k3, ha, deref, Except.bind]
    by_cases hh1 : a.stars.hold = true
    · exact Or.inl ⟨by simp [hh1], (Domain.stars, a), by simp, hh1⟩
    right
    simp only [hh1, Bool.false_eq_true, false_or, or_false, or_self, if_false, ite_false,
      try_seq_with, release_with, List.foldl, List.cons_append,
      List.nil_append]
    split_ifs <;> rfl
  by_cases k4 : t.type = task_type_drift_gpart ∨ t.type = task_type_grav_mesh
  · obtain ⟨a, ha⟩ := some_of_ne_none (hwi (by rcases k4 with h | h <;> simp [h]))
    simp only [obligations, if_neg k1, if_neg k2, if_neg k3, if_pos k4, ha, on_cell,
      List.cons_append, List.nil_append, List.append_assoc]
    simp only [task_lock_with, if_neg h0, if_neg k1, if_neg k2, if_neg k3, if_pos k4, ha, deref,
      Except.bind]
    by_cases hh1 : a.grav.phold = true
    · exact Or.inl ⟨by simp [hh1], (Domain.grav, a), by simp, hh1⟩
    right
    simp only [hh1, Bool.false_eq_true, false_or, or_false, or_self, if_false, ite_false,
      try_seq_with, release_with, List.foldl, List.cons_append,
      List.nil_append]
    split_ifs <;> rfl
  by_cases k5 : t.type = task_type_self ∨ t.type = task_type_sub_self
  · by_cases s1 : t.subtype = task_subtype_grav
    · obtain ⟨a, ha⟩ := some_of_ne_none (hwi (by rcases k5 with h | h <;> simp [h]))
      simp only [obligations, if_neg k1, if_neg k2, if_neg k3, if_neg k4, if_pos k5, if_pos s1,
        ha, on_cell, List.cons_append, List.nil_append, List.append_assoc]
      simp only [task_lock_with, if_neg h0, if_neg k1, if_neg k2, if_neg k3, if_neg k4, if_pos k5,
        if_pos s1, ha, deref, Except.bind]
      by_cases hh1 : a.grav.phold = true
      · exact Or.inl ⟨by simp [hh1], (Domain.grav, a), by simp, hh1⟩
      by_cases hh2 : a.grav.mhold = true
      · exact Or.inl ⟨by simp [hh1, hh2], (Domain.mpole, a), by simp, hh2⟩
      right
      simp only [hh1, hh2, Bool.false_eq_true, false_or, or_false, or_self, if_false, ite_false,
        try_seq_with, release_with, List.foldl, List.cons_append, List.nil_append]
      split_ifs <;> rfl
    by_cases s2 : t.subtype = task_subtype_stars_density
    · obtain ⟨a, ha⟩ := some_of_ne_none (hwi (by rcases k5 with h | h <;> simp [h]))
      simp only [obligations, if_neg k1, if_neg k2, if_neg k3, if_neg k4, if_pos k5, if_neg s1,
        if_pos s2, ha, on_cell, List.cons_append, List.nil_append, List.append_assoc]
      simp only [task_lock_with, if_neg h0, if_neg k1, if_neg k2, if_neg k3, if_neg k4, if_pos k5,
        if_neg s1, if_pos s2, ha, deref, Except.bind]
      by_cases hh1 : a.stars.hold = true
      · exact Or.inl ⟨by simp [hh1], (Domain.stars, a), by simp, hh1⟩
      right
      simp only [hh1, Bool.false_eq_true, false_or, or_false, or_self, if_false, ite_false,
        try_seq_with, release_with, List.foldl, List.cons_append,
        List.nil_append]
      split_ifs <;> rfl
    by_cases s3 : t.subtype = task_subtype_stars_feedback
    · obtain ⟨a, ha⟩ := some_of_ne_none (hwi (by rcases k5 with h | h <;> simp [h]))
      simp only [obligations, if_neg k1, if_neg k2, if_neg k3, if_neg k4, if_pos k5, if_neg s1,
        if_neg s2, if_pos s3, ha, on_cell, List.cons_append, List.nil_append, List.append_assoc]
      simp only [task_lock_with, if_neg h0, if_neg k1, if_neg k2, if_neg k3, if_neg k4, if_pos k5,
        if_neg s1, if_neg s2, if_pos s3, ha, deref, Except.bind]
      by_cases hh1 : a.stars.hold = true
      · exact Or.inl ⟨by simp [hh1], (Domain.stars, a), by simp, hh1⟩
      by_cases hh2 : a.hydro.hold = true
      · exact Or.inl ⟨by simp [hh1, hh2], (Domain.hydro, a), by simp, hh2⟩
      right
      simp only [hh1, hh2, Bool.false_eq_true, false_or, or_false, or_self, if_false, ite_false,
        try_seq_with, release_with, List.foldl, List.cons_append, List.nil_append]
      split_ifs <;> rfl
    · obtain ⟨a, ha⟩ := some_of_ne_none (hwi (by rcases k5 with h | h <;> simp [h]))
      simp only [obligations, if_neg k1, if_neg k2, if_neg k3, if_neg k4, if_pos k5, if_neg s1,
        if_neg s2, if_neg s3, ha, on_cell, List.cons_append, List.nil_append, List.append_assoc]
      simp only [task_lock_with, if_neg h0, if_neg k1, if_neg k2, if_neg k3, if_neg k4, if_pos k5,
        if_neg s1, if_neg s2, if_neg s3, ha, deref, Except.bind]
      by_cases hh1 : a.hydro.hold = true
      · exact Or.inl ⟨by simp [hh1], (Domain.hydro, a), by simp, hh1⟩
      right
      simp only [hh1, Bool.false_eq_true, false_or, or_false, or_self, if_false, ite_false,
        try_seq_with, release_with, List.foldl, List.cons_append,
        List.nil_append]
      split_ifs <;> rfl
  by_cases k6 : t.type = task_type_pair ∨ t.type = task_type_sub_pair
  · by_cases s1 : t.subtype = task_subtype_grav
    · obtain ⟨a, ha⟩ := some_of_ne_none (hwi (by rcases k6 with h | h <;> simp [h]))
      obtain ⟨b, hb⟩ := some_of_ne_none (hwj (by rcases k6 with h | h <;> simp [h]))
      simp only [obligations, if_neg k1, if_neg k2, if_neg k3, if_neg k4, if_neg k5, if_pos k6,
        if_pos s1, ha, hb, on_cell, List.cons_append, List.nil_append, List.append_assoc]
      simp only [task_lock_with, if_neg h0, if_neg k1, if_neg k2, if_neg k3, if_neg k4, if_neg k5,
        if_pos k6, if_pos s1, ha, hb, deref, Except.bind]
      by_cases hh1 : a.grav.phold = true
      · exact Or.inl ⟨by simp [hh1], (Domain.grav, a), by simp, hh1⟩
      by_cases hh2 : b.grav.phold = true
      · exact Or.inl ⟨by simp [hh1, hh2], (Domain.grav, b), by simp, hh2⟩
      right
      simp only [hh1, hh2, Bool.false_eq_true, false_or, or_false, or_self, if_false, ite_false,
        try_seq_with, release_with, List.foldl, List.cons_append, List.nil_append]
      split_ifs <;> rfl
    by_cases s2 : t.subtype = task_subtype_stars_density
    · obtain ⟨a, ha⟩ := some_of_ne_none (hwi (by rcases k6 with h | h <;> simp [h]))
      obtain ⟨b, hb⟩ := some_of_ne_none (hwj (by rcases k6 with h | h <;> simp [h]))
      simp only [obligations, if_neg k1, if_neg k2, if_neg k3, if_neg k4, if_neg k5, if_pos k6,
        if_neg s1, if_pos s2, ha, hb, on_cell, List.cons_append, List.nil_append,
        List.append_assoc]
      simp only [task_lock_with, if_neg h0, if_neg k1, if_neg k2, if_neg k3, if_neg k4, if_neg k5,
        if_pos k6, if_neg s1, if_pos s2, ha, hb, deref, Except.bind]
      by_cases hh1 : a.stars.hold = true
      · exact Or.inl ⟨by simp [hh1], (Domain.stars, a), by simp, hh1⟩
      by_cases hh2 : b.stars.hold = true
      · exact Or.inl ⟨by simp [hh1, hh2], (Domain.stars, b), by simp, hh2⟩
      right
      simp only [hh1, hh2, Bool.false_eq_true, false_or, or_false, or_self, if_false, ite_false,
        try_seq_with, release_with, List.foldl, List.cons_append,
        List.nil_append]
      split_ifs <;> rfl
    by_cases s3 : t.subtype = task_subtype_stars_feedback
    · obtain ⟨a, ha⟩ := some_of_ne_none (hwi (by rcases k6 with h | h <;> simp [h]))
      obtain ⟨b, hb⟩ := some_of_ne_none (hwj (by rcases k6 with h | h <;> simp [h]))
      simp only [obligations, if_neg k1, if_neg k2, if_neg k3, if_neg k4, if_neg k5, if_pos k6,
        if_neg s1, if_neg s2, if_pos s3, ha, hb, on_cell, List.cons_append, List.nil_append,
        List.append_assoc]
      simp only [task_lock_with, if_neg h0, if_neg k1, if_neg k2, if_neg k3, if_neg k4, if_neg k5,
        if_pos k6, if_neg s1, if_neg s2, if_pos s3, ha, hb, deref, Except.bind]
      by_cases hh1 : a.stars.hold = true
      · exact Or.inl ⟨by simp [hh1], (Domain.stars, a), by simp, hh1⟩
      by_cases hh2 : b.stars.hold = true
      · exact Or.inl ⟨by simp [hh1, hh2], (Domain.stars, b), by simp, hh2⟩
      by_cases hh3 : a.hydro.hold = true
      · exact Or.inl ⟨by simp [hh1, hh2, hh3], (Domain.hydro, a), by simp, hh3⟩
      by_cases hh4 : b.hydro.hold = true
      · exact Or.inl ⟨by simp [hh1, hh2, hh3, hh4], (Domain.hydro, b), by simp, hh4⟩
      right
      simp only [hh1, hh2, hh3, hh4, Bool.false_eq_true, false_or, or_false, or_self, if_false,
        ite_false, try_seq_with, release_with, List.foldl, List.cons_append, List.nil_append]
      split_ifs <;> rfl
    · obtain ⟨a, ha⟩ := some_of_ne_none (hwi (by rcases k6 with h | h <;> simp [h]))
      obtain ⟨b, hb⟩ := some_of_ne_none (hwj (by rcases k6 with h | h <;> simp [h]))
      simp only [obligations, if_neg k1, if_neg k2, if_neg k3, if_neg k4, if_neg k5, if_pos k6,
        if_neg s1, if_neg s2, if_neg s3, ha, hb, on_cell, List.cons_append, List.nil_append,
        List.append_assoc]
      simp only [task_lock_with, if_neg h0, if_neg k1, if_neg k2, if_neg k3, if_neg k4, if_neg k5,
        if_pos k6, if_neg s1, if_neg s2, if_neg s3, ha, hb, deref, Except.bind]
      by_cases hh1 : a.hydro.hold = true
      · exact Or.inl ⟨by simp [hh1], (Domain.hydro, a), by simp, hh1⟩
      by_cases hh2 : b.hydro.hold = true
      · exact Or.inl ⟨by simp [hh1, hh2], (Domain.hydro, b), by simp, hh2⟩
      right
      simp only [hh1, hh2, Bool.false_eq_true, false_or, or_false, or_self, if_false, ite_false,
        try_seq_with, release_with, List.foldl, List.cons_append,
        List.nil_append]
      split_ifs <;> rfl
  by_cases k7 : t.type = task_type_grav_down
  · obtain ⟨a, ha⟩ := some_of_ne_none (hwi (by simp [k7]))
    simp only [obligations, if_neg k1, if_neg k2, if_neg k3, if_neg k4, if_neg k5, if_neg k6,
      if_pos k7, ha, on_cell, List.cons_append, List.nil_append, List.append_assoc]
    simp only [task_lock_with, if_neg h0, if_neg k1, if_neg k2, if_neg k3, if_neg k4, if_neg k5,
      if_neg k6, if_pos k7, ha, deref, Except.bind]
    by_cases hh1 : a.grav.phold = true
    · exact Or.inl ⟨by simp [hh1], (Domain.grav, a), by simp, hh1⟩
    by_cases hh2 : a.grav.mhold = true
    · exact Or.inl ⟨by simp [hh1, hh2], (Domain.mpole, a), by simp, hh2⟩
    right
    simp only [hh1, hh2, Bool.false_eq_true, false_or, or_false, or_self, if_false, ite_false,
      try_seq_with, release_with, List.foldl, List.cons_append, List.nil_append]
    split_ifs <;> rfl
  by_cases k8 : t.type = task_type_grav_long_range
  · obtain ⟨a, ha⟩ := some_of_ne_none (hwi (by simp [k8]))
    simp only [obligations, if_neg k1, if_neg k2, if_neg k3, if_neg k4, if_neg k5, if_neg k6,
      if_neg k7, if_pos k8, ha, on_cell, List.cons_append, List.nil_append, List.append_assoc]
    simp only [task_lock_with, if_neg h0, if_neg k1, if_neg k2, if_neg k3, if_neg k4, if_neg k5,
      if_neg k6, if_neg k7, if_pos k8, ha, deref, Except.bind]
    by_cases hh1 : a.grav.mhold = true
    · exact Or.inl ⟨by simp [hh1], (Domain.mpole, a), by simp, hh1⟩
    right
    simp only [hh1, Bool.false_eq_true, false_or, or_false, or_self, if_false, ite_false,
      try_seq_with, release_with, List.foldl, List.cons_append,
      List.nil_append]
    split_ifs <;> rfl
  by_cases k9 : t.type = task_type_grav_mm
  · obtain ⟨a, ha⟩ := some_of_ne_none (hwi (by simp [k9]))
    obtain ⟨b, hb⟩ := some_of_ne_none (hwj (by simp [k9]))
    simp only [obligations, if_neg k1, if_neg k2, if_neg k3, if_neg k4, if_neg k5, if_neg k6,
      if_neg k7, if_neg k8, if_pos k9, ha, hb, on_cell, List.cons_append, List.nil_append,
      List.append_assoc]
    simp only [task_lock_with, if_neg h0, if_neg k1, if_neg k2, if_neg k3, if_neg k4, if_neg k5,
      if_neg k6, if_neg k7, if_neg k8, if_pos k9, ha, hb, deref, Except.bind]
    by_cases hh1 : a.grav.mhold = true
    · exact Or.inl ⟨by simp [hh1], (Domain.mpole, a), by simp, hh1⟩
    by_cases hh2 : b.grav.mhold = true
    · exact Or.inl ⟨by simp [hh1, hh2], (Domain.mpole, b), by simp, hh2⟩
    right
    simp only [hh1, hh2, Bool.false_eq_true, false_or, or_false, or_self, if_false, ite_false,
      try_seq_with, release_with, List.foldl, List.cons_append,
      List.nil_append]
    split_ifs <;> rfl
  by_cases k10 : t.type = task_type_star_formation
  · obtain ⟨a, ha⟩ := some_of_ne_none (hwi (by simp [k10]))
    simp only [obligations, if_neg k1, if_neg k2, if_neg k3, if_neg k4, if_neg k5, if_neg k6,
      if_neg k7, if_neg k8, if_neg k9, if_pos k10, ha, on_cell, List.cons_append, List.nil_append,
      List.append_assoc]
    simp only [task_lock_with, if_neg h0, if_neg k1, if_neg k2, if_neg k3, if_neg k4, if_neg k5,
      if_neg k6, if_neg k7, if_neg k8, if_neg k9, if_pos k10, ha, deref, Except.bind]
    by_cases hh1 : a.hydro.hold = true
    · exact Or.inl ⟨by simp [hh1], (Domain.hydro, a), by simp, hh1⟩
    by_cases hh2 : a.stars.hold = true
    · exact Or.inl ⟨by simp [hh1, hh2], (Domain.stars, a), by simp, hh2⟩
    by_cases hh3 : a.grav.phold = true
    · exact Or.inl ⟨by simp [hh1, hh2, hh3], (Domain.grav, a), by simp, hh3⟩
    right
    simp only [hh1, hh2, hh3, Bool.false_eq_true, false_or, or_false, or_self, if_false,
      ite_false, try_seq_with, release_with, List.foldl, List.cons_append, List.nil_append]
    split_ifs <;> rfl
  right
  simp only [task_lock_with, obligations, if_neg h0, if_neg k1, if_neg k2, if_neg k3, if_neg k4,
    if_neg k5, if_neg k6, if_neg k7, if_neg k8, if_neg k9, if_neg k10, try_seq_with]

/-! ## Lock domains by holder: acquisition and rollback -/

/-- The locks a holder has itself do not refuse it. -/
theorem refused_for_insert_own (h : Holder) (d : Domain) (c : cell) (k : Domain × CellId)
    (L : OwnedLocks) :
    refused_for h d c (insert (h, k) L) = refused_for h d c L := by
  unfold refused_for locked_by_other
  congr 1
  rw [decide_eq_decide]
  constructor
  · rintro ⟨p, hp, h1, h2⟩
    rcases Finset.mem_insert.mp hp with e | hp2
    · rw [e] at h1
      exact absurd rfl h1
    · exact ⟨p, hp2, h1, h2⟩
  · rintro ⟨p, hp, h1, h2⟩
    exact ⟨p, Finset.mem_insert_of_mem hp, h1, h2⟩

/-- The keys of a list with one more pair. -/
theorem owned_keys_cons (h : Holder) (p : Domain × cell) (l : List (Domain × cell)) :
    owned h (keys (p :: l)) = insert (h, p.1, p.2.loc) (owned h (keys l)) := by
  rw [keys_cons]
  unfold owned
  rw [Finset.image_insert]

/-- The pairs held by `h` of a union. -/
theorem owned_union (h : Holder) (A B : Locks) :
    owned h (A ∪ B) = owned h A ∪ owned h B := by
  unfold owned
  rw [Finset.image_union]

/-- The pairs held by `h` of a set with one more pair. -/
theorem owned_insert (h : Holder) (k : Domain × CellId) (A : Locks) :
    owned h (insert k A) = insert (h, k) (owned h A) := by
  unfold owned
  rw [Finset.image_insert]

/-- A pair held by `h` is among the pairs `K` held by `h` when it is in `K`. -/
theorem mem_owned {h g : Holder} {k : Domain × CellId} {K : Locks} :
    (g, k) ∈ owned h K ↔ g = h ∧ k ∈ K := by
  unfold owned
  simp only [Finset.mem_image, Prod.mk.injEq]
  constructor
  · rintro ⟨a, ha, e1, e2⟩
    exact ⟨e1.symm, e2 ▸ ha⟩
  · rintro ⟨e, hk⟩
    exact ⟨k, hk, e.symm, rfl⟩

/-- Release by a holder of an obligation list removes its pairs, held by it. -/
theorem release_owner (h : Holder) (l : List (Domain × cell)) :
    ∀ L : OwnedLocks, release_with (owner_ops h) L l = L \ owned h (keys l) := by
  induction l with
  | nil =>
    intro L
    simp [release_with, owned, keys]
  | cons p rest ih =>
    intro L
    have e : release_with (owner_ops h) L (p :: rest) =
        release_with (owner_ops h) (L.erase (h, p.1, p.2.loc)) rest := rfl
    rw [e, ih, owned_keys_cons]
    ext x
    simp only [Finset.mem_sdiff, Finset.mem_erase, Finset.mem_insert]
    tauto

/-- A holder none of whose try-locks is refused acquires the whole list. -/
theorem try_seq_owner_granted (h : Holder) (l : List (Domain × cell)) :
    ∀ (L : OwnedLocks) (acq : List (Domain × cell)),
      (∀ p ∈ l, refused_for h p.1 p.2 L = false) →
      try_seq_with (owner_ops h) L acq l = (1, L ∪ owned h (keys l)) := by
  induction l with
  | nil =>
    intro L acq _
    simp [try_seq_with, owned, keys]
  | cons p rest ih =>
    intro L acq hfree
    have hp : ¬ refused_for h p.1 p.2 L = true := by
      rw [hfree p (List.mem_cons_self _ _)]
      simp
    have e : try_seq_with (owner_ops h) L acq (p :: rest) =
        try_seq_with (owner_ops h) (insert (h, p.1, p.2.loc) L) (acq ++ [p]) rest := by
      simp only [try_seq_with, owner_ops, owner_trylock, if_neg hp, ne_eq, not_true_eq_false,
        if_false]
    rw [e, ih, owned_keys_cons]
    · congr 1
      ext x
      simp only [Finset.mem_union, Finset.mem_insert]
      tauto
    · intro q hq
      rw [refused_for_insert_own]
      exact hfree q (List.mem_cons_of_mem _ hq)

/-- A holder one of whose try-locks is refused returns 0, the pairs acquired before
the refusal released. -/
theorem try_seq_owner_refused (h : Holder) (l : List (Domain × cell)) :
    ∀ (L : OwnedLocks) (acq : List (Domain × cell)),
      (∃ p ∈ l, refused_for h p.1 p.2 L = true) →
      ∃ done : List (Domain × cell), keys done ⊆ keys l ∧
        try_seq_with (owner_ops h) L acq l =
          (0, (L ∪ owned h (keys done)) \ owned h (keys acq ∪ keys done)) := by
  induction l with
  | nil =>
    intro L acq hex
    obtain ⟨p, hp, _⟩ := hex
    exact absurd hp (List.not_mem_nil p)
  | cons p rest ih =>
    intro L acq hex
    by_cases hp : refused_for h p.1 p.2 L = true
    · refine ⟨[], by simp [keys], ?_⟩
      have e : try_seq_with (owner_ops h) L acq (p :: rest) =
          (0, release_with (owner_ops h) L acq) := by
        simp only [try_seq_with, owner_ops, owner_trylock, if_pos hp, ne_eq, one_ne_zero,
          not_false_eq_true, if_true]
      rw [e, release_owner]
      simp [keys, owned]
    · have e : try_seq_with (owner_ops h) L acq (p :: rest) =
          try_seq_with (owner_ops h) (insert (h, p.1, p.2.loc) L) (acq ++ [p]) rest := by
        simp only [try_seq_with, owner_ops, owner_trylock, if_neg hp, ne_eq,
          not_true_eq_false, if_false]
      have hex2 : ∃ q ∈ rest, refused_for h q.1 q.2 (insert (h, p.1, p.2.loc) L) = true := by
        obtain ⟨q, hq, hr⟩ := hex
        rcases List.mem_cons.mp hq with e2 | hq2
        · rw [e2] at hr
          exact absurd hr hp
        · exact ⟨q, hq2, by rw [refused_for_insert_own]; exact hr⟩
      obtain ⟨done, hsub, hres⟩ := ih (insert (h, p.1, p.2.loc) L) (acq ++ [p]) hex2
      refine ⟨p :: done, ?_, ?_⟩
      · rw [keys_cons, keys_cons]
        exact Finset.insert_subset_insert _ hsub
      · have hk : keys (acq ++ [p]) = insert (p.1, p.2.loc) (keys acq) := by
          ext y
          simp only [keys, List.map_append, List.toFinset_append, List.map_cons,
            List.map_nil, List.toFinset_cons, List.toFinset_nil, Finset.mem_union,
            Finset.mem_insert, Finset.not_mem_empty, or_false]
          tauto
        rw [e, hres, hk, keys_cons, owned_union, owned_union, owned_insert, owned_insert]
        congr 1
        generalize owned h (keys acq) = A
        generalize owned h (keys done) = D
        ext x
        simp only [Finset.mem_sdiff, Finset.mem_union, Finset.mem_insert]
        tauto

/-- A free obligation is not refused, whoever asks. -/
theorem not_refused_of_unlocked {L : OwnedLocks} {t : task} (hf : unlocked_for L t)
    (h : Holder) : ∀ p ∈ obligations t, refused_for h p.1 p.2 L = false := by
  intro p hp
  obtain ⟨hflag, hfree⟩ := hf p hp
  unfold refused_for locked_by_other
  rw [hflag, Bool.false_or, decide_eq_false_iff_not]
  rintro ⟨q, hq, _, h2⟩
  exact hfree q hq h2

/-- A compute task all of whose obligations are free is granted, whoever holds it,
and the locks grow by its obligations, held by it. -/
theorem owner_granted (wm : Bool) (t : task) (h : Holder) (L : OwnedLocks)
    (hc : compute_task t) (hw : has_cells t) (hflag : ∀ p ∈ obligations t, hold_flag p.1 p.2 = false)
    (hfree : ∀ p ∈ obligations t, refused_for h p.1 p.2 L = false) :
    task_lock_with (owner_ops h) wm t L =
      Except.ok (1, L ∪ owned h (keys (obligations t))) := by
  rcases task_lock_with_protocol (owner_ops h) wm t L hc hw with ⟨_, p, hp, hh⟩ | hres
  · rw [hflag p hp] at hh
    exact absurd hh (by simp)
  · rw [hres, try_seq_owner_granted h (obligations t) L [] hfree]

/-- A compute task one of whose obligations is refused to its holder returns 0 and
leaves the locks as they were, when it held none of its obligations before. -/
theorem owner_refused (wm : Bool) (t : task) (h : Holder) (L : OwnedLocks)
    (hc : compute_task t) (hw : has_cells t)
    (hex : ∃ p ∈ obligations t, refused_for h p.1 p.2 L = true)
    (hnone : ∀ k ∈ keys (obligations t), (h, k) ∉ L) :
    task_lock_with (owner_ops h) wm t L = Except.ok (0, L) := by
  rcases task_lock_with_protocol (owner_ops h) wm t L hc hw with ⟨hres, _⟩ | hres
  · exact hres
  · obtain ⟨done, hsub, hseq⟩ := try_seq_owner_refused h (obligations t) L [] hex
    have hk : keys ([] : List (Domain × cell)) = ∅ := by simp [keys]
    rw [hres, hseq, hk, Finset.empty_union, Finset.union_sdiff_right]
    congr 2
    rw [Finset.sdiff_eq_self_iff_disjoint, Finset.disjoint_left]
    intro x hx hx2
    obtain ⟨g, k⟩ := x
    obtain ⟨e, hk2⟩ := mem_owned.mp hx2
    subst e
    exact hnone k (hsub hk2) hx

/-- A pair of the obligations of a task, free in the state, is held by no one. -/
theorem not_held_of_unlocked {L : OwnedLocks} {t : task} (hf : unlocked_for L t)
    (g : Holder) : ∀ k ∈ keys (obligations t), (g, k) ∉ L := by
  intro k hk hL
  simp only [keys, List.mem_toFinset, List.mem_map] at hk
  obtain ⟨p, hp, rfl⟩ := hk
  exact (hf p hp).2 (g, p.1, p.2.loc) hL ⟨rfl, Or.inl (List.prefix_refl _)⟩

/-! ## Claims on contention between two tasks -/

/-- The task `b` held by `hb`, called after the task `a` held by another holder `ha`
was granted, with which it shares an obligated pair, returns 0 and leaves the locks
as the first call left them. -/
theorem second_refused (wm : Bool) (a b : task) (ha hb : Holder) (L : OwnedLocks)
    (hne : ha ≠ hb) (hca : compute_task a) (hcb : compute_task b) (hwa : has_cells a)
    (hwb : has_cells b) (hs : shares_obligation a b) (hfa : unlocked_for L a)
    (hfb : unlocked_for L b) :
    ∃ L1, task_lock_with (owner_ops ha) wm a L = Except.ok (1, L1) ∧
      task_lock_with (owner_ops hb) wm b L1 = Except.ok (0, L1) ∧
      L1 = L ∪ owned ha (keys (obligations a)) ∧
      ∀ k ∈ keys (obligations b), (hb, k) ∉ L1 := by
  have hnone : ∀ k ∈ keys (obligations b), (hb, k) ∉ L ∪ owned ha (keys (obligations a)) := by
    intro k hk hx
    rcases Finset.mem_union.mp hx with hx | hx
    · exact not_held_of_unlocked hfb hb k hk hx
    · exact hne (mem_owned.mp hx).1.symm
  refine ⟨L ∪ owned ha (keys (obligations a)),
    owner_granted wm a ha L hca hwa (fun p hp => (hfa p hp).1)
      (not_refused_of_unlocked hfa ha), ?_, rfl, hnone⟩
  refine owner_refused wm b hb _ hcb hwb ?_ hnone
  obtain ⟨k, hka, hkb⟩ := hs
  have hkb2 := hkb
  simp only [keys, List.mem_toFinset, List.mem_map] at hkb2
  obtain ⟨p, hp, hpk⟩ := hkb2
  refine ⟨p, hp, ?_⟩
  unfold refused_for locked_by_other
  rw [Bool.or_eq_true, decide_eq_true_eq]
  right
  refine ⟨(ha, k), Finset.mem_union_right _ (mem_owned.mpr ⟨rfl, hka⟩), hne, ?_, ?_⟩
  · rw [← hpk]
  · rw [← hpk]
    exact Or.inl (List.prefix_refl _)

/-- The task `b`, called after the task `a` was granted, none of whose obligations
contends with one of `b`, is granted too. -/
theorem second_granted (wm : Bool) (a b : task) (ha hb : Holder) (L : OwnedLocks)
    (hca : compute_task a) (hcb : compute_task b) (hwa : has_cells a)
    (hwb : has_cells b) (hab : apart (obligations a) (obligations b))
    (hfa : unlocked_for L a) (hfb : unlocked_for L b) :
    ∃ L1 L2, task_lock_with (owner_ops ha) wm a L = Except.ok (1, L1) ∧
      task_lock_with (owner_ops hb) wm b L1 = Except.ok (1, L2) ∧
      L2 = L ∪ owned ha (keys (obligations a)) ∪ owned hb (keys (obligations b)) := by
  refine ⟨L ∪ owned ha (keys (obligations a)), _,
    owner_granted wm a ha L hca hwa (fun p hp => (hfa p hp).1)
      (not_refused_of_unlocked hfa ha),
    owner_granted wm b hb _ hcb hwb (fun p hp => (hfb p hp).1) ?_, rfl⟩
  intro q hq
  obtain ⟨hflag, hfree⟩ := hfb q hq
  unfold refused_for locked_by_other
  rw [hflag, Bool.false_or, decide_eq_false_iff_not]
  rintro ⟨x, hx, _, h2⟩
  rcases Finset.mem_union.mp hx with hx | hx
  · exact hfree x hx h2
  · obtain ⟨g, k⟩ := x
    obtain ⟨_, hk⟩ := mem_owned.mp hx
    simp only [keys, List.mem_toFinset, List.mem_map] at hk
    obtain ⟨o, ho, hok⟩ := hk
    rw [← hok] at h2
    exact hab o ho q hq h2

/-- C21: two compute tasks, held by different holders, share an obligated (domain,
region) pair; in a state where all their obligations are free (no hold flag set, no
lock of any holder in the chain of an obligated region), `task_lock` on both without
a release in between yields exactly one grant, in either order: the first call is
granted and adds the obligations of its task, held by its holder, to the locks; the
second returns 0 and leaves the locks as the first call left them, so that none of
the obligations of the loser is locked by it. The try-lock of a domain is refused
only when the domain is locked in the chain by a different holder, as the
specification says: a task is not refused by a lock it acquired itself. -/
theorem C21_shared_obligation_one_grant (wm : Bool) (t1 t2 : task) (h1 h2 : Holder)
    (L : OwnedLocks) (hne : h1 ≠ h2)
    (hc1 : compute_task t1) (hc2 : compute_task t2) (hw1 : has_cells t1)
    (hw2 : has_cells t2) (hs : shares_obligation t1 t2)
    (hf1 : unlocked_for L t1) (hf2 : unlocked_for L t2) :
    (∃ L1, task_lock_with (owner_ops h1) wm t1 L = Except.ok (1, L1) ∧
      task_lock_with (owner_ops h2) wm t2 L1 = Except.ok (0, L1) ∧
      L1 = L ∪ owned h1 (keys (obligations t1)) ∧
      ∀ k ∈ keys (obligations t2), (h2, k) ∉ L1) ∧
    (∃ L2, task_lock_with (owner_ops h2) wm t2 L = Except.ok (1, L2) ∧
      task_lock_with (owner_ops h1) wm t1 L2 = Except.ok (0, L2) ∧
      L2 = L ∪ owned h2 (keys (obligations t2)) ∧
      ∀ k ∈ keys (obligations t1), (h1, k) ∉ L2) := by
  refine ⟨second_refused wm t1 t2 h1 h2 L hne hc1 hc2 hw1 hw2 hs hf1 hf2,
    second_refused wm t2 t1 h2 h1 L (fun e => hne e.symm) hc2 hc1 hw2 hw1 ?_ hf2 hf1⟩
  obtain ⟨k, h1, h2⟩ := hs
  exact ⟨k, h2, h1⟩

/-- Witness of C21: the pair density task on a region and a region nested in it,
held by 1, and the self density task on the outer region, held by 2, from the state
without locks. -/
theorem C21_shared_obligation_one_grant_witness :
    (∃ L1, task_lock_with (owner_ops 1) false sample_pair_nested ∅ = Except.ok (1, L1) ∧
      task_lock_with (owner_ops 2) false sample_self_A L1 = Except.ok (0, L1) ∧
      L1 = ∅ ∪ owned 1 (keys (obligations sample_pair_nested)) ∧
      ∀ k ∈ keys (obligations sample_self_A), (2, k) ∉ L1) ∧
    (∃ L2, task_lock_with (owner_ops 2) false sample_self_A ∅ = Except.ok (1, L2) ∧
      task_lock_with (owner_ops 1) false sample_pair_nested L2 = Except.ok (0, L2) ∧
      L2 = ∅ ∪ owned 2 (keys (obligations sample_self_A)) ∧
      ∀ k ∈ keys (obligations sample_pair_nested), (1, k) ∉ L2) :=
  C21_shared_obligation_one_grant false sample_pair_nested sample_self_A 1 2 ∅
    (by decide) (by decide) (by decide) (by decide) (by decide) (by decide) (by decide)
    (by decide)

/-- C22, as stated, fails: the self density tasks on a region and on a region nested
in it have disjoint obligation sets, all their obligations are free and no hold flag
is set, yet after the first, held by 1, is granted, the second, held by 2, is
refused: the gas lock of the outer region is held, by a different holder, in the
chain of the inner one. -/
theorem C22_counterexample :
    compute_task sample_self_A ∧ compute_task sample_self_A_child ∧
    has_cells sample_self_A ∧ has_cells sample_self_A_child ∧
    disjoint_obligations sample_self_A sample_self_A_child ∧
    unlocked_for ∅ sample_self_A ∧ unlocked_for ∅ sample_self_A_child ∧
    task_lock_with (owner_ops 1) false sample_self_A ∅ =
      Except.ok (1, {(1, Domain.hydro, sample_cell_A.loc)}) ∧
    task_lock_with (owner_ops 2) false sample_self_A_child
        {(1, Domain.hydro, sample_cell_A.loc)} =
      Except.ok (0, {(1, Domain.hydro, sample_cell_A.loc)}) :=
  ⟨by decide, by decide, by decide, by decide, by decide, by decide, by decide,
    by decide, by decide⟩

/-- C22, amended: for two compute tasks none of whose obligations contends with one
of the other (same domain, on regions of one ancestor or descendant chain, the same
region included), from a state where all their obligations are free and no hold flag
is set, `task_lock` on both, in either order and without a release in between, is
granted for both, and the locks grow by both obligation sets, each held by the
holder of its task. -/
theorem C22_apart_both_granted (wm : Bool) (t1 t2 : task) (h1 h2 : Holder)
    (L : OwnedLocks)
    (hc1 : compute_task t1) (hc2 : compute_task t2) (hw1 : has_cells t1)
    (hw2 : has_cells t2) (hd : apart (obligations t1) (obligations t2))
    (hf1 : unlocked_for L t1) (hf2 : unlocked_for L t2) :
    (∃ L1 L2, task_lock_with (owner_ops h1) wm t1 L = Except.ok (1, L1) ∧
      task_lock_with (owner_ops h2) wm t2 L1 = Except.ok (1, L2) ∧
      L2 = L ∪ owned h1 (keys (obligations t1)) ∪ owned h2 (keys (obligations t2))) ∧
    (∃ L1 L2, task_lock_with (owner_ops h2) wm t2 L = Except.ok (1, L1) ∧
      task_lock_with (owner_ops h1) wm t1 L1 = Except.ok (1, L2) ∧
      L2 = L ∪ owned h2 (keys (obligations t2)) ∪ owned h1 (keys (obligations t1))) := by
  refine ⟨second_granted wm t1 t2 h1 h2 L hc1 hc2 hw1 hw2 hd hf1 hf2,
    second_granted wm t2 t1 h2 h1 L hc2 hc1 hw2 hw1 ?_ hf2 hf1⟩
  intro p hp q hq hc
  exact hd q hq p hp ⟨hc.1.symm, hc.2.symm⟩

/-- Witness of C22: the pair density task on a region and a region nested in it,
held by 1, and the self density task on a sibling of the outer region, held by 2,
from the state without locks. -/
theorem C22_apart_both_granted_witness :
    (∃ L1 L2, task_lock_with (owner_ops 1) false sample_pair_nested ∅ = Except.ok (1, L1) ∧
      task_lock_with (owner_ops 2) false sample_self_B L1 = Except.ok (1, L2) ∧
      L2 = ∅ ∪ owned 1 (keys (obligations sample_pair_nested)) ∪
        owned 2 (keys (obligations sample_self_B))) ∧
    (∃ L1 L2, task_lock_with (owner_ops 2) false sample_self_B ∅ = Except.ok (1, L1) ∧
      task_lock_with (owner_ops 1) false sample_pair_nested L1 = Except.ok (1, L2) ∧
      L2 = ∅ ∪ owned 2 (keys (obligations sample_self_B)) ∪
        owned 1 (keys (obligations sample_pair_nested))) :=
  C22_apart_both_granted false sample_pair_nested sample_self_B 1 2 ∅
    (by decide) (by decide) (by decide) (by decide) (by decide) (by decide) (by decide)

/-! ## Claims on the order and the amount of work of the protocol -/

/-- C24, as stated, fails: a pair star-feedback task on A and B whose try-lock of
gas(B) is refused has acquired stellar(A), stellar(B), gas(A) in that order, and
releases them in that same order, not in the reverse of it. -/
theorem C24_counterexample :
    compute_task sample_pair_feedback_AB ∧ has_cells sample_pair_feedback_AB ∧
    ∃ m', task_lock false sample_pair_feedback_AB sample_mem_gas_B_held =
        Except.ok (0, m') ∧
      granted_pairs (events_since sample_mem_gas_B_held m') =
        [(Domain.stars, [0]), (Domain.stars, [1]), (Domain.hydro, [0])] ∧
      unlocks (events_since sample_mem_gas_B_held m') =
        [(Domain.stars, [0]), (Domain.stars, [1]), (Domain.hydro, [0])] ∧
      unlocks (events_since sample_mem_gas_B_held m') ≠
        (granted_pairs (events_since sample_mem_gas_B_held m')).reverse :=
  ⟨by decide, by decide, _, rfl, by decide, by decide, by decide⟩

/-- C24, amended: for every compute task, when `task_lock` returns 0 the locks
acquired in that call are released in the order in which they were acquired (for a
pair star-feedback task failing on gas(B): stellar(A), then stellar(B), then
gas(A)): the unlocks are the last entries of the log of the call, they name the
granted try-locks in order, and these are an initial part of the obligation list;
when it returns 1 nothing is released. -/
theorem C24_rollback_in_acquisition_order (wm : Bool) (t : task) (m : Mem)
    (hc : compute_task t) (hw : has_cells t) :
    ∃ r m', task_lock wm t m = Except.ok (r, m') ∧
      (r = 1 → unlocks (events_since m m') = []) ∧
      (r = 0 → ∃ done, done <+: obligations t ∧
        granted_pairs (events_since m m') = pairs done ∧
        unlocks (events_since m m') = pairs done ∧
        unlock_events done <:+ events_since m m') := by
  rcases task_lock_outcome wm t m hc hw with
    ⟨h, _⟩ | ⟨m', h, _, htr⟩ | ⟨m', done, q, rest, L', h, hobl, _, _, _, htr⟩
  · refine ⟨0, m, h, fun h01 => absurd h01 (by decide), fun _ => ⟨[], List.nil_prefix, ?_⟩⟩
    have he : events_since m m = [] := events_since_append m m [] (by simp)
    rw [he]
    exact ⟨rfl, rfl, List.nil_suffix⟩
  · refine ⟨1, m', h, fun _ => ?_, fun h10 => absurd h10 (by decide)⟩
    rw [events_since_append m m' _ htr, unlocks_granted_events]
  · refine ⟨0, m', h, fun h01 => absurd h01 (by decide), fun _ => ⟨done, ?_, ?_⟩⟩
    · rw [hobl]
      exact List.prefix_append _ _
    · rw [events_since_append m m' _ htr]
      refine ⟨?_, ?_, ?_⟩
      · rw [granted_pairs_append, granted_pairs_granted_events]
        have e : granted_pairs (Event.trylock q.1 q.2.loc false :: unlock_events done) =
            granted_pairs (unlock_events done) := rfl
        rw [e, granted_pairs_unlock_events, List.append_nil]
      · rw [unlocks_append, unlocks_granted_events]
        have e : unlocks (Event.trylock q.1 q.2.loc false :: unlock_events done) =
            unlocks (unlock_events done) := rfl
        rw [e, unlocks_unlock_events, List.nil_append]
      · exact ⟨granted_events done ++ [Event.trylock q.1 q.2.loc false], by simp⟩

theorem C24_rollback_in_acquisition_order_witness :
    compute_task sample_pair_feedback_AB ∧ has_cells sample_pair_feedback_AB ∧
    ∃ r m', task_lock false sample_pair_feedback_AB sample_mem_gas_B_held =
        Except.ok (r, m') ∧
      (r = 1 → unlocks (events_since sample_mem_gas_B_held m') = []) ∧
      (r = 0 → ∃ done, done <+: obligations sample_pair_feedback_AB ∧
        granted_pairs (events_since sample_mem_gas_B_held m') = pairs done ∧
        unlocks (events_since sample_mem_gas_B_held m') = pairs done ∧
        unlock_events done <:+ events_since sample_mem_gas_B_held m') :=
  ⟨by decide, by decide,
    C24_rollback_in_acquisition_order false sample_pair_feedback_AB sample_mem_gas_B_held
      (by decide) (by decide)⟩

/-- C25, as stated, fails: a drift_part task with no hold flag set whose only
try-lock, of gas(A), is refused has attempted its whole obligation list, yet the
call is not granted. -/
theorem C25_counterexample :
    compute_task sample_drift_A ∧ has_cells sample_drift_A ∧
    (∀ p ∈ obligations sample_drift_A, hold_flag p.1 p.2 = false) ∧
    ∃ m', task_lock false sample_drift_A sample_mem_gas_A_held = Except.ok (0, m') ∧
      (attempts (events_since sample_mem_gas_A_held m')).map Prod.fst =
        pairs (obligations sample_drift_A) :=
  ⟨by decide, by decide, by decide, _, rfl, by decide⟩

/-- C25, amended: for every compute task with no hold flag set, the try-lock
attempts made by `task_lock` are an initial part of the obligation list of the kind,
in its order. When the call is granted they are the whole list, every one granted.
When it is not, they are the obligations up to and including the first one refused:
granted before it, refused at it, none after it. The granted attempts cover the
whole list exactly when the call is granted. -/
theorem C25_attempts_prefix (wm : Bool) (t : task) (m : Mem)
    (hc : compute_task t) (hw : has_cells t)
    (hh : ∀ p ∈ obligations t, hold_flag p.1 p.2 = false) :
    ∃ r m', task_lock wm t m = Except.ok (r, m') ∧ (r = 0 ∨ r = 1) ∧
      (attempts (events_since m m')).map Prod.fst <+: pairs (obligations t) ∧
      (r = 1 → attempts (events_since m m') =
        (pairs (obligations t)).map fun k => (k, true)) ∧
      (r = 0 → ∃ done q rest, obligations t = done ++ q :: rest ∧
        attempts (events_since m m') =
          ((pairs done).map fun k => (k, true)) ++ [((q.1, q.2.loc), false)]) ∧
      (granted_pairs (events_since m m') = pairs (obligations t) ↔ r = 1) := by
  rcases task_lock_outcome wm t m hc hw with
    ⟨_, p, hp, hf⟩ | ⟨m', h, _, htr⟩ | ⟨m', done, q, rest, L', h, hobl, _, _, _, htr⟩
  · rw [hh p hp] at hf
    exact absurd hf (by decide)
  · refine ⟨1, m', h, Or.inr rfl, ?_, fun _ => ?_, fun h10 => absurd h10 (by decide), ?_⟩
    · rw [events_since_append m m' _ htr, attempts_granted_events, map_fst_granted]
    · rw [events_since_append m m' _ htr, attempts_granted_events]
    · rw [events_since_append m m' _ htr, granted_pairs_granted_events]
      simp
  · have hatt : attempts (events_since m m') =
        ((pairs done).map fun k => (k, true)) ++ [((q.1, q.2.loc), false)] := by
      rw [events_since_append m m' _ htr, attempts_append, attempts_granted_events]
      have e : attempts (Event.trylock q.1 q.2.loc false :: unlock_events done) =
          ((q.1, q.2.loc), false) :: attempts (unlock_events done) := rfl
      rw [e, attempts_unlock_events]
    have hgr : granted_pairs (events_since m m') = pairs done := by
      rw [events_since_append m m' _ htr, granted_pairs_append, granted_pairs_granted_events]
      have e : granted_pairs (Event.trylock q.1 q.2.loc false :: unlock_events done) =
          granted_pairs (unlock_events done) := rfl
      rw [e, granted_pairs_unlock_events, List.append_nil]
    refine ⟨0, m', h, Or.inl rfl, ?_, fun h01 => absurd h01 (by decide),
      fun _ => ⟨done, q, rest, hobl, hatt⟩, ?_⟩
    · rw [hatt, hobl]
      refine ⟨pairs rest, ?_⟩
      simp [pairs]
    · rw [hgr, hobl]
      constructor
      · intro he
        have hl := congrArg List.length he
        simp [pairs] at hl
      · intro h01
        exact absurd h01 (by decide)

theorem C25_attempts_prefix_witness :
    compute_task sample_drift_A ∧ has_cells sample_drift_A ∧
    ∃ r m', task_lock false sample_drift_A sample_mem_gas_A_held = Except.ok (r, m') ∧
      (r = 0 ∨ r = 1) ∧
      (attempts (events_since sample_mem_gas_A_held m')).map Prod.fst <+:
        pairs (obligations sample_drift_A) ∧
      (r = 1 → attempts (events_since sample_mem_gas_A_held m') =
        (pairs (obligations sample_drift_A)).map fun k => (k, true)) ∧
      (r = 0 → ∃ done q rest, obligations sample_drift_A = done ++ q :: rest ∧
        attempts (events_since sample_mem_gas_A_held m') =
          ((pairs done).map fun k => (k, true)) ++ [((q.1, q.2.loc), false)]) ∧
      (granted_pairs (events_since sample_mem_gas_A_held m') =
        pairs (obligations sample_drift_A) ↔ r = 1) :=
  ⟨by decide, by decide,
    C25_attempts_prefix false sample_drift_A sample_mem_gas_A_held (by decide) (by decide)
      (by decide)⟩

/-- C26: for a star_formation task on a region `a` whose three try-locks (gas,
stellar, gravitating of `a`, in that order) all succeed, `task_lock` returns 1; the
calls it made are exactly those three try-locks, with no unlock and nothing after
them; and exactly those three locks are newly held. -/
theorem C26_star_formation_fallthrough (wm : Bool) (t : task) (m : Mem) (a : cell)
    (hk : t.type = task_type_star_formation) (ha : t.ci = some a)
    (h1 : (cell_locktree a m).1 = 0)
    (h2 : (cell_slocktree a (cell_locktree a m).2).1 = 0)
    (h3 : (cell_glocktree a (cell_slocktree a (cell_locktree a m).2).2).1 = 0) :
    ∃ m', task_lock wm t m = Except.ok (1, m') ∧
      events_since m m' = [Event.trylock Domain.hydro a.loc true,
        Event.trylock Domain.stars a.loc true, Event.trylock Domain.grav a.loc true] ∧
      m'.locks \ m.locks =
        {(Domain.hydro, a.loc), (Domain.stars, a.loc), (Domain.grav, a.loc)} ∧
      m' = (cell_glocktree a (cell_slocktree a (cell_locktree a m).2).2).2 := by
  have hc : compute_task t := by
    unfold compute_task
    simp [hk]
  have hw : has_cells t := has_cells_of_some ha (fun hm => absurd hm (by simp [hk]))
  have hobl : obligations t = [(Domain.hydro, a), (Domain.stars, a), (Domain.grav, a)] := by
    simp [obligations, hk, ha, on_cell]
  have b1 : ¬ blocked Domain.hydro a m.locks = true := by
    intro hb
    simp [cell_locktree, trylock_fst, hb] at h1
  have e1 : (cell_locktree a m).2.locks = insert (Domain.hydro, a.loc) m.locks := by
    simp [cell_locktree, trylock_locks, b1]
  have b2 : ¬ blocked Domain.stars a (insert (Domain.hydro, a.loc) m.locks) = true := by
    intro hb
    simp [cell_slocktree, trylock_fst, e1, hb] at h2
  have e2 : (cell_slocktree a (cell_locktree a m).2).2.locks =
      insert (Domain.stars, a.loc) (insert (Domain.hydro, a.loc) m.locks) := by
    simp [cell_slocktree, trylock_locks, e1, b2]
  have b3 : ¬ blocked Domain.grav a
      (insert (Domain.stars, a.loc) (insert (Domain.hydro, a.loc) m.locks)) = true := by
    intro hb
    simp [cell_glocktree, trylock_fst, e2, hb] at h3
  have hacq : acquire m.locks (obligations t) = some (insert (Domain.grav, a.loc)
      (insert (Domain.stars, a.loc) (insert (Domain.hydro, a.loc) m.locks))) := by
    rw [hobl]
    simp only [acquire, if_neg b1, if_neg b2, if_neg b3]
  rcases task_lock_outcome wm t m hc hw with
    ⟨_, p, hp, hf⟩ | ⟨m', h, hl, htr⟩ | ⟨m', done, q, rest, L', h, _, _, _, _, _⟩
  · rw [((acquire_some _ _ _ hacq).2 p hp).2] at hf
    exact absurd hf (by decide)
  · refine ⟨m', h, ?_, ?_, ?_⟩
    · rw [events_since_append m m' _ htr, hobl]
      rfl
    · rw [acquire_sdiff hl, hobl]
      rfl
    · have hp := task_lock_protocol wm t m hc hw
      rcases hp with ⟨hp, _⟩ | hp
      · rw [h] at hp
        simp at hp
      · rw [h, hobl] at hp
        have b1f : ¬ (cell_trylock Domain.hydro a m).1 ≠ 0 := by
          simpa [cell_locktree] using h1
        have b2f : ¬ (cell_trylock Domain.stars a (cell_trylock Domain.hydro a m).2).1 ≠ 0 := by
          simpa [cell_locktree, cell_slocktree] using h2
        have b3f : ¬ (cell_trylock Domain.grav a
            (cell_trylock Domain.stars a (cell_trylock Domain.hydro a m).2).2).1 ≠ 0 := by
          simpa [cell_locktree, cell_slocktree, cell_glocktree] using h3
        simp only [try_seq, if_neg b1f, if_neg b2f, if_neg b3f, Except.ok.injEq,
          Prod.mk.injEq, true_and] at hp
        rw [hp]
        rfl
  · obtain ⟨r, m1, hres, hr⟩ := task_lock_cases wm t m hc hw
    rw [h] at hres
    simp only [Except.ok.injEq, Prod.mk.injEq] at hres
    rcases hr with ⟨_, _, hn⟩ | ⟨hr1, _⟩
    · rw [hacq] at hn
      exact absurd hn (by simp)
    · rw [← hres.1] at hr1
      exact absurd hr1 (by decide)

theorem C26_star_formation_fallthrough_witness :
    ∃ m', task_lock false sample_sf_parent sample_mem = Except.ok (1, m') ∧
      events_since sample_mem m' = [Event.trylock Domain.hydro sample_cell_A.loc true,
        Event.trylock Domain.stars sample_cell_A.loc true,
        Event.trylock Domain.grav sample_cell_A.loc true] ∧
      m'.locks \ sample_mem.locks =
        {(Domain.hydro, sample_cell_A.loc), (Domain.stars, sample_cell_A.loc),
          (Domain.grav, sample_cell_A.loc)} ∧
      m' = (cell_glocktree sample_cell_A
        (cell_slocktree sample_cell_A (cell_locktree sample_cell_A sample_mem).2).2).2 :=
  C26_star_formation_fallthrough false sample_sf_parent sample_mem sample_cell_A rfl rfl
    (by decide) (by decide) (by decide)

theorem attempts_granted_length (l : List (Domain × cell)) :
    (attempts (granted_events l)).length = l.length := by
  rw [attempts_granted_events]
  simp [pairs]

theorem unlocks_unlock_length (l : List (Domain × cell)) :
    (unlocks (unlock_events l)).length = l.length := by
  rw [unlocks_unlock_events]
  simp [pairs]

/-- C27: `task_lock` and `task_unlock` are total functions without recursion, and
on every task and state they do bounded work. `task_lock` either stops before any
call of a lock primitive (an abort or a fault, only for a send/recv task or a task
missing a cell), or returns after at most 4 try-locks and at most 3 unlocks, its
try-locks being an initial part of the obligation list, each obligation attempted at
most once. `task_unlock` either faults on a missing cell or returns after at most 4
unlocks and no try-lock. -/
theorem C27_bounded_work (wm : Bool) (t : task) (m : Mem) :
    ((∃ e, task_lock wm t m = Except.error e ∧ ¬ (compute_task t ∧ has_cells t)) ∨
      ∃ r m' ev, task_lock wm t m = Except.ok (r, m') ∧ m'.trace = m.trace ++ ev ∧
        (attempts ev).length ≤ 4 ∧ (unlocks ev).length ≤ 3 ∧
        (attempts ev).map Prod.fst <+: pairs (obligations t)) ∧
    ((∃ e, task_unlock t m = Except.error e ∧ ¬ has_cells t) ∨
      ∃ m' ev, task_unlock t m = Except.ok m' ∧ m'.trace = m.trace ++ ev ∧
        attempts ev = [] ∧ (unlocks ev).length ≤ 4) := by
  have hlen := obligations_length_le t
  constructor
  · by_cases hch : compute_task t ∧ has_cells t
    · right
      rcases task_lock_outcome wm t m hch.1 hch.2 with
        ⟨h, _⟩ | ⟨m', h, _, htr⟩ | ⟨m', done, q, rest, L', h, hobl, _, _, _, htr⟩
      · exact ⟨0, m, [], h, by simp, by simp [attempts], by simp [unlocks],
          by simp [attempts]⟩
      · refine ⟨1, m', _, h, htr, ?_, ?_, ?_⟩
        · rw [attempts_granted_length]
          exact hlen
        · rw [unlocks_granted_events]
          simp
        · rw [attempts_granted_events, map_fst_granted]
      · rw [hobl] at hlen
        simp only [List.length_append, List.length_cons] at hlen
        have ea : attempts (granted_events done ++
            (Event.trylock q.1 q.2.loc false :: unlock_events done)) =
            ((pairs done).map fun k => (k, true)) ++ [((q.1, q.2.loc), false)] := by
          rw [attempts_append, attempts_granted_events]
          have e : attempts (Event.trylock q.1 q.2.loc false :: unlock_events done) =
              ((q.1, q.2.loc), false) :: attempts (unlock_events done) := rfl
          rw [e, attempts_unlock_events]
        have eu : unlocks (granted_events done ++
            (Event.trylock q.1 q.2.loc false :: unlock_events done)) = pairs done := by
          rw [unlocks_append, unlocks_granted_events]
          have e : unlocks (Event.trylock q.1 q.2.loc false :: unlock_events done) =
              unlocks (unlock_events done) := rfl
          rw [e, unlocks_unlock_events, List.nil_append]
        refine ⟨0, m', _, h, htr, ?_, ?_, ?_⟩
        · rw [ea]
          simp only [List.length_append, List.length_map, pairs, List.length_singleton]
          omega
        · rw [eu]
          simp only [List.length_map, pairs]
          omega
        · rw [ea, hobl]
          refine ⟨pairs rest, ?_⟩
          simp [pairs]
    · rcases task_lock_quiet wm t m hch with ⟨e, he⟩ | ⟨r, hr⟩
      · exact Or.inl ⟨e, he, hch⟩
      · exact Or.inr ⟨r, m, [], hr, by simp, by simp [attempts], by simp [unlocks],
          by simp [attempts]⟩
  · by_cases hw : has_cells t
    · right
      refine ⟨_, unlock_events (obligations t), task_unlock_eq t m hw, ?_, ?_, ?_⟩
      · rw [release_trace]
        rfl
      · exact attempts_unlock_events _
      · rw [unlocks_unlock_length]
        exact hlen
    · obtain ⟨e, he⟩ := task_unlock_quiet t m hw
      exact Or.inl ⟨e, he, hw⟩

/-! ## The task layer over an arbitrary lock collaborator -/

/-- Over the lock primitives on `Mem`, the task layer with a collaborator is
`task_lock`. -/
theorem task_lock_with_mem (wm : Bool) (t : task) (m : Mem) :
    task_lock_with mem_ops wm t m = task_lock wm t m := rfl

/-- Over the lock primitives on `Mem`, the task layer with a collaborator is
`task_unlock`. -/
theorem task_unlock_with_mem (t : task) (m : Mem) :
    task_unlock_with mem_ops t m = task_unlock t m := rfl

/-! ## Claims on black-hole swallowing, multipole addition and the overlap sizes -/

theorem foldl_max_ge_init (l : List Int) : ∀ a : Int, a ≤ l.foldl max a := by
  induction l with
  | nil => intro a; exact le_refl a
  | cons x rest ih =>
    intro a
    exact le_trans (le_max_left a x) (ih (max a x))

theorem foldl_max_ge_mem (l : List Int) : ∀ a : Int, ∀ i ∈ l, i ≤ l.foldl max a := by
  induction l with
  | nil => intro a i hi; exact absurd hi (List.not_mem_nil i)
  | cons x rest ih =>
    intro a i hi
    rcases List.mem_cons.mp hi with rfl | hi
    · exact le_trans (le_max_right a i) (foldl_max_ge_init rest (max a i))
    · exact ih (max a x) i hi

theorem foldl_max_mem (l : List Int) : ∀ a : Int, l.foldl max a = a ∨ l.foldl max a ∈ l := by
  induction l with
  | nil => intro a; exact Or.inl rfl
  | cons x rest ih =>
    intro a
    rcases ih (max a x) with h | h
    · rcases max_choice a x with h2 | h2
      · exact Or.inl (by rw [List.foldl_cons, h, h2])
      · exact Or.inr (by rw [List.foldl_cons, h, h2]; exact List.mem_cons_self _ _)
    · exact Or.inr (List.mem_cons_of_mem _ h)

/-- One interaction: the larger id when the black hole wants to swallow, nothing
otherwise. -/
theorem swallow_step {F : Type} (fa : float_arith F) (wi hi_inv_dim rand : F)
    (bi : bpart F) (pj : part) :
    runner_iact_nonsym_bh_swallow fa wi hi_inv_dim rand bi pj =
      if wants_to_swallow fa wi hi_inv_dim rand bi then
        { pj with black_holes_data :=
            { swallow_id := max pj.black_holes_data.swallow_id bi.id } }
      else pj := by
  by_cases h1 : fa.lt bi.mass bi.subgrid_mass = true
  · by_cases h2 : fa.lt rand (swallow_prob fa wi hi_inv_dim bi) = true
    · have hw : wants_to_swallow fa wi hi_inv_dim rand bi := ⟨h1, h2⟩
      rw [if_pos hw]
      unfold runner_iact_nonsym_bh_swallow
      rw [if_pos h1, if_pos h2]
      by_cases h3 : pj.black_holes_data.swallow_id < bi.id
      · rw [if_pos h3, max_eq_right (le_of_lt h3)]
      · rw [if_neg h3, max_eq_left (not_lt.mp h3)]
    · have hw : ¬ wants_to_swallow fa wi hi_inv_dim rand bi := fun h => h2 h.2
      rw [if_neg hw]
      unfold runner_iact_nonsym_bh_swallow
      rw [if_pos h1, if_neg h2]
  · have hw : ¬ wants_to_swallow fa wi hi_inv_dim rand bi := fun h => h1 h.1
    rw [if_neg hw]
    unfold runner_iact_nonsym_bh_swallow
    rw [if_neg h1]

/-- A sequence of interactions: the largest of the initial value and the ids of the
black holes that wanted to swallow. -/
theorem swallow_all_id {F : Type} (fa : float_arith F) (l : List (bh_encounter F)) :
    ∀ pj : part, (swallow_all fa pj l).black_holes_data.swallow_id =
        (wanting_ids fa l).foldl max pj.black_holes_data.swallow_id ∧
      (swallow_all fa pj l).id = pj.id := by
  induction l with
  | nil => intro pj; exact ⟨rfl, rfl⟩
  | cons e rest ih =>
    intro pj
    have hs : swallow_all fa pj (e :: rest) =
        swallow_all fa (runner_iact_nonsym_bh_swallow fa e.wi e.hi_inv_dim e.rand e.bi pj)
          rest := rfl
    rw [hs, (ih _).1, (ih _).2, swallow_step]
    by_cases hw : wants_to_swallow fa e.wi e.hi_inv_dim e.rand e.bi
    · simp [wanting_ids, hw]
    · simp [wanting_ids, hw]

/-- In `float`, the swallow probability of `sample_bh_7` for `hi_inv_dim = 1` and
`wi = 1` is 10737418 / 2 ^ 28, the `float` nearest to 1 / 25 and below it. -/
theorem sample_swallow_prob :
    swallow_prob binary32 float32_one float32_one sample_bh_7 =
      float32.finite false 10737418 (-28) := by
  decide

/-- In `float`, a draw equal to the swallow probability is not below it, although it
is below the exact quotient 1 / 25: the particle is left as it was. A draw one unit
in the last place lower is below it: the particle is flagged. -/
theorem sample_swallow_rounded :
    runner_iact_nonsym_bh_swallow binary32 float32_one float32_one
      (float32.finite false 10737418 (-28)) sample_bh_7 sample_gas = sample_gas ∧
    (runner_iact_nonsym_bh_swallow binary32 float32_one float32_one
      (float32.finite false 10737417 (-28)) sample_bh_7
        sample_gas).black_holes_data.swallow_id = 7 := by
  decide

/-- In `float`, the gas particle met by the black holes 3 and 7, both wanting to
swallow it, is flagged for 7, in either order of the two interactions. -/
theorem sample_swallow_sequence :
    (swallow_all binary32 sample_gas
      [⟨float32_one, float32_one, float32.finite false 1 (-1), sample_bh_3⟩,
        ⟨float32_one, float32_one, float32.finite false 10737417 (-28), sample_bh_7⟩]
      ).black_holes_data.swallow_id = 7 ∧
    (swallow_all binary32 sample_gas
      [⟨float32_one, float32_one, float32.finite false 10737417 (-28), sample_bh_7⟩,
        ⟨float32_one, float32_one, float32.finite false 1 (-1), sample_bh_3⟩]
      ).black_holes_data.swallow_id = 7 := by
  decide

/-- C28: in `runner_iact_nonsym_bh_swallow`, whatever the floating-point arithmetic
(the rounded arithmetic `binary32` of `float` included), when the black hole is
hungry and the draw is below the swallow probability that the code computes, the
`swallow_id` of the gas particle after the call is the larger of its previous value
and the id of the black hole; in every other case the particle is unchanged; so
`swallow_id` never decreases. After any sequence of such interactions the
`swallow_id` is at least its initial value and at least the id of every black hole
that wanted to swallow the particle, and it is the initial value or one of those
ids: the particle is flagged for the largest id among the candidates. -/
theorem C28_swallow_largest_id :
    (∀ (F : Type) (fa : float_arith F) (wi hi_inv_dim rand : F) (bi : bpart F) (pj : part),
      (wants_to_swallow fa wi hi_inv_dim rand bi →
        (runner_iact_nonsym_bh_swallow fa wi hi_inv_dim rand bi
          pj).black_holes_data.swallow_id = max pj.black_holes_data.swallow_id bi.id) ∧
      (¬ wants_to_swallow fa wi hi_inv_dim rand bi →
        runner_iact_nonsym_bh_swallow fa wi hi_inv_dim rand bi pj = pj) ∧
      pj.black_holes_data.swallow_id ≤
        (runner_iact_nonsym_bh_swallow fa wi hi_inv_dim rand bi
          pj).black_holes_data.swallow_id ∧
      (runner_iact_nonsym_bh_swallow fa wi hi_inv_dim rand bi pj).id = pj.id) ∧
    (∀ (F : Type) (fa : float_arith F) (pj : part) (l : List (bh_encounter F)),
      pj.black_holes_data.swallow_id ≤ (swallow_all fa pj l).black_holes_data.swallow_id ∧
      (∀ i ∈ wanting_ids fa l, i ≤ (swallow_all fa pj l).black_holes_data.swallow_id) ∧
      ((swallow_all fa pj l).black_holes_data.swallow_id = pj.black_holes_data.swallow_id ∨
        (swallow_all fa pj l).black_holes_data.swallow_id ∈ wanting_ids fa l) ∧
      (swallow_all fa pj l).id = pj.id) := by
  constructor
  · intro F fa wi hi_inv_dim rand bi pj
    rw [swallow_step]
    by_cases hw : wants_to_swallow fa wi hi_inv_dim rand bi
    · rw [if_pos hw]
      exact ⟨fun _ => rfl, fun h => absurd hw h, le_max_left _ _, rfl⟩
    · rw [if_neg hw]
      exact ⟨fun h => absurd h hw, fun _ => rfl, le_refl _, rfl⟩
  · intro F fa pj l
    obtain ⟨h1, h2⟩ := swallow_all_id fa l pj
    rw [h1]
    exact ⟨foldl_max_ge_init _ _, foldl_max_ge_mem _ _, foldl_max_mem _ _, h2⟩

/-- C29, in the code: `gravity_multipole_add` sets the first-order terms `M_100`,
`M_010` and `M_001` of `ma` to zero whatever they were in `ma` and `mb`; `M_000` and
the terms of the second to fourth order that the build has are the sums. With
`M_100 = 1` in `ma` and `M_100 = 2` in `mb` the result has `M_100 = 0`, not 3. -/
theorem C29_first_order_terms_zeroed (order : Nat) (debug : Bool) (ma mb : multipole) :
    (gravity_multipole_add order debug ma mb).M_100 = 0 ∧
    (gravity_multipole_add order debug ma mb).M_010 = 0 ∧
    (gravity_multipole_add order debug ma mb).M_001 = 0 ∧
    (gravity_multipole_add order debug ma mb).M_000 = ma.M_000 + mb.M_000 ∧
    (1 < order →
      (gravity_multipole_add order debug ma mb).M_200 = ma.M_200 + mb.M_200 ∧
      (gravity_multipole_add order debug ma mb).M_020 = ma.M_020 + mb.M_020 ∧
      (gravity_multipole_add order debug ma mb).M_002 = ma.M_002 + mb.M_002 ∧
      (gravity_multipole_add order debug ma mb).M_110 = ma.M_110 + mb.M_110 ∧
      (gravity_multipole_add order debug ma mb).M_101 = ma.M_101 + mb.M_101 ∧
      (gravity_multipole_add order debug ma mb).M_011 = ma.M_011 + mb.M_011) ∧
    (2 < order →
      (gravity_multipole_add order debug ma mb).M_300 = ma.M_300 + mb.M_300 ∧
      (gravity_multipole_add order debug ma mb).M_030 = ma.M_030 + mb.M_030 ∧
      (gravity_multipole_add order debug ma mb).M_003 = ma.M_003 + mb.M_003 ∧
      (gravity_multipole_add order debug ma mb).M_210 = ma.M_210 + mb.M_210 ∧
      (gravity_multipole_add order debug ma mb).M_201 = ma.M_201 + mb.M_201 ∧
      (gravity_multipole_add order debug ma mb).M_120 = ma.M_120 + mb.M_120 ∧
      (gravity_multipole_add order debug ma mb).M_021 = ma.M_021 + mb.M_021 ∧
      (gravity_multipole_add order debug ma mb).M_102 = ma.M_102 + mb.M_102 ∧
      (gravity_multipole_add order debug ma mb).M_012 = ma.M_012 + mb.M_012 ∧
      (gravity_multipole_add order debug ma mb).M_111 = ma.M_111 + mb.M_111) ∧
    (3 < order →
      (gravity_multipole_add order debug ma mb).M_400 = ma.M_400 + mb.M_400 ∧
      (gravity_multipole_add order debug ma mb).M_040 = ma.M_040 + mb.M_040 ∧
      (gravity_multipole_add order debug ma mb).M_004 = ma.M_004 + mb.M_004 ∧
      (gravity_multipole_add order debug ma mb).M_310 = ma.M_310 + mb.M_310 ∧
      (gravity_multipole_add order debug ma mb).M_301 = ma.M_301 + mb.M_301 ∧
      (gravity_multipole_add order debug ma mb).M_130 = ma.M_130 + mb.M_130 ∧
      (gravity_multipole_add order debug ma mb).M_031 = ma.M_031 + mb.M_031 ∧
      (gravity_multipole_add order debug ma mb).M_103 = ma.M_103 + mb.M_103 ∧
      (gravity_multipole_add order debug ma mb).M_013 = ma.M_013 + mb.M_013 ∧
      (gravity_multipole_add order debug ma mb).M_220 = ma.M_220 + mb.M_220 ∧
      (gravity_multipole_add order debug ma mb).M_202 = ma.M_202 + mb.M_202 ∧
      (gravity_multipole_add order debug ma mb).M_022 = ma.M_022 + mb.M_022 ∧
      (gravity_multipole_add order debug ma mb).M_211 = ma.M_211 + mb.M_211 ∧
      (gravity_multipole_add order debug ma mb).M_121 = ma.M_121 + mb.M_121 ∧
      (gravity_multipole_add order debug ma mb).M_112 = ma.M_112 + mb.M_112) ∧
    (gravity_multipole_add 1 false sample_multipole_a sample_multipole_b).M_100 = 0 ∧
    sample_multipole_a.M_100 + sample_multipole_b.M_100 = 3 := by
  refine ⟨?_, ?_, ?_, ?_, ?_, ?_, ?_, ?_, ?_⟩
  · cases debug <;> rfl
  · cases debug <;> rfl
  · cases debug <;> rfl
  · unfold gravity_multipole_add
    by_cases h0 : order > 0 <;> by_cases h1 : order > 1 <;> by_cases h2 : order > 2 <;>
      by_cases h3 : order > 3 <;> simp only [h0, h1, h2, h3, if_true, if_false] <;>
      cases debug <;> rfl
  · intro h
    have h1 : order > 1 := h
    unfold gravity_multipole_add
    by_cases h0 : order > 0 <;> by_cases h2 : order > 2 <;>
      by_cases h3 : order > 3 <;> simp only [h0, h1, h2, h3, if_true, if_false] <;>
      cases debug <;> exact ⟨rfl, rfl, rfl, rfl, rfl, rfl⟩
  · intro h
    have h2 : order > 2 := h
    unfold gravity_multipole_add
    by_cases h0 : order > 0 <;> by_cases h1 : order > 1 <;>
      by_cases h3 : order > 3 <;> simp only [h0, h1, h2, h3, if_true, if_false] <;>
      cases debug <;> exact ⟨rfl, rfl, rfl, rfl, rfl, rfl, rfl, rfl, rfl, rfl⟩
  · intro h
    have h3 : order > 3 := h
    unfold gravity_multipole_add
    by_cases h0 : order > 0 <;> by_cases h1 : order > 1 <;>
      by_cases h2 : order > 2 <;> simp only [h0, h1, h2, h3, if_true, if_false] <;>
      cases debug <;>
      exact ⟨rfl, rfl, rfl, rfl, rfl, rfl, rfl, rfl, rfl, rfl, rfl, rfl, rfl, rfl, rfl⟩
  · rfl
  · norm_num [sample_multipole_a, sample_multipole_b, multipole_zero]

theorem size_union_eq (k : part_kind) (ta tb : task)
    (c1 : region_count k ta.ci < 2 ^ 31) (c2 : region_count k ta.cj < 2 ^ 31)
    (c3 : region_count k tb.ci < 2 ^ 31) (c4 : region_count k tb.cj < 2 ^ 31) :
    size_union (kind_count k) ta tb = union_size k ta tb := by
  have hr : size_t_range = 18446744073709551616 := by unfold size_t_range; norm_num
  unfold size_union
  rw [add_count_eq k 0 ta.ci (by omega), add_count_eq k _ ta.cj (by omega),
    add_count_eq k _ tb.ci (by omega), add_count_eq k _ tb.cj (by omega)]
  unfold union_size
  omega

theorem size_intersect_eq (k : part_kind) (ta tb : task)
    (c1 : region_count k ta.ci < 2 ^ 31) (c2 : region_count k ta.cj < 2 ^ 31)
    (c3 : region_count k tb.ci < 2 ^ 31) (c4 : region_count k tb.cj < 2 ^ 31) :
    size_intersect (task_cell_overlap (kind_parts k) (kind_count k)) ta tb =
      intersection_size k ta tb := by
  have hr : size_t_range = 18446744073709551616 := by unfold size_t_range; norm_num
  have o1 := containment_overlap_le k ta.ci tb.ci
  have o2 := containment_overlap_le k ta.ci tb.cj
  have o3 := containment_overlap_le k ta.cj tb.ci
  have o4 := containment_overlap_le k ta.cj tb.cj
  unfold size_intersect
  rw [task_cell_overlap_eq k _ _ c1 c3, task_cell_overlap_eq k _ _ c1 c4,
    task_cell_overlap_eq k _ _ c2 c3, task_cell_overlap_eq k _ _ c2 c4]
  unfold intersection_size size_add
  rw [hr]
  omega

/-- C30: for every pair of tasks whose counts are values of type `int`, whatever the
index ranges and whichever regions are absent, and for each particle kind, the
`size_intersect` that a branch of `task_overlap` computes is at most its
`size_union`, so the `size_t` subtraction `size_union - size_intersect` is the
difference of the two numbers and does not wrap around, and the branch returns the
quotient by that difference; each containment overlap is at most the smaller of
the counts of the two regions. -/
theorem C30_intersection_never_exceeds_union (k : part_kind) (ta tb : task)
    (hia : task_int_counts ta) (hib : task_int_counts tb) :
    size_intersect (task_cell_overlap (kind_parts k) (kind_count k)) ta tb ≤
      size_union (kind_count k) ta tb ∧
    ((size_sub (size_union (kind_count k) ta tb)
      (size_intersect (task_cell_overlap (kind_parts k) (kind_count k)) ta tb) : Nat) : Int) =
      (size_union (kind_count k) ta tb : Int) -
        (size_intersect (task_cell_overlap (kind_parts k) (kind_count k)) ta tb : Int) ∧
    overlap_branch (kind_count k) (task_cell_overlap (kind_parts k) (kind_count k)) ta tb =
      float_div (size_intersect (task_cell_overlap (kind_parts k) (kind_count k)) ta tb)
        (size_union (kind_count k) ta tb -
          size_intersect (task_cell_overlap (kind_parts k) (kind_count k)) ta tb) ∧
    (∀ x y : Option cell, int_counts x → int_counts y →
      task_cell_overlap (kind_parts k) (kind_count k) x y ≤
        min (region_count k x) (region_count k y)) := by
  have c1 := region_count_lt k hia.1
  have c2 := region_count_lt k hia.2
  have c3 := region_count_lt k hib.1
  have c4 := region_count_lt k hib.2
  have hr : size_t_range = 18446744073709551616 := by unfold size_t_range; norm_num
  have hle := intersection_le_union k ta tb
  have hUlt : union_size k ta tb < 18446744073709551616 := by
    unfold union_size
    omega
  have hb := overlap_branch_eq k ta tb c1 c2 c3 c4
  rw [size_union_eq k ta tb c1 c2 c3 c4, size_intersect_eq k ta tb c1 c2 c3 c4]
  refine ⟨hle, ?_, hb, ?_⟩
  · unfold size_sub
    rw [hr]
    omega
  · intro x y hx hy
    rw [task_cell_overlap_eq k x y (region_count_lt k hx) (region_count_lt k hy)]
    exact le_min (containment_overlap_le k x y).1 (containment_overlap_le k x y).2

theorem C30_intersection_never_exceeds_union_witness :
    size_intersect (task_cell_overlap (kind_parts part_kind.gas) (kind_count part_kind.gas))
        sample_pair_nested sample_self_A ≤
      size_union (kind_count part_kind.gas) sample_pair_nested sample_self_A ∧
    ((size_sub (size_union (kind_count part_kind.gas) sample_pair_nested sample_self_A)
      (size_intersect (task_cell_overlap (kind_parts part_kind.gas)
        (kind_count part_kind.gas)) sample_pair_nested sample_self_A) : Nat) : Int) =
      (size_union (kind_count part_kind.gas) sample_pair_nested sample_self_A : Int) -
        (size_intersect (task_cell_overlap (kind_parts part_kind.gas)
          (kind_count part_kind.gas)) sample_pair_nested sample_self_A : Int) ∧
    overlap_branch (kind_count part_kind.gas)
        (task_cell_overlap (kind_parts part_kind.gas) (kind_count part_kind.gas))
        sample_pair_nested sample_self_A =
      float_div (size_intersect (task_cell_overlap (kind_parts part_kind.gas)
          (kind_count part_kind.gas)) sample_pair_nested sample_self_A)
        (size_union (kind_count part_kind.gas) sample_pair_nested sample_self_A -
          size_intersect (task_cell_overlap (kind_parts part_kind.gas)
            (kind_count part_kind.gas)) sample_pair_nested sample_self_A) ∧
    (∀ x y : Option cell, int_counts x → int_counts y →
      task_cell_overlap (kind_parts part_kind.gas) (kind_count part_kind.gas) x y ≤
        min (region_count part_kind.gas x) (region_count part_kind.gas y)) :=
  C30_intersection_never_exceeds_union part_kind.gas sample_pair_nested sample_self_A
    (by decide) (by decide)

/-! ## Claims on the symmetry and the choice of kind of the overlap metric -/

theorem first_shared_kind_comm (a b : task_actions) :
    first_shared_kind a b = first_shared_kind b a := by
  cases a <;> cases b <;> rfl

theorem task_cell_overlap_comm (parts count : cell → Nat) (x y : Option cell) :
    task_cell_overlap parts count x y = task_cell_overlap parts count y x := by
  cases x with
  | none => cases y <;> rfl
  | some a =>
    cases y with
    | none => rfl
    | some b =>
      simp only [task_cell_overlap]
      by_cases h1 : parts a ≤ parts b ∧ parts a + count a ≥ parts b + count b
      · by_cases h2 : parts b ≤ parts a ∧ parts b + count b ≥ parts a + count a
        · have e : count a = count b := by omega
          rw [if_pos h1, if_pos h2, e]
        · rw [if_pos h1, if_neg h2, if_pos h1]
      · by_cases h2 : parts b ≤ parts a ∧ parts b + count b ≥ parts a + count a
        · rw [if_neg h1, if_pos h2, if_pos h2]
        · rw [if_neg h1, if_neg h2, if_neg h2, if_neg h1]

theorem size_union_comm (count : cell → Nat) (ta tb : task) :
    size_union count ta tb = size_union count tb ta := by
  have hr : size_t_range = 18446744073709551616 := by unfold size_t_range; norm_num
  unfold size_union
  cases ta.ci <;> cases ta.cj <;> cases tb.ci <;> cases tb.cj <;>
    simp only [add_count, size_add, hr] <;> omega

theorem size_intersect_comm (parts count : cell → Nat) (ta tb : task) :
    size_intersect (task_cell_overlap parts count) ta tb =
      size_intersect (task_cell_overlap parts count) tb ta := by
  have hr : size_t_range = 18446744073709551616 := by unfold size_t_range; norm_num
  unfold size_intersect
  rw [task_cell_overlap_comm parts count tb.ci ta.ci,
    task_cell_overlap_comm parts count tb.ci ta.cj,
    task_cell_overlap_comm parts count tb.cj ta.ci,
    task_cell_overlap_comm parts count tb.cj ta.cj]
  simp only [size_add, hr]
  omega

theorem overlap_branch_sizes (count : cell → Nat)
    (overlap : Option cell → Option cell → Nat) (ta tb : task) :
    overlap_branch count overlap ta tb =
      float_div (size_intersect overlap ta tb)
        (size_sub (size_union count ta tb) (size_intersect overlap ta tb)) := rfl

/-- C31: `task_overlap` is symmetric. For every two tasks on which the classifier
does not abort, `task_overlap(ta, tb)` and `task_overlap(tb, ta)` are the same
value; in every branch the union size and the intersection size are the same in
both orders; and with a `NULL` task the result is 0 in both orders. -/
theorem C31_overlap_symmetric (ta tb : task) (aa ab : task_actions)
    (ha : task_acts_on ta = Except.ok aa) (hb : task_acts_on tb = Except.ok ab) :
    task_overlap (some ta) (some tb) = task_overlap (some tb) (some ta) ∧
    (∀ count, size_union count ta tb = size_union count tb ta) ∧
    (∀ parts count, size_intersect (task_cell_overlap parts count) ta tb =
      size_intersect (task_cell_overlap parts count) tb ta) ∧
    task_overlap none (some tb) = task_overlap (some tb) none := by
  refine ⟨?_, fun count => size_union_comm count ta tb,
    fun parts count => size_intersect_comm parts count ta tb, rfl⟩
  rw [task_overlap_eq ta tb aa ab ha hb, task_overlap_eq tb ta ab aa hb ha,
    first_shared_kind_comm ab aa]
  cases first_shared_kind aa ab with
  | none => rfl
  | some k =>
    simp only
    rw [overlap_branch_sizes, overlap_branch_sizes, size_union_comm (kind_count k) tb ta,
      size_intersect_comm (kind_parts k) (kind_count k) tb ta]

theorem C31_overlap_symmetric_witness :
    task_overlap (some sample_pair_nested) (some sample_self_A) =
      task_overlap (some sample_self_A) (some sample_pair_nested) ∧
    (∀ count, size_union count sample_pair_nested sample_self_A =
      size_union count sample_self_A sample_pair_nested) ∧
    (∀ parts count,
      size_intersect (task_cell_overlap parts count) sample_pair_nested sample_self_A =
        size_intersect (task_cell_overlap parts count) sample_self_A sample_pair_nested) ∧
    task_overlap none (some sample_self_A) = task_overlap (some sample_self_A) none :=
  C31_overlap_symmetric sample_pair_nested sample_self_A task_action_part task_action_part
    rfl rfl

theorem add_count_same (k : part_kind) (u : Nat) {x y : Option cell}
    (h : same_kind_data k x y) :
    add_count (kind_count k) u x = add_count (kind_count k) u y := by
  cases x with
  | none =>
    cases y with
    | none => rfl
    | some b => exact absurd h (by simp [same_kind_data])
  | some a =>
    cases y with
    | none => exact absurd h (by simp [same_kind_data])
    | some b =>
      have h2 : kind_count k a = kind_count k b := h.1
      simp only [add_count, h2]

theorem task_cell_overlap_same (k : part_kind) {x x2 y y2 : Option cell}
    (hx : same_kind_data k x x2) (hy : same_kind_data k y y2) :
    task_cell_overlap (kind_parts k) (kind_count k) x y =
      task_cell_overlap (kind_parts k) (kind_count k) x2 y2 := by
  cases x with
  | none =>
    cases x2 with
    | none => cases y <;> cases y2 <;> rfl
    | some b => exact absurd hx (by simp [same_kind_data])
  | some a =>
    cases x2 with
    | none => exact absurd hx (by simp [same_kind_data])
    | some a2 =>
      cases y with
      | none =>
        cases y2 with
        | none => rfl
        | some b => exact absurd hy (by simp [same_kind_data])
      | some b =>
        cases y2 with
        | none => exact absurd hy (by simp [same_kind_data])
        | some b2 =>
          have h1 : kind_count k a = kind_count k a2 := hx.1
          have h2 : kind_parts k a = kind_parts k a2 := hx.2
          have h3 : kind_count k b = kind_count k b2 := hy.1
          have h4 : kind_parts k b = kind_parts k b2 := hy.2
          simp only [task_cell_overlap, h1, h2, h3, h4]

/-- The branch of a particle kind reads the counts and index ranges of that kind
only. -/
theorem kind_branch_same (k : part_kind) {ta tb ta2 tb2 : task}
    (ha : same_kind_regions k ta ta2) (hb : same_kind_regions k tb tb2) :
    kind_branch k ta tb = kind_branch k ta2 tb2 := by
  unfold kind_branch
  rw [overlap_branch_sizes, overlap_branch_sizes]
  have hU : size_union (kind_count k) ta tb = size_union (kind_count k) ta2 tb2 := by
    unfold size_union
    rw [add_count_same k 0 ha.1, add_count_same k _ ha.2, add_count_same k _ hb.1,
      add_count_same k _ hb.2]
  have hI : size_intersect (task_cell_overlap (kind_parts k) (kind_count k)) ta tb =
      size_intersect (task_cell_overlap (kind_parts k) (kind_count k)) ta2 tb2 := by
    unfold size_intersect
    rw [task_cell_overlap_same k ha.1 hb.1, task_cell_overlap_same k ha.1 hb.2,
      task_cell_overlap_same k ha.2 hb.1, task_cell_overlap_same k ha.2 hb.2]
  rw [hU, hI]

/-- C32: `task_overlap` uses one particle kind, chosen by the priority gas, then
gravitating, then stellar. If both actions include gas the result is the gas branch,
whatever else the tasks share; if they do not both include gas but both include
gravitating it is the gravitating branch; if neither holds and both include stellar
it is the stellar branch; otherwise it is 0. The branch of a kind reads the counts
and index ranges of that kind only: it is the same for tasks whose regions agree on
them. -/
theorem C32_one_kind_by_priority (ta tb : task) (aa ab : task_actions)
    (ha : task_acts_on ta = Except.ok aa) (hb : task_acts_on tb = Except.ok ab) :
    (both_act_on aa ab part_kind.gas →
      task_overlap (some ta) (some tb) = Except.ok (kind_branch part_kind.gas ta tb)) ∧
    (¬ both_act_on aa ab part_kind.gas → both_act_on aa ab part_kind.gravitating →
      task_overlap (some ta) (some tb) =
        Except.ok (kind_branch part_kind.gravitating ta tb)) ∧
    (¬ both_act_on aa ab part_kind.gas → ¬ both_act_on aa ab part_kind.gravitating →
      both_act_on aa ab part_kind.stellar →
      task_overlap (some ta) (some tb) = Except.ok (kind_branch part_kind.stellar ta tb)) ∧
    (¬ both_act_on aa ab part_kind.gas → ¬ both_act_on aa ab part_kind.gravitating →
      ¬ both_act_on aa ab part_kind.stellar →
      task_overlap (some ta) (some tb) = Except.ok (float_val.finite 0)) ∧
    (∀ k ta2 tb2, same_kind_regions k ta ta2 → same_kind_regions k tb tb2 →
      kind_branch k ta2 tb2 = kind_branch k ta tb) := by
  rw [task_overlap_eq ta tb aa ab ha hb]
  unfold both_act_on kind_branch
  refine ⟨?_, ?_, ?_, ?_, ?_⟩
  · intro h1
    simp only [first_shared_kind, if_pos h1]
  · intro h1 h2
    simp only [first_shared_kind, if_neg h1, if_pos h2]
  · intro h1 h2 h3
    simp only [first_shared_kind, if_neg h1, if_neg h2, if_pos h3]
  · intro h1 h2 h3
    simp only [first_shared_kind, if_neg h1, if_neg h2, if_neg h3]
  · intro k ta2 tb2 h1 h2
    exact (kind_branch_same k h1 h2).symm

theorem C32_one_kind_by_priority_witness :
    both_act_on task_action_all task_action_all part_kind.gravitating ∧
    both_act_on task_action_all task_action_all part_kind.stellar ∧
    ((both_act_on task_action_all task_action_all part_kind.gas →
      task_overlap (some sample_sf_parent) (some sample_sf_child) =
        Except.ok (kind_branch part_kind.gas sample_sf_parent sample_sf_child)) ∧
    (¬ both_act_on task_action_all task_action_all part_kind.gas →
      both_act_on task_action_all task_action_all part_kind.gravitating →
      task_overlap (some sample_sf_parent) (some sample_sf_child) =
        Except.ok (kind_branch part_kind.gravitating sample_sf_parent sample_sf_child)) ∧
    (¬ both_act_on task_action_all task_action_all part_kind.gas →
      ¬ both_act_on task_action_all task_action_all part_kind.gravitating →
      both_act_on task_action_all task_action_all part_kind.stellar →
      task_overlap (some sample_sf_parent) (some sample_sf_child) =
        Except.ok (kind_branch part_kind.stellar sample_sf_parent sample_sf_child)) ∧
    (¬ both_act_on task_action_all task_action_all part_kind.gas →
      ¬ both_act_on task_action_all task_action_all part_kind.gravitating →
      ¬ both_act_on task_action_all task_action_all part_kind.stellar →
      task_overlap (some sample_sf_parent) (some sample_sf_child) =
        Except.ok (float_val.finite 0)) ∧
    (∀ k ta2 tb2, same_kind_regions k sample_sf_parent ta2 →
      same_kind_regions k sample_sf_child tb2 →
      kind_branch k ta2 tb2 = kind_branch k sample_sf_parent sample_sf_child)) :=
  ⟨by decide, by decide,
    C32_one_kind_by_priority sample_sf_parent sample_sf_child task_action_all
      task_action_all rfl rfl⟩

/-! ## Claims on the kinds that lock gas only and on the kinds without locks -/

theorem gas_obligations (t : task) (hk : interaction_kind t.type)
    (hs : gas_locked_subtype t.subtype) :
    obligations t =
      if t.type = task_type_pair ∨ t.type = task_type_sub_pair then
        on_cell Domain.hydro t.ci ++ on_cell Domain.hydro t.cj
      else on_cell Domain.hydro t.ci := by
  obtain ⟨s1, s2, s3⟩ := hs
  rcases hk with h | h | h | h <;>
    simp [obligations, h, s1, s2, s3]

theorem gas_obligations_domain (t : task) (hk : interaction_kind t.type)
    (hs : gas_locked_subtype t.subtype) : ∀ p ∈ obligations t, p.1 = Domain.hydro := by
  rw [gas_obligations t hk hs]
  intro p hp
  have key : ∀ c : Option cell, p ∈ on_cell Domain.hydro c → p.1 = Domain.hydro := by
    intro c hc
    cases c with
    | none => simp [on_cell] at hc
    | some a =>
      simp only [on_cell, List.mem_singleton] at hc
      rw [hc]
  split_ifs at hp
  · rcases List.mem_append.mp hp with h | h
    · exact key _ h
    · exact key _ h
  · exact key _ hp

theorem granted_events_domain (l : List (Domain × cell))
    (h : ∀ p ∈ l, p.1 = Domain.hydro) :
    ∀ e ∈ granted_events l, event_domain e = Domain.hydro := by
  intro e he
  simp only [granted_events, List.mem_map] at he
  obtain ⟨p, hp, rfl⟩ := he
  exact h p hp

theorem unlock_events_domain (l : List (Domain × cell))
    (h : ∀ p ∈ l, p.1 = Domain.hydro) :
    ∀ e ∈ unlock_events l, event_domain e = Domain.hydro := by
  intro e he
  simp only [unlock_events, List.mem_map] at he
  obtain ⟨p, hp, rfl⟩ := he
  exact h p hp

/-- C33: for every self, sub_self, pair or sub_pair task whose sub-kind is not grav,
stars_density or stars_feedback, external_grav included, the obligations are the gas
locks of the referenced regions; `task_lock` returns 0 untouched when a gas hold flag
of such a region is set, and otherwise runs the try-lock protocol on the gas locks,
whatever the other hold flags; every call it makes and every lock it newly holds is
on the gas domain; `task_unlock` releases those gas locks; and a task of sub-kind
external_grav is classified as `gpart`. -/
theorem C33_gas_lock_only (wm : Bool) (t : task) (m : Mem)
    (hk : interaction_kind t.type) (hs : gas_locked_subtype t.subtype)
    (hw : has_cells t) :
    (obligations t =
      if t.type = task_type_pair ∨ t.type = task_type_sub_pair then
        on_cell Domain.hydro t.ci ++ on_cell Domain.hydro t.cj
      else on_cell Domain.hydro t.ci) ∧
    ((∃ p ∈ obligations t, p.2.hydro.hold = true) →
      task_lock wm t m = Except.ok (0, m)) ∧
    ((∀ p ∈ obligations t, p.2.hydro.hold = false) →
      task_lock wm t m = Except.ok (try_seq m [] (obligations t))) ∧
    (∃ r m', task_lock wm t m = Except.ok (r, m') ∧
      (∀ e ∈ events_since m m', event_domain e = Domain.hydro) ∧
      (∀ k ∈ m'.locks, k ∉ m.locks → k.1 = Domain.hydro)) ∧
    task_unlock t m = Except.ok (release m (obligations t)) ∧
    (∀ e ∈ unlock_events (obligations t), event_domain e = Domain.hydro) ∧
    (t.subtype = task_subtype_external_grav →
      task_acts_on t = Except.ok task_action_gpart) := by
  have hc : compute_task t := by
    unfold compute_task
    rcases hk with h | h | h | h <;> simp [h]
  have hx : ¬ ((t.type = task_type_pair ∨ t.type = task_type_sub_pair) ∧
      t.subtype = task_subtype_grav) := fun h => hs.1 h.2
  have hdom := gas_obligations_domain t hk hs
  have hflag : ∀ p ∈ obligations t, hold_flag p.1 p.2 = p.2.hydro.hold := by
    intro p hp
    rw [hdom p hp]
    rfl
  refine ⟨gas_obligations t hk hs, ?_, ?_, ?_, task_unlock_eq t m hw,
    unlock_events_domain _ hdom, ?_⟩
  · rintro ⟨p, hp, hh⟩
    exact held_rejected_untouched wm t m hc hw hx ⟨p, hp, by rw [hflag p hp]; exact hh⟩
  · intro hall
    rcases task_lock_protocol wm t m hc hw with ⟨_, p, hp, hh⟩ | h
    · rw [hflag p hp, hall p hp] at hh
      exact absurd hh (by decide)
    · exact h
  · rcases task_lock_outcome wm t m hc hw with
      ⟨h, _⟩ | ⟨m', h, hacq, htr⟩ | ⟨m', done, q, rest, L', h, hobl, _, _, hl, htr⟩
    · refine ⟨0, m, h, ?_, fun k hk1 hk2 => absurd hk1 hk2⟩
      rw [events_since_append m m [] (by simp)]
      intro e he
      exact absurd he (List.not_mem_nil e)
    · refine ⟨1, m', h, ?_, ?_⟩
      · rw [events_since_append m m' _ htr]
        exact granted_events_domain _ hdom
      · intro k hk1 hk2
        rw [(acquire_some _ _ _ hacq).1] at hk1
        rcases Finset.mem_union.mp hk1 with h1 | h1
        · exact absurd h1 hk2
        · simp only [keys, List.mem_toFinset, List.mem_map] at h1
          obtain ⟨p, hp, rfl⟩ := h1
          exact hdom p hp
    · refine ⟨0, m', h, ?_, ?_⟩
      · rw [events_since_append m m' _ htr]
        have hd : ∀ p ∈ done, p.1 = Domain.hydro := fun p hp =>
          hdom p (by rw [hobl]; exact List.mem_append_left _ hp)
        have hq : q.1 = Domain.hydro :=
          hdom q (by rw [hobl]; exact List.mem_append_right _ (List.mem_cons_self _ _))
        intro e he
        rcases List.mem_append.mp he with h1 | h1
        · exact granted_events_domain _ hd e h1
        · rcases List.mem_cons.mp h1 with h2 | h2
          · rw [h2]
            exact hq
          · exact unlock_events_domain _ hd e h2
      · intro k hk1 hk2
        rw [hl] at hk1
        exact absurd hk1 hk2
  · intro he
    rw [acts_on_interaction t hk]
    simp [classified_subtype, he]

theorem C33_gas_lock_only_witness :
    sample_cell_A_mhold.grav.mhold = true ∧
    task_lock false sample_self_external_grav sample_mem =
      Except.ok (1, sample_mem_self_gas) ∧
    ((obligations sample_self_external_grav =
      if sample_self_external_grav.type = task_type_pair ∨
          sample_self_external_grav.type = task_type_sub_pair then
        on_cell Domain.hydro sample_self_external_grav.ci ++
          on_cell Domain.hydro sample_self_external_grav.cj
      else on_cell Domain.hydro sample_self_external_grav.ci) ∧
    ((∃ p ∈ obligations sample_self_external_grav, p.2.hydro.hold = true) →
      task_lock false sample_self_external_grav sample_mem = Except.ok (0, sample_mem)) ∧
    ((∀ p ∈ obligations sample_self_external_grav, p.2.hydro.hold = false) →
      task_lock false sample_self_external_grav sample_mem =
        Except.ok (try_seq sample_mem [] (obligations sample_self_external_grav))) ∧
    (∃ r m', task_lock false sample_self_external_grav sample_mem = Except.ok (r, m') ∧
      (∀ e ∈ events_since sample_mem m', event_domain e = Domain.hydro) ∧
      (∀ k ∈ m'.locks, k ∉ sample_mem.locks → k.1 = Domain.hydro)) ∧
    task_unlock sample_self_external_grav sample_mem =
      Except.ok (release sample_mem (obligations sample_self_external_grav)) ∧
    (∀ e ∈ unlock_events (obligations sample_self_external_grav),
      event_domain e = Domain.hydro) ∧
    (sample_self_external_grav.subtype = task_subtype_external_grav →
      task_acts_on sample_self_external_grav = Except.ok task_action_gpart)) :=
  ⟨rfl, rfl,
    C33_gas_lock_only false sample_self_external_grav sample_mem (by decide) (by decide)
      (by decide)⟩

/-- C34: for every task whose kind has no case in `task_lock` (none, extra_ghost,
cooling, init_grav, stars_ghost and the in/out marker kinds), `task_lock` returns 1
in every state and for every region, whatever the hold flags and the locks held, and
`task_lock` and `task_unlock` leave the state as it is; yet `task_acts_on` classifies
extra_ghost and cooling as `part`, stars_ghost as `spart` and init_grav as
`multipole`. -/
theorem C34_lockless_kinds (wm : Bool) (t : task) (m : Mem)
    (hk : lockless_kind t.type) :
    task_lock wm t m = Except.ok (1, m) ∧
    task_unlock t m = Except.ok m ∧
    ((t.type = task_type_extra_ghost ∨ t.type = task_type_cooling) →
      task_acts_on t = Except.ok task_action_part) ∧
    (t.type = task_type_stars_ghost → task_acts_on t = Except.ok task_action_spart) ∧
    (t.type = task_type_init_grav → task_acts_on t = Except.ok task_action_multipole) := by
  refine ⟨?_, ?_, ?_, ?_, ?_⟩
  · rcases hk with h | h | h | h | h | h | h | h | h | h | h | h <;>
      simp [task_lock, h]
  · rcases hk with h | h | h | h | h | h | h | h | h | h | h | h <;>
      simp [task_unlock, h]
  · rintro (h | h) <;> simp [task_acts_on, h]
  · intro h
    simp [task_acts_on, h]
  · intro h
    simp [task_acts_on, h]

theorem C34_lockless_kinds_witness :
    sample_cell_A_held.hydro.hold = true ∧
    (Domain.hydro, sample_cell_A_held.loc) ∈ sample_mem_gas_A_held.locks ∧
    (task_lock false sample_extra_ghost sample_mem_gas_A_held =
      Except.ok (1, sample_mem_gas_A_held) ∧
    task_unlock sample_extra_ghost sample_mem_gas_A_held = Except.ok sample_mem_gas_A_held ∧
    ((sample_extra_ghost.type = task_type_extra_ghost ∨
        sample_extra_ghost.type = task_type_cooling) →
      task_acts_on sample_extra_ghost = Except.ok task_action_part) ∧
    (sample_extra_ghost.type = task_type_stars_ghost →
      task_acts_on sample_extra_ghost = Except.ok task_action_spart) ∧
    (sample_extra_ghost.type = task_type_init_grav →
      task_acts_on sample_extra_ghost = Except.ok task_action_multipole)) :=
  ⟨rfl, by decide,
    C34_lockless_kinds false sample_extra_ghost sample_mem_gas_A_held (by decide)⟩

/-! ## Claims on the names of tasks -/

theorem kinds_checked_true : kinds_checked = true := by decide!

theorem suffixes_checked_true : suffixes_checked = true := by decide!

theorem cross_checked_true : cross_checked = true := by decide!

theorem kinds_prefix {k k2 : Nat} (hk : k < task_type_count) (hk2 : k2 < task_type_count)
    (h : kind_chars k <+: kind_chars k2) : k = k2 ∨ (k, k2) ∈ prefix_pairs := by
  have hc := kinds_checked_true
  unfold kinds_checked at hc
  rw [List.all_eq_true] at hc
  have h1 := hc k (List.mem_range.mpr hk)
  rw [List.all_eq_true] at h1
  have h2 := h1 k2 (List.mem_range.mpr hk2)
  exact (of_decide_eq_true h2) h

theorem suffixes_inj {s s2 : Nat} (hs : s < task_subtype_count)
    (hs2 : s2 < task_subtype_count) (h : suffix_chars s = suffix_chars s2) : s = s2 := by
  have hc := suffixes_checked_true
  unfold suffixes_checked at hc
  rw [List.all_eq_true] at hc
  have h1 := hc s (List.mem_range.mpr hs)
  rw [List.all_eq_true] at h1
  have h2 := h1 s2 (List.mem_range.mpr hs2)
  exact (of_decide_eq_true h2) h

theorem cross_names {p : Nat × Nat} {s s2 : Nat} (hp : p ∈ prefix_pairs)
    (hs : s < task_subtype_count) (hs2 : s2 < task_subtype_count)
    (h : kind_chars p.1 ++ suffix_chars s = kind_chars p.2 ++ suffix_chars s2) :
    p.1 = task_type_timestep ∧ s = task_subtype_limiter ∧
      p.2 = task_type_timestep_limiter ∧ s2 = task_subtype_none := by
  have hc := cross_checked_true
  unfold cross_checked at hc
  rw [List.all_eq_true] at hc
  have h0 := hc p hp
  rw [List.all_eq_true] at h0
  have h1 := h0 s (List.mem_range.mpr hs)
  rw [List.all_eq_true] at h1
  have h2 := h1 s2 (List.mem_range.mpr hs2)
  exact (of_decide_eq_true h2) h

theorem name_at_of_lt (table : List String) (i : Nat) (h : i < table.length) :
    name_at table i = Except.ok (table.getD i "") := by
  unfold name_at
  rw [List.getD_eq_getElem?_getD, List.getElem?_eq_getElem h]
  rfl

/-- On a valid pair `task_get_full_name` returns, and prints the name of the kind
followed by `suffix_chars` of the sub-kind. -/
theorem full_name_ok (debug : Bool) (k s : Nat) (hk : k < task_type_count)
    (hs : s < task_subtype_count) :
    task_get_full_name debug k s = Except.ok (String.mk (kind_chars k ++ suffix_chars s)) := by
  have h1 : ¬ (debug = true ∧ k ≥ task_type_count) := fun h => absurd hk (not_lt.mpr h.2)
  have h2 : ¬ (debug = true ∧ s ≥ task_subtype_count) := fun h => absurd hs (not_lt.mpr h.2)
  have hkl : k < taskID_names.length := hk
  have hsl : s < subtaskID_names.length := hs
  unfold task_get_full_name
  rw [if_neg h1, if_neg h2, name_at_of_lt _ _ hkl, name_at_of_lt _ _ hsl]
  by_cases h0 : s = task_subtype_none
  · rw [if_pos h0]
    simp [kind_chars, suffix_chars, h0]
  · rw [if_neg h0]
    simp only [Except.bind, kind_chars, suffix_chars, if_neg h0, Except.ok.injEq]
    apply String.ext
    simp [String.data_append]

/-- C35, as stated, fails: the kind timestep with the sub-kind limiter and the kind
timestep_limiter with the sub-kind none are different valid pairs, and
`task_get_full_name` prints "timestep_limiter" for both. -/
theorem C35_counterexample :
    valid_pair (task_type_timestep, task_subtype_limiter) ∧
    valid_pair (task_type_timestep_limiter, task_subtype_none) ∧
    (task_type_timestep, task_subtype_limiter) ≠
      (task_type_timestep_limiter, task_subtype_none) ∧
    task_get_full_name false task_type_timestep task_subtype_limiter =
      Except.ok "timestep_limiter" ∧
    task_get_full_name false task_type_timestep_limiter task_subtype_none =
      Except.ok "timestep_limiter" := by
  refine ⟨by decide, by decide, by decide, by decide, by decide⟩

/-- C35, amended: on valid (kind, sub-kind) pairs `task_get_full_name` returns a
name, and two different valid pairs get different names except for the pairs
(timestep, limiter) and (timestep_limiter, none), which both get
"timestep_limiter". -/
theorem C35_full_name_injective_but_one (debug : Bool) (p q : Nat × Nat)
    (hp : valid_pair p) (hq : valid_pair q) :
    (∃ n, task_get_full_name debug p.1 p.2 = Except.ok n) ∧
    (task_get_full_name debug p.1 p.2 = task_get_full_name debug q.1 q.2 →
      same_or_timestep_limiter p q) := by
  obtain ⟨k, s⟩ := p
  obtain ⟨k2, s2⟩ := q
  have hk : k < task_type_count := hp.1
  have hs : s < task_subtype_count := hp.2
  have hk2 : k2 < task_type_count := hq.1
  have hs2 : s2 < task_subtype_count := hq.2
  refine ⟨⟨_, full_name_ok debug k s hk hs⟩, ?_⟩
  intro h0
  have h1 : (Except.ok (String.mk (kind_chars k ++ suffix_chars s)) : Except Err String) =
      Except.ok (String.mk (kind_chars k2 ++ suffix_chars s2)) := by
    rw [← full_name_ok debug k s hk hs, ← full_name_ok debug k2 s2 hk2 hs2]
    exact h0
  have h : kind_chars k ++ suffix_chars s = kind_chars k2 ++ suffix_chars s2 :=
    congrArg String.data (Except.ok.inj h1)
  have hp1 : kind_chars k <+: kind_chars k ++ suffix_chars s := List.prefix_append _ _
  have hp2 : kind_chars k2 <+: kind_chars k ++ suffix_chars s := by
    rw [h]
    exact List.prefix_append _ _
  unfold same_or_timestep_limiter
  rcases List.prefix_or_prefix_of_prefix hp1 hp2 with hpre | hpre
  · rcases kinds_prefix hk hk2 hpre with he | hm
    · subst he
      have hsuf := suffixes_inj hs hs2 (List.append_cancel_left h)
      subst hsuf
      exact Or.inl rfl
    · obtain ⟨e1, e2, e3, e4⟩ := cross_names hm hs hs2 h
      have e1b : k = task_type_timestep := e1
      have e3b : k2 = task_type_timestep_limiter := e3
      subst e1b; subst e2; subst e3b; subst e4
      exact Or.inr (Or.inl ⟨rfl, rfl⟩)
  · rcases kinds_prefix hk2 hk hpre with he | hm
    · subst he
      have hsuf := suffixes_inj hs hs2 (List.append_cancel_left h)
      subst hsuf
      exact Or.inl rfl
    · obtain ⟨e1, e2, e3, e4⟩ := cross_names hm hs2 hs h.symm
      have e1b : k2 = task_type_timestep := e1
      have e3b : k = task_type_timestep_limiter := e3
      subst e1b; subst e2; subst e3b; subst e4
      exact Or.inr (Or.inr ⟨rfl, rfl⟩)

theorem C35_full_name_injective_but_one_witness :
    (∃ n, task_get_full_name true task_type_self task_subtype_density = Except.ok n) ∧
    (task_get_full_name true task_type_self task_subtype_density =
        task_get_full_name true task_type_sub_self task_subtype_density →
      same_or_timestep_limiter (task_type_self, task_subtype_density)
        (task_type_sub_self, task_subtype_density)) :=
  C35_full_name_injective_but_one true (task_type_self, task_subtype_density)
    (task_type_sub_self, task_subtype_density) (by decide) (by decide)

/-- C36: `task_get_group_name` gives "Gravity" for every task of kind
grav_long_range, grav_mm or grav_mesh whatever its sub-kind; for every other kind the
group depends on the sub-kind only: density gives "Density", gradient "Gradient",
force "Force", grav "Gravity", limiter "Timestep_limiter", stars_density "Stars", and
every other sub-kind, stars_feedback and external_grav among them, gives "None". -/
theorem C36_group_name (type subtype : Nat) :
    ((type = task_type_grav_long_range ∨ type = task_type_grav_mm ∨
        type = task_type_grav_mesh) → task_get_group_name type subtype = "Gravity") ∧
    (¬ (type = task_type_grav_long_range ∨ type = task_type_grav_mm ∨
        type = task_type_grav_mesh) →
      (subtype = task_subtype_density → task_get_group_name type subtype = "Density") ∧
      (subtype = task_subtype_gradient → task_get_group_name type subtype = "Gradient") ∧
      (subtype = task_subtype_force → task_get_group_name type subtype = "Force") ∧
      (subtype = task_subtype_grav → task_get_group_name type subtype = "Gravity") ∧
      (subtype = task_subtype_limiter →
        task_get_group_name type subtype = "Timestep_limiter") ∧
      (subtype = task_subtype_stars_density →
        task_get_group_name type subtype = "Stars") ∧
      ((subtype ≠ task_subtype_density ∧ subtype ≠ task_subtype_gradient ∧
          subtype ≠ task_subtype_force ∧ subtype ≠ task_subtype_grav ∧
          subtype ≠ task_subtype_limiter ∧ subtype ≠ task_subtype_stars_density) →
        task_get_group_name type subtype = "None") ∧
      task_get_group_name type task_subtype_stars_feedback = "None" ∧
      task_get_group_name type task_subtype_external_grav = "None" ∧
      ∀ type2, ¬ (type2 = task_type_grav_long_range ∨ type2 = task_type_grav_mm ∨
          type2 = task_type_grav_mesh) →
        task_get_group_name type2 subtype = task_get_group_name type subtype) := by
  constructor
  · intro h
    unfold task_get_group_name
    rw [if_pos h]
  · intro h
    have hg : ∀ s, task_get_group_name type s =
        if s = task_subtype_density then "Density"
        else if s = task_subtype_gradient then "Gradient"
        else if s = task_subtype_force then "Force"
        else if s = task_subtype_grav then "Gravity"
        else if s = task_subtype_limiter then "Timestep_limiter"
        else if s = task_subtype_stars_density then "Stars"
        else "None" := by
      intro s
      unfold task_get_group_name
      rw [if_neg h]
    refine ⟨?_, ?_, ?_, ?_, ?_, ?_, ?_, ?_, ?_, ?_⟩
    · intro hs; rw [hg, hs]; rfl
    · intro hs; rw [hg, hs]; rfl
    · intro hs; rw [hg, hs]; rfl
    · intro hs; rw [hg, hs]; rfl
    · intro hs; rw [hg, hs]; rfl
    · intro hs; rw [hg, hs]; rfl
    · rintro ⟨h1, h2, h3, h4, h5, h6⟩
      rw [hg, if_neg h1, if_neg h2, if_neg h3, if_neg h4, if_neg h5, if_neg h6]
    · rw [hg]; rfl
    · rw [hg]; rfl
    · intro type2 h2
      rw [hg]
      unfold task_get_group_name
      rw [if_neg h2]

/-! ## Claim on black-hole feedback -/

theorem fin_mul (a b : ℚ) :
    double_val.fin a * double_val.fin b = double_val.fin (a * b) := rfl

theorem fin_add (a b : ℚ) :
    double_val.fin a + double_val.fin b = double_val.fin (a + b) := rfl

theorem fin_sub (a b : ℚ) :
    double_val.fin a - double_val.fin b = double_val.fin (a - b) := by
  show double_val.add (double_val.fin a) (double_val.neg (double_val.fin b)) = _
  simp only [double_val.neg, double_val.add]
  rw [sub_eq_add_neg]

theorem fin_div (a b : ℚ) (h : b ≠ 0) :
    double_val.fin a / double_val.fin b = double_val.fin (a / b) := by
  show double_val.div (double_val.fin a) (double_val.fin b) = _
  simp only [double_val.div, if_neg h]

theorem pinf_add_fin (a : ℚ) : double_val.pinf + double_val.fin a = double_val.pinf := rfl

theorem pinf_div_one : double_val.pinf / double_val.fin 1 = double_val.pinf := by
  show double_val.div double_val.pinf (double_val.fin 1) = _
  simp [double_val.div, double_val.scale_inf]

theorem pinf_sub_pinf : double_val.pinf - double_val.pinf = double_val.nan := rfl

theorem double_min_fin (a b : ℚ) :
    double_min (double_val.fin a) (double_val.fin b) =
      double_val.fin (if a < b then a else b) := by
  unfold double_min
  by_cases h : a < b
  · simp [double_val.lt, h]
  · simp [double_val.lt, h]

theorem lt_false_of_le {a b : double_val} (h : double_val.le a b = true) :
    double_val.lt b a = false := by
  cases a <;> cases b <;> simp_all [double_val.le, double_val.lt]

/-- The probability stored on a feedback event is at most 1, so `max(prob, 1.)` is
1. -/
theorem prob_le_one (x : double_val) :
    double_val.le (if double_val.le x (double_val.fin 1) = true then x else double_val.fin 1)
        (double_val.fin 1) = true ∧
    double_max (if double_val.le x (double_val.fin 1) = true then x else double_val.fin 1)
        (double_val.fin 1) = double_val.fin 1 := by
  have h1 : double_val.le
      (if double_val.le x (double_val.fin 1) = true then x else double_val.fin 1)
      (double_val.fin 1) = true := by
    by_cases h : double_val.le x (double_val.fin 1) = true
    · rw [if_pos h]
      exact h
    · rw [if_neg h]
      simp [double_val.le]
  refine ⟨h1, ?_⟩
  unfold double_max
  rw [lt_false_of_le h1]
  simp

/-- What `black_holes_prepare_feedback` stores, in terms of the black hole after the
integration (`black_holes_accrete`). -/
theorem prepare_feedback_cases (bp : bpart_accretion) (props : black_holes_props)
    (constants : phys_const) (dt : double_val) :
    (feedback_triggered bp props constants dt →
      double_val.le (black_holes_prepare_feedback bp props constants
        dt).to_distribute.AGN_heating_probability (double_val.fin 1) = true ∧
      (black_holes_prepare_feedback bp props constants dt).energy_reservoir =
        (black_holes_accrete bp props constants dt).energy_reservoir -
          (black_holes_accrete bp props constants dt).energy_reservoir / double_val.fin 1) ∧
    (¬ feedback_triggered bp props constants dt →
      (black_holes_prepare_feedback bp props constants
        dt).to_distribute.AGN_heating_probability = double_val.fin 0 ∧
      (black_holes_prepare_feedback bp props constants dt).to_distribute.AGN_delta_u =
        double_val.fin 0 ∧
      (black_holes_prepare_feedback bp props constants dt).energy_reservoir =
        (black_holes_accrete bp props constants dt).energy_reservoir) := by
  constructor
  · intro h
    unfold feedback_triggered at h
    unfold black_holes_prepare_feedback
    simp only [if_pos h]
    exact ⟨(prob_le_one _).1, by rw [(prob_le_one _).2]⟩
  · intro h
    unfold feedback_triggered at h
    unfold black_holes_prepare_feedback
    simp only [if_neg h, and_self]

theorem sample_overflowed_reservoir :
    (black_holes_accrete sample_bh_overflowed sample_props sample_constants
      (double_val.fin 0)).energy_reservoir = double_val.pinf := by
  simp [black_holes_accrete, sample_bh_overflowed, sample_props, sample_constants, fin_mul,
    fin_sub, fin_div, double_min_fin, pinf_add_fin]

theorem sample_overflowed_triggered :
    feedback_triggered sample_bh_overflowed sample_props sample_constants
      (double_val.fin 0) := by
  unfold feedback_triggered
  rw [sample_overflowed_reservoir]
  simp [E_feedback_event, black_holes_accrete, sample_bh_overflowed, sample_props, fin_mul,
    fin_div, double_val.lt]

end Swift
